import Mathlib

/-! # Analyzer message codec of suscan: embedding and properties

Shallow embedding of `analyzer/msg.c`, `analyzer/msg.h` and `util/cfg.c`.

Conventions of the embedding

* Machine integers are `Nat` (unsigned) and `Int` (signed); the conversions the
  C code performs implicitly are written out (`u64`, `i64`).
* `SUFLOAT` (single precision) and `SUDOUBLE` values are carried as their IEEE-754
  bit patterns (`Nat`), so that equality is bit equality.
* `SUBOOL` is `Bool`.
* A `char *` is `Option cstr`: `none` is the null pointer.
* An owned array pointer is `Option (List _)`: `none` is the null pointer.
* The unread part of a `grow_buf_t` is the list of CBOR data items it holds.
  Packing appends at the end, unpacking consumes from the front, and the
  seek-back a deserializer performs on failure is the return of the buffer it
  was given.
* Allocation is assumed to succeed (also for a zero-sized request).
-/

namespace Suscan

/-! ## Packer / unpacker primitives -/

/-- Contents of a C string, terminator excluded. -/
abbrev cstr := List Nat

/-- Modelled from the spec: the CBOR data items of the packer (section 4.1, C1);
`cbor.c` and `serialize.h` are not part of the sources. One constructor per
primitive of the table: uint, negative int, raw binary blob, text, array and
map start (definite cardinality or the indefinite flag), tag-encoded bool,
null, 32-bit float, 64-bit double and the break that closes an indefinite
container. -/
inductive cbor_item where
  | uint (v : Nat)
  | nint (v : Nat)
  | blob (bytes : List Nat)
  | text (s : cstr)
  | array_start (n : Nat)
  | array_start_indef
  | map_start (n : Nat)
  | map_start_indef
  | bool (b : Bool)
  | null
  | single (bits : Nat)
  | double (bits : Nat)
  | brk
  deriving DecidableEq, Repr

/-- The unread items of a growable buffer. -/
abbrev grow_buf_t := List cbor_item

/-- Conversion of a signed value to `uint64_t`. -/
def u64 (x : Int) : Nat := (x % 18446744073709551616).toNat

/-- Conversion of a `uint64_t` value to a signed 64-bit type. -/
def i64 (v : Nat) : Int :=
  if v < 9223372036854775808 then (v : Int) else (v : Int) - 18446744073709551616

/-- Bytes of a string as seen through a `char *`: everything before the first NUL. -/
def c_str (s : List Nat) : cstr := s.takeWhile (fun b => b != 0)

/-- Modelled from the spec: `cbor_pack_uint` (cbor.c is not part of the sources);
appends one unsigned item. -/
def cbor_pack_uint (buffer : grow_buf_t) (v : Nat) : Option grow_buf_t :=
  some (buffer ++ [cbor_item.uint v])

/-- The data item of a signed value: a negative value `v` is the negative-int item
holding `-1 - v`. -/
def int_item (v : Int) : cbor_item :=
  if v < 0 then cbor_item.nint (-1 - v).toNat else cbor_item.uint v.toNat

/-- Modelled from the spec: `cbor_pack_int` (cbor.c is not part of the sources);
a negative value `v` is sent as the negative-int item holding `-1 - v`, with no
two's complement involved. -/
def cbor_pack_int (buffer : grow_buf_t) (v : Int) : Option grow_buf_t :=
  some (buffer ++ [int_item v])

/-- Modelled from the spec: `freq` is an alias of the signed 64-bit primitive. -/
def cbor_pack_freq (buffer : grow_buf_t) (v : Int) : Option grow_buf_t :=
  cbor_pack_int buffer v

/-- Modelled from the spec: `cbor_pack_float`, a 32-bit float item. -/
def cbor_pack_float (buffer : grow_buf_t) (bits : Nat) : Option grow_buf_t :=
  some (buffer ++ [cbor_item.single bits])

/-- Modelled from the spec: `cbor_pack_double`, a 64-bit float item. -/
def cbor_pack_double (buffer : grow_buf_t) (bits : Nat) : Option grow_buf_t :=
  some (buffer ++ [cbor_item.double bits])

/-- Modelled from the spec: `cbor_pack_bool`, a tag-encoded boolean. -/
def cbor_pack_bool (buffer : grow_buf_t) (b : Bool) : Option grow_buf_t :=
  some (buffer ++ [cbor_item.bool b])

/-- Modelled from the spec: `cbor_pack_str`, a length-prefixed text. The length is
taken from the string itself, so a null pointer cannot be packed. -/
def cbor_pack_str (buffer : grow_buf_t) (s : Option cstr) : Option grow_buf_t :=
  match s with
  | none => none
  | some s => some (buffer ++ [cbor_item.text s])

/-- Modelled from the spec: `cbor_pack_map_start` with a definite cardinality. -/
def cbor_pack_map_start (buffer : grow_buf_t) (n : Nat) : Option grow_buf_t :=
  some (buffer ++ [cbor_item.map_start n])

/-- Modelled from the spec: `cbor_pack_array_start` with a definite cardinality. -/
def cbor_pack_array_start (buffer : grow_buf_t) (n : Nat) : Option grow_buf_t :=
  some (buffer ++ [cbor_item.array_start n])

/-- Modelled from the spec: `cbor_unpack_uint64`. -/
def cbor_unpack_uint64 (buffer : grow_buf_t) : Option (Nat × grow_buf_t) :=
  match buffer with
  | cbor_item.uint v :: rest => some (v, rest)
  | _ => none

/-- Modelled from the spec: `cbor_unpack_uint32`; a value that does not fit in
32 bits is an error. -/
def cbor_unpack_uint32 (buffer : grow_buf_t) : Option (Nat × grow_buf_t) :=
  match buffer with
  | cbor_item.uint v :: rest => if v < 4294967296 then some (v, rest) else none
  | _ => none

/-- Modelled from the spec: `cbor_unpack_int64`; accepts an unsigned or a negative
item whose value fits. -/
def cbor_unpack_int64 (buffer : grow_buf_t) : Option (Int × grow_buf_t) :=
  match buffer with
  | cbor_item.uint v :: rest =>
      if v < 9223372036854775808 then some ((v : Int), rest) else none
  | cbor_item.nint v :: rest =>
      if v < 9223372036854775808 then some (-1 - (v : Int), rest) else none
  | _ => none

/-- Modelled from the spec: `cbor_unpack_int32`; as `cbor_unpack_int64` with the
32-bit range. -/
def cbor_unpack_int32 (buffer : grow_buf_t) : Option (Int × grow_buf_t) :=
  match buffer with
  | cbor_item.uint v :: rest =>
      if v < 2147483648 then some ((v : Int), rest) else none
  | cbor_item.nint v :: rest =>
      if v < 2147483648 then some (-1 - (v : Int), rest) else none
  | _ => none

/-- Modelled from the spec: `freq` is an alias of the signed 64-bit primitive. -/
def cbor_unpack_freq (buffer : grow_buf_t) : Option (Int × grow_buf_t) :=
  cbor_unpack_int64 buffer

/-- Modelled from the spec: `cbor_unpack_float`. -/
def cbor_unpack_float (buffer : grow_buf_t) : Option (Nat × grow_buf_t) :=
  match buffer with
  | cbor_item.single bits :: rest => some (bits, rest)
  | _ => none

/-- Modelled from the spec: `cbor_unpack_double`. -/
def cbor_unpack_double (buffer : grow_buf_t) : Option (Nat × grow_buf_t) :=
  match buffer with
  | cbor_item.double bits :: rest => some (bits, rest)
  | _ => none

/-- Modelled from the spec: `cbor_unpack_bool`. -/
def cbor_unpack_bool (buffer : grow_buf_t) : Option (Bool × grow_buf_t) :=
  match buffer with
  | cbor_item.bool b :: rest => some (b, rest)
  | _ => none

/-- Modelled from the spec: `cbor_unpack_str`; the decoder returns a freshly owned,
null-terminated string. -/
def cbor_unpack_str (buffer : grow_buf_t) : Option (cstr × grow_buf_t) :=
  match buffer with
  | cbor_item.text s :: rest => some (c_str s, rest)
  | _ => none

/-- Modelled from the spec: `cbor_unpack_map_start`; yields the cardinality and the
indefinite ("end required") flag. -/
def cbor_unpack_map_start (buffer : grow_buf_t) : Option ((Nat × Bool) × grow_buf_t) :=
  match buffer with
  | cbor_item.map_start n :: rest => some ((n, false), rest)
  | cbor_item.map_start_indef :: rest => some ((0, true), rest)
  | _ => none

/-- Modelled from the spec: `cbor_unpack_array_start`; yields the cardinality and
the indefinite ("end required") flag. -/
def cbor_unpack_array_start (buffer : grow_buf_t) : Option ((Nat × Bool) × grow_buf_t) :=
  match buffer with
  | cbor_item.array_start n :: rest => some ((n, false), rest)
  | cbor_item.array_start_indef :: rest => some ((0, true), rest)
  | _ => none

/-- Modelled from the spec: `SUSCAN_PACK(t, v)` of serialize.h; the first failing
primitive jumps to `fail`, which returns false with what was written so far. -/
def SUSCAN_PACK (r : Option grow_buf_t) (buffer : grow_buf_t)
    (k : grow_buf_t → Bool × grow_buf_t) : Bool × grow_buf_t :=
  match r with
  | none => (false, buffer)
  | some b => k b

/-- The `SU_TRYCATCH(call, goto fail)` idiom around a serializer call. -/
def SU_TRY_PACK (r : Bool × grow_buf_t)
    (k : grow_buf_t → Bool × grow_buf_t) : Bool × grow_buf_t :=
  if r.1 then k r.2 else (false, r.2)

/-- Modelled from the spec: `SUSCAN_UNPACK(t, v)` of serialize.h; the first failing
primitive jumps to `fail`. -/
def SUSCAN_UNPACK {α β : Type} (r : Option (α × grow_buf_t)) (fail : β)
    (k : α → grow_buf_t → β) : β :=
  match r with
  | none => fail
  | some (a, b) => k a b

/-! ## Compact float arrays -/

/-- Little-endian bytes of a 32-bit pattern. -/
def single_to_le (bits : Nat) : List Nat :=
  [bits % 256, bits / 256 % 256, bits / 65536 % 256, bits / 16777216 % 256]

/-- Raw little-endian payload of an array of singles. -/
def singles_to_le : List Nat → List Nat
  | [] => []
  | x :: xs => single_to_le x ++ singles_to_le xs

/-- Reads back an array of singles from its raw little-endian payload. -/
def le_to_singles : List Nat → List Nat
  | b0 :: b1 :: b2 :: b3 :: rest =>
      (b0 + 256 * b1 + 65536 * b2 + 16777216 * b3) :: le_to_singles rest
  | _ => []

/-- A complex sample: the bit patterns of its real and imaginary parts. -/
abbrev SUCOMPLEX := Nat × Nat

/-- Interleaved IQ view of a complex array. -/
def interleave : List SUCOMPLEX → List Nat
  | [] => []
  | (re, im) :: xs => re :: im :: interleave xs

/-- Complex array out of its interleaved IQ view. -/
def deinterleave : List Nat → List SUCOMPLEX
  | re :: im :: rest => (re, im) :: deinterleave rest
  | _ => []

/-- Modelled from the spec: `suscan_pack_compact_single_array` (section 6, compact
float arrays): `uint length_in_elements`, then `length * sizeof(float32)` raw
little-endian bytes. Reading `size` elements needs an array that holds them. -/
def suscan_pack_compact_single_array (buffer : grow_buf_t)
    (array : Option (List Nat)) (size : Nat) : Bool × grow_buf_t :=
  SUSCAN_PACK (cbor_pack_uint buffer size) buffer fun buffer =>
  if size ≤ (array.getD []).length then
    (true, buffer ++ [cbor_item.blob (singles_to_le ((array.getD []).take size))])
  else (false, buffer)

/-- Modelled from the spec: `suscan_unpack_compact_single_array`; yields the freshly
allocated array and its length in elements. -/
def suscan_unpack_compact_single_array (buffer : grow_buf_t) :
    Option ((Option (List Nat) × Nat) × grow_buf_t) :=
  match buffer with
  | cbor_item.uint n :: cbor_item.blob bytes :: rest =>
      if bytes.length = n * 4 then some ((some (le_to_singles bytes), n), rest) else none
  | _ => none

/-- Modelled from the spec: the compact array of `SUFLOAT`, which is single
precision. -/
def suscan_pack_compact_float_array (buffer : grow_buf_t)
    (array : Option (List Nat)) (size : Nat) : Bool × grow_buf_t :=
  suscan_pack_compact_single_array buffer array size

/-- Modelled from the spec: the compact array of `SUFLOAT`, which is single
precision. -/
def suscan_unpack_compact_float_array (buffer : grow_buf_t) :
    Option ((Option (List Nat) × Nat) × grow_buf_t) :=
  suscan_unpack_compact_single_array buffer

/-- Modelled from the spec: `suscan_pack_compact_complex_array`; complex arrays use
`length * 2 * sizeof(float32)` bytes. -/
def suscan_pack_compact_complex_array (buffer : grow_buf_t)
    (array : Option (List SUCOMPLEX)) (size : Nat) : Bool × grow_buf_t :=
  SUSCAN_PACK (cbor_pack_uint buffer size) buffer fun buffer =>
  if size ≤ (array.getD []).length then
    (true, buffer ++
      [cbor_item.blob (singles_to_le (interleave ((array.getD []).take size)))])
  else (false, buffer)

/-- Modelled from the spec: `suscan_unpack_compact_complex_array`. -/
def suscan_unpack_compact_complex_array (buffer : grow_buf_t) :
    Option ((Option (List SUCOMPLEX) × Nat) × grow_buf_t) :=
  match buffer with
  | cbor_item.uint n :: cbor_item.blob bytes :: rest =>
      if bytes.length = n * 8 then
        some ((some (deinterleave (le_to_singles bytes)), n), rest)
      else none
  | _ => none

/-! ## Message values (msg.h) -/

/-- The `struct timeval` of the C library. -/
structure timeval where
  tv_sec : Int
  tv_usec : Int
  deriving DecidableEq, Repr

/-- A time value is valid when its microseconds are in `[0, 1000000)`. -/
def timeval.valid (t : timeval) : Prop := 0 ≤ t.tv_usec ∧ t.tv_usec < 1000000

instance (t : timeval) : Decidable t.valid := by
  unfold timeval.valid; infer_instance

/-- Channel spectrum message (msg.h). -/
structure suscan_analyzer_psd_msg where
  fc : Int
  inspector_id : Nat
  timestamp : timeval
  rt_time : timeval
  looped : Bool
  history_size : Nat
  samp_rate : Nat
  measured_samp_rate : Nat
  N0 : Nat
  psd_size : Nat
  psd_data : Option (List Nat)
  deriving DecidableEq, Repr

/-! ## PSD message (msg.c) -/

/-- Serializer of the PSD message, msg.c:181. -/
def suscan_analyzer_psd_msg_serialize (self : suscan_analyzer_psd_msg)
    (buffer : grow_buf_t) : Bool × grow_buf_t :=
  SUSCAN_PACK (cbor_pack_int buffer self.fc) buffer fun buffer =>
  SUSCAN_PACK (cbor_pack_uint buffer self.inspector_id) buffer fun buffer =>
  SUSCAN_PACK (cbor_pack_uint buffer (u64 self.timestamp.tv_sec)) buffer fun buffer =>
  SUSCAN_PACK (cbor_pack_uint buffer (u64 self.timestamp.tv_usec)) buffer fun buffer =>
  SUSCAN_PACK (cbor_pack_uint buffer (u64 self.rt_time.tv_sec)) buffer fun buffer =>
  SUSCAN_PACK (cbor_pack_uint buffer (u64 self.rt_time.tv_usec)) buffer fun buffer =>
  SUSCAN_PACK (cbor_pack_bool buffer self.looped) buffer fun buffer =>
  SUSCAN_PACK (cbor_pack_uint buffer self.history_size) buffer fun buffer =>
  SUSCAN_PACK (cbor_pack_float buffer self.samp_rate) buffer fun buffer =>
  SUSCAN_PACK (cbor_pack_float buffer self.measured_samp_rate) buffer fun buffer =>
  SUSCAN_PACK (cbor_pack_float buffer self.N0) buffer fun buffer =>
  SU_TRY_PACK (suscan_pack_compact_single_array buffer self.psd_data self.psd_size)
    fun buffer =>
  (true, buffer)

/-- Partial deserializer of the PSD message, msg.c:207: the header up to `N0`. -/
def suscan_analyzer_psd_msg_deserialize_partial (self : suscan_analyzer_psd_msg)
    (buffer : grow_buf_t) : Bool × suscan_analyzer_psd_msg × grow_buf_t :=
  let _ptr := buffer
  SUSCAN_UNPACK (cbor_unpack_int64 buffer) (false, self, _ptr) fun v buffer =>
  let self := { self with fc := v }
  SUSCAN_UNPACK (cbor_unpack_uint32 buffer) (false, self, _ptr) fun v buffer =>
  let self := { self with inspector_id := v }
  SUSCAN_UNPACK (cbor_unpack_uint64 buffer) (false, self, _ptr) fun tv_sec buffer =>
  SUSCAN_UNPACK (cbor_unpack_uint32 buffer) (false, self, _ptr) fun tv_usec buffer =>
  let self := { self with timestamp := ⟨i64 tv_sec, (tv_usec : Int)⟩ }
  SUSCAN_UNPACK (cbor_unpack_uint64 buffer) (false, self, _ptr) fun tv_sec buffer =>
  SUSCAN_UNPACK (cbor_unpack_uint32 buffer) (false, self, _ptr) fun tv_usec buffer =>
  let self := { self with rt_time := ⟨i64 tv_sec, (tv_usec : Int)⟩ }
  SUSCAN_UNPACK (cbor_unpack_bool buffer) (false, self, _ptr) fun v buffer =>
  let self := { self with looped := v }
  SUSCAN_UNPACK (cbor_unpack_uint64 buffer) (false, self, _ptr) fun v buffer =>
  let self := { self with history_size := v }
  SUSCAN_UNPACK (cbor_unpack_float buffer) (false, self, _ptr) fun v buffer =>
  let self := { self with samp_rate := v }
  SUSCAN_UNPACK (cbor_unpack_float buffer) (false, self, _ptr) fun v buffer =>
  let self := { self with measured_samp_rate := v }
  SUSCAN_UNPACK (cbor_unpack_float buffer) (false, self, _ptr) fun v buffer =>
  let self := { self with N0 := v }
  (true, self, buffer)

/-- Deserializer of the PSD message, msg.c:235: the header, then the array. -/
def suscan_analyzer_psd_msg_deserialize (self : suscan_analyzer_psd_msg)
    (buffer : grow_buf_t) : Bool × suscan_analyzer_psd_msg × grow_buf_t :=
  let _ptr := buffer
  match suscan_analyzer_psd_msg_deserialize_partial self buffer with
  | (false, self, _) => (false, self, _ptr)
  | (true, self, buffer) =>
    SUSCAN_UNPACK (suscan_unpack_compact_single_array buffer) (false, self, _ptr)
      fun v buffer =>
    let self := { self with psd_data := v.1, psd_size := v.2 }
    (true, self, buffer)

/-- The message `suscan_analyzer_psd_msg_new(NULL)` returns (msg.c:294 with
`cd == NULL`): zeroed by `calloc`, then stamped with the current time. -/
def suscan_analyzer_psd_msg_new_NULL (now : timeval) : suscan_analyzer_psd_msg :=
  { fc := 0, inspector_id := 0, timestamp := ⟨0, 0⟩, rt_time := now, looped := false,
    history_size := 0, samp_rate := 0, measured_samp_rate := 0, N0 := 0,
    psd_size := 0, psd_data := none }

/-! ## Status message (msg.c:39) -/

/-- Conversion of a `uint32_t` value to `int32_t`. -/
def i32 (v : Nat) : Int :=
  if v < 2147483648 then (v : Int) else (v : Int) - 4294967296

/-- Generic status message (msg.h). `err_msg` and `message` name the same member;
`sender` is the address of the sending analyzer. -/
structure suscan_analyzer_status_msg where
  code : Int
  err_msg : Option cstr
  sender : Option Nat
  deriving DecidableEq, Repr

/-- Serializer of the status message, msg.c:40. -/
def suscan_analyzer_status_msg_serialize (self : suscan_analyzer_status_msg)
    (buffer : grow_buf_t) : Bool × grow_buf_t :=
  SUSCAN_PACK (cbor_pack_int buffer self.code) buffer fun buffer =>
  SUSCAN_PACK (cbor_pack_str buffer self.err_msg) buffer fun buffer =>
  (true, buffer)

/-- Deserializer of the status message, msg.c:50. -/
def suscan_analyzer_status_msg_deserialize (self : suscan_analyzer_status_msg)
    (buffer : grow_buf_t) : Bool × suscan_analyzer_status_msg × grow_buf_t :=
  let _ptr := buffer
  SUSCAN_UNPACK (cbor_unpack_int32 buffer) (false, self, _ptr) fun v buffer =>
  let self := { self with code := v }
  SUSCAN_UNPACK (cbor_unpack_str buffer) (false, self, _ptr) fun v buffer =>
  let self := { self with err_msg := some v }
  (true, self, buffer)

/-- Constructor of the status message, msg.c:69. The object comes from `malloc`
and `sender` is not assigned; it is taken as null here. -/
def suscan_analyzer_status_msg_new (code : Nat) (msg : Option cstr) :
    suscan_analyzer_status_msg :=
  { code := i32 code, err_msg := msg, sender := none }

/-! ## Channel message (msg.h) -/

/-- Modelled from the spec: `struct sigutils_channel` (its header is not part of
the sources), with the ten fields the codec transfers. `SUFREQ` is a signed
64-bit quantity on the wire. -/
structure sigutils_channel where
  fc : Int
  f_lo : Int
  f_hi : Int
  bw : Nat
  snr : Nat
  S0 : Nat
  N0 : Nat
  ft : Int
  age : Nat
  present : Nat
  deriving DecidableEq, Repr

/-- Channel notification message (msg.h): an owned list of owned channels. -/
structure suscan_analyzer_channel_msg where
  source : Option Nat
  channel_list : Option (List (Option sigutils_channel))
  channel_count : Nat
  sender : Option Nat
  deriving DecidableEq, Repr

/-- Serializer of a channel element, msg.c:345. -/
def sigutils_channel_serialize (self : sigutils_channel)
    (buffer : grow_buf_t) : Bool × grow_buf_t :=
  SUSCAN_PACK (cbor_pack_freq buffer self.fc) buffer fun buffer =>
  SUSCAN_PACK (cbor_pack_freq buffer self.f_lo) buffer fun buffer =>
  SUSCAN_PACK (cbor_pack_freq buffer self.f_hi) buffer fun buffer =>
  SUSCAN_PACK (cbor_pack_float buffer self.bw) buffer fun buffer =>
  SUSCAN_PACK (cbor_pack_float buffer self.snr) buffer fun buffer =>
  SUSCAN_PACK (cbor_pack_float buffer self.S0) buffer fun buffer =>
  SUSCAN_PACK (cbor_pack_float buffer self.N0) buffer fun buffer =>
  SUSCAN_PACK (cbor_pack_freq buffer self.ft) buffer fun buffer =>
  SUSCAN_PACK (cbor_pack_uint buffer self.age) buffer fun buffer =>
  SUSCAN_PACK (cbor_pack_uint buffer self.present) buffer fun buffer =>
  (true, buffer)

/-- Deserializer of a channel element, msg.c:364. -/
def sigutils_channel_deserialize (self : sigutils_channel)
    (buffer : grow_buf_t) : Bool × sigutils_channel × grow_buf_t :=
  let _ptr := buffer
  SUSCAN_UNPACK (cbor_unpack_freq buffer) (false, self, _ptr) fun v buffer =>
  let self := { self with fc := v }
  SUSCAN_UNPACK (cbor_unpack_freq buffer) (false, self, _ptr) fun v buffer =>
  let self := { self with f_lo := v }
  SUSCAN_UNPACK (cbor_unpack_freq buffer) (false, self, _ptr) fun v buffer =>
  let self := { self with f_hi := v }
  SUSCAN_UNPACK (cbor_unpack_float buffer) (false, self, _ptr) fun v buffer =>
  let self := { self with bw := v }
  SUSCAN_UNPACK (cbor_unpack_float buffer) (false, self, _ptr) fun v buffer =>
  let self := { self with snr := v }
  SUSCAN_UNPACK (cbor_unpack_float buffer) (false, self, _ptr) fun v buffer =>
  let self := { self with S0 := v }
  SUSCAN_UNPACK (cbor_unpack_float buffer) (false, self, _ptr) fun v buffer =>
  let self := { self with N0 := v }
  SUSCAN_UNPACK (cbor_unpack_freq buffer) (false, self, _ptr) fun v buffer =>
  let self := { self with ft := v }
  SUSCAN_UNPACK (cbor_unpack_uint32 buffer) (false, self, _ptr) fun v buffer =>
  let self := { self with age := v }
  SUSCAN_UNPACK (cbor_unpack_uint32 buffer) (false, self, _ptr) fun v buffer =>
  let self := { self with present := v }
  (true, self, buffer)

/-! ## Sample batch, throttle, seek, history size and replay messages -/

/-- Channel sample batch (msg.h). -/
structure suscan_analyzer_sample_batch_msg where
  inspector_id : Nat
  samples : Option (List SUCOMPLEX)
  sample_count : Nat
  deriving DecidableEq, Repr

/-- Throttle parameters (msg.h); a rate of zero resets. -/
structure suscan_analyzer_throttle_msg where
  samp_rate : Nat
  deriving DecidableEq, Repr

/-- Seek request (msg.h). -/
structure suscan_analyzer_seek_msg where
  position : timeval
  deriving DecidableEq, Repr

/-- History size (msg.h), in bytes. -/
structure suscan_analyzer_history_size_msg where
  buffer_length : Nat
  deriving DecidableEq, Repr

/-- Replay enabled (msg.h). -/
structure suscan_analyzer_replay_msg where
  replay : Bool
  deriving DecidableEq, Repr

/-- Serializer of the sample batch, msg.c:1062. -/
def suscan_analyzer_sample_batch_msg_serialize (self : suscan_analyzer_sample_batch_msg)
    (buffer : grow_buf_t) : Bool × grow_buf_t :=
  SUSCAN_PACK (cbor_pack_int buffer (self.inspector_id : Int)) buffer fun buffer =>
  SU_TRY_PACK (suscan_pack_compact_complex_array buffer self.samples self.sample_count)
    fun buffer =>
  (true, buffer)

/-- Deserializer of the sample batch, msg.c:1077. -/
def suscan_analyzer_sample_batch_msg_deserialize (self : suscan_analyzer_sample_batch_msg)
    (buffer : grow_buf_t) : Bool × suscan_analyzer_sample_batch_msg × grow_buf_t :=
  let _ptr := buffer
  SUSCAN_UNPACK (cbor_unpack_uint32 buffer) (false, self, _ptr) fun v buffer =>
  let self := { self with inspector_id := v }
  SUSCAN_UNPACK (suscan_unpack_compact_complex_array buffer) (false, self, _ptr)
    fun v buffer =>
  let self := { self with samples := v.1, sample_count := v.2 }
  (true, self, buffer)

/-- Constructor of the sample batch, msg.c:1092: a copy of the first `count`
samples. -/
def suscan_analyzer_sample_batch_msg_new (inspector_id : Nat)
    (samples : Option (List SUCOMPLEX)) (count : Nat) : suscan_analyzer_sample_batch_msg :=
  let new : suscan_analyzer_sample_batch_msg :=
    { inspector_id := 0, samples := none, sample_count := 0 }
  let new :=
    match samples with
    | some s => if count > 0 then { new with samples := some (s.take count) } else new
    | none => new
  { new with sample_count := count, inspector_id := inspector_id }

/-- Serializer of the throttle message, msg.c:1136. -/
def suscan_analyzer_throttle_msg_serialize (self : suscan_analyzer_throttle_msg)
    (buffer : grow_buf_t) : Bool × grow_buf_t :=
  SUSCAN_PACK (cbor_pack_uint buffer self.samp_rate) buffer fun buffer =>
  (true, buffer)

/-- Deserializer of the throttle message, msg.c:1145. -/
def suscan_analyzer_throttle_msg_deserialize (self : suscan_analyzer_throttle_msg)
    (buffer : grow_buf_t) : Bool × suscan_analyzer_throttle_msg × grow_buf_t :=
  let _ptr := buffer
  SUSCAN_UNPACK (cbor_unpack_uint64 buffer) (false, self, _ptr) fun v buffer =>
  let self := { self with samp_rate := v }
  (true, self, buffer)

/-- Serializer of the seek message, msg.c:1155. -/
def suscan_analyzer_seek_msg_serialize (self : suscan_analyzer_seek_msg)
    (buffer : grow_buf_t) : Bool × grow_buf_t :=
  SUSCAN_PACK (cbor_pack_uint buffer (u64 self.position.tv_sec)) buffer fun buffer =>
  SUSCAN_PACK (cbor_pack_uint buffer (u64 self.position.tv_usec)) buffer fun buffer =>
  (true, buffer)

/-- Deserializer of the seek message, msg.c:1165. -/
def suscan_analyzer_seek_msg_deserialize (self : suscan_analyzer_seek_msg)
    (buffer : grow_buf_t) : Bool × suscan_analyzer_seek_msg × grow_buf_t :=
  let _ptr := buffer
  SUSCAN_UNPACK (cbor_unpack_uint64 buffer) (false, self, _ptr) fun tv_sec buffer =>
  SUSCAN_UNPACK (cbor_unpack_uint32 buffer) (false, self, _ptr) fun tv_usec buffer =>
  let self := { self with position := ⟨i64 tv_sec, (tv_usec : Int)⟩ }
  (true, self, buffer)

/-- Serializer of the history size message, msg.c:1181. -/
def suscan_analyzer_history_size_msg_serialize (self : suscan_analyzer_history_size_msg)
    (buffer : grow_buf_t) : Bool × grow_buf_t :=
  SUSCAN_PACK (cbor_pack_uint buffer self.buffer_length) buffer fun buffer =>
  (true, buffer)

/-- Deserializer of the history size message, msg.c:1190. -/
def suscan_analyzer_history_size_msg_deserialize (self : suscan_analyzer_history_size_msg)
    (buffer : grow_buf_t) : Bool × suscan_analyzer_history_size_msg × grow_buf_t :=
  let _ptr := buffer
  SUSCAN_UNPACK (cbor_unpack_uint64 buffer) (false, self, _ptr) fun v buffer =>
  let self := { self with buffer_length := v }
  (true, self, buffer)

/-- Serializer of the replay message, msg.c:1200. -/
def suscan_analyzer_replay_msg_serialize (self : suscan_analyzer_replay_msg)
    (buffer : grow_buf_t) : Bool × grow_buf_t :=
  SUSCAN_PACK (cbor_pack_bool buffer self.replay) buffer fun buffer =>
  (true, buffer)

/-- Deserializer of the replay message, msg.c:1209. -/
def suscan_analyzer_replay_msg_deserialize (self : suscan_analyzer_replay_msg)
    (buffer : grow_buf_t) : Bool × suscan_analyzer_replay_msg × grow_buf_t :=
  let _ptr := buffer
  SUSCAN_UNPACK (cbor_unpack_bool buffer) (false, self, _ptr) fun v buffer =>
  let self := { self with replay := v }
  (true, self, buffer)

/-! ## Configuration objects (cfg.c) -/

/-- Modelled from the spec: the field types of a configuration (cfg.h is not part
of the sources): string, integer, float, file and boolean. -/
inductive suscan_field_type where
  | SUSCAN_FIELD_TYPE_STRING
  | SUSCAN_FIELD_TYPE_INTEGER
  | SUSCAN_FIELD_TYPE_FLOAT
  | SUSCAN_FIELD_TYPE_FILE
  | SUSCAN_FIELD_TYPE_BOOLEAN
  deriving DecidableEq, Repr

open suscan_field_type

/-- Modelled from the spec: `struct suscan_field` (cfg.h is not part of the
sources), with the members cfg.c assigns in `suscan_config_desc_add_field`. -/
structure suscan_field where
  type : suscan_field_type
  optional : Bool
  name : cstr
  desc : cstr
  deriving DecidableEq, Repr

/-- Modelled from the spec: `struct suscan_field_value` (cfg.h is not part of the
sources), with the members cfg.c uses. The members `as_int`, `as_float`,
`as_bool` and `as_string` are read only according to the type of the field. -/
structure suscan_field_value where
  set : Bool
  field : Option suscan_field
  as_int : Nat
  as_float : Nat
  as_bool : Bool
  as_string : cstr
  deriving DecidableEq, Repr

/-- Modelled from the spec: `suscan_config_desc_t` (cfg.h is not part of the
sources): the global name, the registration flag and the list of fields. -/
structure suscan_config_desc where
  global_name : Option cstr
  registered : Bool
  field_list : List suscan_field
  deriving DecidableEq, Repr

/-- Modelled from the spec: `suscan_config_t` (cfg.h is not part of the sources):
the address of the descriptor and the array of values. -/
structure suscan_config where
  desc : Option Nat
  values : Option (List suscan_field_value)
  deriving DecidableEq, Repr

/-- Process-wide state of cfg.c: the descriptor objects by address (`none` once
released), the registry `g_config_desc_list` of registered addresses, and
`errno`. -/
structure config_state where
  heap : List (Option suscan_config_desc)
  g_config_desc_list : List Nat
  errno : Nat
  deriving DecidableEq, Repr

/-- The value of `EEXIST`. -/
def EEXIST : Nat := 17

/-- The descriptor object at an address. -/
def config_state.deref (w : config_state) (p : Nat) : Option suscan_config_desc :=
  (w.heap[p]?).join

/-- Registry lookup by name, cfg.c:31. A comparison with a null name is not a
match. -/
def suscan_config_desc_lookup_unsafe (w : config_state) (global_name : Option cstr) :
    Option Nat :=
  w.g_config_desc_list.find? fun p =>
    match w.deref p, global_name with
    | some d, some n => decide (d.global_name = some n)
    | _, _ => false

/-- Registry lookup under the mutex, cfg.c:43. -/
def suscan_config_desc_lookup (w : config_state) (global_name : Option cstr) : Option Nat :=
  suscan_config_desc_lookup_unsafe w global_name

/-- Registration of a descriptor, cfg.c:61. -/
def suscan_config_desc_register (w : config_state) (desc : Nat) : Bool × config_state :=
  match w.deref desc with
  | none => (false, w)
  | some d =>
    if d.registered then (false, w) else
    let saved_errno := w.errno
    let w := { w with errno := EEXIST }
    if Option.isSome ( suscan_config_desc_lookup_unsafe w d.global_name) then (false, w) else
    let w := { w with errno := saved_errno }
    let w := { w with g_config_desc_list := w.g_config_desc_list ++ [desc] }
    let w := { w with heap := w.heap.set desc (some { d with registered := true }) }
    (true, w)

/-- The loop of `suscan_config_desc_lookup_field_id`, cfg.c:103, from index `i`. -/
def suscan_config_desc_lookup_field_id_from (name : cstr) :
    List suscan_field → Nat → Int
  | [], _ => -1
  | f :: fs, i =>
    if f.name = name then (i : Int)
    else suscan_config_desc_lookup_field_id_from name fs (i + 1)

/-- Index of the field of a given name, or -1, cfg.c:96. -/
def suscan_config_desc_lookup_field_id (source : suscan_config_desc) (name : cstr) : Int :=
  suscan_config_desc_lookup_field_id_from name source.field_list 0

/-- Field at an index, or null, cfg.c:111. -/
def suscan_config_desc_field_id_to_field (source : suscan_config_desc) (id : Int) :
    Option suscan_field :=
  if id < 0 ∨ id ≥ (source.field_list.length : Int) then none
  else source.field_list[id.toNat]?

/-- Field of a given name, or null, cfg.c:120. -/
def suscan_config_desc_lookup_field (source : suscan_config_desc) (name : cstr) :
    Option suscan_field :=
  suscan_config_desc_field_id_to_field source
    (suscan_config_desc_lookup_field_id source name)

/-- Release of a descriptor, cfg.c:172: a no-op on a registered one. -/
def suscan_config_desc_destroy (w : config_state) (cfgdesc : Nat) : config_state :=
  match w.deref cfgdesc with
  | none => w
  | some d =>
    if d.registered then w
    else { w with heap := w.heap.set cfgdesc none }

/-- Descriptor by name, cfg.c:194: the registered one if there is one, else a new
unregistered object. -/
def suscan_config_desc_new_ex (w : config_state) (global_name : Option cstr) :
    config_state × Option Nat :=
  match (if global_name.isSome then suscan_config_desc_lookup w global_name else none) with
  | some p => (w, some p)
  | none =>
    ({ w with heap := w.heap ++
        [some { global_name := global_name, registered := false, field_list := [] }] },
     some w.heap.length)

/-- Addition of a field to a descriptor, cfg.c:225. -/
def suscan_config_desc_add_field (w : config_state) (cfgdesc : Nat)
    (type : suscan_field_type) (optional : Bool) (name : cstr) (desc : cstr) :
    Bool × config_state :=
  match w.deref cfgdesc with
  | none => (false, w)
  | some d =>
    if suscan_config_desc_lookup_field_id d name ≠ -1 then (false, w) else
    let field : suscan_field :=
      { type := type, optional := optional, name := name, desc := desc }
    let d : suscan_config_desc := { d with field_list := d.field_list ++ [field] }
    (true, { w with heap := w.heap.set cfgdesc (some d) })

/-- Release of the values of a configuration, cfg.c:269; the object is zeroed. -/
def suscan_config_finalize (_self : suscan_config) : suscan_config :=
  { desc := none, values := none }

/-- The value object `suscan_config_init` allocates for a field, cfg.c:311: zeroed
by `calloc`, then pointed at its field. -/
def suscan_field_value.zero (f : suscan_field) : suscan_field_value :=
  { set := false, field := some f, as_int := 0, as_float := 0, as_bool := false,
    as_string := [] }

/-- Binding of a configuration to a descriptor, cfg.c:292: one zeroed value per
field. -/
def suscan_config_init (w : config_state) (_self : suscan_config) (desc : Nat) :
    Bool × suscan_config :=
  match w.deref desc with
  | none => (false, suscan_config_finalize _self)
  | some d =>
    (true, { desc := some desc, values := some (d.field_list.map suscan_field_value.zero) })

/-- New configuration, cfg.c:326; with a null descriptor it is the zeroed object. -/
def suscan_config_new (w : config_state) (desc : Option Nat) : Option suscan_config :=
  let new : suscan_config := { desc := none, values := none }
  match desc with
  | none => some new
  | some p =>
    match suscan_config_init w new p with
    | (true, new) => some new
    | (false, _) => none

/-- Assignment `cfg->values[id]-> ... = ...` of the setters. -/
def suscan_config.update (cfg : suscan_config) (id : Int)
    (f : suscan_field_value → suscan_field_value) : Option suscan_config :=
  match cfg.values with
  | none => none
  | some vals =>
    match vals[id.toNat]? with
    | none => none
    | some v => some { cfg with values := some (vals.set id.toNat (f v)) }

/-- The common part of the typed setters (cfg.c:397, 421, 445, 468, 507): look
the field up, assert its type, assign. -/
def suscan_config_set (w : config_state) (cfg : suscan_config) (name : cstr)
    (type : suscan_field_type) (f : suscan_field_value → suscan_field_value) :
    Bool × suscan_config :=
  match cfg.desc.bind w.deref with
  | none => (false, cfg)
  | some d =>
    let id := suscan_config_desc_lookup_field_id d name
    if id = -1 then (false, cfg) else
    match suscan_config_desc_field_id_to_field d id with
    | none => (false, cfg)
    | some field =>
      if field.type ≠ type then (false, cfg) else
      match cfg.update id f with
      | none => (false, cfg)
      | some cfg => (true, cfg)

/-- Integer setter, cfg.c:397. -/
def suscan_config_set_integer (w : config_state) (cfg : suscan_config) (name : cstr)
    (value : Nat) : Bool × suscan_config :=
  suscan_config_set w cfg name SUSCAN_FIELD_TYPE_INTEGER
    fun v => { v with as_int := value, set := true }

/-- Boolean setter, cfg.c:421. -/
def suscan_config_set_bool (w : config_state) (cfg : suscan_config) (name : cstr)
    (value : Bool) : Bool × suscan_config :=
  suscan_config_set w cfg name SUSCAN_FIELD_TYPE_BOOLEAN
    fun v => { v with as_bool := value, set := true }

/-- Float setter, cfg.c:445; it does not touch the `set` flag. -/
def suscan_config_set_float (w : config_state) (cfg : suscan_config) (name : cstr)
    (value : Nat) : Bool × suscan_config :=
  suscan_config_set w cfg name SUSCAN_FIELD_TYPE_FLOAT
    fun v => { v with as_float := value }

/-- String setter, cfg.c:468. -/
def suscan_config_set_string (w : config_state) (cfg : suscan_config) (name : cstr)
    (value : cstr) : Bool × suscan_config :=
  suscan_config_set w cfg name SUSCAN_FIELD_TYPE_STRING
    fun v => { v with as_string := value, set := true }

/-- File setter, cfg.c:507. -/
def suscan_config_set_file (w : config_state) (cfg : suscan_config) (name : cstr)
    (value : cstr) : Bool × suscan_config :=
  suscan_config_set w cfg name SUSCAN_FIELD_TYPE_FILE
    fun v => { v with as_string := value, set := true }

/-- The loop of `suscan_config_serialize`, cfg.c:981: the name of each field, then
its value packed according to the declared type. The two lists are the
fields and the values from the current index on. -/
def suscan_config_serialize_fields :
    List suscan_field → List suscan_field_value → grow_buf_t → Bool × grow_buf_t
  | [], _, buffer => (true, buffer)
  | f :: fs, vals, buffer =>
    SUSCAN_PACK (cbor_pack_str buffer (some f.name)) buffer fun buffer =>
    match vals with
    | [] => (false, buffer)
    | v :: vs =>
      match f.type with
      | SUSCAN_FIELD_TYPE_BOOLEAN =>
        SUSCAN_PACK (cbor_pack_bool buffer v.as_bool) buffer fun buffer =>
        suscan_config_serialize_fields fs vs buffer
      | SUSCAN_FIELD_TYPE_FILE =>
        SUSCAN_PACK (cbor_pack_str buffer (some v.as_string)) buffer fun buffer =>
        suscan_config_serialize_fields fs vs buffer
      | SUSCAN_FIELD_TYPE_STRING =>
        SUSCAN_PACK (cbor_pack_str buffer (some v.as_string)) buffer fun buffer =>
        suscan_config_serialize_fields fs vs buffer
      | SUSCAN_FIELD_TYPE_FLOAT =>
        SUSCAN_PACK (cbor_pack_float buffer v.as_float) buffer fun buffer =>
        suscan_config_serialize_fields fs vs buffer
      | SUSCAN_FIELD_TYPE_INTEGER =>
        SUSCAN_PACK (cbor_pack_int buffer (i64 v.as_int)) buffer fun buffer =>
        suscan_config_serialize_fields fs vs buffer

/-- Serializer of a configuration, cfg.c:970: the global name, a map header with
the field count, then the fields. -/
def suscan_config_serialize (w : config_state) (self : suscan_config)
    (buffer : grow_buf_t) : Bool × grow_buf_t :=
  match self.desc.bind w.deref with
  | none => (false, buffer)
  | some d =>
    SUSCAN_PACK (cbor_pack_str buffer d.global_name) buffer fun buffer =>
    SUSCAN_PACK (cbor_pack_map_start buffer d.field_list.length) buffer fun buffer =>
    match self.values with
    | none => if d.field_list.length = 0 then (true, buffer) else (false, buffer)
    | some vals => suscan_config_serialize_fields d.field_list vals buffer

/-- Modelled from the spec: the CBOR major types (cbor.h is not part of the
sources). -/
inductive cbor_major_type where
  | CMT_UINT
  | CMT_NINT
  | CMT_BYTE
  | CMT_TEXT
  | CMT_ARRAY
  | CMT_MAP
  | CMT_TAG
  | CMT_FLOAT
  deriving DecidableEq, Repr

open cbor_major_type

/-- Modelled from the spec: additional information of the false value. -/
def CBOR_ADDL_FLOAT_FALSE : Nat := 20
/-- Modelled from the spec: additional information of the true value. -/
def CBOR_ADDL_FLOAT_TRUE : Nat := 21
/-- Modelled from the spec: additional information of null. -/
def CBOR_ADDL_FLOAT_NULL : Nat := 22
/-- Modelled from the spec: additional information of a 32-bit float. -/
def CBOR_ADDL_FLOAT_FLOAT32 : Nat := 26
/-- Modelled from the spec: additional information of a 64-bit float. -/
def CBOR_ADDL_FLOAT_FLOAT64 : Nat := 27
/-- Modelled from the spec: additional information of the break. -/
def CBOR_ADDL_FLOAT_BREAK : Nat := 31
/-- Modelled from the spec: `SUFLOAT` is single precision. -/
def CBOR_ADDL_FLOAT_SUFLOAT : Nat := CBOR_ADDL_FLOAT_FLOAT32

/-- Modelled from the spec: `cbor_peek_type`; the major type of the next item and,
for the last major type, which value it is. The additional information of the
other major types is not used by the sources and is given as 0. -/
def cbor_peek_type (buffer : grow_buf_t) : Option (cbor_major_type × Nat) :=
  match buffer with
  | [] => none
  | cbor_item.uint _ :: _ => some (CMT_UINT, 0)
  | cbor_item.nint _ :: _ => some (CMT_NINT, 0)
  | cbor_item.blob _ :: _ => some (CMT_BYTE, 0)
  | cbor_item.text _ :: _ => some (CMT_TEXT, 0)
  | cbor_item.array_start _ :: _ => some (CMT_ARRAY, 0)
  | cbor_item.array_start_indef :: _ => some (CMT_ARRAY, 0)
  | cbor_item.map_start _ :: _ => some (CMT_MAP, 0)
  | cbor_item.map_start_indef :: _ => some (CMT_MAP, 0)
  | cbor_item.bool false :: _ => some (CMT_FLOAT, CBOR_ADDL_FLOAT_FALSE)
  | cbor_item.bool true :: _ => some (CMT_FLOAT, CBOR_ADDL_FLOAT_TRUE)
  | cbor_item.null :: _ => some (CMT_FLOAT, CBOR_ADDL_FLOAT_NULL)
  | cbor_item.single _ :: _ => some (CMT_FLOAT, CBOR_ADDL_FLOAT_FLOAT32)
  | cbor_item.double _ :: _ => some (CMT_FLOAT, CBOR_ADDL_FLOAT_FLOAT64)
  | cbor_item.brk :: _ => some (CMT_FLOAT, CBOR_ADDL_FLOAT_BREAK)

/-- The string literal `"(no description)"`. -/
def no_description : cstr :=
  [40, 110, 111, 32, 100, 101, 115, 99, 114, 105, 112, 116, 105, 111, 110, 41]

/-- One step of the probe: add the field, then consume its value. -/
def populate_field (w : config_state) (self : Nat) (type : suscan_field_type)
    (key : cstr) (consumed : Option grow_buf_t) : Bool × config_state × grow_buf_t :=
  match suscan_config_desc_add_field w self type false key no_description with
  | (false, w) => (false, w, [])
  | (true, w) =>
    match consumed with
    | none => (false, w, [])
    | some tmp => (true, w, tmp)

/-- The loop of `suscan_config_desc_populate_from_cbor`, cfg.c:1035, with `n` pairs
left to probe. -/
def suscan_config_desc_populate_loop (self : Nat) :
    Nat → config_state → grow_buf_t → Bool × config_state
  | 0, w, _ => (true, w)
  | n + 1, w, tmp =>
    match cbor_unpack_str tmp with
    | none => (false, w)
    | some (key, tmp) =>
      match cbor_peek_type tmp with
      | none => (false, w)
      | some (type, extra) =>
        let step : Bool × config_state × grow_buf_t :=
          match type with
          | CMT_NINT | CMT_UINT =>
            populate_field w self SUSCAN_FIELD_TYPE_INTEGER key
              ((cbor_unpack_int64 tmp).map fun r => r.2)
          | CMT_TEXT =>
            populate_field w self SUSCAN_FIELD_TYPE_STRING key
              ((cbor_unpack_str tmp).map fun r => r.2)
          | CMT_FLOAT =>
            if extra = CBOR_ADDL_FLOAT_FALSE ∨ extra = CBOR_ADDL_FLOAT_TRUE then
              populate_field w self SUSCAN_FIELD_TYPE_BOOLEAN key
                ((cbor_unpack_bool tmp).map fun r => r.2)
            else if extra = CBOR_ADDL_FLOAT_SUFLOAT then
              populate_field w self SUSCAN_FIELD_TYPE_FLOAT key
                ((cbor_unpack_float tmp).map fun r => r.2)
            else (false, w, [])
          | _ => (false, w, [])
        match step with
        | (false, w, _) => (false, w)
        | (true, w, tmp) => suscan_config_desc_populate_loop self n w tmp

/-- Schema probe of creative mode, cfg.c:1007: walks the map on a loan of the
unread data, adding one field per pair; the caller's buffer is not advanced. -/
def suscan_config_desc_populate_from_cbor (w : config_state) (self : Nat)
    (buffer : grow_buf_t) : Bool × config_state :=
  let tmp := buffer
  match cbor_unpack_map_start tmp with
  | none => (false, w)
  | some ((npairs, end_required), tmp) =>
    if end_required then (false, w)
    else suscan_config_desc_populate_loop self npairs w tmp

/-- The loop of `suscan_config_deserialize`, cfg.c:1161, with `n` pairs left to
bind. -/
def suscan_config_deserialize_loop (w : config_state) (desc : Nat) :
    Nat → suscan_config → grow_buf_t → Bool × suscan_config × grow_buf_t
  | 0, self, buffer => (true, self, buffer)
  | n + 1, self, buffer =>
    SUSCAN_UNPACK (cbor_unpack_str buffer) (false, self, buffer) fun field_name buffer =>
    match (w.deref desc).bind fun d => suscan_config_desc_lookup_field d field_name with
    | none => (false, self, buffer)
    | some field =>
      match field.type with
      | SUSCAN_FIELD_TYPE_BOOLEAN =>
        SUSCAN_UNPACK (cbor_unpack_bool buffer) (false, self, buffer) fun boolean buffer =>
        match suscan_config_set_bool w self field_name boolean with
        | (false, self) => (false, self, buffer)
        | (true, self) => suscan_config_deserialize_loop w desc n self buffer
      | SUSCAN_FIELD_TYPE_STRING | SUSCAN_FIELD_TYPE_FILE =>
        SUSCAN_UNPACK (cbor_unpack_str buffer) (false, self, buffer) fun string buffer =>
        match suscan_config_set_string w self field_name string with
        | (false, self) => (false, self, buffer)
        | (true, self) => suscan_config_deserialize_loop w desc n self buffer
      | SUSCAN_FIELD_TYPE_FLOAT =>
        SUSCAN_UNPACK (cbor_unpack_float buffer) (false, self, buffer) fun real buffer =>
        match suscan_config_set_float w self field_name real with
        | (false, self) => (false, self, buffer)
        | (true, self) => suscan_config_deserialize_loop w desc n self buffer
      | SUSCAN_FIELD_TYPE_INTEGER =>
        SUSCAN_UNPACK (cbor_unpack_int64 buffer) (false, self, buffer) fun integer buffer =>
        match suscan_config_set_integer w self field_name (u64 integer) with
        | (false, self) => (false, self, buffer)
        | (true, self) => suscan_config_deserialize_loop w desc n self buffer

/-- The part of `suscan_config_deserialize` after the `fail` label, cfg.c:1205: in
creative mode a successful decode registers the new descriptor and a failed
one releases it; a failed decode leaves the configuration finalized. -/
def suscan_config_deserialize_finally (creative_mode : Bool) (desc : Option Nat)
    (ok : Bool) (w : config_state) (self : suscan_config) (buffer : grow_buf_t) :
    Bool × config_state × suscan_config × grow_buf_t :=
  match creative_mode, desc with
  | true, some p =>
    let r : Bool × config_state :=
      if ok then
        match suscan_config_desc_register w p with
        | (false, w) => if w.errno = EEXIST then (false, w) else (true, w)
        | (true, w) => (true, w)
      else (false, w)
    if r.1 then (true, r.2, self, buffer)
    else (false, suscan_config_desc_destroy r.2 p, suscan_config_finalize self, buffer)
  | _, _ =>
    if ok then (true, w, self, buffer)
    else (false, w, suscan_config_finalize self, buffer)

/-- Deserializer of a configuration, cfg.c:1124. -/
def suscan_config_deserialize (w : config_state) (self : suscan_config)
    (buffer : grow_buf_t) : Bool × config_state × suscan_config × grow_buf_t :=
  let _ptr := buffer
  match cbor_unpack_str buffer with
  | none => suscan_config_deserialize_finally false none false w self _ptr
  | some (global_name, buffer) =>
    if ¬ global_name.length > 0 then
      suscan_config_deserialize_finally false none false w self _ptr
    else
    let found := suscan_config_desc_lookup w (some global_name)
    let creative_mode := found.isNone
    let created : config_state × Option Nat × Bool :=
      match found with
      | some p => (w, some p, true)
      | none =>
        match suscan_config_desc_new_ex w (some global_name) with
        | (w, none) => (w, none, false)
        | (w, some p) =>
          match suscan_config_desc_populate_from_cbor w p buffer with
          | (ok, w) => (w, some p, ok)
    match created with
    | (w, none, _) => suscan_config_deserialize_finally creative_mode none false w self _ptr
    | (w, some desc, false) =>
      suscan_config_deserialize_finally creative_mode (some desc) false w self _ptr
    | (w, some desc, true) =>
      match cbor_unpack_map_start buffer with
      | none => suscan_config_deserialize_finally creative_mode (some desc) false w self _ptr
      | some ((npairs, end_required), buffer) =>
        if end_required then
          suscan_config_deserialize_finally creative_mode (some desc) false w self _ptr
        else
        match suscan_config_init w self desc with
        | (false, self) =>
          suscan_config_deserialize_finally creative_mode (some desc) false w self _ptr
        | (true, self) =>
          match suscan_config_deserialize_loop w desc npairs self buffer with
          | (false, self, _) =>
            suscan_config_deserialize_finally creative_mode (some desc) false w self _ptr
          | (true, self, buffer) =>
            suscan_config_deserialize_finally creative_mode (some desc) true w self buffer

/-! ## Inspector message (msg.h, msg.c:342) -/

/-- Message kinds, `enum suscan_analyzer_inspector_msgkind` of msg.h. -/
@[reducible, simp] def SUSCAN_ANALYZER_INSPECTOR_MSGKIND_NOOP : Int := 0
/-- Message kind of msg.h. -/
@[reducible, simp] def SUSCAN_ANALYZER_INSPECTOR_MSGKIND_OPEN : Int := 1
/-- Message kind of msg.h. -/
@[reducible, simp] def SUSCAN_ANALYZER_INSPECTOR_MSGKIND_SET_ID : Int := 2
/-- Message kind of msg.h. -/
@[reducible, simp] def SUSCAN_ANALYZER_INSPECTOR_MSGKIND_GET_CONFIG : Int := 3
/-- Message kind of msg.h. -/
@[reducible, simp] def SUSCAN_ANALYZER_INSPECTOR_MSGKIND_SET_CONFIG : Int := 4
/-- Message kind of msg.h. -/
@[reducible, simp] def SUSCAN_ANALYZER_INSPECTOR_MSGKIND_ESTIMATOR : Int := 5
/-- Message kind of msg.h. -/
@[reducible, simp] def SUSCAN_ANALYZER_INSPECTOR_MSGKIND_SPECTRUM : Int := 6
/-- Message kind of msg.h. -/
@[reducible, simp] def SUSCAN_ANALYZER_INSPECTOR_MSGKIND_RESET_EQUALIZER : Int := 7
/-- Message kind of msg.h. -/
@[reducible, simp] def SUSCAN_ANALYZER_INSPECTOR_MSGKIND_CLOSE : Int := 8
/-- Message kind of msg.h. -/
@[reducible, simp] def SUSCAN_ANALYZER_INSPECTOR_MSGKIND_SET_FREQ : Int := 9
/-- Message kind of msg.h. -/
@[reducible, simp] def SUSCAN_ANALYZER_INSPECTOR_MSGKIND_SET_BANDWIDTH : Int := 10
/-- Message kind of msg.h. -/
@[reducible, simp] def SUSCAN_ANALYZER_INSPECTOR_MSGKIND_SET_WATERMARK : Int := 11
/-- Message kind of msg.h. -/
@[reducible, simp] def SUSCAN_ANALYZER_INSPECTOR_MSGKIND_WRONG_HANDLE : Int := 12
/-- Message kind of msg.h. -/
@[reducible, simp] def SUSCAN_ANALYZER_INSPECTOR_MSGKIND_WRONG_OBJECT : Int := 13
/-- Message kind of msg.h. -/
@[reducible, simp] def SUSCAN_ANALYZER_INSPECTOR_MSGKIND_INVALID_ARGUMENT : Int := 14
/-- Message kind of msg.h. -/
@[reducible, simp] def SUSCAN_ANALYZER_INSPECTOR_MSGKIND_WRONG_KIND : Int := 15
/-- Message kind of msg.h. -/
@[reducible, simp] def SUSCAN_ANALYZER_INSPECTOR_MSGKIND_INVALID_CHANNEL : Int := 16
/-- Message kind of msg.h. -/
@[reducible, simp] def SUSCAN_ANALYZER_INSPECTOR_MSGKIND_SET_TLE : Int := 17
/-- Message kind of msg.h. -/
@[reducible, simp] def SUSCAN_ANALYZER_INSPECTOR_MSGKIND_ORBIT_REPORT : Int := 18
/-- Message kind of msg.h. -/
@[reducible, simp] def SUSCAN_ANALYZER_INSPECTOR_MSGKIND_INVALID_CORRECTION : Int := 19
/-- Message kind of msg.h. -/
@[reducible, simp] def SUSCAN_ANALYZER_INSPECTOR_MSGKIND_SIGNAL : Int := 20
/-- Number of message kinds, msg.h. -/
@[reducible, simp] def SUSCAN_ANALYZER_INSPECTOR_MSGKIND_COUNT : Int := 21

/-- Modelled from the spec: `orbit_t` (sgdp4-types.h is not part of the sources),
the 15 orbit fields of SET_TLE; doubles are bit patterns. -/
structure orbit_t where
  name : Option cstr
  ep_year : Int
  ep_day : Nat
  rev : Nat
  drevdt : Nat
  d2revdt2 : Nat
  bstar : Nat
  eqinc : Nat
  ecc : Nat
  mnan : Nat
  argp : Nat
  ascn : Nat
  smjaxs : Nat
  norb : Int
  satno : Int
  deriving DecidableEq, Repr

/-- Modelled from the spec: the satellite position of an orbit report (its header
is not part of the sources): azimuth, elevation and distance. -/
structure xyz_t where
  azimuth : Nat
  elevation : Nat
  distance : Nat
  deriving DecidableEq, Repr

/-- Modelled from the spec: `struct suscan_orbit_report` (correctors/tle.h is not
part of the sources): reception time, satellite position, frequency
correction and line-of-sight velocity. -/
structure suscan_orbit_report where
  rx_time : timeval
  satpos : xyz_t
  freq_corr : Nat
  vlos_vel : Nat
  deriving DecidableEq, Repr

/-- Channel inspector command (msg.h). The members of the anonymous union are
laid out side by side; which of them are meaningful is determined by `kind`. -/
structure suscan_analyzer_inspector_msg where
  kind : Int
  inspector_id : Nat
  req_id : Nat
  handle : Nat
  status : Int
  rt_time : timeval
  class_name : Option cstr
  channel : sigutils_channel
  config : Option suscan_config
  precise : Bool
  fs : Nat
  equiv_fs : Nat
  bandwidth : Nat
  lo : Nat
  estimator_list : Option (List (Option cstr))
  estimator_count : Nat
  spectsrc_list : Option (List (Option cstr))
  spectsrc_count : Nat
  estimator_id : Nat
  enabled : Bool
  value : Nat
  spectsrc_id : Nat
  spectrum_data : Option (List Nat)
  spectrum_size : Nat
  samp_rate : Nat
  fc : Int
  N0 : Nat
  tle_enable : Bool
  tle_orbit : orbit_t
  signal_name : Option cstr
  signal_value : Nat
  orbit_report : suscan_orbit_report
  watermark : Nat
  deriving DecidableEq, Repr

/-- The string literal `"<nullconfig>"`. -/
def nullconfig : cstr := [60, 110, 117, 108, 108, 99, 111, 110, 102, 105, 103, 62]

/-- The loops `for (i = 0; i < count; ++i) SUSCAN_PACK(str, list[i])` of msg.c:412
and msg.c:418, over the entries still to pack. -/
def pack_str_list : List (Option cstr) → grow_buf_t → Bool × grow_buf_t
  | [], buffer => (true, buffer)
  | s :: ss, buffer =>
    SUSCAN_PACK (cbor_pack_str buffer s) buffer fun buffer =>
    pack_str_list ss buffer

/-- An array start with `count`, then the first `count` entries of the list. -/
def pack_str_array (buffer : grow_buf_t) (list : Option (List (Option cstr)))
    (count : Nat) : Bool × grow_buf_t :=
  SUSCAN_PACK (cbor_pack_array_start buffer count) buffer fun buffer =>
  if count ≤ (list.getD []).length then pack_str_list ((list.getD []).take count) buffer
  else (false, buffer)

/-- OPEN tail, msg.c:383. -/
def suscan_analyzer_inspector_msg_serialize_open (w : config_state) (buffer : grow_buf_t)
    (self : suscan_analyzer_inspector_msg) : Bool × grow_buf_t :=
  SUSCAN_PACK (cbor_pack_str buffer self.class_name) buffer fun buffer =>
  SU_TRY_PACK (sigutils_channel_serialize self.channel buffer) fun buffer =>
  SU_TRY_PACK
    (match self.config with
     | some config => suscan_config_serialize w config buffer
     | none =>
       SUSCAN_PACK (cbor_pack_str buffer (some nullconfig)) buffer fun buffer =>
       SUSCAN_PACK (cbor_pack_map_start buffer 0) buffer fun buffer =>
       (true, buffer)) fun buffer =>
  SUSCAN_PACK (cbor_pack_uint buffer self.handle) buffer fun buffer =>
  SUSCAN_PACK (cbor_pack_bool buffer self.precise) buffer fun buffer =>
  SUSCAN_PACK (cbor_pack_uint buffer self.fs) buffer fun buffer =>
  SUSCAN_PACK (cbor_pack_float buffer self.equiv_fs) buffer fun buffer =>
  SUSCAN_PACK (cbor_pack_float buffer self.bandwidth) buffer fun buffer =>
  SUSCAN_PACK (cbor_pack_float buffer self.lo) buffer fun buffer =>
  SU_TRY_PACK (pack_str_array buffer self.estimator_list self.estimator_count) fun buffer =>
  SU_TRY_PACK (pack_str_array buffer self.spectsrc_list self.spectsrc_count) fun buffer =>
  (true, buffer)

/-- The loops `for (i = 0; i < count; ++i) SUSCAN_UNPACK(str, list[i])` of
msg.c:464 and msg.c:482 on a zeroed array: `n` entries left, `acc` already
read. On failure the entries not reached stay null. -/
def unpack_str_list :
    Nat → List (Option cstr) → grow_buf_t → Bool × List (Option cstr) × grow_buf_t
  | 0, acc, buffer => (true, acc, buffer)
  | n + 1, acc, buffer =>
    match cbor_unpack_str buffer with
    | none => (false, acc ++ List.replicate (n + 1) none, buffer)
    | some (s, buffer) => unpack_str_list n (acc ++ [some s]) buffer

/-- The four steps that read a list of names, msg.c:449 and msg.c:467: array start,
no indefinite length, `count = nelem` (an `unsigned int`), allocation, then
the strings. Yields the flag, the list pointer, the count and the buffer. The
allocation is taken to succeed, also for a count of zero (`calloc(0, n)`
returns an object, as with glibc). -/
def unpack_str_array (list : Option (List (Option cstr))) (count : Nat)
    (buffer : grow_buf_t) :
    Bool × Option (List (Option cstr)) × Nat × grow_buf_t :=
  match cbor_unpack_array_start buffer with
  | none => (false, list, count, buffer)
  | some ((nelem, end_required), buffer) =>
    if end_required then (false, list, count, buffer) else
    let count := nelem % 4294967296
    match unpack_str_list count [] buffer with
    | (ok, l, buffer) => (ok, some l, count, buffer)

/-- OPEN tail, msg.c:424. -/
def suscan_analyzer_inspector_msg_deserialize_open (w : config_state) (buffer : grow_buf_t)
    (self : suscan_analyzer_inspector_msg) :
    Bool × config_state × suscan_analyzer_inspector_msg × grow_buf_t :=
  let _ptr := buffer
  SUSCAN_UNPACK (cbor_unpack_str buffer) (false, w, self, _ptr) fun v buffer =>
  let self := { self with class_name := some v }
  match sigutils_channel_deserialize self.channel buffer with
  | (false, c, _) => (false, w, { self with channel := c }, _ptr)
  | (true, c, buffer) =>
    let self := { self with channel := c }
    match suscan_config_new w none with
    | none => (false, w, { self with config := none }, _ptr)
    | some config =>
      match suscan_config_deserialize w config buffer with
      | (false, w, config, _) => (false, w, { self with config := some config }, _ptr)
      | (true, w, config, buffer) =>
        let self := { self with config := some config }
        SUSCAN_UNPACK (cbor_unpack_uint32 buffer) (false, w, self, _ptr) fun v buffer =>
        let self := { self with handle := v }
        SUSCAN_UNPACK (cbor_unpack_bool buffer) (false, w, self, _ptr) fun v buffer =>
        let self := { self with precise := v }
        SUSCAN_UNPACK (cbor_unpack_uint32 buffer) (false, w, self, _ptr) fun v buffer =>
        let self := { self with fs := v }
        SUSCAN_UNPACK (cbor_unpack_float buffer) (false, w, self, _ptr) fun v buffer =>
        let self := { self with equiv_fs := v }
        SUSCAN_UNPACK (cbor_unpack_float buffer) (false, w, self, _ptr) fun v buffer =>
        let self := { self with bandwidth := v }
        SUSCAN_UNPACK (cbor_unpack_float buffer) (false, w, self, _ptr) fun v buffer =>
        let self := { self with lo := v }
        match unpack_str_array self.estimator_list self.estimator_count buffer with
        | (false, l, n, _) =>
          (false, w, { self with estimator_list := l, estimator_count := n }, _ptr)
        | (true, l, n, buffer) =>
          let self := { self with estimator_list := l, estimator_count := n }
          match unpack_str_array self.spectsrc_list self.spectsrc_count buffer with
          | (false, l, n, _) =>
            (false, w, { self with spectsrc_list := l, spectsrc_count := n }, _ptr)
          | (true, l, n, buffer) =>
            (true, w, { self with spectsrc_list := l, spectsrc_count := n }, buffer)

/-- SET_CONFIG tail, msg.c:493. -/
def suscan_analyzer_inspector_msg_serialize_config (w : config_state) (buffer : grow_buf_t)
    (self : suscan_analyzer_inspector_msg) : Bool × grow_buf_t :=
  match self.config with
  | none => (false, buffer)
  | some config =>
    SU_TRY_PACK (suscan_config_serialize w config buffer) fun buffer =>
    (true, buffer)

/-- SET_CONFIG tail, msg.c:503. -/
def suscan_analyzer_inspector_msg_deserialize_config (w : config_state)
    (buffer : grow_buf_t) (self : suscan_analyzer_inspector_msg) :
    Bool × config_state × suscan_analyzer_inspector_msg × grow_buf_t :=
  let _ptr := buffer
  match suscan_config_new w none with
  | none => (false, w, { self with config := none }, _ptr)
  | some config =>
    match suscan_config_deserialize w config buffer with
    | (false, w, config, _) => (false, w, { self with config := some config }, _ptr)
    | (true, w, config, buffer) => (true, w, { self with config := some config }, buffer)

/-- ESTIMATOR tail, msg.c:514. -/
def suscan_analyzer_inspector_msg_serialize_estimator (buffer : grow_buf_t)
    (self : suscan_analyzer_inspector_msg) : Bool × grow_buf_t :=
  SUSCAN_PACK (cbor_pack_uint buffer self.estimator_id) buffer fun buffer =>
  SUSCAN_PACK (cbor_pack_bool buffer self.enabled) buffer fun buffer =>
  SUSCAN_PACK (cbor_pack_float buffer self.value) buffer fun buffer =>
  (true, buffer)

/-- ESTIMATOR tail, msg.c:526. -/
def suscan_analyzer_inspector_msg_deserialize_estimator (buffer : grow_buf_t)
    (self : suscan_analyzer_inspector_msg) :
    Bool × suscan_analyzer_inspector_msg × grow_buf_t :=
  let _ptr := buffer
  SUSCAN_UNPACK (cbor_unpack_uint32 buffer) (false, self, _ptr) fun v buffer =>
  let self := { self with estimator_id := v }
  SUSCAN_UNPACK (cbor_unpack_bool buffer) (false, self, _ptr) fun v buffer =>
  let self := { self with enabled := v }
  SUSCAN_UNPACK (cbor_unpack_float buffer) (false, self, _ptr) fun v buffer =>
  let self := { self with value := v }
  (true, self, buffer)

/-- SPECTRUM tail, msg.c:538. -/
def suscan_analyzer_inspector_msg_serialize_spectrum (buffer : grow_buf_t)
    (self : suscan_analyzer_inspector_msg) : Bool × grow_buf_t :=
  SUSCAN_PACK (cbor_pack_uint buffer self.spectsrc_id) buffer fun buffer =>
  SUSCAN_PACK (cbor_pack_freq buffer self.fc) buffer fun buffer =>
  SUSCAN_PACK (cbor_pack_float buffer self.N0) buffer fun buffer =>
  SUSCAN_PACK (cbor_pack_uint buffer self.samp_rate) buffer fun buffer =>
  SU_TRY_PACK (suscan_pack_compact_float_array buffer self.spectrum_data self.spectrum_size)
    fun buffer =>
  (true, buffer)

/-- SPECTRUM tail, msg.c:559. -/
def suscan_analyzer_inspector_msg_deserialize_spectrum (buffer : grow_buf_t)
    (self : suscan_analyzer_inspector_msg) :
    Bool × suscan_analyzer_inspector_msg × grow_buf_t :=
  let _ptr := buffer
  SUSCAN_UNPACK (cbor_unpack_uint32 buffer) (false, self, _ptr) fun v buffer =>
  let self := { self with spectsrc_id := v }
  SUSCAN_UNPACK (cbor_unpack_freq buffer) (false, self, _ptr) fun v buffer =>
  let self := { self with fc := v }
  SUSCAN_UNPACK (cbor_unpack_float buffer) (false, self, _ptr) fun v buffer =>
  let self := { self with N0 := v }
  SUSCAN_UNPACK (cbor_unpack_uint64 buffer) (false, self, _ptr) fun v buffer =>
  let self := { self with samp_rate := v }
  SUSCAN_UNPACK (suscan_unpack_compact_float_array buffer) (false, self, _ptr)
    fun v buffer =>
  let self := { self with spectrum_data := v.1, spectrum_size := v.2 }
  (true, self, buffer)

/-- SET_FREQ tail, msg.c:580. -/
def suscan_analyzer_inspector_msg_serialize_set_freq (buffer : grow_buf_t)
    (self : suscan_analyzer_inspector_msg) : Bool × grow_buf_t :=
  SUSCAN_PACK (cbor_pack_freq buffer self.channel.fc) buffer fun buffer =>
  SUSCAN_PACK (cbor_pack_freq buffer self.channel.ft) buffer fun buffer =>
  (true, buffer)

/-- SET_FREQ tail, msg.c:593. -/
def suscan_analyzer_inspector_msg_deserialize_set_freq (buffer : grow_buf_t)
    (self : suscan_analyzer_inspector_msg) :
    Bool × suscan_analyzer_inspector_msg × grow_buf_t :=
  let _ptr := buffer
  SUSCAN_UNPACK (cbor_unpack_freq buffer) (false, self, _ptr) fun v buffer =>
  let self := { self with channel := { self.channel with fc := v } }
  SUSCAN_UNPACK (cbor_unpack_freq buffer) (false, self, _ptr) fun v buffer =>
  let self := { self with channel := { self.channel with ft := v } }
  (true, self, buffer)

/-- SET_BANDWIDTH tail, msg.c:606. -/
def suscan_analyzer_inspector_msg_serialize_set_bandwidth (buffer : grow_buf_t)
    (self : suscan_analyzer_inspector_msg) : Bool × grow_buf_t :=
  SUSCAN_PACK (cbor_pack_float buffer self.channel.bw) buffer fun buffer =>
  (true, buffer)

/-- SET_BANDWIDTH tail, msg.c:618. -/
def suscan_analyzer_inspector_msg_deserialize_set_bandwidth (buffer : grow_buf_t)
    (self : suscan_analyzer_inspector_msg) :
    Bool × suscan_analyzer_inspector_msg × grow_buf_t :=
  let _ptr := buffer
  SUSCAN_UNPACK (cbor_unpack_float buffer) (false, self, _ptr) fun v buffer =>
  let self := { self with channel := { self.channel with bw := v } }
  (true, self, buffer)

/-- SET_WATERMARK tail, msg.c:630. -/
def suscan_analyzer_inspector_msg_serialize_set_watermark (buffer : grow_buf_t)
    (self : suscan_analyzer_inspector_msg) : Bool × grow_buf_t :=
  SUSCAN_PACK (cbor_pack_uint buffer self.watermark) buffer fun buffer =>
  (true, buffer)

/-- SET_WATERMARK tail, msg.c:642. -/
def suscan_analyzer_inspector_msg_deserialize_set_watermark (buffer : grow_buf_t)
    (self : suscan_analyzer_inspector_msg) :
    Bool × suscan_analyzer_inspector_msg × grow_buf_t :=
  let _ptr := buffer
  SUSCAN_UNPACK (cbor_unpack_uint64 buffer) (false, self, _ptr) fun v buffer =>
  let self := { self with watermark := v }
  (true, self, buffer)

/-- SET_TLE tail, msg.c:654: the flag and, only when it is set, the orbit. -/
def suscan_analyzer_inspector_msg_serialize_set_tle (buffer : grow_buf_t)
    (self : suscan_analyzer_inspector_msg) : Bool × grow_buf_t :=
  SUSCAN_PACK (cbor_pack_bool buffer self.tle_enable) buffer fun buffer =>
  if self.tle_enable then
    SUSCAN_PACK (cbor_pack_str buffer self.tle_orbit.name) buffer fun buffer =>
    SUSCAN_PACK (cbor_pack_int buffer self.tle_orbit.ep_year) buffer fun buffer =>
    SUSCAN_PACK (cbor_pack_double buffer self.tle_orbit.ep_day) buffer fun buffer =>
    SUSCAN_PACK (cbor_pack_double buffer self.tle_orbit.rev) buffer fun buffer =>
    SUSCAN_PACK (cbor_pack_double buffer self.tle_orbit.drevdt) buffer fun buffer =>
    SUSCAN_PACK (cbor_pack_double buffer self.tle_orbit.d2revdt2) buffer fun buffer =>
    SUSCAN_PACK (cbor_pack_double buffer self.tle_orbit.bstar) buffer fun buffer =>
    SUSCAN_PACK (cbor_pack_double buffer self.tle_orbit.eqinc) buffer fun buffer =>
    SUSCAN_PACK (cbor_pack_double buffer self.tle_orbit.ecc) buffer fun buffer =>
    SUSCAN_PACK (cbor_pack_double buffer self.tle_orbit.mnan) buffer fun buffer =>
    SUSCAN_PACK (cbor_pack_double buffer self.tle_orbit.argp) buffer fun buffer =>
    SUSCAN_PACK (cbor_pack_double buffer self.tle_orbit.ascn) buffer fun buffer =>
    SUSCAN_PACK (cbor_pack_double buffer self.tle_orbit.smjaxs) buffer fun buffer =>
    SUSCAN_PACK (cbor_pack_int buffer self.tle_orbit.norb) buffer fun buffer =>
    SUSCAN_PACK (cbor_pack_int buffer self.tle_orbit.satno) buffer fun buffer =>
    (true, buffer)
  else (true, buffer)

/-- SET_TLE tail, msg.c:684. -/
def suscan_analyzer_inspector_msg_deserialize_set_tle (buffer : grow_buf_t)
    (self : suscan_analyzer_inspector_msg) :
    Bool × suscan_analyzer_inspector_msg × grow_buf_t :=
  let _ptr := buffer
  SUSCAN_UNPACK (cbor_unpack_bool buffer) (false, self, _ptr) fun v buffer =>
  let self := { self with tle_enable := v }
  if self.tle_enable then
    SUSCAN_UNPACK (cbor_unpack_str buffer) (false, self, _ptr) fun v buffer =>
    let self := { self with tle_orbit := { self.tle_orbit with name := some v } }
    SUSCAN_UNPACK (cbor_unpack_int32 buffer) (false, self, _ptr) fun v buffer =>
    let self := { self with tle_orbit := { self.tle_orbit with ep_year := v } }
    SUSCAN_UNPACK (cbor_unpack_double buffer) (false, self, _ptr) fun v buffer =>
    let self := { self with tle_orbit := { self.tle_orbit with ep_day := v } }
    SUSCAN_UNPACK (cbor_unpack_double buffer) (false, self, _ptr) fun v buffer =>
    let self := { self with tle_orbit := { self.tle_orbit with rev := v } }
    SUSCAN_UNPACK (cbor_unpack_double buffer) (false, self, _ptr) fun v buffer =>
    let self := { self with tle_orbit := { self.tle_orbit with drevdt := v } }
    SUSCAN_UNPACK (cbor_unpack_double buffer) (false, self, _ptr) fun v buffer =>
    let self := { self with tle_orbit := { self.tle_orbit with d2revdt2 := v } }
    SUSCAN_UNPACK (cbor_unpack_double buffer) (false, self, _ptr) fun v buffer =>
    let self := { self with tle_orbit := { self.tle_orbit with bstar := v } }
    SUSCAN_UNPACK (cbor_unpack_double buffer) (false, self, _ptr) fun v buffer =>
    let self := { self with tle_orbit := { self.tle_orbit with eqinc := v } }
    SUSCAN_UNPACK (cbor_unpack_double buffer) (false, self, _ptr) fun v buffer =>
    let self := { self with tle_orbit := { self.tle_orbit with ecc := v } }
    SUSCAN_UNPACK (cbor_unpack_double buffer) (false, self, _ptr) fun v buffer =>
    let self := { self with tle_orbit := { self.tle_orbit with mnan := v } }
    SUSCAN_UNPACK (cbor_unpack_double buffer) (false, self, _ptr) fun v buffer =>
    let self := { self with tle_orbit := { self.tle_orbit with argp := v } }
    SUSCAN_UNPACK (cbor_unpack_double buffer) (false, self, _ptr) fun v buffer =>
    let self := { self with tle_orbit := { self.tle_orbit with ascn := v } }
    SUSCAN_UNPACK (cbor_unpack_double buffer) (false, self, _ptr) fun v buffer =>
    let self := { self with tle_orbit := { self.tle_orbit with smjaxs := v } }
    SUSCAN_UNPACK (cbor_unpack_int64 buffer) (false, self, _ptr) fun v buffer =>
    let self := { self with tle_orbit := { self.tle_orbit with norb := v } }
    SUSCAN_UNPACK (cbor_unpack_int32 buffer) (false, self, _ptr) fun v buffer =>
    let self := { self with tle_orbit := { self.tle_orbit with satno := v } }
    (true, self, buffer)
  else (true, self, buffer)

/-- ORBIT_REPORT tail, msg.c:714. -/
def suscan_analyzer_inspector_msg_serialize_orbit_report (buffer : grow_buf_t)
    (self : suscan_analyzer_inspector_msg) : Bool × grow_buf_t :=
  SUSCAN_PACK (cbor_pack_uint buffer (u64 self.orbit_report.rx_time.tv_sec)) buffer
    fun buffer =>
  SUSCAN_PACK (cbor_pack_uint buffer (u64 self.orbit_report.rx_time.tv_usec)) buffer
    fun buffer =>
  SUSCAN_PACK (cbor_pack_double buffer self.orbit_report.satpos.azimuth) buffer fun buffer =>
  SUSCAN_PACK (cbor_pack_double buffer self.orbit_report.satpos.elevation) buffer
    fun buffer =>
  SUSCAN_PACK (cbor_pack_double buffer self.orbit_report.satpos.distance) buffer fun buffer =>
  SUSCAN_PACK (cbor_pack_float buffer self.orbit_report.freq_corr) buffer fun buffer =>
  SUSCAN_PACK (cbor_pack_double buffer self.orbit_report.vlos_vel) buffer fun buffer =>
  (true, buffer)

/-- ORBIT_REPORT tail, msg.c:734. -/
def suscan_analyzer_inspector_msg_deserialize_orbit_report (buffer : grow_buf_t)
    (self : suscan_analyzer_inspector_msg) :
    Bool × suscan_analyzer_inspector_msg × grow_buf_t :=
  let _ptr := buffer
  SUSCAN_UNPACK (cbor_unpack_uint64 buffer) (false, self, _ptr) fun tv_sec buffer =>
  SUSCAN_UNPACK (cbor_unpack_uint32 buffer) (false, self, _ptr) fun tv_usec buffer =>
  let self := { self with orbit_report :=
    { self.orbit_report with rx_time := ⟨i64 tv_sec, (tv_usec : Int)⟩ } }
  SUSCAN_UNPACK (cbor_unpack_double buffer) (false, self, _ptr) fun v buffer =>
  let self := { self with orbit_report :=
    { self.orbit_report with satpos := { self.orbit_report.satpos with azimuth := v } } }
  SUSCAN_UNPACK (cbor_unpack_double buffer) (false, self, _ptr) fun v buffer =>
  let self := { self with orbit_report :=
    { self.orbit_report with satpos := { self.orbit_report.satpos with elevation := v } } }
  SUSCAN_UNPACK (cbor_unpack_double buffer) (false, self, _ptr) fun v buffer =>
  let self := { self with orbit_report :=
    { self.orbit_report with satpos := { self.orbit_report.satpos with distance := v } } }
  SUSCAN_UNPACK (cbor_unpack_float buffer) (false, self, _ptr) fun v buffer =>
  let self := { self with orbit_report := { self.orbit_report with freq_corr := v } }
  SUSCAN_UNPACK (cbor_unpack_double buffer) (false, self, _ptr) fun v buffer =>
  let self := { self with orbit_report := { self.orbit_report with vlos_vel := v } }
  (true, self, buffer)

/-- SIGNAL tail, msg.c:759. -/
def suscan_analyzer_inspector_msg_serialize_signal (buffer : grow_buf_t)
    (self : suscan_analyzer_inspector_msg) : Bool × grow_buf_t :=
  SUSCAN_PACK (cbor_pack_str buffer self.signal_name) buffer fun buffer =>
  SUSCAN_PACK (cbor_pack_double buffer self.signal_value) buffer fun buffer =>
  (true, buffer)

/-- SIGNAL tail, msg.c:772. -/
def suscan_analyzer_inspector_msg_deserialize_signal (buffer : grow_buf_t)
    (self : suscan_analyzer_inspector_msg) :
    Bool × suscan_analyzer_inspector_msg × grow_buf_t :=
  let _ptr := buffer
  SUSCAN_UNPACK (cbor_unpack_str buffer) (false, self, _ptr) fun v buffer =>
  let self := { self with signal_name := some v }
  SUSCAN_UNPACK (cbor_unpack_double buffer) (false, self, _ptr) fun v buffer =>
  let self := { self with signal_value := v }
  (true, self, buffer)

/-- The kinds whose tail is empty, msg.c:858 and msg.c:958. -/
def is_empty_kind (kind : Int) : Bool :=
  decide (kind = SUSCAN_ANALYZER_INSPECTOR_MSGKIND_NOOP
    ∨ kind = SUSCAN_ANALYZER_INSPECTOR_MSGKIND_SET_ID
    ∨ kind = SUSCAN_ANALYZER_INSPECTOR_MSGKIND_GET_CONFIG
    ∨ kind = SUSCAN_ANALYZER_INSPECTOR_MSGKIND_RESET_EQUALIZER
    ∨ kind = SUSCAN_ANALYZER_INSPECTOR_MSGKIND_CLOSE
    ∨ kind = SUSCAN_ANALYZER_INSPECTOR_MSGKIND_WRONG_HANDLE
    ∨ kind = SUSCAN_ANALYZER_INSPECTOR_MSGKIND_WRONG_OBJECT
    ∨ kind = SUSCAN_ANALYZER_INSPECTOR_MSGKIND_INVALID_ARGUMENT
    ∨ kind = SUSCAN_ANALYZER_INSPECTOR_MSGKIND_WRONG_KIND
    ∨ kind = SUSCAN_ANALYZER_INSPECTOR_MSGKIND_INVALID_CHANNEL
    ∨ kind = SUSCAN_ANALYZER_INSPECTOR_MSGKIND_INVALID_CORRECTION)

/-- The `switch (self->kind)` of the inspector serializer, msg.c:798. The SIGNAL
case has no `break` and runs into the cases of the empty messages, which only
break. -/
def suscan_analyzer_inspector_msg_serialize_switch (w : config_state)
    (self : suscan_analyzer_inspector_msg) (buffer : grow_buf_t) : Bool × grow_buf_t :=
  if self.kind = SUSCAN_ANALYZER_INSPECTOR_MSGKIND_OPEN then
    SU_TRY_PACK (suscan_analyzer_inspector_msg_serialize_open w buffer self) fun buffer =>
    (true, buffer)
  else if self.kind = SUSCAN_ANALYZER_INSPECTOR_MSGKIND_SET_CONFIG then
    SU_TRY_PACK (suscan_analyzer_inspector_msg_serialize_config w buffer self) fun buffer =>
    (true, buffer)
  else if self.kind = SUSCAN_ANALYZER_INSPECTOR_MSGKIND_ESTIMATOR then
    SU_TRY_PACK (suscan_analyzer_inspector_msg_serialize_estimator buffer self) fun buffer =>
    (true, buffer)
  else if self.kind = SUSCAN_ANALYZER_INSPECTOR_MSGKIND_SPECTRUM then
    SU_TRY_PACK (suscan_analyzer_inspector_msg_serialize_spectrum buffer self) fun buffer =>
    (true, buffer)
  else if self.kind = SUSCAN_ANALYZER_INSPECTOR_MSGKIND_SET_FREQ then
    SU_TRY_PACK (suscan_analyzer_inspector_msg_serialize_set_freq buffer self) fun buffer =>
    (true, buffer)
  else if self.kind = SUSCAN_ANALYZER_INSPECTOR_MSGKIND_SET_BANDWIDTH then
    SU_TRY_PACK (suscan_analyzer_inspector_msg_serialize_set_bandwidth buffer self)
      fun buffer =>
    (true, buffer)
  else if self.kind = SUSCAN_ANALYZER_INSPECTOR_MSGKIND_SET_WATERMARK then
    SU_TRY_PACK (suscan_analyzer_inspector_msg_serialize_set_watermark buffer self)
      fun buffer =>
    (true, buffer)
  else if self.kind = SUSCAN_ANALYZER_INSPECTOR_MSGKIND_SET_TLE then
    SU_TRY_PACK (suscan_analyzer_inspector_msg_serialize_set_tle buffer self) fun buffer =>
    (true, buffer)
  else if self.kind = SUSCAN_ANALYZER_INSPECTOR_MSGKIND_ORBIT_REPORT then
    SU_TRY_PACK (suscan_analyzer_inspector_msg_serialize_orbit_report buffer self)
      fun buffer =>
    (true, buffer)
  else if self.kind = SUSCAN_ANALYZER_INSPECTOR_MSGKIND_SIGNAL then
    SU_TRY_PACK (suscan_analyzer_inspector_msg_serialize_signal buffer self) fun buffer =>
    (true, buffer)
  else if is_empty_kind self.kind then
    (true, buffer)
  else
    (false, buffer)

/-- Serializer of the inspector message, msg.c:785: the common envelope, then the
tail selected by `kind`. -/
def suscan_analyzer_inspector_msg_serialize (w : config_state)
    (self : suscan_analyzer_inspector_msg) (buffer : grow_buf_t) : Bool × grow_buf_t :=
  SUSCAN_PACK (cbor_pack_int buffer self.kind) buffer fun buffer =>
  SUSCAN_PACK (cbor_pack_int buffer (self.inspector_id : Int)) buffer fun buffer =>
  SUSCAN_PACK (cbor_pack_int buffer (self.req_id : Int)) buffer fun buffer =>
  SUSCAN_PACK (cbor_pack_int buffer (self.handle : Int)) buffer fun buffer =>
  SUSCAN_PACK (cbor_pack_int buffer self.status) buffer fun buffer =>
  SUSCAN_PACK (cbor_pack_uint buffer (u64 self.rt_time.tv_sec)) buffer fun buffer =>
  SUSCAN_PACK (cbor_pack_uint buffer (u64 self.rt_time.tv_usec)) buffer fun buffer =>
  suscan_analyzer_inspector_msg_serialize_switch w self buffer

/-- A tail deserializer that does not touch the registry, as a registry-passing
one. -/
def lift_tail (w : config_state)
    (r : Bool × suscan_analyzer_inspector_msg × grow_buf_t) :
    Bool × config_state × suscan_analyzer_inspector_msg × grow_buf_t :=
  (r.1, w, r.2.1, r.2.2)

/-- The `switch (self->kind)` of the inspector deserializer, msg.c:897. -/
def suscan_analyzer_inspector_msg_deserialize_switch (w : config_state)
    (self : suscan_analyzer_inspector_msg) (buffer : grow_buf_t) :
    Bool × config_state × suscan_analyzer_inspector_msg × grow_buf_t :=
  if self.kind = SUSCAN_ANALYZER_INSPECTOR_MSGKIND_OPEN then
    suscan_analyzer_inspector_msg_deserialize_open w buffer self
  else if self.kind = SUSCAN_ANALYZER_INSPECTOR_MSGKIND_SET_CONFIG then
    suscan_analyzer_inspector_msg_deserialize_config w buffer self
  else if self.kind = SUSCAN_ANALYZER_INSPECTOR_MSGKIND_ESTIMATOR then
    lift_tail w (suscan_analyzer_inspector_msg_deserialize_estimator buffer self)
  else if self.kind = SUSCAN_ANALYZER_INSPECTOR_MSGKIND_SPECTRUM then
    lift_tail w (suscan_analyzer_inspector_msg_deserialize_spectrum buffer self)
  else if self.kind = SUSCAN_ANALYZER_INSPECTOR_MSGKIND_SET_FREQ then
    lift_tail w (suscan_analyzer_inspector_msg_deserialize_set_freq buffer self)
  else if self.kind = SUSCAN_ANALYZER_INSPECTOR_MSGKIND_SET_BANDWIDTH then
    lift_tail w (suscan_analyzer_inspector_msg_deserialize_set_bandwidth buffer self)
  else if self.kind = SUSCAN_ANALYZER_INSPECTOR_MSGKIND_SET_WATERMARK then
    lift_tail w (suscan_analyzer_inspector_msg_deserialize_set_watermark buffer self)
  else if self.kind = SUSCAN_ANALYZER_INSPECTOR_MSGKIND_SET_TLE then
    lift_tail w (suscan_analyzer_inspector_msg_deserialize_set_tle buffer self)
  else if self.kind = SUSCAN_ANALYZER_INSPECTOR_MSGKIND_ORBIT_REPORT then
    lift_tail w (suscan_analyzer_inspector_msg_deserialize_orbit_report buffer self)
  else if self.kind = SUSCAN_ANALYZER_INSPECTOR_MSGKIND_SIGNAL then
    lift_tail w (suscan_analyzer_inspector_msg_deserialize_signal buffer self)
  else if is_empty_kind self.kind then
    (true, w, self, buffer)
  else
    (false, w, self, buffer)

/-- Deserializer of the inspector message, msg.c:880. -/
def suscan_analyzer_inspector_msg_deserialize (w : config_state)
    (self : suscan_analyzer_inspector_msg) (buffer : grow_buf_t) :
    Bool × config_state × suscan_analyzer_inspector_msg × grow_buf_t :=
  let _ptr := buffer
  SUSCAN_UNPACK (cbor_unpack_uint32 buffer) (false, w, self, _ptr) fun v buffer =>
  let self := { self with kind := i32 v }
  SUSCAN_UNPACK (cbor_unpack_uint32 buffer) (false, w, self, _ptr) fun v buffer =>
  let self := { self with inspector_id := v }
  SUSCAN_UNPACK (cbor_unpack_uint32 buffer) (false, w, self, _ptr) fun v buffer =>
  let self := { self with req_id := v }
  SUSCAN_UNPACK (cbor_unpack_uint32 buffer) (false, w, self, _ptr) fun v buffer =>
  let self := { self with handle := v }
  SUSCAN_UNPACK (cbor_unpack_int32 buffer) (false, w, self, _ptr) fun v buffer =>
  let self := { self with status := v }
  SUSCAN_UNPACK (cbor_unpack_uint64 buffer) (false, w, self, _ptr) fun tv_sec buffer =>
  SUSCAN_UNPACK (cbor_unpack_uint32 buffer) (false, w, self, _ptr) fun tv_usec buffer =>
  let self := { self with rt_time := ⟨i64 tv_sec, (tv_usec : Int)⟩ }
  match suscan_analyzer_inspector_msg_deserialize_switch w self buffer with
  | (false, w, self, _) => (false, w, self, _ptr)
  | (true, w, self, buffer) => (true, w, self, buffer)

/-- The zeroed channel element. -/
def sigutils_channel.zero : sigutils_channel :=
  { fc := 0, f_lo := 0, f_hi := 0, bw := 0, snr := 0, S0 := 0, N0 := 0, ft := 0,
    age := 0, present := 0 }

/-- The zeroed orbit. -/
def orbit_t.zero : orbit_t :=
  { name := none, ep_year := 0, ep_day := 0, rev := 0, drevdt := 0, d2revdt2 := 0,
    bstar := 0, eqinc := 0, ecc := 0, mnan := 0, argp := 0, ascn := 0, smjaxs := 0,
    norb := 0, satno := 0 }

/-- The zeroed orbit report. -/
def suscan_orbit_report.zero : suscan_orbit_report :=
  { rx_time := ⟨0, 0⟩, satpos := ⟨0, 0, 0⟩, freq_corr := 0, vlos_vel := 0 }

/-- Constructor of the inspector message, msg.c:980: zeroed by `calloc`, then the
kind, the request identifier and the current time. -/
def suscan_analyzer_inspector_msg_new (now : timeval) (kind : Int) (req_id : Nat) :
    suscan_analyzer_inspector_msg :=
  { kind := kind, inspector_id := 0, req_id := req_id, handle := 0, status := 0,
    rt_time := now, class_name := none, channel := sigutils_channel.zero, config := none,
    precise := false, fs := 0, equiv_fs := 0, bandwidth := 0, lo := 0,
    estimator_list := none, estimator_count := 0, spectsrc_list := none,
    spectsrc_count := 0, estimator_id := 0, enabled := false, value := 0,
    spectsrc_id := 0, spectrum_data := none, spectrum_size := 0, samp_rate := 0,
    fc := 0, N0 := 0, tle_enable := false, tle_orbit := orbit_t.zero,
    signal_name := none, signal_value := 0, orbit_report := suscan_orbit_report.zero,
    watermark := 0 }

/-! ## Generic message serialization (msg.c:1218) -/

/-- Message type tag of msg.h. -/
@[reducible, simp] def SUSCAN_ANALYZER_MESSAGE_TYPE_SOURCE_INFO : Nat := 0x0
/-- Message type tag of msg.h. -/
@[reducible, simp] def SUSCAN_ANALYZER_MESSAGE_TYPE_SOURCE_INIT : Nat := 0x1
/-- Message type tag of msg.h. -/
@[reducible, simp] def SUSCAN_ANALYZER_MESSAGE_TYPE_CHANNEL : Nat := 0x2
/-- Message type tag of msg.h. -/
@[reducible, simp] def SUSCAN_ANALYZER_MESSAGE_TYPE_EOS : Nat := 0x3
/-- Message type tag of msg.h. -/
@[reducible, simp] def SUSCAN_ANALYZER_MESSAGE_TYPE_READ_ERROR : Nat := 0x4
/-- Message type tag of msg.h. -/
@[reducible, simp] def SUSCAN_ANALYZER_MESSAGE_TYPE_INTERNAL : Nat := 0x5
/-- Message type tag of msg.h. -/
@[reducible, simp] def SUSCAN_ANALYZER_MESSAGE_TYPE_SAMPLES_LOST : Nat := 0x6
/-- Message type tag of msg.h. -/
@[reducible, simp] def SUSCAN_ANALYZER_MESSAGE_TYPE_INSPECTOR : Nat := 0x7
/-- Message type tag of msg.h. -/
@[reducible, simp] def SUSCAN_ANALYZER_MESSAGE_TYPE_PSD : Nat := 0x8
/-- Message type tag of msg.h. -/
@[reducible, simp] def SUSCAN_ANALYZER_MESSAGE_TYPE_SAMPLES : Nat := 0x9
/-- Message type tag of msg.h. -/
@[reducible, simp] def SUSCAN_ANALYZER_MESSAGE_TYPE_THROTTLE : Nat := 0xa
/-- Message type tag of msg.h. -/
@[reducible, simp] def SUSCAN_ANALYZER_MESSAGE_TYPE_PARAMS : Nat := 0xb
/-- Message type tag of msg.h. -/
@[reducible, simp] def SUSCAN_ANALYZER_MESSAGE_TYPE_GET_PARAMS : Nat := 0xc
/-- Message type tag of msg.h. -/
@[reducible, simp] def SUSCAN_ANALYZER_MESSAGE_TYPE_SEEK : Nat := 0xd
/-- Message type tag of msg.h. -/
@[reducible, simp] def SUSCAN_ANALYZER_MESSAGE_TYPE_HISTORY_SIZE : Nat := 0xe
/-- Message type tag of msg.h. -/
@[reducible, simp] def SUSCAN_ANALYZER_MESSAGE_TYPE_REPLAY : Nat := 0xf
/-- Invalid message, msg.h. -/
@[reducible, simp] def SUSCAN_ANALYZER_MESSAGE_TYPE_INVALID : Nat := 0x8000000

/-- Modelled from the spec: SourceInfo, an opaque bundle describing the source,
whose definition and codec are external. Its serializer follows the packer
discipline; the bundle is represented by the items that serializer appends
for it (`none` when it reports failure). -/
structure suscan_source_info where
  wire : Option (List cbor_item)
  deriving DecidableEq, Repr

/-- Modelled from the spec: the analyzer parameters, external like SourceInfo and
represented the same way. -/
structure suscan_analyzer_params where
  wire : Option (List cbor_item)
  deriving DecidableEq, Repr

/-- Modelled from the spec: `suscan_source_info_serialize`, external. -/
def suscan_source_info_serialize (self : suscan_source_info) (buffer : grow_buf_t) :
    Bool × grow_buf_t :=
  match self.wire with
  | none => (false, buffer)
  | some items => (true, buffer ++ items)

/-- Modelled from the spec: `suscan_analyzer_params_serialize`, external. -/
def suscan_analyzer_params_serialize (self : suscan_analyzer_params) (buffer : grow_buf_t) :
    Bool × grow_buf_t :=
  match self.wire with
  | none => (false, buffer)
  | some items => (true, buffer ++ items)

/-- Modelled from the spec: the external deserializers of SourceInfo and of the
analyzer parameters, as functions from the object to fill and the buffer to
the success flag, the object and the buffer after the call. -/
structure external_deserializers where
  suscan_source_info_deserialize :
    suscan_source_info → grow_buf_t → Bool × suscan_source_info × grow_buf_t
  suscan_analyzer_params_deserialize :
    suscan_analyzer_params → grow_buf_t → Bool × suscan_analyzer_params × grow_buf_t

/-- What the `void *ptr` of an envelope points to. `literal` is the string literal
that stands for the payload of GET_PARAMS. -/
inductive message where
  | source_info (m : suscan_source_info)
  | status (m : suscan_analyzer_status_msg)
  | channel (m : suscan_analyzer_channel_msg)
  | inspector (m : suscan_analyzer_inspector_msg)
  | psd (m : suscan_analyzer_psd_msg)
  | samples (m : suscan_analyzer_sample_batch_msg)
  | throttle (m : suscan_analyzer_throttle_msg)
  | params (m : suscan_analyzer_params)
  | seek (m : suscan_analyzer_seek_msg)
  | history_size (m : suscan_analyzer_history_size_msg)
  | replay (m : suscan_analyzer_replay_msg)
  | literal (s : cstr)
  deriving DecidableEq, Repr

/-- Generic serializer, msg.c:1219: the type, then the tail of the variant. The
switch has no default case. A pointer that is not of the variant the type
selects is outside the contract of the function and reported as a failure. -/
def suscan_analyzer_msg_serialize (w : config_state) (type : Nat) (ptr : message)
    (buffer : grow_buf_t) : Bool × grow_buf_t :=
  SUSCAN_PACK (cbor_pack_uint buffer type) buffer fun buffer =>
  if type = SUSCAN_ANALYZER_MESSAGE_TYPE_SOURCE_INFO then
    match ptr with
    | message.source_info m =>
      SU_TRY_PACK (suscan_source_info_serialize m buffer) fun buffer => (true, buffer)
    | _ => (false, buffer)
  else if type = SUSCAN_ANALYZER_MESSAGE_TYPE_READ_ERROR
      ∨ type = SUSCAN_ANALYZER_MESSAGE_TYPE_SOURCE_INIT
      ∨ type = SUSCAN_ANALYZER_MESSAGE_TYPE_EOS then
    match ptr with
    | message.status m =>
      SU_TRY_PACK (suscan_analyzer_status_msg_serialize m buffer) fun buffer => (true, buffer)
    | _ => (false, buffer)
  else if type = SUSCAN_ANALYZER_MESSAGE_TYPE_CHANNEL then
    (false, buffer)
  else if type = SUSCAN_ANALYZER_MESSAGE_TYPE_INSPECTOR then
    match ptr with
    | message.inspector m =>
      SU_TRY_PACK (suscan_analyzer_inspector_msg_serialize w m buffer) fun buffer =>
      (true, buffer)
    | _ => (false, buffer)
  else if type = SUSCAN_ANALYZER_MESSAGE_TYPE_PSD then
    match ptr with
    | message.psd m =>
      SU_TRY_PACK (suscan_analyzer_psd_msg_serialize m buffer) fun buffer => (true, buffer)
    | _ => (false, buffer)
  else if type = SUSCAN_ANALYZER_MESSAGE_TYPE_SAMPLES then
    match ptr with
    | message.samples m =>
      SU_TRY_PACK (suscan_analyzer_sample_batch_msg_serialize m buffer) fun buffer =>
      (true, buffer)
    | _ => (false, buffer)
  else if type = SUSCAN_ANALYZER_MESSAGE_TYPE_THROTTLE then
    match ptr with
    | message.throttle m =>
      SU_TRY_PACK (suscan_analyzer_throttle_msg_serialize m buffer) fun buffer =>
      (true, buffer)
    | _ => (false, buffer)
  else if type = SUSCAN_ANALYZER_MESSAGE_TYPE_PARAMS then
    match ptr with
    | message.params m =>
      SU_TRY_PACK (suscan_analyzer_params_serialize m buffer) fun buffer => (true, buffer)
    | _ => (false, buffer)
  else if type = SUSCAN_ANALYZER_MESSAGE_TYPE_SEEK then
    match ptr with
    | message.seek m =>
      SU_TRY_PACK (suscan_analyzer_seek_msg_serialize m buffer) fun buffer => (true, buffer)
    | _ => (false, buffer)
  else if type = SUSCAN_ANALYZER_MESSAGE_TYPE_GET_PARAMS then
    (true, buffer)
  else if type = SUSCAN_ANALYZER_MESSAGE_TYPE_HISTORY_SIZE then
    match ptr with
    | message.history_size m =>
      SU_TRY_PACK (suscan_analyzer_history_size_msg_serialize m buffer) fun buffer =>
      (true, buffer)
    | _ => (false, buffer)
  else if type = SUSCAN_ANALYZER_MESSAGE_TYPE_REPLAY then
    match ptr with
    | message.replay m =>
      SU_TRY_PACK (suscan_analyzer_replay_msg_serialize m buffer) fun buffer => (true, buffer)
    | _ => (false, buffer)
  else
    (true, buffer)

/-- Type peek, msg.c:1284: reads the leading type and nothing else. -/
def suscan_analyzer_msg_deserialize_partial (type : Nat) (buffer : grow_buf_t) :
    Bool × Nat × grow_buf_t :=
  let _ptr := buffer
  SUSCAN_UNPACK (cbor_unpack_uint32 buffer) (false, type, _ptr) fun v buffer =>
  (true, v, buffer)

/-- Outcome of `suscan_analyzer_msg_deserialize`: the returned flag, `*type` and
`*ptr` after the call, the object handed to `suscan_analyzer_dispose_message`
if any, the registry and the buffer. -/
structure deserialize_result where
  ok : Bool
  type : Nat
  ptr : Option message
  disposed : Option message
  w : config_state
  buffer : grow_buf_t
  deriving DecidableEq, Repr

/-- The string literal `"REMOTE"`. -/
def remote : cstr := [82, 69, 77, 79, 84, 69]

/-- Wraps the outcome of a variant deserializer that does not touch the
registry. -/
def variant_result {α : Type} (w : config_state) (mk : α → message)
    (r : Bool × α × grow_buf_t) : Bool × config_state × Option message × grow_buf_t :=
  (r.1, w, some (mk r.2.1), r.2.2)

/-- Generic deserializer, msg.c:1294. `type` and `ptr` are the contents of `*type`
and `*ptr` before the call and `now` is the clock the constructors read. -/
def suscan_analyzer_msg_deserialize (ext : external_deserializers) (now : timeval)
    (w : config_state) (type : Nat) (ptr : Option message) (buffer : grow_buf_t) :
    deserialize_result :=
  let _ptr := buffer
  match suscan_analyzer_msg_deserialize_partial type buffer with
  | (false, type, _) =>
    { ok := false, type := type, ptr := ptr, disposed := none, w := w, buffer := _ptr }
  | (true, type, buffer) =>
    let r : Bool × config_state × Option message × grow_buf_t :=
      if type = SUSCAN_ANALYZER_MESSAGE_TYPE_SOURCE_INFO then
        variant_result w message.source_info
          (ext.suscan_source_info_deserialize { wire := some [] } buffer)
      else if type = SUSCAN_ANALYZER_MESSAGE_TYPE_READ_ERROR
          ∨ type = SUSCAN_ANALYZER_MESSAGE_TYPE_SOURCE_INIT
          ∨ type = SUSCAN_ANALYZER_MESSAGE_TYPE_EOS then
        variant_result w message.status
          (suscan_analyzer_status_msg_deserialize
            (suscan_analyzer_status_msg_new 0 none) buffer)
      else if type = SUSCAN_ANALYZER_MESSAGE_TYPE_CHANNEL then
        (false, w, none, buffer)
      else if type = SUSCAN_ANALYZER_MESSAGE_TYPE_INSPECTOR then
        match suscan_analyzer_inspector_msg_deserialize w
            (suscan_analyzer_inspector_msg_new now 0 0) buffer with
        | (ok, w, m, buffer) => (ok, w, some (message.inspector m), buffer)
      else if type = SUSCAN_ANALYZER_MESSAGE_TYPE_PSD then
        variant_result w message.psd
          (suscan_analyzer_psd_msg_deserialize (suscan_analyzer_psd_msg_new_NULL now) buffer)
      else if type = SUSCAN_ANALYZER_MESSAGE_TYPE_SAMPLES then
        variant_result w message.samples
          (suscan_analyzer_sample_batch_msg_deserialize
            (suscan_analyzer_sample_batch_msg_new 0 none 0) buffer)
      else if type = SUSCAN_ANALYZER_MESSAGE_TYPE_THROTTLE then
        variant_result w message.throttle
          (suscan_analyzer_throttle_msg_deserialize { samp_rate := 0 } buffer)
      else if type = SUSCAN_ANALYZER_MESSAGE_TYPE_PARAMS then
        variant_result w message.params
          (ext.suscan_analyzer_params_deserialize { wire := some [] } buffer)
      else if type = SUSCAN_ANALYZER_MESSAGE_TYPE_SEEK then
        variant_result w message.seek
          (suscan_analyzer_seek_msg_deserialize { position := ⟨0, 0⟩ } buffer)
      else if type = SUSCAN_ANALYZER_MESSAGE_TYPE_GET_PARAMS then
        (true, w, some (message.literal remote), buffer)
      else if type = SUSCAN_ANALYZER_MESSAGE_TYPE_HISTORY_SIZE then
        variant_result w message.history_size
          (suscan_analyzer_history_size_msg_deserialize { buffer_length := 0 } buffer)
      else if type = SUSCAN_ANALYZER_MESSAGE_TYPE_REPLAY then
        variant_result w message.replay
          (suscan_analyzer_replay_msg_deserialize { replay := false } buffer)
      else
        (false, w, none, buffer)
    match r with
    | (true, w, msgptr, buffer) =>
      { ok := true, type := type, ptr := msgptr, disposed := none, w := w, buffer := buffer }
    | (false, w, msgptr, _) =>
      { ok := false, type := type, ptr := ptr, disposed := msgptr, w := w, buffer := _ptr }

/-! ## Expiry of perishable messages (msg.c:1649) -/

/-- Discardable messages that arrive later than this are expired, msg.h. -/
@[reducible, simp] def SUSCAN_ANALYZER_EXPIRE_DELTA_MS : Int := 50

/-- The `timersub` of the C library: difference of two time values with the
microseconds brought back to a non-negative count by one borrow. -/
def timersub (a b : timeval) : timeval :=
  let res : timeval := ⟨a.tv_sec - b.tv_sec, a.tv_usec - b.tv_usec⟩
  if res.tv_usec < 0 then ⟨res.tv_sec - 1, res.tv_usec + 1000000⟩ else res

/-- The `timercmp(a, b, >)` of the C library. -/
def timercmp_gt (a b : timeval) : Bool :=
  if a.tv_sec = b.tv_sec then decide (a.tv_usec > b.tv_usec)
  else decide (a.tv_sec > b.tv_sec)

/-- Modelled from the spec: the two members of `suscan_analyzer_t` that the expiry
test uses (analyzer.h is not part of the sources): whether the
implementation-to-realtime delta has been seeded, and that delta. -/
structure suscan_analyzer_t where
  have_impl_rt : Bool
  impl_rt_delta : timeval
  deriving DecidableEq, Repr

/-- The `rt_time` member read through `struct suscan_analyzer_psd_msg *`. A
pointer to another variant is outside the contract; it reads as zero. -/
def message.psd_rt_time : message → timeval
  | message.psd m => m.rt_time
  | _ => ⟨0, 0⟩

/-- The `rt_time` member read through `struct suscan_analyzer_inspector_msg *`. A
pointer to another variant is outside the contract; it reads as zero. -/
def message.insp_rt_time : message → timeval
  | message.inspector m => m.rt_time
  | _ => ⟨0, 0⟩

/-- The `kind` member read through `struct suscan_analyzer_inspector_msg *`. A
pointer to another variant is outside the contract; it reads as zero. -/
def message.insp_kind : message → Int
  | message.inspector m => m.kind
  | _ => 0

/-- Expiry test, msg.c:1649. `now` is the value `gettimeofday` yields; the result
is the returned flag and the analyzer after the call. -/
def suscan_analyzer_message_has_expired (self : suscan_analyzer_t) (now : timeval)
    (msg : message) (type : Nat) : Bool × suscan_analyzer_t :=
  let max_delta : timeval :=
    ⟨SUSCAN_ANALYZER_EXPIRE_DELTA_MS / 1000, (SUSCAN_ANALYZER_EXPIRE_DELTA_MS % 1000) * 1000⟩
  let sel : timeval × Bool :=
    if type = SUSCAN_ANALYZER_MESSAGE_TYPE_PSD then (msg.psd_rt_time, true)
    else if type = SUSCAN_ANALYZER_MESSAGE_TYPE_INSPECTOR then
      if msg.insp_kind = SUSCAN_ANALYZER_INSPECTOR_MSGKIND_SPECTRUM then
        (msg.insp_rt_time, true)
      else (⟨0, 0⟩, false)
    else (⟨0, 0⟩, false)
  let rttime := sel.1
  let timely_msg := sel.2
  if timely_msg then
    if !self.have_impl_rt then
      (false, { self with impl_rt_delta := timersub now rttime, have_impl_rt := true })
    else
      let diff := timersub now rttime
      let diff := timersub diff self.impl_rt_delta
      if timercmp_gt diff max_delta then (true, self) else (false, self)
  else (false, self)

/-! ## Well-formed values -/

/-- A value fits its C type: `int64_t`. -/
def is_int64 (x : Int) : Prop := -9223372036854775808 ≤ x ∧ x < 9223372036854775808

/-- A value fits its C type: `int32_t`. -/
def is_int32 (x : Int) : Prop := -2147483648 ≤ x ∧ x < 2147483648

/-- A value fits its C type: `uint32_t`, also the bit pattern of a single. -/
def is_uint32 (x : Nat) : Prop := x < 4294967296

/-- A value fits its C type: `uint64_t`, also the bit pattern of a double. -/
def is_uint64 (x : Nat) : Prop := x < 18446744073709551616

instance (x : Int) : Decidable (is_int64 x) := by unfold is_int64; infer_instance
instance (x : Int) : Decidable (is_int32 x) := by unfold is_int32; infer_instance
instance (x : Nat) : Decidable (is_uint32 x) := by unfold is_uint32; infer_instance
instance (x : Nat) : Decidable (is_uint64 x) := by unfold is_uint64; infer_instance

/-- A C string holds no NUL and only bytes. -/
def is_cstr (s : cstr) : Prop := ∀ b ∈ s, b ≠ 0 ∧ b < 256

/-- A time value that fits `struct timeval` and is valid. -/
def timeval.wf (t : timeval) : Prop := is_int64 t.tv_sec ∧ t.valid

/-- The first `n` elements behind an array pointer (none behind a null one). -/
def array_view {α : Type} (p : Option (List α)) (n : Nat) : List α := (p.getD []).take n

/-- An array pointer holds `n` elements. -/
def holds {α : Type} (p : Option (List α)) (n : Nat) : Prop := n ≤ (p.getD []).length

instance {α : Type} (p : Option (List α)) (n : Nat) : Decidable (holds p n) := by
  unfold holds; infer_instance

/-- A PSD message with valid field ranges: every field fits its C type, both time
values are valid and `psd_data` holds `psd_size` floats. -/
def suscan_analyzer_psd_msg.wf (v : suscan_analyzer_psd_msg) : Prop :=
  is_int64 v.fc ∧ is_uint32 v.inspector_id ∧ v.timestamp.wf ∧ v.rt_time.wf ∧
  is_uint64 v.history_size ∧ is_uint32 v.samp_rate ∧ is_uint32 v.measured_samp_rate ∧
  is_uint32 v.N0 ∧ holds v.psd_data v.psd_size ∧
  ∀ x ∈ array_view v.psd_data v.psd_size, is_uint32 x


/-- The items of a PSD message, in wire order. -/
def psd_items (v : suscan_analyzer_psd_msg) : List cbor_item :=
  [int_item v.fc, cbor_item.uint v.inspector_id, cbor_item.uint (u64 v.timestamp.tv_sec),
   cbor_item.uint (u64 v.timestamp.tv_usec), cbor_item.uint (u64 v.rt_time.tv_sec),
   cbor_item.uint (u64 v.rt_time.tv_usec), cbor_item.bool v.looped,
   cbor_item.uint v.history_size, cbor_item.single v.samp_rate,
   cbor_item.single v.measured_samp_rate, cbor_item.single v.N0,
   cbor_item.uint v.psd_size,
   cbor_item.blob (singles_to_le (array_view v.psd_data v.psd_size))]

/-! ## Concrete inputs -/

/-- External deserializers that reject everything. -/
def ext_none : external_deserializers :=
  { suscan_source_info_deserialize := fun s b => (false, s, b),
    suscan_analyzer_params_deserialize := fun s b => (false, s, b) }

/-- The empty process state: no descriptor object, empty registry. -/
def config_state.empty : config_state :=
  { heap := [], g_config_desc_list := [], errno := 0 }

/-- The PSD message of scenario S1: `fc = 100000000`, `psd = [1.0, 2.0, 3.0, 4.0]`,
`samp_rate = 2000000`, `N0 = -90.0`, `timestamp = (1700000000, 0)` and
`rt_time = (1700000000, 1000)`; floats as their bit patterns. -/
def S1_psd : suscan_analyzer_psd_msg :=
  { fc := 100000000, inspector_id := 0, timestamp := ⟨1700000000, 0⟩,
    rt_time := ⟨1700000000, 1000⟩, looped := false, history_size := 0,
    samp_rate := 0x49F42400, measured_samp_rate := 0, N0 := 0xC2B40000,
    psd_size := 4, psd_data := some [0x3F800000, 0x40000000, 0x40400000, 0x40800000] }


/-- A status message with a code that fits `int32_t` and a message string. -/
def suscan_analyzer_status_msg.wf (v : suscan_analyzer_status_msg) : Prop :=
  is_int32 v.code ∧ ∃ s, v.err_msg = some s ∧ is_cstr s

/-- A sample batch whose fields fit their C types and whose buffer holds
`sample_count` samples. -/
def suscan_analyzer_sample_batch_msg.wf (v : suscan_analyzer_sample_batch_msg) : Prop :=
  is_uint32 v.inspector_id ∧ holds v.samples v.sample_count ∧
  ∀ x ∈ array_view v.samples v.sample_count, is_uint32 x.1 ∧ is_uint32 x.2

/-- The status message of the witnesses: code -1, message "EOS". -/
def status_example : suscan_analyzer_status_msg :=
  { code := -1, err_msg := some [69, 79, 83], sender := some 7 }

/-- A sample batch of two samples. -/
def samples_example : suscan_analyzer_sample_batch_msg :=
  { inspector_id := 3, samples := some [(0x3F800000, 0), (0, 0xBF800000)], sample_count := 2 }


/-- Microseconds of a time value. -/
def timeval.us (t : timeval) : Int := t.tv_sec * 1000000 + t.tv_usec

/-- The envelope `(type, msg)` is not a timely message: its type is neither PSD nor
Inspector, or it is an Inspector message whose kind is not SPECTRUM. -/
def untimely (msg : message) (type : Nat) : Prop :=
  (type ≠ SUSCAN_ANALYZER_MESSAGE_TYPE_PSD ∧ type ≠ SUSCAN_ANALYZER_MESSAGE_TYPE_INSPECTOR) ∨
  (type = SUSCAN_ANALYZER_MESSAGE_TYPE_INSPECTOR ∧
    ∃ m, msg = message.inspector m ∧ m.kind ≠ SUSCAN_ANALYZER_INSPECTOR_MSGKIND_SPECTRUM)

/-- The recognized kinds that carry no configuration object: the empty kinds
(NOOP, SET_ID, GET_CONFIG, RESET_EQUALIZER, CLOSE and the six error kinds) and
ESTIMATOR, SPECTRUM, SET_FREQ, SET_BANDWIDTH, SET_WATERMARK, SET_TLE,
ORBIT_REPORT and SIGNAL. -/
def no_config_kind (k : Int) : Prop :=
  k = SUSCAN_ANALYZER_INSPECTOR_MSGKIND_NOOP
  ∨ k = SUSCAN_ANALYZER_INSPECTOR_MSGKIND_SET_ID
  ∨ k = SUSCAN_ANALYZER_INSPECTOR_MSGKIND_GET_CONFIG
  ∨ k = SUSCAN_ANALYZER_INSPECTOR_MSGKIND_RESET_EQUALIZER
  ∨ k = SUSCAN_ANALYZER_INSPECTOR_MSGKIND_CLOSE
  ∨ k = SUSCAN_ANALYZER_INSPECTOR_MSGKIND_WRONG_HANDLE
  ∨ k = SUSCAN_ANALYZER_INSPECTOR_MSGKIND_WRONG_OBJECT
  ∨ k = SUSCAN_ANALYZER_INSPECTOR_MSGKIND_INVALID_ARGUMENT
  ∨ k = SUSCAN_ANALYZER_INSPECTOR_MSGKIND_WRONG_KIND
  ∨ k = SUSCAN_ANALYZER_INSPECTOR_MSGKIND_INVALID_CHANNEL
  ∨ k = SUSCAN_ANALYZER_INSPECTOR_MSGKIND_INVALID_CORRECTION
  ∨ k = SUSCAN_ANALYZER_INSPECTOR_MSGKIND_ESTIMATOR
  ∨ k = SUSCAN_ANALYZER_INSPECTOR_MSGKIND_SPECTRUM
  ∨ k = SUSCAN_ANALYZER_INSPECTOR_MSGKIND_SET_FREQ
  ∨ k = SUSCAN_ANALYZER_INSPECTOR_MSGKIND_SET_BANDWIDTH
  ∨ k = SUSCAN_ANALYZER_INSPECTOR_MSGKIND_SET_WATERMARK
  ∨ k = SUSCAN_ANALYZER_INSPECTOR_MSGKIND_SET_TLE
  ∨ k = SUSCAN_ANALYZER_INSPECTOR_MSGKIND_ORBIT_REPORT
  ∨ k = SUSCAN_ANALYZER_INSPECTOR_MSGKIND_SIGNAL

/-- The common envelope of an inspector message holds values of its C types and a
valid real-time stamp. -/
def suscan_analyzer_inspector_msg.wf_header (v : suscan_analyzer_inspector_msg) : Prop :=
  is_uint32 v.inspector_id ∧ is_uint32 v.req_id ∧ is_uint32 v.handle ∧ is_int32 v.status ∧
  v.rt_time.wf

/-- The orbit of an enabled SET_TLE holds a name and integers of their C types. -/
def orbit_t.wf (o : orbit_t) : Prop :=
  (∃ s, o.name = some s ∧ is_cstr s) ∧ is_int32 o.ep_year ∧ is_int64 o.norb ∧
  is_int32 o.satno

/-- The fields of the tail selected by `kind` hold values of their C types: present
strings, valid time values, an array that holds `spectrum_size` floats. -/
def suscan_analyzer_inspector_msg.wf_tail (v : suscan_analyzer_inspector_msg) : Prop :=
  (v.kind = SUSCAN_ANALYZER_INSPECTOR_MSGKIND_ESTIMATOR → is_uint32 v.estimator_id) ∧
  (v.kind = SUSCAN_ANALYZER_INSPECTOR_MSGKIND_SPECTRUM →
    is_uint32 v.spectsrc_id ∧ is_int64 v.fc ∧ holds v.spectrum_data v.spectrum_size ∧
    ∀ x ∈ array_view v.spectrum_data v.spectrum_size, is_uint32 x) ∧
  (v.kind = SUSCAN_ANALYZER_INSPECTOR_MSGKIND_SET_FREQ →
    is_int64 v.channel.fc ∧ is_int64 v.channel.ft) ∧
  (v.kind = SUSCAN_ANALYZER_INSPECTOR_MSGKIND_SET_TLE → v.tle_enable = true →
    v.tle_orbit.wf) ∧
  (v.kind = SUSCAN_ANALYZER_INSPECTOR_MSGKIND_ORBIT_REPORT → v.orbit_report.rx_time.wf) ∧
  (v.kind = SUSCAN_ANALYZER_INSPECTOR_MSGKIND_SIGNAL →
    ∃ s, v.signal_name = some s ∧ is_cstr s)

/-- Two inspector messages agree on the common envelope. -/
def header_eq (m v : suscan_analyzer_inspector_msg) : Prop :=
  m.kind = v.kind ∧ m.inspector_id = v.inspector_id ∧ m.req_id = v.req_id ∧
  m.handle = v.handle ∧ m.status = v.status ∧ m.rt_time = v.rt_time

/-- Two inspector messages agree on every field of the tail selected by the kind of
`v`, as listed in the table of section 4.3: for SET_TLE the flag and, if it is
set, the 15 orbit fields; for SPECTRUM the array compared element by element. -/
def arm_eq (m v : suscan_analyzer_inspector_msg) : Prop :=
  (v.kind = SUSCAN_ANALYZER_INSPECTOR_MSGKIND_ESTIMATOR →
    m.estimator_id = v.estimator_id ∧ m.enabled = v.enabled ∧ m.value = v.value) ∧
  (v.kind = SUSCAN_ANALYZER_INSPECTOR_MSGKIND_SPECTRUM →
    m.spectsrc_id = v.spectsrc_id ∧ m.fc = v.fc ∧ m.N0 = v.N0 ∧ m.samp_rate = v.samp_rate ∧
    m.spectrum_size = v.spectrum_size ∧
    array_view m.spectrum_data m.spectrum_size
      = array_view v.spectrum_data v.spectrum_size) ∧
  (v.kind = SUSCAN_ANALYZER_INSPECTOR_MSGKIND_SET_FREQ →
    m.channel.fc = v.channel.fc ∧ m.channel.ft = v.channel.ft) ∧
  (v.kind = SUSCAN_ANALYZER_INSPECTOR_MSGKIND_SET_BANDWIDTH → m.channel.bw = v.channel.bw) ∧
  (v.kind = SUSCAN_ANALYZER_INSPECTOR_MSGKIND_SET_WATERMARK → m.watermark = v.watermark) ∧
  (v.kind = SUSCAN_ANALYZER_INSPECTOR_MSGKIND_SET_TLE →
    m.tle_enable = v.tle_enable ∧ (v.tle_enable = true → m.tle_orbit = v.tle_orbit)) ∧
  (v.kind = SUSCAN_ANALYZER_INSPECTOR_MSGKIND_ORBIT_REPORT →
    m.orbit_report = v.orbit_report) ∧
  (v.kind = SUSCAN_ANALYZER_INSPECTOR_MSGKIND_SIGNAL →
    m.signal_name = v.signal_name ∧ m.signal_value = v.signal_value)

/-- The items of the common envelope, in wire order. -/
def inspector_header_items (v : suscan_analyzer_inspector_msg) : List cbor_item :=
  [int_item v.kind, cbor_item.uint v.inspector_id, cbor_item.uint v.req_id,
   cbor_item.uint v.handle, int_item v.status, cbor_item.uint (u64 v.rt_time.tv_sec),
   cbor_item.uint (u64 v.rt_time.tv_usec)]

/-- The items of the orbit of SET_TLE, in wire order. -/
def orbit_items (o : orbit_t) : List cbor_item :=
  [cbor_item.text (o.name.getD []), int_item o.ep_year, cbor_item.double o.ep_day,
   cbor_item.double o.rev, cbor_item.double o.drevdt, cbor_item.double o.d2revdt2,
   cbor_item.double o.bstar, cbor_item.double o.eqinc, cbor_item.double o.ecc,
   cbor_item.double o.mnan, cbor_item.double o.argp, cbor_item.double o.ascn,
   cbor_item.double o.smjaxs, int_item o.norb, int_item o.satno]

/-- An inspector message of a given kind with every other field zeroed. -/
def inspector_of_kind (kind : Int) : suscan_analyzer_inspector_msg :=
  suscan_analyzer_inspector_msg_new ⟨0, 0⟩ kind 0


/-- The message `m0` with the common envelope of `v`. -/
def with_header (m0 v : suscan_analyzer_inspector_msg) : suscan_analyzer_inspector_msg :=
  { m0 with kind := v.kind, inspector_id := v.inspector_id, req_id := v.req_id,
            handle := v.handle, status := v.status, rt_time := v.rt_time }


/-- A SIGNAL message: signal "SNR" with the value 12.5 (as a double). -/
def signal_example : suscan_analyzer_inspector_msg :=
  { inspector_of_kind SUSCAN_ANALYZER_INSPECTOR_MSGKIND_SIGNAL with
    inspector_id := 3, req_id := 9, handle := 7, status := -1,
    rt_time := ⟨1700000000, 1000⟩,
    signal_name := some [83, 78, 82], signal_value := 0x4029000000000000 }


/-! ## Configurations: the wire image and what decoding assigns -/

/-- The item the serializer writes for the value of a field, by declared type. -/
def value_item (f : suscan_field) (v : suscan_field_value) : cbor_item :=
  match f.type with
  | SUSCAN_FIELD_TYPE_BOOLEAN => cbor_item.bool v.as_bool
  | SUSCAN_FIELD_TYPE_FILE => cbor_item.text v.as_string
  | SUSCAN_FIELD_TYPE_STRING => cbor_item.text v.as_string
  | SUSCAN_FIELD_TYPE_FLOAT => cbor_item.single v.as_float
  | SUSCAN_FIELD_TYPE_INTEGER => int_item (i64 v.as_int)

/-- The key/value pairs of a configuration, in descriptor order. -/
def field_items : List suscan_field → List suscan_field_value → List cbor_item
  | f :: fs, v :: vs => cbor_item.text f.name :: value_item f v :: field_items fs vs
  | _, _ => []

/-- The items of a configuration: global name, map header, pairs. -/
def config_items (d : suscan_config_desc) (vals : List suscan_field_value) :
    List cbor_item :=
  cbor_item.text (d.global_name.getD []) :: cbor_item.map_start d.field_list.length ::
    field_items d.field_list vals

/-- The value object `z` of a field after the decoder has assigned it the value
that `v` holds for that field: the member of the declared type is copied, and
every setter but the float one marks the value as set. -/
def assigned (f : suscan_field) (v z : suscan_field_value) : suscan_field_value :=
  match f.type with
  | SUSCAN_FIELD_TYPE_BOOLEAN => { z with as_bool := v.as_bool, set := true }
  | SUSCAN_FIELD_TYPE_FILE => { z with as_string := v.as_string, set := true }
  | SUSCAN_FIELD_TYPE_STRING => { z with as_string := v.as_string, set := true }
  | SUSCAN_FIELD_TYPE_FLOAT => { z with as_float := v.as_float }
  | SUSCAN_FIELD_TYPE_INTEGER => { z with as_int := v.as_int, set := true }

/-- The values of a freshly bound configuration after every field has been
assigned from `vals`. -/
def decoded_values : List suscan_field → List suscan_field_value → List suscan_field_value
  | f :: fs, v :: vs => assigned f v (suscan_field_value.zero f) :: decoded_values fs vs
  | _, _ => []

/-- The value of a field fits the wire: a string without NUL, an integer of 64
bits. -/
def value_ok (f : suscan_field) (v : suscan_field_value) : Prop :=
  (f.type = SUSCAN_FIELD_TYPE_STRING → is_cstr v.as_string) ∧
  (f.type = SUSCAN_FIELD_TYPE_INTEGER → is_uint64 v.as_int)

/-- Values fit the wire, field by field. -/
def values_ok : List suscan_field → List suscan_field_value → Prop
  | f :: fs, v :: vs => value_ok f v ∧ values_ok fs vs
  | [], [] => True
  | _, _ => False

/-- The configuration `c` is bound to the descriptor `d` at address `p`, which is
the registered descriptor of its non-empty global name `n`; the field names
are strings, pairwise distinct (as `suscan_config_desc_add_field` ensures),
no field has type file, and `c` holds one value per field that fits the
wire. -/
def config_bound (w : config_state) (c : suscan_config) (p : Nat) (d : suscan_config_desc)
    (n : cstr) (vals : List suscan_field_value) : Prop :=
  c.desc = some p ∧ w.deref p = some d ∧ c.values = some vals ∧
  d.global_name = some n ∧ n ≠ [] ∧ is_cstr n ∧
  suscan_config_desc_lookup w (some n) = some p ∧
  (d.field_list.map fun f => f.name).Nodup ∧
  (∀ f ∈ d.field_list, is_cstr f.name ∧ f.type ≠ SUSCAN_FIELD_TYPE_FILE) ∧
  values_ok d.field_list vals


/-- The name `"cfg"` of the descriptor of the file example. -/
def file_desc_name : cstr := [0x63, 0x66, 0x67]

/-- The field `"path"` of type file of the file example. -/
def file_field : suscan_field :=
  { type := SUSCAN_FIELD_TYPE_FILE, optional := false, name := [0x70, 0x61, 0x74, 0x68],
    desc := [] }

/-- The process state after `suscan_config_desc_new_ex("cfg")`, the addition of the
field `"path"` of type file and `suscan_config_desc_register`: one registered
descriptor at address 0. -/
def file_world : config_state :=
  { heap := [some { global_name := some file_desc_name, registered := true,
                    field_list := [file_field] }],
    g_config_desc_list := [0], errno := 0 }

/-- The configuration bound to the descriptor `"cfg"` after
`suscan_config_set_file(cfg, "path", "a")`. -/
def file_config : suscan_config :=
  { desc := some 0,
    values := some [{ set := true, field := some file_field, as_int := 0, as_float := 0,
                      as_bool := false, as_string := [0x61] }] }

/-- The serialization of `file_config`: the name of the descriptor, a map of one
pair, the name of the field and its value. -/
def file_config_items : grow_buf_t :=
  [cbor_item.text file_desc_name, cbor_item.map_start 1,
   cbor_item.text [0x70, 0x61, 0x74, 0x68], cbor_item.text [0x61]]

/-! ## OPEN messages -/

/-- A channel element whose integers fit their C types. -/
def sigutils_channel.wf (c : sigutils_channel) : Prop :=
  is_int64 c.fc ∧ is_int64 c.f_lo ∧ is_int64 c.f_hi ∧ is_int64 c.ft ∧
  is_uint32 c.age ∧ is_uint32 c.present

/-- Every address of the registry is the address of an allocated object. -/
def config_state.wf (w : config_state) : Prop :=
  ∀ p ∈ w.g_config_desc_list, p < w.heap.length

/-- A block of heap memory, named by what it holds. A destructor is described by
the blocks it hands to `free`, in the order of the calls. -/
inductive heap_block where
  | message_object
  | chars (s : cstr)
  | singles (data : List Nat)
  | complexes (data : List SUCOMPLEX)
  | name_array (l : List (Option cstr))
  | channel_array (l : List (Option sigutils_channel))
  | channel_object (c : sigutils_channel)
  | config_object
  | value_array (l : List suscan_field_value)
  | value_object (v : suscan_field_value)
  | source_info_members (m : suscan_source_info)
  deriving DecidableEq, Repr

/-- Take of the channel list, msg.c:92: the list and the count handed to the
caller, and the message after the call. -/
def suscan_analyzer_channel_msg_take_channels (msg : suscan_analyzer_channel_msg) :
    (Option (List (Option sigutils_channel)) × Nat) × suscan_analyzer_channel_msg :=
  let pchannel_list := msg.channel_list
  let pchannel_count := msg.channel_count
  let msg := { msg with channel_list := none }
  let msg := { msg with channel_count := 0 }
  ((pchannel_list, pchannel_count), msg)

/-- Take of the PSD buffer, msg.c:170: the returned pointer and the message after
the call. -/
def suscan_analyzer_psd_msg_take_psd (msg : suscan_analyzer_psd_msg) :
    Option (List Nat) × suscan_analyzer_psd_msg :=
  let result := msg.psd_data
  let msg := { msg with psd_data := none }
  let msg := { msg with psd_size := 0 }
  (result, msg)

/-- Take of the spectrum buffer, msg.c:998: the returned pointer and the message
after the call. -/
def suscan_analyzer_inspector_msg_take_spectrum (msg : suscan_analyzer_inspector_msg) :
    Option (List Nat) × suscan_analyzer_inspector_msg :=
  let result := msg.spectrum_data
  let msg := { msg with spectrum_data := none }
  let msg := { msg with spectrum_size := 0 }
  (result, msg)

/-- The call `if (p != NULL) free(p)` on a string. -/
def free_chars (p : Option cstr) : List heap_block :=
  match p with
  | some s => [heap_block.chars s]
  | none => []

/-- Destructor of the status message, msg.c:60. -/
def suscan_analyzer_status_msg_destroy (status : suscan_analyzer_status_msg) :
    List heap_block :=
  free_chars status.err_msg ++ [heap_block.message_object]

/-- Destructor of the channel message, msg.c:105: every non-null channel among the
first `channel_count` (through `su_channel_destroy`, modelled from the spec
as the release of the channel object), the list, then the message. -/
def suscan_analyzer_channel_msg_destroy (msg : suscan_analyzer_channel_msg) :
    List heap_block :=
  (array_view msg.channel_list msg.channel_count).filterMap
      (fun c => c.map heap_block.channel_object) ++
    (match msg.channel_list with
     | some l => [heap_block.channel_array l]
     | none => []) ++
    [heap_block.message_object]

/-- Destructor of the PSD message, msg.c:251. -/
def suscan_analyzer_psd_msg_destroy (msg : suscan_analyzer_psd_msg) : List heap_block :=
  (match msg.psd_data with
   | some d => [heap_block.singles d]
   | none => []) ++
    [heap_block.message_object]

/-- Destructor of the sample batch, msg.c:1124. -/
def suscan_analyzer_sample_batch_msg_destroy (msg : suscan_analyzer_sample_batch_msg) :
    List heap_block :=
  (match msg.samples with
   | some d => [heap_block.complexes d]
   | none => []) ++
    [heap_block.message_object]

/-- Destructor of a configuration, cfg.c:285: with a descriptor and a value array,
the first `field_count` values and the array (cfg.c:269), then the object. -/
def suscan_config_destroy (w : config_state) (self : suscan_config) : List heap_block :=
  (match self.desc, self.values with
   | some p, some vals =>
     (vals.take (((w.deref p).map fun d => d.field_list.length).getD 0)).map
         heap_block.value_object ++
       [heap_block.value_array vals]
   | _, _ => []) ++
    [heap_block.config_object]

/-- The block `if (list != NULL) { for (i < count) if (list[i] != NULL)
free(list[i]); free(list); }` of msg.c:1022 and msg.c:1029. -/
def free_names (list : Option (List (Option cstr))) (count : Nat) : List heap_block :=
  match list with
  | some l => (l.take count).flatMap free_chars ++ [heap_block.name_array l]
  | none => []

/-- Modelled from the spec: `orbit_finalize` of the orbit library (not part of the
sources) releases the owned name of the orbit. -/
def orbit_finalize (o : orbit_t) : List heap_block := free_chars o.name

/-- Destructor of the inspector message, msg.c:1010: the fields active for the
kind, then the message. The SIGNAL case runs into the empty default. -/
def suscan_analyzer_inspector_msg_destroy (w : config_state)
    (msg : suscan_analyzer_inspector_msg) : List heap_block :=
  (if msg.kind = SUSCAN_ANALYZER_INSPECTOR_MSGKIND_GET_CONFIG
      ∨ msg.kind = SUSCAN_ANALYZER_INSPECTOR_MSGKIND_SET_CONFIG
      ∨ msg.kind = SUSCAN_ANALYZER_INSPECTOR_MSGKIND_OPEN then
    (match msg.config with
     | some c => suscan_config_destroy w c
     | none => []) ++
      free_names msg.estimator_list msg.estimator_count ++
      free_names msg.spectsrc_list msg.spectsrc_count ++
      free_chars msg.class_name
  else if msg.kind = SUSCAN_ANALYZER_INSPECTOR_MSGKIND_SPECTRUM then
    (match msg.spectrum_data with
     | some d => [heap_block.singles d]
     | none => [])
  else if msg.kind = SUSCAN_ANALYZER_INSPECTOR_MSGKIND_SET_TLE then
    (if msg.tle_enable then orbit_finalize msg.tle_orbit else [])
  else if msg.kind = SUSCAN_ANALYZER_INSPECTOR_MSGKIND_SIGNAL then
    free_chars msg.signal_name
  else []) ++
    [heap_block.message_object]

/-- Generic disposal, msg.c:1379: the blocks released for `(type, ptr)`. The switch
has no default case and no case for SAMPLES_LOST, GET_PARAMS, SEEK,
HISTORY_SIZE and REPLAY. `suscan_source_info_finalize` is external and
modelled from the spec as the release of the members of the bundle. A pointer
that is not of the variant the type selects is outside the contract of the
function; nothing is released for it, except by the plain `free(ptr)` of
PARAMS and THROTTLE. -/
def suscan_analyzer_dispose_message (w : config_state) (type : Nat) (ptr : message) :
    List heap_block :=
  if type = SUSCAN_ANALYZER_MESSAGE_TYPE_SOURCE_INFO then
    match ptr with
    | message.source_info m =>
      [heap_block.source_info_members m, heap_block.message_object]
    | _ => []
  else if type = SUSCAN_ANALYZER_MESSAGE_TYPE_SOURCE_INIT
      ∨ type = SUSCAN_ANALYZER_MESSAGE_TYPE_READ_ERROR
      ∨ type = SUSCAN_ANALYZER_MESSAGE_TYPE_EOS
      ∨ type = SUSCAN_ANALYZER_MESSAGE_TYPE_INTERNAL then
    match ptr with
    | message.status m => suscan_analyzer_status_msg_destroy m
    | _ => []
  else if type = SUSCAN_ANALYZER_MESSAGE_TYPE_CHANNEL then
    match ptr with
    | message.channel m => suscan_analyzer_channel_msg_destroy m
    | _ => []
  else if type = SUSCAN_ANALYZER_MESSAGE_TYPE_INSPECTOR then
    match ptr with
    | message.inspector m => suscan_analyzer_inspector_msg_destroy w m
    | _ => []
  else if type = SUSCAN_ANALYZER_MESSAGE_TYPE_PSD then
    match ptr with
    | message.psd m => suscan_analyzer_psd_msg_destroy m
    | _ => []
  else if type = SUSCAN_ANALYZER_MESSAGE_TYPE_SAMPLES then
    match ptr with
    | message.samples m => suscan_analyzer_sample_batch_msg_destroy m
    | _ => []
  else if type = SUSCAN_ANALYZER_MESSAGE_TYPE_PARAMS
      ∨ type = SUSCAN_ANALYZER_MESSAGE_TYPE_THROTTLE then
    [heap_block.message_object]
  else
    []

/-! ## Recognized kinds and variants -/

/-- The 21 kinds the inspector codec recognizes: the 19 that carry no
configuration object, OPEN and SET_CONFIG. -/
def recognized_kind (k : Int) : Prop :=
  no_config_kind k ∨ k = SUSCAN_ANALYZER_INSPECTOR_MSGKIND_OPEN
  ∨ k = SUSCAN_ANALYZER_INSPECTOR_MSGKIND_SET_CONFIG

/-- The object is of the variant the generic deserializer builds for the type:
the payload of GET_PARAMS is the literal `"REMOTE"`, and no object is built
for CHANNEL, INTERNAL and SAMPLES_LOST. -/
def message.of_type : message → Nat → Prop
  | message.source_info _, t => t = SUSCAN_ANALYZER_MESSAGE_TYPE_SOURCE_INFO
  | message.status _, t =>
    t = SUSCAN_ANALYZER_MESSAGE_TYPE_READ_ERROR ∨ t = SUSCAN_ANALYZER_MESSAGE_TYPE_SOURCE_INIT
    ∨ t = SUSCAN_ANALYZER_MESSAGE_TYPE_EOS
  | message.channel _, _ => False
  | message.inspector _, t => t = SUSCAN_ANALYZER_MESSAGE_TYPE_INSPECTOR
  | message.psd _, t => t = SUSCAN_ANALYZER_MESSAGE_TYPE_PSD
  | message.samples _, t => t = SUSCAN_ANALYZER_MESSAGE_TYPE_SAMPLES
  | message.throttle _, t => t = SUSCAN_ANALYZER_MESSAGE_TYPE_THROTTLE
  | message.params _, t => t = SUSCAN_ANALYZER_MESSAGE_TYPE_PARAMS
  | message.seek _, t => t = SUSCAN_ANALYZER_MESSAGE_TYPE_SEEK
  | message.history_size _, t => t = SUSCAN_ANALYZER_MESSAGE_TYPE_HISTORY_SIZE
  | message.replay _, t => t = SUSCAN_ANALYZER_MESSAGE_TYPE_REPLAY
  | message.literal s, t => t = SUSCAN_ANALYZER_MESSAGE_TYPE_GET_PARAMS ∧ s = remote

/-- The types for which the generic deserializer builds an object before it
decodes the tail. -/
def builds_object (t : Nat) : Prop :=
  t ≤ 15 ∧ t ≠ SUSCAN_ANALYZER_MESSAGE_TYPE_CHANNEL
  ∧ t ≠ SUSCAN_ANALYZER_MESSAGE_TYPE_INTERNAL ∧ t ≠ SUSCAN_ANALYZER_MESSAGE_TYPE_SAMPLES_LOST

instance (t : Nat) : Decidable (builds_object t) := by
  unfold builds_object; infer_instance

/-! ## PSD: header and array -/

/-- The items of the header of a PSD message, up to `N0`. -/
def psd_header_items (v : suscan_analyzer_psd_msg) : List cbor_item :=
  [int_item v.fc, cbor_item.uint v.inspector_id, cbor_item.uint (u64 v.timestamp.tv_sec),
   cbor_item.uint (u64 v.timestamp.tv_usec), cbor_item.uint (u64 v.rt_time.tv_sec),
   cbor_item.uint (u64 v.rt_time.tv_usec), cbor_item.bool v.looped,
   cbor_item.uint v.history_size, cbor_item.single v.samp_rate,
   cbor_item.single v.measured_samp_rate, cbor_item.single v.N0]

/-- The items of the compact float array of a PSD message. -/
def psd_array_items (v : suscan_analyzer_psd_msg) : List cbor_item :=
  [cbor_item.uint v.psd_size,
   cbor_item.blob (singles_to_le (array_view v.psd_data v.psd_size))]

/-- The message `m0` with the header fields of `v`; `psd_data` and `psd_size` are
those of `m0`. -/
def psd_with_header (m0 v : suscan_analyzer_psd_msg) : suscan_analyzer_psd_msg :=
  { m0 with fc := v.fc, inspector_id := v.inspector_id, timestamp := v.timestamp,
            rt_time := v.rt_time, looped := v.looped, history_size := v.history_size,
            samp_rate := v.samp_rate, measured_samp_rate := v.measured_samp_rate,
            N0 := v.N0 }

/-- The full PSD decoder as the specification words it: the partial decoder, then
the compact float array unpacked at the position the partial decoder left and
stored in `psd_data` and `psd_size`; a failure of either step is a failure
with the read position where it was at the start. -/
def psd_partial_then_array (self : suscan_analyzer_psd_msg) (buffer : grow_buf_t) :
    Bool × suscan_analyzer_psd_msg × grow_buf_t :=
  let header := suscan_analyzer_psd_msg_deserialize_partial self buffer
  if header.1 then
    match suscan_unpack_compact_single_array header.2.2 with
    | some ((data, size), rest) =>
      (true, { header.2.1 with psd_data := data, psd_size := size }, rest)
    | none => (false, header.2.1, buffer)
  else (false, header.2.1, buffer)

/-- An inspector message whose kind is the unassigned value `0xDEAD`. -/
def unknown_kind_example : suscan_analyzer_inspector_msg :=
  { signal_example with kind := 0xDEAD }

/-! ## Back-pointers -/

/-- The message with its back-pointers cleared: `sender` of a status message,
`source` and `sender` of a channel message. The other variants have none. -/
def message.exported : message → message
  | message.status m => message.status { m with sender := none }
  | message.channel m => message.channel { m with source := none, sender := none }
  | m => m

/-- A status message sent by the analyzer at address 1. -/
def status_from_1 : suscan_analyzer_status_msg :=
  { code := -1, err_msg := some [69, 79, 83], sender := some 1 }

/-- The same status message sent by the analyzer at address 2. -/
def status_from_2 : suscan_analyzer_status_msg :=
  { code := -1, err_msg := some [69, 79, 83], sender := some 2 }

/-! ## The schema registry -/

/-- The global names of the registry entries, in registry order (`none` for an
entry that is not a live descriptor or has a null name). -/
def registry_names (w : config_state) : List (Option cstr) :=
  w.g_config_desc_list.map fun p => (w.deref p).bind fun d => d.global_name

/-- Every registry entry is a live descriptor with a name, and no two entries share
a name. -/
def registry_distinct (w : config_state) : Prop :=
  (∀ x ∈ registry_names w, x ≠ none) ∧ (registry_names w).Nodup

/-- The process state after `suscan_config_desc_new_ex("cfg")` and the addition of
the field `"path"` of type file: one descriptor at address 0, not registered. -/
def file_world_unregistered : config_state :=
  { heap := [some { global_name := some file_desc_name, registered := false,
                    field_list := [file_field] }],
    g_config_desc_list := [], errno := 0 }

/-! ## Schema mismatch -/

/-- The CBOR type of an element agrees with the declared type of a field: bool for
boolean, text for string and file, single float for float, unsigned or
negative integer for integer. -/
def item_agrees (t : suscan_field_type) (x : cbor_item) : Prop :=
  match t, x with
  | SUSCAN_FIELD_TYPE_BOOLEAN, cbor_item.bool _ => True
  | SUSCAN_FIELD_TYPE_STRING, cbor_item.text _ => True
  | SUSCAN_FIELD_TYPE_FILE, cbor_item.text _ => True
  | SUSCAN_FIELD_TYPE_FLOAT, cbor_item.single _ => True
  | SUSCAN_FIELD_TYPE_INTEGER, cbor_item.uint _ => True
  | SUSCAN_FIELD_TYPE_INTEGER, cbor_item.nint _ => True
  | _, _ => False

/-- A map entry the schema does not admit: its key is a string that names no field
of the descriptor, or the type of its value disagrees with the declared type
of the field it names. -/
def bad_entry (d : suscan_config_desc) (k x : cbor_item) : Prop :=
  match k with
  | cbor_item.text key =>
    match suscan_config_desc_lookup_field d (c_str key) with
    | none => True
    | some f => ¬ item_agrees f.type x
  | _ => False

instance (t : suscan_field_type) (x : cbor_item) : Decidable (item_agrees t x) := by
  unfold item_agrees; split <;> infer_instance

instance (d : suscan_config_desc) (k x : cbor_item) : Decidable (bad_entry d k x) := by
  unfold bad_entry; split
  · split <;> infer_instance
  · infer_instance

/-- One of the first `n` entries of the map is not admitted by the schema. -/
def has_bad_entry (d : suscan_config_desc) : Nat → List cbor_item → Prop
  | n + 1, k :: x :: rest => bad_entry d k x ∨ has_bad_entry d n rest
  | _, _ => False

/-- The process state with one registered descriptor `"rx"` whose fields are the
boolean `"on"` and the integer `"n"`. -/
def rx_world : config_state :=
  { heap := [some { global_name := some [0x72, 0x78], registered := true,
                    field_list := [⟨SUSCAN_FIELD_TYPE_BOOLEAN, false, [0x6f, 0x6e], []⟩,
                                   ⟨SUSCAN_FIELD_TYPE_INTEGER, false, [0x6e], []⟩] }],
    g_config_desc_list := [0], errno := 0 }

/-! ## Creative mode: what the probe infers from the wire -/

/-- The field type the probe of `suscan_config_desc_populate_from_cbor` gives a
value by its CBOR type, cfg.c:1050; a value of any other type fails the probe. -/
def probed_type : cbor_item → Option suscan_field_type
  | cbor_item.uint _ => some SUSCAN_FIELD_TYPE_INTEGER
  | cbor_item.nint _ => some SUSCAN_FIELD_TYPE_INTEGER
  | cbor_item.text _ => some SUSCAN_FIELD_TYPE_STRING
  | cbor_item.bool _ => some SUSCAN_FIELD_TYPE_BOOLEAN
  | cbor_item.single _ => some SUSCAN_FIELD_TYPE_FLOAT
  | _ => none

/-- A value the probe can consume: an integer that fits 64 signed bits, a text
without NUL, a boolean or a single-precision float. -/
def probe_ok : cbor_item → Prop
  | cbor_item.uint v => v < 9223372036854775808
  | cbor_item.nint v => v < 9223372036854775808
  | cbor_item.text s => is_cstr s
  | cbor_item.bool _ => True
  | cbor_item.single _ => True
  | _ => False

/-- The field the probe adds for a key and its value: not optional, described as
`"(no description)"`. -/
def probed_field (key : cstr) (x : cbor_item) : suscan_field :=
  { type := (probed_type x).getD SUSCAN_FIELD_TYPE_STRING, optional := false, name := key,
    desc := no_description }

/-- The value a wire item carries, as the member of a value object it is read
into. -/
def carried_value : cbor_item → suscan_field_value
  | cbor_item.uint v => ⟨false, none, v, 0, false, []⟩
  | cbor_item.nint v => ⟨false, none, u64 (-1 - (v : Int)), 0, false, []⟩
  | cbor_item.text s => ⟨false, none, 0, 0, false, s⟩
  | cbor_item.bool b => ⟨false, none, 0, 0, b, []⟩
  | cbor_item.single x => ⟨false, none, 0, x, false, []⟩
  | _ => ⟨false, none, 0, 0, false, []⟩

/-- The fields the probe infers from the pairs of a map, in wire order. -/
def probed_fields (pairs : List (cstr × cbor_item)) : List suscan_field :=
  pairs.map fun kx => probed_field kx.1 kx.2

/-- The values the pairs of a map carry, in wire order. -/
def carried_values (pairs : List (cstr × cbor_item)) : List suscan_field_value :=
  pairs.map fun kx => carried_value kx.2

/-- The items of the pairs of a map: each key as a text, followed by its value. -/
def pairs_items : List (cstr × cbor_item) → List cbor_item
  | [] => []
  | kx :: rest => cbor_item.text kx.1 :: kx.2 :: pairs_items rest

/-- The items of a serialized configuration named `n` with the given pairs. -/
def named_items (n : cstr) (pairs : List (cstr × cbor_item)) : List cbor_item :=
  cbor_item.text n :: cbor_item.map_start pairs.length :: pairs_items pairs

/-- The pairs can be probed: the keys are strings, pairwise distinct, and every
value can be consumed. -/
def pairs_ok (pairs : List (cstr × cbor_item)) : Prop :=
  (pairs.map fun kx => kx.1).Nodup ∧ ∀ kx ∈ pairs, is_cstr kx.1 ∧ probe_ok kx.2

/-- The process state after a descriptor named `n` with the given fields has been
allocated and registered. -/
def creative_world (w : config_state) (n : cstr) (fields : List suscan_field) :
    config_state :=
  { heap := w.heap ++ [some { global_name := some n, registered := true,
                              field_list := fields }],
    g_config_desc_list := w.g_config_desc_list ++ [w.heap.length], errno := w.errno }

/-- The name `"custom.v1"`. -/
def custom_v1 : cstr := [0x63, 0x75, 0x73, 0x74, 0x6f, 0x6d, 0x2e, 0x76, 0x31]

/-- The pairs of the example: an unsigned `"n"`, a text `"s"` and a float `"f"`. -/
def custom_pairs : List (cstr × cbor_item) :=
  [([0x6e], cbor_item.uint 7), ([0x73], cbor_item.text [0x68, 0x69]),
   ([0x66], cbor_item.single 0x3fc00000)]

/-! ## Sender methods (msg.c:1418) -/

/-- Conversion of an `int` value to `uint32_t`. -/
def u32 (x : Int) : Nat := (x % 4294967296).toNat

/-- Modelled from the spec: the outbound message queue (`struct suscan_mq`; mq.c is
not part of the sources). `outcomes` lists what the coming calls of
`suscan_mq_write` meet, oldest first: `none` for a write that succeeds,
`some e` for one that fails and leaves `errno` at `e`; once the list is used
up every write succeeds. `queue` holds the envelopes written so far, each a
type and a message. -/
structure suscan_mq where
  outcomes : List (Option Nat)
  queue : List (Nat × message)
  deriving DecidableEq, Repr

/-- Modelled from the spec: what the sender methods read and write of the analyzer
object and of the process (analyzer.h is not part of the sources): the
address of the analyzer, its outbound queue, the frequency and the sample
rate of its source info, the measured sample rate, the source time, `errno`,
and the text `strerror` of the C library gives for an error number. -/
structure sender_state where
  analyzer : Nat
  mq_out : suscan_mq
  frequency : Int
  source_samp_rate : Nat
  measured_samp_rate : Nat
  source_time : timeval
  errno : Nat
  strerror : Nat → cstr

/-- The state a write that fails with error number `e` leaves: the outcome is used
up, `errno` is `e`, the queue holds what it held. -/
def write_failed (s : sender_state) (e : Nat) (rest : List (Option Nat)) : sender_state :=
  { s with mq_out := { outcomes := rest, queue := s.mq_out.queue }, errno := e }

/-- Modelled from the spec: `suscan_mq_write` on the outbound queue of the
analyzer; a successful write appends the envelope. -/
def suscan_mq_write (s : sender_state) (type : Nat) (msg : message) : Bool × sender_state :=
  match s.mq_out.outcomes with
  | some e :: rest => (false, write_failed s e rest)
  | none :: rest =>
    (true, { s with mq_out := { outcomes := rest,
                                queue := s.mq_out.queue ++ [(type, msg)] } })
  | [] =>
    (true, { s with mq_out := { outcomes := [],
                                queue := s.mq_out.queue ++ [(type, msg)] } })

/-- The string literal `"Cannot create message: "`, the format of the status sent
when a constructor fails, up to its `%s`. -/
def cannot_create : cstr :=
  [67, 97, 110, 110, 111, 116, 32, 99, 114, 101, 97, 116, 101, 32, 109, 101, 115, 115, 97,
   103, 101, 58, 32]

/-- The string literal `"Cannot write message: "`, the format of the status sent
when the write fails, up to its `%s`. -/
def cannot_write : cstr :=
  [67, 97, 110, 110, 111, 116, 32, 119, 114, 105, 116, 101, 32, 109, 101, 115, 115, 97, 103,
   101, 58, 32]

/-- Sender of a status message, msg.c:1419. `err_msg` is the text `vstrbuild`
builds from the format and its arguments (null for a null format); the
allocations of `vstrbuild` and of the constructor are taken to succeed. The
result is the returned flag, the state after the call and the blocks handed
to `free`. -/
def suscan_analyzer_send_status (w : config_state) (analyzer : sender_state) (type : Nat)
    (code : Int) (err_msg : Option cstr) : Bool × sender_state × List heap_block :=
  let msg := suscan_analyzer_status_msg_new (u32 code) err_msg
  let msg := { msg with sender := some analyzer.analyzer }
  match suscan_mq_write analyzer type (message.status msg) with
  | (false, analyzer) =>
    (false, analyzer,
      suscan_analyzer_dispose_message w type (message.status msg) ++ free_chars err_msg)
  | (true, analyzer) => (true, analyzer, free_chars err_msg)

/-- Sender of the channel list of a detector, msg.c:1458. `new` is what
`suscan_analyzer_channel_msg_new` returned for the channel list of the
detector (sigutils is not part of the sources), null when it failed. The
result of `suscan_analyzer_send_status` is not looked at. -/
def suscan_analyzer_send_detector_channels (w : config_state) (analyzer : sender_state)
    (new : Option suscan_analyzer_channel_msg) : Bool × sender_state × List heap_block :=
  match new with
  | none =>
    match suscan_analyzer_send_status w analyzer SUSCAN_ANALYZER_MESSAGE_TYPE_INTERNAL (-1)
        (some (cannot_create ++ analyzer.strerror analyzer.errno)) with
    | (_, analyzer, freed) => (false, analyzer, freed)
  | some msg =>
    match suscan_mq_write analyzer SUSCAN_ANALYZER_MESSAGE_TYPE_CHANNEL
        (message.channel msg) with
    | (false, analyzer) =>
      match suscan_analyzer_send_status w analyzer SUSCAN_ANALYZER_MESSAGE_TYPE_INTERNAL (-1)
          (some (cannot_write ++ analyzer.strerror analyzer.errno)) with
      | (_, analyzer, freed) =>
        (false, analyzer, freed ++ suscan_analyzer_dispose_message w
          SUSCAN_ANALYZER_MESSAGE_TYPE_CHANNEL (message.channel msg))
    | (true, analyzer) => (true, analyzer, [])

/-- Sender of the source info, msg.c:1505. `copy` is the object after `calloc` and
`suscan_source_info_init_copy` (external), null when either failed; the
`source_time` member the sender stamps is inside the bundle and not
represented. A failed write releases the copy and nothing else is done. -/
def suscan_analyzer_send_source_info (w : config_state) (self : sender_state)
    (copy : Option suscan_source_info) : Bool × sender_state × List heap_block :=
  match copy with
  | none => (false, self, [])
  | some copy =>
    match suscan_mq_write self SUSCAN_ANALYZER_MESSAGE_TYPE_SOURCE_INFO
        (message.source_info copy) with
    | (false, self) =>
      (false, self, suscan_analyzer_dispose_message w
        SUSCAN_ANALYZER_MESSAGE_TYPE_SOURCE_INFO (message.source_info copy))
    | (true, self) => (true, self, [])

/-- Sender of the spectrum of a detector, msg.c:1543. `new` is what
`suscan_analyzer_psd_msg_new(detector)` returned, null when it failed, and `N0`
is `detector->N0` (sigutils is not part of the sources). -/
def suscan_analyzer_send_psd (w : config_state) (self : sender_state)
    (new : Option suscan_analyzer_psd_msg) (N0 : Nat) :
    Bool × sender_state × List heap_block :=
  match new with
  | none =>
    match suscan_analyzer_send_status w self SUSCAN_ANALYZER_MESSAGE_TYPE_INTERNAL (-1)
        (some (cannot_create ++ self.strerror self.errno)) with
    | (_, self, freed) => (false, self, freed)
  | some msg =>
    let msg := { msg with fc := self.frequency, samp_rate := self.source_samp_rate,
                          measured_samp_rate := self.measured_samp_rate,
                          timestamp := self.source_time, N0 := N0 }
    match suscan_mq_write self SUSCAN_ANALYZER_MESSAGE_TYPE_PSD (message.psd msg) with
    | (false, self) =>
      match suscan_analyzer_send_status w self SUSCAN_ANALYZER_MESSAGE_TYPE_INTERNAL (-1)
          (some (cannot_write ++ self.strerror self.errno)) with
      | (_, self, freed) =>
        (false, self, freed ++ suscan_analyzer_dispose_message w
          SUSCAN_ANALYZER_MESSAGE_TYPE_PSD (message.psd msg))
    | (true, self) => (true, self, [])

/-- Sender of a smoothed spectrum, msg.c:1593. `new` is what
`suscan_analyzer_psd_msg_new_from_data` returned for the last spectrum of the
smoother (sigutils is not part of the sources), null when it failed. -/
def suscan_analyzer_send_psd_from_smoothpsd (w : config_state) (self : sender_state)
    (new : Option suscan_analyzer_psd_msg) (looped : Bool) (history_size : Nat) :
    Bool × sender_state × List heap_block :=
  match new with
  | none =>
    match suscan_analyzer_send_status w self SUSCAN_ANALYZER_MESSAGE_TYPE_INTERNAL (-1)
        (some (cannot_create ++ self.strerror self.errno)) with
    | (_, self, freed) => (false, self, freed)
  | some msg =>
    let msg := { msg with fc := self.frequency,
                          measured_samp_rate := self.measured_samp_rate,
                          timestamp := self.source_time, looped := looped,
                          history_size := history_size, N0 := 0 }
    match suscan_mq_write self SUSCAN_ANALYZER_MESSAGE_TYPE_PSD (message.psd msg) with
    | (false, self) =>
      match suscan_analyzer_send_status w self SUSCAN_ANALYZER_MESSAGE_TYPE_INTERNAL (-1)
          (some (cannot_write ++ self.strerror self.errno)) with
      | (_, self, freed) =>
        (false, self, freed ++ suscan_analyzer_dispose_message w
          SUSCAN_ANALYZER_MESSAGE_TYPE_PSD (message.psd msg))
    | (true, self) => (true, self, [])

/-- The status message the senders post after a write that failed with error
number `e`: code -1, the reason `"Cannot write message: "` followed by the
text of the error, sent by the analyzer. -/
def cannot_write_status (s : sender_state) (e : Nat) : message :=
  message.status { code := -1, err_msg := some (cannot_write ++ s.strerror e),
                   sender := some s.analyzer }

/-- The text `"Cannot allocate memory"`. -/
def enomem_text : cstr :=
  [67, 97, 110, 110, 111, 116, 32, 97, 108, 108, 111, 99, 97, 116, 101, 32, 109, 101, 109,
   111, 114, 121]

/-- An analyzer at address 1 with an empty outbound queue whose next write fails
with `ENOMEM` (12) and whose later writes succeed. -/
def failing_sender : sender_state :=
  { analyzer := 1, mq_out := { outcomes := [some 12], queue := [] }, frequency := 100000000,
    source_samp_rate := 0x49742400, measured_samp_rate := 0x49742400,
    source_time := ⟨1700000000, 0⟩, errno := 0, strerror := fun _ => enomem_text }

/-- A source info of one item. -/
def info_example : suscan_source_info := { wire := some [cbor_item.uint 1] }

/-- A spectrum message of two bins, as its constructor leaves it. -/
def psd_example : suscan_analyzer_psd_msg :=
  { suscan_analyzer_psd_msg_new_NULL ⟨1700000000, 0⟩ with
    psd_size := 2, psd_data := some [0x3f800000, 0x40000000] }

/-! ## Names of the inspector message kinds (msg.h:159) -/

/-- The string literal `"UNKNOWN"`. -/
def unknown_text : cstr := [85, 78, 75, 78, 79, 87, 78]

/-- The identifier of an inspector message kind without its prefix
`SUSCAN_ANALYZER_INSPECTOR_MSGKIND_`, as `STRINGIFY` gives it; the empty string
outside the enumeration. -/
def msgkind_identifier (kind : Int) : cstr :=
  if kind = SUSCAN_ANALYZER_INSPECTOR_MSGKIND_NOOP then [78, 79, 79, 80]
  else if kind = SUSCAN_ANALYZER_INSPECTOR_MSGKIND_OPEN then
    [79, 80, 69, 78]
  else if kind = SUSCAN_ANALYZER_INSPECTOR_MSGKIND_SET_ID then
    [83, 69, 84, 95, 73, 68]
  else if kind = SUSCAN_ANALYZER_INSPECTOR_MSGKIND_GET_CONFIG then
    [71, 69, 84, 95, 67, 79, 78, 70, 73, 71]
  else if kind = SUSCAN_ANALYZER_INSPECTOR_MSGKIND_SET_CONFIG then
    [83, 69, 84, 95, 67, 79, 78, 70, 73, 71]
  else if kind = SUSCAN_ANALYZER_INSPECTOR_MSGKIND_ESTIMATOR then
    [69, 83, 84, 73, 77, 65, 84, 79, 82]
  else if kind = SUSCAN_ANALYZER_INSPECTOR_MSGKIND_SPECTRUM then
    [83, 80, 69, 67, 84, 82, 85, 77]
  else if kind = SUSCAN_ANALYZER_INSPECTOR_MSGKIND_RESET_EQUALIZER then
    [82, 69, 83, 69, 84, 95, 69, 81, 85, 65, 76, 73, 90, 69, 82]
  else if kind = SUSCAN_ANALYZER_INSPECTOR_MSGKIND_CLOSE then
    [67, 76, 79, 83, 69]
  else if kind = SUSCAN_ANALYZER_INSPECTOR_MSGKIND_SET_FREQ then
    [83, 69, 84, 95, 70, 82, 69, 81]
  else if kind = SUSCAN_ANALYZER_INSPECTOR_MSGKIND_SET_BANDWIDTH then
    [83, 69, 84, 95, 66, 65, 78, 68, 87, 73, 68, 84, 72]
  else if kind = SUSCAN_ANALYZER_INSPECTOR_MSGKIND_SET_WATERMARK then
    [83, 69, 84, 95, 87, 65, 84, 69, 82, 77, 65, 82, 75]
  else if kind = SUSCAN_ANALYZER_INSPECTOR_MSGKIND_WRONG_HANDLE then
    [87, 82, 79, 78, 71, 95, 72, 65, 78, 68, 76, 69]
  else if kind = SUSCAN_ANALYZER_INSPECTOR_MSGKIND_WRONG_OBJECT then
    [87, 82, 79, 78, 71, 95, 79, 66, 74, 69, 67, 84]
  else if kind = SUSCAN_ANALYZER_INSPECTOR_MSGKIND_INVALID_ARGUMENT then
    [73, 78, 86, 65, 76, 73, 68, 95, 65, 82, 71, 85, 77, 69, 78, 84]
  else if kind = SUSCAN_ANALYZER_INSPECTOR_MSGKIND_WRONG_KIND then
    [87, 82, 79, 78, 71, 95, 75, 73, 78, 68]
  else if kind = SUSCAN_ANALYZER_INSPECTOR_MSGKIND_INVALID_CHANNEL then
    [73, 78, 86, 65, 76, 73, 68, 95, 67, 72, 65, 78, 78, 69, 76]
  else if kind = SUSCAN_ANALYZER_INSPECTOR_MSGKIND_SET_TLE then
    [83, 69, 84, 95, 84, 76, 69]
  else if kind = SUSCAN_ANALYZER_INSPECTOR_MSGKIND_ORBIT_REPORT then
    [79, 82, 66, 73, 84, 95, 82, 69, 80, 79, 82, 84]
  else if kind = SUSCAN_ANALYZER_INSPECTOR_MSGKIND_INVALID_CORRECTION then
    [73, 78, 86, 65, 76, 73, 68, 95, 67, 79, 82, 82, 69, 67, 84, 73, 79, 78]
  else if kind = SUSCAN_ANALYZER_INSPECTOR_MSGKIND_SIGNAL then
    [83, 73, 71, 78, 65, 76]
  else []

/-- Name of an inspector message kind, msg.h:159: one case per kind from OPEN to
SIGNAL, each returning the identifier, and a default case returning
`"UNKNOWN"`. The switch has no case for NOOP. -/
def suscan_analyzer_inspector_msgkind_to_string (kind : Int) : cstr :=
  if kind = SUSCAN_ANALYZER_INSPECTOR_MSGKIND_OPEN then
    [79, 80, 69, 78]
  else if kind = SUSCAN_ANALYZER_INSPECTOR_MSGKIND_SET_ID then
    [83, 69, 84, 95, 73, 68]
  else if kind = SUSCAN_ANALYZER_INSPECTOR_MSGKIND_GET_CONFIG then
    [71, 69, 84, 95, 67, 79, 78, 70, 73, 71]
  else if kind = SUSCAN_ANALYZER_INSPECTOR_MSGKIND_SET_CONFIG then
    [83, 69, 84, 95, 67, 79, 78, 70, 73, 71]
  else if kind = SUSCAN_ANALYZER_INSPECTOR_MSGKIND_ESTIMATOR then
    [69, 83, 84, 73, 77, 65, 84, 79, 82]
  else if kind = SUSCAN_ANALYZER_INSPECTOR_MSGKIND_SPECTRUM then
    [83, 80, 69, 67, 84, 82, 85, 77]
  else if kind = SUSCAN_ANALYZER_INSPECTOR_MSGKIND_RESET_EQUALIZER then
    [82, 69, 83, 69, 84, 95, 69, 81, 85, 65, 76, 73, 90, 69, 82]
  else if kind = SUSCAN_ANALYZER_INSPECTOR_MSGKIND_CLOSE then
    [67, 76, 79, 83, 69]
  else if kind = SUSCAN_ANALYZER_INSPECTOR_MSGKIND_SET_FREQ then
    [83, 69, 84, 95, 70, 82, 69, 81]
  else if kind = SUSCAN_ANALYZER_INSPECTOR_MSGKIND_SET_BANDWIDTH then
    [83, 69, 84, 95, 66, 65, 78, 68, 87, 73, 68, 84, 72]
  else if kind = SUSCAN_ANALYZER_INSPECTOR_MSGKIND_SET_WATERMARK then
    [83, 69, 84, 95, 87, 65, 84, 69, 82, 77, 65, 82, 75]
  else if kind = SUSCAN_ANALYZER_INSPECTOR_MSGKIND_WRONG_HANDLE then
    [87, 82, 79, 78, 71, 95, 72, 65, 78, 68, 76, 69]
  else if kind = SUSCAN_ANALYZER_INSPECTOR_MSGKIND_WRONG_OBJECT then
    [87, 82, 79, 78, 71, 95, 79, 66, 74, 69, 67, 84]
  else if kind = SUSCAN_ANALYZER_INSPECTOR_MSGKIND_INVALID_ARGUMENT then
    [73, 78, 86, 65, 76, 73, 68, 95, 65, 82, 71, 85, 77, 69, 78, 84]
  else if kind = SUSCAN_ANALYZER_INSPECTOR_MSGKIND_WRONG_KIND then
    [87, 82, 79, 78, 71, 95, 75, 73, 78, 68]
  else if kind = SUSCAN_ANALYZER_INSPECTOR_MSGKIND_INVALID_CHANNEL then
    [73, 78, 86, 65, 76, 73, 68, 95, 67, 72, 65, 78, 78, 69, 76]
  else if kind = SUSCAN_ANALYZER_INSPECTOR_MSGKIND_SET_TLE then
    [83, 69, 84, 95, 84, 76, 69]
  else if kind = SUSCAN_ANALYZER_INSPECTOR_MSGKIND_ORBIT_REPORT then
    [79, 82, 66, 73, 84, 95, 82, 69, 80, 79, 82, 84]
  else if kind = SUSCAN_ANALYZER_INSPECTOR_MSGKIND_INVALID_CORRECTION then
    [73, 78, 86, 65, 76, 73, 68, 95, 67, 79, 82, 82, 69, 67, 84, 73, 79, 78]
  else if kind = SUSCAN_ANALYZER_INSPECTOR_MSGKIND_SIGNAL then
    [83, 73, 71, 78, 65, 76]
  else unknown_text

/-- The kinds of the enumeration: the values below
`SUSCAN_ANALYZER_INSPECTOR_MSGKIND_COUNT`. -/
def msgkinds : List Int := (List.range 21).map fun k => (k : Int)

/-! ## Examples for the setters -/

/-- The process state after `"custom.v1"` has been decoded in creative mode: the
descriptor `"rx"` at address 0 and the descriptor `"custom.v1"` at address 1,
with the integer `"n"`, the string `"s"` and the float `"f"`. -/
def custom_world : config_state :=
  creative_world rx_world custom_v1 (probed_fields custom_pairs)

/-- A configuration freshly bound to `"custom.v1"` by `suscan_config_new`. -/
def custom_config : suscan_config :=
  { desc := some 1,
    values := some ((probed_fields custom_pairs).map suscan_field_value.zero) }

/-! ## Values by name and descriptors built field by field -/

/-- Value of a field by name, cfg.c:607: the value object at the index of the
field, or null when no field has that name. -/
def suscan_config_get_value (w : config_state) (cfg : suscan_config) (name : cstr) :
    Option suscan_field_value :=
  match cfg.desc.bind w.deref with
  | none => none
  | some d =>
    let id := suscan_config_desc_lookup_field_id d name
    if id = -1 then none
    else (cfg.values.getD [])[id.toNat]?

/-- A sequence of calls of `suscan_config_desc_add_field` on the descriptor at
`cfgdesc`, one per entry, whatever each call returns. -/
def add_fields (cfgdesc : Nat) : config_state → List suscan_field → config_state
  | w, [] => w
  | w, f :: fs =>
    add_fields cfgdesc
      (suscan_config_desc_add_field w cfgdesc f.type f.optional f.name f.desc).2 fs

/-- The names of the fields of a descriptor, in order. -/
def field_names (d : suscan_config_desc) : List cstr := d.field_list.map fun f => f.name

/-- The configuration is bound to the descriptor `d` at address `p` and holds one
value per field, as `suscan_config_init` leaves it; the field names of `d`
are pairwise distinct. -/
def config_inited (w : config_state) (cfg : suscan_config) (p : Nat)
    (d : suscan_config_desc) (vals : List suscan_field_value) : Prop :=
  cfg.desc = some p ∧ w.deref p = some d ∧ cfg.values = some vals ∧
  vals.length = d.field_list.length ∧ (field_names d).Nodup

/-- What a typed setter called with `name` promises, for its result `r`: it
succeeds exactly when the descriptor has a field of that name and of the type
of the setter; when it fails the configuration is what it was; when it
succeeds `suscan_config_get_value` yields for `name` a value that satisfies
`written`, and for every other name what it yielded before. -/
def setter_contract (w : config_state) (cfg : suscan_config) (d : suscan_config_desc)
    (name : cstr) (type : suscan_field_type) (r : Bool × suscan_config)
    (written : suscan_field_value → Prop) : Prop :=
  (r.1 = true ↔ ∃ f ∈ d.field_list, f.name = name ∧ f.type = type) ∧
  (r.1 = false → r.2 = cfg) ∧
  (r.1 = true →
    r.2.desc = cfg.desc ∧
    (∃ v, suscan_config_get_value w r.2 name = some v ∧ written v) ∧
    ∀ n, n ≠ name → suscan_config_get_value w r.2 n = suscan_config_get_value w cfg n)

/-! ## The registry across a call -/

/-- The registry is the same in `w1` as in `w`: the same list of addresses, holding
the same descriptor objects. -/
def same_registry (w w1 : config_state) : Prop :=
  w1.g_config_desc_list = w.g_config_desc_list ∧
  ∀ q ∈ w.g_config_desc_list, w1.deref q = w.deref q

/-! ## Constructors from the detector (msg.c:121, msg.c:295) -/

/-- The loop of `suscan_analyzer_channel_msg_new`, msg.c:145: each channel that is
not null and passes the validity test is duplicated (`su_channel_dup`,
modelled from the spec as a copy of the object) and the copy is moved by the
source frequency `fc`. `SUFREQ_add` is the sum of two `SUFREQ` values as the
machine computes it (`+=` of msg.c:151-153), which the embedding does not
interpret: it is a parameter. -/
def channel_msg_new_loop (SU_CHANNEL_IS_VALID : sigutils_channel → Bool)
    (SUFREQ_add : Int → Int → Int) (fc : Int) :
    List (Option sigutils_channel) → List sigutils_channel
  | [] => []
  | none :: rest => channel_msg_new_loop SU_CHANNEL_IS_VALID SUFREQ_add fc rest
  | some c :: rest =>
    if SU_CHANNEL_IS_VALID c then
      { c with fc := SUFREQ_add c.fc fc, f_hi := SUFREQ_add c.f_hi fc,
               f_lo := SUFREQ_add c.f_lo fc, ft := fc } ::
        channel_msg_new_loop SU_CHANNEL_IS_VALID SUFREQ_add fc rest
    else channel_msg_new_loop SU_CHANNEL_IS_VALID SUFREQ_add fc rest

/-- Constructor of the channel message, msg.c:121. `SU_CHANNEL_IS_VALID` is the
validity test of sigutils (not part of the sources) and `SUFREQ_add` the
machine sum of two `SUFREQ` values, both parameters here; the analyzer gives
its address and the frequency of its source info. The list is allocated with
`len` slots, of which the first `n` receive the copies; the allocations are
taken to succeed. -/
def suscan_analyzer_channel_msg_new (SU_CHANNEL_IS_VALID : sigutils_channel → Bool)
    (SUFREQ_add : Int → Int → Int) (analyzer : sender_state)
    (list : Option (List (Option sigutils_channel))) (len : Nat) :
    Option suscan_analyzer_channel_msg :=
  let fc := analyzer.frequency
  let copies := channel_msg_new_loop SU_CHANNEL_IS_VALID SUFREQ_add fc (array_view list len)
  let n := copies.length
  some { source := none, sender := some analyzer.analyzer,
         channel_list :=
           if len > 0 then some (copies.map some ++ List.replicate (len - n) none) else none,
         channel_count := n }

/-- Modelled from the spec: the arithmetic of `SUFLOAT` and `SUCOMPLEX` the
constructor of the PSD message uses, which the embedding does not interpret:
the conversion of a count to `SUFLOAT`, the quotient of two `SUFLOAT` and
the product of two `SUCOMPLEX`, on bit patterns. -/
structure sufloat_arith where
  of_count : Nat → Nat
  div : Nat → Nat → Nat
  cmul : SUCOMPLEX → SUCOMPLEX → SUCOMPLEX

/-- Modelled from the spec: `SU_C_REAL` of sigutils, the real part. -/
def SU_C_REAL (z : SUCOMPLEX) : Nat := z.1

/-- Modelled from the spec: `SU_C_CONJ` of sigutils, the conjugate: the sign bit of
the imaginary part is flipped. -/
def SU_C_CONJ (z : SUCOMPLEX) : SUCOMPLEX :=
  (z.1, if z.2 < 2147483648 then z.2 + 2147483648 else z.2 - 2147483648)

/-- Modelled from the spec: the mode of a channel detector (sigutils is not part of
the sources): autocorrelation, or another mode given by its number. -/
inductive su_channel_detector_mode where
  | SU_CHANNEL_DETECTOR_MODE_AUTOCORRELATION
  | other (mode : Nat)
  deriving DecidableEq, Repr

open su_channel_detector_mode

/-- Modelled from the spec: the members of `su_channel_detector_t` the constructor
reads: of `params` the mode, the sample rate, the window size and the
decimation (counts), and the buffer `fft`. -/
structure su_channel_detector_t where
  mode : su_channel_detector_mode
  samp_rate : Nat
  window_size : Nat
  decimation : Nat
  fft : List SUCOMPLEX
  deriving DecidableEq, Repr

/-- Constructor of the PSD message, msg.c:295. `now` is what `gettimeofday` yields;
the allocations are taken to succeed. For a detector the message gets the
window size as `psd_size`, the sample rate divided by the decimation when
that is above 1, and one value per bin: the real part of `fft[i]` in the
autocorrelation mode, and in every other mode the real part of `fft[i]`
times its conjugate, divided by the window size. -/
def suscan_analyzer_psd_msg_new (fa : sufloat_arith) (now : timeval)
    (cd : Option su_channel_detector_t) : Option suscan_analyzer_psd_msg :=
  let new : suscan_analyzer_psd_msg := suscan_analyzer_psd_msg_new_NULL ⟨0, 0⟩
  let new :=
    match cd with
    | none => new
    | some cd =>
      let psd_size := cd.window_size
      let samp_rate := fa.of_count cd.samp_rate
      let samp_rate :=
        if cd.decimation > 1 then fa.div samp_rate (fa.of_count cd.decimation)
        else samp_rate
      let psd_data :=
        match cd.mode with
        | SU_CHANNEL_DETECTOR_MODE_AUTOCORRELATION =>
          (cd.fft.take psd_size).map SU_C_REAL
        | _ =>
          (cd.fft.take psd_size).map fun z =>
            fa.div (SU_C_REAL (fa.cmul z (SU_C_CONJ z))) (fa.of_count cd.window_size)
      { new with psd_size := psd_size, samp_rate := samp_rate, fc := 0,
                 psd_data := some psd_data }
  some { new with rt_time := now }

/-- An arithmetic for the examples, which is not the arithmetic of the machine: the
conversion keeps the number, the quotient is the dividend and the product
is the first factor. The examples show which operations are applied. -/
def sample_arith : sufloat_arith :=
  { of_count := fun n => n, div := fun a _ => a, cmul := fun a _ => a }

/-- A detector in autocorrelation mode with a window of two bins. -/
def detector_example : su_channel_detector_t :=
  { mode := SU_CHANNEL_DETECTOR_MODE_AUTOCORRELATION, samp_rate := 1000000, window_size := 2,
    decimation := 1, fft := [(0x3f800000, 0), (0x40000000, 0x3f800000)] }

/-- The sum of two frequencies where the machine sum is exact, as for the small
integers of the examples. -/
def exact_sum : Int → Int → Int := fun a b => a + b

/-- Three slots of a channel list: a null one, a channel of age 0 and a channel of
age 2. -/
def channels_example : Option (List (Option sigutils_channel)) :=
  some [none, some ⟨1000, 900, 1100, 5, 6, 7, 8, 0, 0, 3⟩,
        some ⟨-2000, -2100, -1900, 5, 6, 7, 8, 0, 2, 3⟩]

/-! ## Hand-over and disposal in the senders -/

/-- The state a successful write leaves: the outcome is used up and the envelope is
at the end of the queue. -/
def write_done (s : sender_state) (rest : List (Option Nat)) (type : Nat) (msg : message) :
    sender_state :=
  { s with mq_out := { outcomes := rest, queue := s.mq_out.queue ++ [(type, msg)] } }

/-- The next write to the outbound queue succeeds and leaves the outcomes `rest`. -/
def next_write_succeeds (s : sender_state) (rest : List (Option Nat)) : Prop :=
  s.mq_out.outcomes = none :: rest ∨ (s.mq_out.outcomes = [] ∧ rest = [])

/-- The type tags whose payload is a status message: the ones
`suscan_analyzer_dispose_message` releases through
`suscan_analyzer_status_msg_destroy`. -/
def is_status_type (type : Nat) : Prop :=
  type = SUSCAN_ANALYZER_MESSAGE_TYPE_SOURCE_INIT ∨
  type = SUSCAN_ANALYZER_MESSAGE_TYPE_READ_ERROR ∨
  type = SUSCAN_ANALYZER_MESSAGE_TYPE_EOS ∨
  type = SUSCAN_ANALYZER_MESSAGE_TYPE_INTERNAL

instance (type : Nat) : Decidable (is_status_type type) := by
  unfold is_status_type; infer_instance

/-- The status message `suscan_analyzer_send_status` builds. -/
def status_sent (s : sender_state) (code : Int) (err_msg : Option cstr) :
    suscan_analyzer_status_msg :=
  { code := i32 (u32 code), err_msg := err_msg, sender := some s.analyzer }

/-- The PSD message `suscan_analyzer_send_psd` writes: the constructed one with the
frequency, the rates, the source time and `N0` filled in. -/
def psd_sent (s : sender_state) (pm : suscan_analyzer_psd_msg) (N0 : Nat) :
    suscan_analyzer_psd_msg :=
  { pm with fc := s.frequency, samp_rate := s.source_samp_rate,
            measured_samp_rate := s.measured_samp_rate, timestamp := s.source_time,
            N0 := N0 }

/-- The PSD message `suscan_analyzer_send_psd_from_smoothpsd` writes. -/
def smoothpsd_sent (s : sender_state) (pm : suscan_analyzer_psd_msg) (looped : Bool)
    (history_size : Nat) : suscan_analyzer_psd_msg :=
  { pm with fc := s.frequency, measured_samp_rate := s.measured_samp_rate,
            timestamp := s.source_time, looped := looped, history_size := history_size,
            N0 := 0 }

/-- An analyzer at address 1 with an empty outbound queue whose writes succeed. -/
def idle_sender : sender_state :=
  { failing_sender with mq_out := { outcomes := [], queue := [] } }

/-! ## Microseconds as read from the wire -/

/-- The microseconds of a time value are in the range of a `uint32_t`. -/
def timeval.usec_uint32 (t : timeval) : Prop := 0 ≤ t.tv_usec ∧ t.tv_usec < 4294967296

instance (t : timeval) : Decidable t.usec_uint32 := by
  unfold timeval.usec_uint32; infer_instance

/-- The object a deserializer returns satisfies `P` whenever the deserializer
succeeds. -/
def ok_implies {α : Type} (P : α → Prop) (r : Bool × α × grow_buf_t) : Prop :=
  r.1 = true → P r.2.1

/-- What the tail of the inspector deserializer leaves of the envelope: the result
`r` has the `rt_time` and the `kind` of the message `self` it started from, and
when it succeeded on an ORBIT_REPORT the microseconds of `rx_time` are in the
range of a `uint32_t`. -/
def tail_keeps (self : suscan_analyzer_inspector_msg)
    (r : Bool × config_state × suscan_analyzer_inspector_msg × grow_buf_t) : Prop :=
  r.2.2.1.rt_time = self.rt_time ∧ r.2.2.1.kind = self.kind ∧
  (r.1 = true → self.kind = SUSCAN_ANALYZER_INSPECTOR_MSGKIND_ORBIT_REPORT →
    r.2.2.1.orbit_report.rx_time.usec_uint32)

/-- Every time value a message holds has microseconds in the range of a
`uint32_t`: `timestamp` and `rt_time` of a PSD message, `rt_time` of an
inspector message and `rx_time` of its orbit report when the kind is
ORBIT_REPORT, `position` of a seek message. -/
def message.usec_uint32 : message → Prop
  | message.psd m => m.timestamp.usec_uint32 ∧ m.rt_time.usec_uint32
  | message.inspector m =>
    m.rt_time.usec_uint32 ∧
    (m.kind = SUSCAN_ANALYZER_INSPECTOR_MSGKIND_ORBIT_REPORT →
      m.orbit_report.rx_time.usec_uint32)
  | message.seek m => m.position.usec_uint32
  | _ => True
/-! # Theorems -/

theorem u64_i64 (x : Int) (h : is_int64 x) : i64 (u64 x) = x := by
  unfold is_int64 at h
  unfold i64 u64
  split <;> omega

theorem single_le_inv (x : Nat) (h : x < 4294967296) :
    x % 256 + 256 * (x / 256 % 256) + 65536 * (x / 65536 % 256) +
      16777216 * (x / 16777216 % 256) = x := by
  omega

theorem le_to_singles_to_le (l : List Nat) (h : ∀ x ∈ l, is_uint32 x) :
    le_to_singles (singles_to_le l) = l := by
  induction l with
  | nil => rfl
  | cons x xs ih =>
    have hx : x < 4294967296 := h x (List.mem_cons_self _ _)
    have h2 := ih (fun y hy => h y (List.mem_cons_of_mem _ hy))
    simp only [singles_to_le, single_to_le, List.cons_append, List.nil_append, le_to_singles]
    rw [single_le_inv x hx]
    show x :: le_to_singles (singles_to_le xs) = x :: xs
    rw [h2]

theorem singles_to_le_length (l : List Nat) : (singles_to_le l).length = l.length * 4 := by
  induction l with
  | nil => rfl
  | cons x xs ih => simp [singles_to_le, single_to_le, ih]; omega

/-! ## Primitives: what the unpackers read back -/

theorem int_item_natCast (n : Nat) : int_item (n : Int) = cbor_item.uint n := by
  unfold int_item
  have h : ¬ ((n : Int) < 0) := by omega
  simp [h]

theorem unpack_int64_int_item (x : Int) (rest : grow_buf_t) (h : is_int64 x) :
    cbor_unpack_int64 (int_item x :: rest) = some (x, rest) := by
  unfold is_int64 at h
  unfold int_item
  by_cases hx : x < 0
  · have h1 : (-1 - x).toNat < 9223372036854775808 := by omega
    have h2 : -1 - ((-1 - x).toNat : Int) = x := by omega
    simp only [hx, cbor_unpack_int64, h1, if_true, h2]
  · have h1 : x.toNat < 9223372036854775808 := by omega
    have h2 : (x.toNat : Int) = x := by omega
    simp only [hx, cbor_unpack_int64, h1, if_true, if_false, h2]

theorem unpack_int32_int_item (x : Int) (rest : grow_buf_t) (h : is_int32 x) :
    cbor_unpack_int32 (int_item x :: rest) = some (x, rest) := by
  unfold is_int32 at h
  unfold int_item
  by_cases hx : x < 0
  · have h1 : (-1 - x).toNat < 2147483648 := by omega
    have h2 : -1 - ((-1 - x).toNat : Int) = x := by omega
    simp only [hx, cbor_unpack_int32, h1, if_true, h2]
  · have h1 : x.toNat < 2147483648 := by omega
    have h2 : (x.toNat : Int) = x := by omega
    simp only [hx, cbor_unpack_int32, h1, if_true, if_false, h2]

theorem unpack_uint32_uint (v : Nat) (rest : grow_buf_t) (h : is_uint32 v) :
    cbor_unpack_uint32 (cbor_item.uint v :: rest) = some (v, rest) := by
  unfold is_uint32 at h
  simp [cbor_unpack_uint32, h]

theorem u64_usec (t : timeval) (h : t.valid) :
    is_uint32 (u64 t.tv_usec) ∧ ((u64 t.tv_usec : Nat) : Int) = t.tv_usec := by
  unfold timeval.valid at h
  unfold is_uint32 u64
  omega

theorem timeval_roundtrip (t : timeval) (h : t.wf) :
    (⟨i64 (u64 t.tv_sec), ((u64 t.tv_usec : Nat) : Int)⟩ : timeval) = t := by
  obtain ⟨h1, h2⟩ := h
  rw [u64_i64 _ h1, (u64_usec t h2).2]

theorem c_str_of_is_cstr (s : cstr) (h : is_cstr s) : c_str s = s := by
  unfold c_str
  rw [List.takeWhile_eq_self_iff]
  intro b hb
  have := (h b hb).1
  simpa using this

theorem unpack_str_text (s : cstr) (rest : grow_buf_t) (h : is_cstr s) :
    cbor_unpack_str (cbor_item.text s :: rest) = some (s, rest) := by
  simp [cbor_unpack_str, c_str_of_is_cstr s h]

theorem unpack_compact_single (data : List Nat) (rest : grow_buf_t)
    (h : ∀ x ∈ data, is_uint32 x) :
    suscan_unpack_compact_single_array
      (cbor_item.uint data.length :: cbor_item.blob (singles_to_le data) :: rest)
      = some ((some data, data.length), rest) := by
  simp [suscan_unpack_compact_single_array, singles_to_le_length, le_to_singles_to_le data h]

theorem array_view_length {α : Type} (p : Option (List α)) (n : Nat) (h : holds p n) :
    (array_view p n).length = n := by
  unfold holds at h
  simp [array_view, h]

theorem unpack_compact_single_view (p : Option (List Nat)) (n : Nat) (rest : grow_buf_t)
    (hl : holds p n) (h : ∀ x ∈ array_view p n, is_uint32 x) :
    suscan_unpack_compact_single_array
      (cbor_item.uint n :: cbor_item.blob (singles_to_le (array_view p n)) :: rest)
      = some ((some (array_view p n), n), rest) := by
  have := unpack_compact_single (array_view p n) rest h
  rwa [array_view_length p n hl] at this

theorem pack_compact_single_eq (b : grow_buf_t) (p : Option (List Nat)) (n : Nat)
    (hl : holds p n) :
    suscan_pack_compact_single_array b p n =
      (true, b ++ [cbor_item.uint n, cbor_item.blob (singles_to_le (array_view p n))]) := by
  unfold holds at hl
  simp [suscan_pack_compact_single_array, SUSCAN_PACK, cbor_pack_uint, hl, array_view]

/-! ## PSD -/

theorem psd_serialize_eq (v : suscan_analyzer_psd_msg) (b : grow_buf_t)
    (hl : holds v.psd_data v.psd_size) :
    suscan_analyzer_psd_msg_serialize v b = (true, b ++ psd_items v) := by
  simp [psd_items, suscan_analyzer_psd_msg_serialize, SUSCAN_PACK, SU_TRY_PACK, cbor_pack_int,
    cbor_pack_uint, cbor_pack_bool, cbor_pack_float, pack_compact_single_eq _ _ _ hl]

theorem psd_deserialize_eq (m0 v : suscan_analyzer_psd_msg) (rest : grow_buf_t) (hv : v.wf) :
    suscan_analyzer_psd_msg_deserialize m0 (psd_items v ++ rest)
      = (true, { v with psd_data := some (array_view v.psd_data v.psd_size) }, rest) := by
  obtain ⟨hfc, hid, hts, hrt, _, _, _, _, hl, hx⟩ := hv
  simp [psd_items, suscan_analyzer_psd_msg_deserialize,
    suscan_analyzer_psd_msg_deserialize_partial,
    SUSCAN_UNPACK, unpack_int64_int_item _ _ hfc, unpack_uint32_uint _ _ hid,
    cbor_unpack_uint64, unpack_uint32_uint _ _ (u64_usec _ hts.2).1,
    unpack_uint32_uint _ _ (u64_usec _ hrt.2).1, cbor_unpack_bool, cbor_unpack_float,
    unpack_compact_single_view _ _ _ hl hx, timeval_roundtrip _ hts, timeval_roundtrip _ hrt]

theorem S1_psd_wf : S1_psd.wf := by
  refine ⟨by decide, by decide, ⟨by decide, by decide⟩, ⟨by decide, by decide⟩, by decide,
    by decide, by decide, by decide, by decide, ?_⟩
  intro x hx
  simp [array_view, S1_psd] at hx
  rcases hx with h | h | h | h <;> subst h <;> decide

/-- C1: for every PSD message `v` with valid field ranges, the generic deserializer
applied to the buffer the generic serializer writes for `(PSD, v)` succeeds,
reports type PSD and returns a message that equals `v` in `fc`,
`inspector_id`, `timestamp`, `rt_time`, `looped`, `history_size`, `samp_rate`,
`measured_samp_rate`, `N0` and `psd_size`, and whose `psd_data` is a fresh
array holding the `psd_size` floats of `v` (equal bit patterns); nothing is
left unread. -/
theorem psd_msg_roundtrip (ext : external_deserializers) (now : timeval) (w : config_state)
    (type : Nat) (ptr : Option message) (v : suscan_analyzer_psd_msg) (hv : v.wf) :
    ∃ b, suscan_analyzer_msg_serialize w SUSCAN_ANALYZER_MESSAGE_TYPE_PSD (message.psd v) []
          = (true, b) ∧
      suscan_analyzer_msg_deserialize ext now w type ptr b =
        { ok := true, type := SUSCAN_ANALYZER_MESSAGE_TYPE_PSD,
          ptr := some (message.psd
            { v with psd_data := some (array_view v.psd_data v.psd_size) }),
          disposed := none, w := w, buffer := [] } := by
  have hl := hv.2.2.2.2.2.2.2.2.1
  refine ⟨cbor_item.uint SUSCAN_ANALYZER_MESSAGE_TYPE_PSD :: psd_items v, ?_, ?_⟩
  · simp only [suscan_analyzer_msg_serialize, SUSCAN_PACK, cbor_pack_uint, List.nil_append]
    simp [psd_serialize_eq v _ hl, SU_TRY_PACK]
  · have h := psd_deserialize_eq (suscan_analyzer_psd_msg_new_NULL now) v [] hv
    simp only [List.append_nil] at h
    simp [suscan_analyzer_msg_deserialize, suscan_analyzer_msg_deserialize_partial,
      SUSCAN_UNPACK, cbor_unpack_uint32, variant_result, h]

/-- Witness of C1: scenario S1, where the decoded message is the original. -/
theorem psd_msg_roundtrip_witness :
    S1_psd.wf ∧
    ∃ b, suscan_analyzer_msg_serialize config_state.empty SUSCAN_ANALYZER_MESSAGE_TYPE_PSD
          (message.psd S1_psd) [] = (true, b) ∧
      suscan_analyzer_msg_deserialize ext_none ⟨0, 0⟩ config_state.empty 0 none b =
        { ok := true, type := SUSCAN_ANALYZER_MESSAGE_TYPE_PSD,
          ptr := some (message.psd S1_psd), disposed := none, w := config_state.empty,
          buffer := [] } :=
  ⟨S1_psd_wf, psd_msg_roundtrip ext_none ⟨0, 0⟩ config_state.empty 0 none S1_psd S1_psd_wf⟩

/-! ## Status -/

theorem status_serialize_eq (v : suscan_analyzer_status_msg) (b : grow_buf_t) (s : cstr)
    (hs : v.err_msg = some s) :
    suscan_analyzer_status_msg_serialize v b
      = (true, b ++ [int_item v.code, cbor_item.text s]) := by
  simp [suscan_analyzer_status_msg_serialize, SUSCAN_PACK, cbor_pack_int, cbor_pack_str, hs]

theorem status_deserialize_eq (m0 : suscan_analyzer_status_msg) (code : Int) (s : cstr)
    (rest : grow_buf_t) (hc : is_int32 code) (hs : is_cstr s) :
    suscan_analyzer_status_msg_deserialize m0 (int_item code :: cbor_item.text s :: rest)
      = (true, { m0 with code := code, err_msg := some s }, rest) := by
  simp [suscan_analyzer_status_msg_deserialize, SUSCAN_UNPACK, unpack_int32_int_item _ _ hc,
    unpack_str_text _ _ hs]

/-- Round trip of a status message under the three type tags the generic codec
handles: SourceInit (1), Eos (3) and ReadError (4). The serializer writes the
type followed by `int code, str message`; decoding returns the same type,
code and message, with a null sender. -/
theorem status_msg_roundtrip (ext : external_deserializers) (now : timeval) (w : config_state)
    (type : Nat) (ptr : Option message) (t : Nat) (v : suscan_analyzer_status_msg) (s : cstr)
    (ht : t = SUSCAN_ANALYZER_MESSAGE_TYPE_SOURCE_INIT ∨ t = SUSCAN_ANALYZER_MESSAGE_TYPE_EOS
      ∨ t = SUSCAN_ANALYZER_MESSAGE_TYPE_READ_ERROR)
    (hc : is_int32 v.code) (hm : v.err_msg = some s) (hs : is_cstr s) :
    suscan_analyzer_msg_serialize w t (message.status v) []
        = (true, [cbor_item.uint t, int_item v.code, cbor_item.text s]) ∧
    suscan_analyzer_msg_deserialize ext now w type ptr
        [cbor_item.uint t, int_item v.code, cbor_item.text s] =
      { ok := true, type := t,
        ptr := some (message.status { code := v.code, err_msg := some s, sender := none }),
        disposed := none, w := w, buffer := [] } := by
  have hd := status_deserialize_eq (suscan_analyzer_status_msg_new 0 none) v.code s [] hc hs
  rcases ht with h | h | h <;> subst h
  all_goals
    refine ⟨?_, ?_⟩
    · simp only [suscan_analyzer_msg_serialize, SUSCAN_PACK, cbor_pack_uint, List.nil_append]
      simp [status_serialize_eq v _ s hm, SU_TRY_PACK]
    · simp [suscan_analyzer_msg_deserialize, suscan_analyzer_msg_deserialize_partial,
        SUSCAN_UNPACK, cbor_unpack_uint32, variant_result, hd]
      rfl

/-- C5 (failing input, type Internal): for every status message the generic
serializer called with type Internal (5) reports success having written the
type alone, without `int code, str message`, and the generic deserializer
rejects that buffer, and likewise any buffer that starts with type 5. -/
theorem status_internal_not_transferred (ext : external_deserializers) (now : timeval)
    (w : config_state) (type : Nat) (ptr : Option message) (v : suscan_analyzer_status_msg)
    (tail : grow_buf_t) :
    suscan_analyzer_msg_serialize w SUSCAN_ANALYZER_MESSAGE_TYPE_INTERNAL (message.status v) []
        = (true, [cbor_item.uint SUSCAN_ANALYZER_MESSAGE_TYPE_INTERNAL]) ∧
    (suscan_analyzer_msg_deserialize ext now w type ptr
        (cbor_item.uint SUSCAN_ANALYZER_MESSAGE_TYPE_INTERNAL :: tail)).ok = false := by
  refine ⟨?_, ?_⟩
  · simp [suscan_analyzer_msg_serialize, SUSCAN_PACK, cbor_pack_uint]
  · simp [suscan_analyzer_msg_deserialize, suscan_analyzer_msg_deserialize_partial,
      SUSCAN_UNPACK, cbor_unpack_uint32]

/-! ## Sample batch, throttle, seek, history size, replay -/

theorem interleave_length (l : List SUCOMPLEX) : (interleave l).length = l.length * 2 := by
  induction l with
  | nil => rfl
  | cons x xs ih =>
    obtain ⟨re, im⟩ := x
    simp [interleave, ih]; omega

theorem deinterleave_interleave (l : List SUCOMPLEX) : deinterleave (interleave l) = l := by
  induction l with
  | nil => rfl
  | cons x xs ih =>
    obtain ⟨re, im⟩ := x
    simp [interleave, deinterleave, ih]

theorem interleave_uint32 (l : List SUCOMPLEX) (h : ∀ x ∈ l, is_uint32 x.1 ∧ is_uint32 x.2) :
    ∀ y ∈ interleave l, is_uint32 y := by
  induction l with
  | nil => intro y hy; simp [interleave] at hy
  | cons x xs ih =>
    obtain ⟨re, im⟩ := x
    intro y hy
    have hx := h (re, im) (List.mem_cons_self _ _)
    simp only [interleave, List.mem_cons] at hy
    rcases hy with h1 | h1 | h1
    · subst h1; exact hx.1
    · subst h1; exact hx.2
    · exact ih (fun z hz => h z (List.mem_cons_of_mem _ hz)) y h1

theorem unpack_compact_complex_view (p : Option (List SUCOMPLEX)) (n : Nat)
    (rest : grow_buf_t) (hl : holds p n)
    (h : ∀ x ∈ array_view p n, is_uint32 x.1 ∧ is_uint32 x.2) :
    suscan_unpack_compact_complex_array
      (cbor_item.uint n :: cbor_item.blob (singles_to_le (interleave (array_view p n))) :: rest)
      = some ((some (array_view p n), n), rest) := by
  have h1 : (singles_to_le (interleave (array_view p n))).length = n * 8 := by
    rw [singles_to_le_length, interleave_length, array_view_length p n hl]; omega
  simp [suscan_unpack_compact_complex_array, h1,
    le_to_singles_to_le _ (interleave_uint32 _ h), deinterleave_interleave]

theorem pack_compact_complex_eq (b : grow_buf_t) (p : Option (List SUCOMPLEX)) (n : Nat)
    (hl : holds p n) :
    suscan_pack_compact_complex_array b p n =
      (true, b ++ [cbor_item.uint n,
        cbor_item.blob (singles_to_le (interleave (array_view p n)))]) := by
  unfold holds at hl
  simp [suscan_pack_compact_complex_array, SUSCAN_PACK, cbor_pack_uint, hl, array_view]

theorem samples_example_wf : samples_example.wf := by
  refine ⟨by decide, by decide, ?_⟩
  intro x hx
  simp [array_view, samples_example] at hx
  rcases hx with h | h <;> subst h <;> exact ⟨by decide, by decide⟩

/-- C6: every Samples, Throttle, HistorySize, Replay and Seek message survives the
generic serializer followed by the generic deserializer: decoding succeeds,
reports the same type and returns the same `inspector_id`, `sample_count` and
samples (a fresh array with equal bit patterns) for Samples, and the same
`samp_rate`, `buffer_length`, `replay` flag and `(sec, usec)` position for
the others. -/
theorem simple_msgs_roundtrip (ext : external_deserializers) (now : timeval)
    (w : config_state) (type : Nat) (ptr : Option message) :
    (∀ v : suscan_analyzer_sample_batch_msg, v.wf →
      ∃ b, suscan_analyzer_msg_serialize w SUSCAN_ANALYZER_MESSAGE_TYPE_SAMPLES
            (message.samples v) [] = (true, b) ∧
        suscan_analyzer_msg_deserialize ext now w type ptr b =
          { ok := true, type := SUSCAN_ANALYZER_MESSAGE_TYPE_SAMPLES,
            ptr := some (message.samples
              { v with samples := some (array_view v.samples v.sample_count) }),
            disposed := none, w := w, buffer := [] }) ∧
    (∀ v : suscan_analyzer_throttle_msg,
      ∃ b, suscan_analyzer_msg_serialize w SUSCAN_ANALYZER_MESSAGE_TYPE_THROTTLE
            (message.throttle v) [] = (true, b) ∧
        suscan_analyzer_msg_deserialize ext now w type ptr b =
          { ok := true, type := SUSCAN_ANALYZER_MESSAGE_TYPE_THROTTLE,
            ptr := some (message.throttle v), disposed := none, w := w, buffer := [] }) ∧
    (∀ v : suscan_analyzer_history_size_msg,
      ∃ b, suscan_analyzer_msg_serialize w SUSCAN_ANALYZER_MESSAGE_TYPE_HISTORY_SIZE
            (message.history_size v) [] = (true, b) ∧
        suscan_analyzer_msg_deserialize ext now w type ptr b =
          { ok := true, type := SUSCAN_ANALYZER_MESSAGE_TYPE_HISTORY_SIZE,
            ptr := some (message.history_size v), disposed := none, w := w, buffer := [] }) ∧
    (∀ v : suscan_analyzer_replay_msg,
      ∃ b, suscan_analyzer_msg_serialize w SUSCAN_ANALYZER_MESSAGE_TYPE_REPLAY
            (message.replay v) [] = (true, b) ∧
        suscan_analyzer_msg_deserialize ext now w type ptr b =
          { ok := true, type := SUSCAN_ANALYZER_MESSAGE_TYPE_REPLAY,
            ptr := some (message.replay v), disposed := none, w := w, buffer := [] }) ∧
    (∀ v : suscan_analyzer_seek_msg, v.position.wf →
      ∃ b, suscan_analyzer_msg_serialize w SUSCAN_ANALYZER_MESSAGE_TYPE_SEEK
            (message.seek v) [] = (true, b) ∧
        suscan_analyzer_msg_deserialize ext now w type ptr b =
          { ok := true, type := SUSCAN_ANALYZER_MESSAGE_TYPE_SEEK,
            ptr := some (message.seek v), disposed := none, w := w, buffer := [] }) := by
  refine ⟨?_, ?_, ?_, ?_, ?_⟩
  · intro v hv
    obtain ⟨hid, hl, hx⟩ := hv
    refine ⟨[cbor_item.uint SUSCAN_ANALYZER_MESSAGE_TYPE_SAMPLES, cbor_item.uint v.inspector_id,
      cbor_item.uint v.sample_count,
      cbor_item.blob (singles_to_le (interleave (array_view v.samples v.sample_count)))],
      ?_, ?_⟩
    · simp [suscan_analyzer_msg_serialize, SUSCAN_PACK, cbor_pack_uint, SU_TRY_PACK,
        suscan_analyzer_sample_batch_msg_serialize, cbor_pack_int, int_item_natCast,
        pack_compact_complex_eq _ _ _ hl]
    · have h : suscan_analyzer_sample_batch_msg_deserialize
          (suscan_analyzer_sample_batch_msg_new 0 none 0)
          [cbor_item.uint v.inspector_id, cbor_item.uint v.sample_count,
            cbor_item.blob (singles_to_le (interleave (array_view v.samples v.sample_count)))]
          = (true, { v with samples := some (array_view v.samples v.sample_count) }, []) := by
        simp [suscan_analyzer_sample_batch_msg_deserialize, SUSCAN_UNPACK,
          unpack_uint32_uint _ _ hid, unpack_compact_complex_view _ _ _ hl hx,
          suscan_analyzer_sample_batch_msg_new]
      simp [suscan_analyzer_msg_deserialize, suscan_analyzer_msg_deserialize_partial,
        SUSCAN_UNPACK, cbor_unpack_uint32, variant_result, h]
  · intro v
    refine ⟨[cbor_item.uint SUSCAN_ANALYZER_MESSAGE_TYPE_THROTTLE, cbor_item.uint v.samp_rate],
      ?_, ?_⟩
    · simp [suscan_analyzer_msg_serialize, SUSCAN_PACK, cbor_pack_uint, SU_TRY_PACK,
        suscan_analyzer_throttle_msg_serialize]
    · simp [suscan_analyzer_msg_deserialize, suscan_analyzer_msg_deserialize_partial,
        SUSCAN_UNPACK, cbor_unpack_uint32, cbor_unpack_uint64, variant_result,
        suscan_analyzer_throttle_msg_deserialize]
  · intro v
    refine ⟨[cbor_item.uint SUSCAN_ANALYZER_MESSAGE_TYPE_HISTORY_SIZE,
      cbor_item.uint v.buffer_length], ?_, ?_⟩
    · simp [suscan_analyzer_msg_serialize, SUSCAN_PACK, cbor_pack_uint, SU_TRY_PACK,
        suscan_analyzer_history_size_msg_serialize]
    · simp [suscan_analyzer_msg_deserialize, suscan_analyzer_msg_deserialize_partial,
        SUSCAN_UNPACK, cbor_unpack_uint32, cbor_unpack_uint64, variant_result,
        suscan_analyzer_history_size_msg_deserialize]
  · intro v
    refine ⟨[cbor_item.uint SUSCAN_ANALYZER_MESSAGE_TYPE_REPLAY, cbor_item.bool v.replay],
      ?_, ?_⟩
    · simp [suscan_analyzer_msg_serialize, SUSCAN_PACK, cbor_pack_uint, SU_TRY_PACK,
        suscan_analyzer_replay_msg_serialize, cbor_pack_bool]
    · simp [suscan_analyzer_msg_deserialize, suscan_analyzer_msg_deserialize_partial,
        SUSCAN_UNPACK, cbor_unpack_uint32, cbor_unpack_bool, variant_result,
        suscan_analyzer_replay_msg_deserialize]
  · intro v hv
    refine ⟨[cbor_item.uint SUSCAN_ANALYZER_MESSAGE_TYPE_SEEK,
      cbor_item.uint (u64 v.position.tv_sec), cbor_item.uint (u64 v.position.tv_usec)],
      ?_, ?_⟩
    · simp [suscan_analyzer_msg_serialize, SUSCAN_PACK, cbor_pack_uint, SU_TRY_PACK,
        suscan_analyzer_seek_msg_serialize]
    · have h : suscan_analyzer_seek_msg_deserialize { position := ⟨0, 0⟩ }
          [cbor_item.uint (u64 v.position.tv_sec), cbor_item.uint (u64 v.position.tv_usec)]
          = (true, v, []) := by
        simp [suscan_analyzer_seek_msg_deserialize, SUSCAN_UNPACK, cbor_unpack_uint64,
          unpack_uint32_uint _ _ (u64_usec _ hv.2).1, timeval_roundtrip _ hv]
      simp [suscan_analyzer_msg_deserialize, suscan_analyzer_msg_deserialize_partial,
        SUSCAN_UNPACK, cbor_unpack_uint32, variant_result, h]

/-! ## Serializers only append -/

theorem appends_SUSCAN_PACK (p : Option grow_buf_t) (b : grow_buf_t)
    (k : grow_buf_t → Bool × grow_buf_t)
    (hp : ∀ b1, p = some b1 → ∃ i, b1 = b ++ i)
    (hk : ∀ b1, ∃ j, (k b1).2 = b1 ++ j) :
    ∃ items, (SUSCAN_PACK p b k).2 = b ++ items := by
  cases p with
  | none => exact ⟨[], by simp [SUSCAN_PACK]⟩
  | some b1 =>
    obtain ⟨i, hi⟩ := hp b1 rfl
    obtain ⟨j, hj⟩ := hk b1
    subst hi
    exact ⟨i ++ j, by simp [SUSCAN_PACK, hj]⟩

theorem appends_SU_TRY_PACK (r : Bool × grow_buf_t) (b : grow_buf_t)
    (k : grow_buf_t → Bool × grow_buf_t)
    (hr : ∃ i, r.2 = b ++ i)
    (hk : ∀ b1, ∃ j, (k b1).2 = b1 ++ j) :
    ∃ items, (SU_TRY_PACK r k).2 = b ++ items := by
  obtain ⟨i, hi⟩ := hr
  unfold SU_TRY_PACK
  split
  · obtain ⟨j, hj⟩ := hk r.2
    exact ⟨i ++ j, by rw [hj, hi, List.append_assoc]⟩
  · exact ⟨i, hi⟩

theorem pack_str_appends (b b1 : grow_buf_t) (s : Option cstr)
    (h : cbor_pack_str b s = some b1) : ∃ i, b1 = b ++ i := by
  cases s with
  | none => simp [cbor_pack_str] at h
  | some s => exact ⟨[cbor_item.text s], by simpa [cbor_pack_str] using h.symm⟩

theorem compact_single_appends (b : grow_buf_t) (p : Option (List Nat)) (n : Nat) :
    ∃ items, (suscan_pack_compact_single_array b p n).2 = b ++ items := by
  simp only [suscan_pack_compact_single_array, SUSCAN_PACK, cbor_pack_uint]
  split <;> simp

theorem compact_complex_appends (b : grow_buf_t) (p : Option (List SUCOMPLEX)) (n : Nat) :
    ∃ items, (suscan_pack_compact_complex_array b p n).2 = b ++ items := by
  simp only [suscan_pack_compact_complex_array, SUSCAN_PACK, cbor_pack_uint]
  split <;> simp

theorem status_appends (v : suscan_analyzer_status_msg) (b : grow_buf_t) :
    ∃ items, (suscan_analyzer_status_msg_serialize v b).2 = b ++ items := by
  unfold suscan_analyzer_status_msg_serialize
  repeat first
    | exact ⟨[], (List.append_nil _).symm⟩
    | refine appends_SUSCAN_PACK _ _ _ (fun b1 h => by
        first
          | exact pack_str_appends _ _ _ h
          | exact ⟨_, (Option.some.inj h).symm⟩) (fun b1 => ?_)

theorem psd_appends (v : suscan_analyzer_psd_msg) (b : grow_buf_t) :
    ∃ items, (suscan_analyzer_psd_msg_serialize v b).2 = b ++ items := by
  unfold suscan_analyzer_psd_msg_serialize
  repeat first
    | exact ⟨[], (List.append_nil _).symm⟩
    | refine appends_SUSCAN_PACK _ _ _ (fun b1 h => by
        first
          | exact pack_str_appends _ _ _ h
          | exact ⟨_, (Option.some.inj h).symm⟩) (fun b1 => ?_)
    | refine appends_SU_TRY_PACK _ _ _ (compact_single_appends _ _ _) (fun b1 => ?_)

theorem samples_appends (v : suscan_analyzer_sample_batch_msg) (b : grow_buf_t) :
    ∃ items, (suscan_analyzer_sample_batch_msg_serialize v b).2 = b ++ items := by
  unfold suscan_analyzer_sample_batch_msg_serialize
  repeat first
    | exact ⟨[], (List.append_nil _).symm⟩
    | refine appends_SUSCAN_PACK _ _ _ (fun b1 h => by
        first
          | exact pack_str_appends _ _ _ h
          | exact ⟨_, (Option.some.inj h).symm⟩) (fun b1 => ?_)
    | refine appends_SU_TRY_PACK _ _ _ (compact_complex_appends _ _ _) (fun b1 => ?_)

theorem channel_serialize_eq (c : sigutils_channel) (b : grow_buf_t) :
    sigutils_channel_serialize c b = (true, b ++
      [int_item c.fc, int_item c.f_lo, int_item c.f_hi, cbor_item.single c.bw,
       cbor_item.single c.snr, cbor_item.single c.S0, cbor_item.single c.N0,
       int_item c.ft, cbor_item.uint c.age, cbor_item.uint c.present]) := by
  simp [sigutils_channel_serialize, SUSCAN_PACK, cbor_pack_freq, cbor_pack_int,
    cbor_pack_float, cbor_pack_uint]

theorem config_fields_appends (fs : List suscan_field) :
    ∀ (vals : List suscan_field_value) (b : grow_buf_t),
      ∃ items, (suscan_config_serialize_fields fs vals b).2 = b ++ items := by
  induction fs with
  | nil => intro vals b; exact ⟨[], by simp [suscan_config_serialize_fields]⟩
  | cons f fs ih =>
    intro vals b
    unfold suscan_config_serialize_fields
    refine appends_SUSCAN_PACK _ _ _ (fun b1 h => pack_str_appends _ _ _ h) (fun b1 => ?_)
    cases vals with
    | nil => exact ⟨[], (List.append_nil _).symm⟩
    | cons v vs =>
      cases hf : f.type <;> simp only [hf] <;>
        exact appends_SUSCAN_PACK _ _ _ (fun b1 h => by
          first
            | exact pack_str_appends _ _ _ h
            | exact ⟨_, (Option.some.inj h).symm⟩) (fun b1 => ih vs b1)

theorem config_appends (w : config_state) (c : suscan_config) (b : grow_buf_t) :
    ∃ items, (suscan_config_serialize w c b).2 = b ++ items := by
  unfold suscan_config_serialize
  split
  · exact ⟨[], (List.append_nil _).symm⟩
  · rename_i d _
    refine appends_SUSCAN_PACK _ _ _ (fun b1 h => pack_str_appends _ _ _ h) (fun b1 => ?_)
    refine appends_SUSCAN_PACK _ _ _ (fun b1 h => ⟨_, (Option.some.inj h).symm⟩)
      (fun b1 => ?_)
    split
    · split <;> exact ⟨[], (List.append_nil _).symm⟩
    · exact config_fields_appends _ _ _

theorem channel_appends (c : sigutils_channel) (b : grow_buf_t) :
    ∃ items, (sigutils_channel_serialize c b).2 = b ++ items :=
  ⟨_, by rw [channel_serialize_eq]⟩

theorem pack_str_list_appends (l : List (Option cstr)) :
    ∀ b : grow_buf_t, ∃ items, (pack_str_list l b).2 = b ++ items := by
  induction l with
  | nil => intro b; exact ⟨[], (List.append_nil _).symm⟩
  | cons s ss ih =>
    intro b
    unfold pack_str_list
    exact appends_SUSCAN_PACK _ _ _ (fun b1 h => pack_str_appends _ _ _ h) (fun b1 => ih b1)

theorem pack_str_array_appends (b : grow_buf_t) (l : Option (List (Option cstr))) (n : Nat) :
    ∃ items, (pack_str_array b l n).2 = b ++ items := by
  unfold pack_str_array
  refine appends_SUSCAN_PACK _ _ _ (fun b1 h => ⟨_, (Option.some.inj h).symm⟩) (fun b1 => ?_)
  split
  · exact pack_str_list_appends _ _
  · exact ⟨[], (List.append_nil _).symm⟩

theorem open_appends (w : config_state) (b : grow_buf_t)
    (v : suscan_analyzer_inspector_msg) :
    ∃ items, (suscan_analyzer_inspector_msg_serialize_open w b v).2 = b ++ items := by
  unfold suscan_analyzer_inspector_msg_serialize_open
  refine appends_SUSCAN_PACK _ _ _ (fun b1 h => pack_str_appends _ _ _ h) (fun b1 => ?_)
  refine appends_SU_TRY_PACK _ _ _ (channel_appends _ _) (fun b1 => ?_)
  refine appends_SU_TRY_PACK _ _ _ ?_ (fun b1 => ?_)
  · split
    · exact config_appends _ _ _
    · exact ⟨[cbor_item.text nullconfig, cbor_item.map_start 0],
        by simp [SUSCAN_PACK, cbor_pack_str, cbor_pack_map_start]⟩
  repeat first
    | exact ⟨[], (List.append_nil _).symm⟩
    | refine appends_SUSCAN_PACK _ _ _ (fun b1 h => by
        first
          | exact pack_str_appends _ _ _ h
          | exact ⟨_, (Option.some.inj h).symm⟩) (fun b1 => ?_)
    | refine appends_SU_TRY_PACK _ _ _ (pack_str_array_appends _ _ _) (fun b1 => ?_)

theorem set_config_appends (w : config_state) (b : grow_buf_t)
    (v : suscan_analyzer_inspector_msg) :
    ∃ items, (suscan_analyzer_inspector_msg_serialize_config w b v).2 = b ++ items := by
  unfold suscan_analyzer_inspector_msg_serialize_config
  split
  · exact ⟨[], (List.append_nil _).symm⟩
  · exact appends_SU_TRY_PACK _ _ _ (config_appends _ _ _)
      (fun b1 => ⟨[], (List.append_nil _).symm⟩)

theorem estimator_appends (b : grow_buf_t) (v : suscan_analyzer_inspector_msg) :
    ∃ items, (suscan_analyzer_inspector_msg_serialize_estimator b v).2 = b ++ items := by
  unfold suscan_analyzer_inspector_msg_serialize_estimator
  repeat first
    | exact ⟨[], (List.append_nil _).symm⟩
    | refine appends_SUSCAN_PACK _ _ _ (fun b1 h => ⟨_, (Option.some.inj h).symm⟩)
        (fun b1 => ?_)

theorem spectrum_appends (b : grow_buf_t) (v : suscan_analyzer_inspector_msg) :
    ∃ items, (suscan_analyzer_inspector_msg_serialize_spectrum b v).2 = b ++ items := by
  unfold suscan_analyzer_inspector_msg_serialize_spectrum
  repeat first
    | exact ⟨[], (List.append_nil _).symm⟩
    | refine appends_SUSCAN_PACK _ _ _ (fun b1 h => ⟨_, (Option.some.inj h).symm⟩)
        (fun b1 => ?_)
    | refine appends_SU_TRY_PACK _ _ _ (compact_single_appends _ _ _) (fun b1 => ?_)

theorem set_freq_appends (b : grow_buf_t) (v : suscan_analyzer_inspector_msg) :
    ∃ items, (suscan_analyzer_inspector_msg_serialize_set_freq b v).2 = b ++ items := by
  unfold suscan_analyzer_inspector_msg_serialize_set_freq
  repeat first
    | exact ⟨[], (List.append_nil _).symm⟩
    | refine appends_SUSCAN_PACK _ _ _ (fun b1 h => ⟨_, (Option.some.inj h).symm⟩)
        (fun b1 => ?_)

theorem set_bandwidth_appends (b : grow_buf_t) (v : suscan_analyzer_inspector_msg) :
    ∃ items, (suscan_analyzer_inspector_msg_serialize_set_bandwidth b v).2 = b ++ items := by
  unfold suscan_analyzer_inspector_msg_serialize_set_bandwidth
  repeat first
    | exact ⟨[], (List.append_nil _).symm⟩
    | refine appends_SUSCAN_PACK _ _ _ (fun b1 h => ⟨_, (Option.some.inj h).symm⟩)
        (fun b1 => ?_)

theorem set_watermark_appends (b : grow_buf_t) (v : suscan_analyzer_inspector_msg) :
    ∃ items, (suscan_analyzer_inspector_msg_serialize_set_watermark b v).2 = b ++ items := by
  unfold suscan_analyzer_inspector_msg_serialize_set_watermark
  repeat first
    | exact ⟨[], (List.append_nil _).symm⟩
    | refine appends_SUSCAN_PACK _ _ _ (fun b1 h => ⟨_, (Option.some.inj h).symm⟩)
        (fun b1 => ?_)

theorem set_tle_appends (b : grow_buf_t) (v : suscan_analyzer_inspector_msg) :
    ∃ items, (suscan_analyzer_inspector_msg_serialize_set_tle b v).2 = b ++ items := by
  unfold suscan_analyzer_inspector_msg_serialize_set_tle
  refine appends_SUSCAN_PACK _ _ _ (fun b1 h => ⟨_, (Option.some.inj h).symm⟩) (fun b1 => ?_)
  split
  · repeat first
      | exact ⟨[], (List.append_nil _).symm⟩
      | refine appends_SUSCAN_PACK _ _ _ (fun b1 h => by
          first
            | exact pack_str_appends _ _ _ h
            | exact ⟨_, (Option.some.inj h).symm⟩) (fun b1 => ?_)
  · exact ⟨[], (List.append_nil _).symm⟩

theorem orbit_report_appends (b : grow_buf_t) (v : suscan_analyzer_inspector_msg) :
    ∃ items, (suscan_analyzer_inspector_msg_serialize_orbit_report b v).2 = b ++ items := by
  unfold suscan_analyzer_inspector_msg_serialize_orbit_report
  repeat first
    | exact ⟨[], (List.append_nil _).symm⟩
    | refine appends_SUSCAN_PACK _ _ _ (fun b1 h => ⟨_, (Option.some.inj h).symm⟩)
        (fun b1 => ?_)

theorem signal_appends (b : grow_buf_t) (v : suscan_analyzer_inspector_msg) :
    ∃ items, (suscan_analyzer_inspector_msg_serialize_signal b v).2 = b ++ items := by
  unfold suscan_analyzer_inspector_msg_serialize_signal
  repeat first
    | exact ⟨[], (List.append_nil _).symm⟩
    | refine appends_SUSCAN_PACK _ _ _ (fun b1 h => by
        first
          | exact pack_str_appends _ _ _ h
          | exact ⟨_, (Option.some.inj h).symm⟩) (fun b1 => ?_)

theorem appends_ite (c : Prop) [Decidable c] (x y : Bool × grow_buf_t) (b : grow_buf_t)
    (hx : ∃ i, x.2 = b ++ i) (hy : ∃ i, y.2 = b ++ i) :
    ∃ i, (if c then x else y).2 = b ++ i := by
  split <;> assumption

theorem variant_appends (r : Bool × grow_buf_t) (b : grow_buf_t)
    (hr : ∃ i, r.2 = b ++ i) :
    ∃ items, (SU_TRY_PACK r fun buffer => (true, buffer)).2 = b ++ items :=
  appends_SU_TRY_PACK _ _ _ hr (fun _ => ⟨[], (List.append_nil _).symm⟩)

theorem inspector_appends (w : config_state) (v : suscan_analyzer_inspector_msg)
    (b : grow_buf_t) :
    ∃ items, (suscan_analyzer_inspector_msg_serialize w v b).2 = b ++ items := by
  unfold suscan_analyzer_inspector_msg_serialize
  iterate 7
    refine appends_SUSCAN_PACK _ _ _ (fun b1 h => ⟨_, (Option.some.inj h).symm⟩)
      (fun b1 => ?_)
  unfold suscan_analyzer_inspector_msg_serialize_switch
  refine appends_ite _ _ _ _ (variant_appends _ _ (open_appends _ _ _)) ?_
  refine appends_ite _ _ _ _ (variant_appends _ _ (set_config_appends _ _ _)) ?_
  refine appends_ite _ _ _ _ (variant_appends _ _ (estimator_appends _ _)) ?_
  refine appends_ite _ _ _ _ (variant_appends _ _ (spectrum_appends _ _)) ?_
  refine appends_ite _ _ _ _ (variant_appends _ _ (set_freq_appends _ _)) ?_
  refine appends_ite _ _ _ _ (variant_appends _ _ (set_bandwidth_appends _ _)) ?_
  refine appends_ite _ _ _ _ (variant_appends _ _ (set_watermark_appends _ _)) ?_
  refine appends_ite _ _ _ _ (variant_appends _ _ (set_tle_appends _ _)) ?_
  refine appends_ite _ _ _ _ (variant_appends _ _ (orbit_report_appends _ _)) ?_
  refine appends_ite _ _ _ _ (variant_appends _ _ (signal_appends _ _)) ?_
  exact appends_ite _ _ _ _ ⟨[], (List.append_nil _).symm⟩ ⟨[], (List.append_nil _).symm⟩

theorem simple_appends (b : grow_buf_t) (x : cbor_item) :
    ∃ i, ((true, b ++ [x]) : Bool × grow_buf_t).2 = b ++ i := ⟨[x], rfl⟩

theorem msg_serialize_appends (w : config_state) (type : Nat) (ptr : message)
    (b : grow_buf_t) :
    ∃ items, (suscan_analyzer_msg_serialize w type ptr b).2
      = b ++ cbor_item.uint type :: items := by
  have key : ∀ r : Bool × grow_buf_t,
      (∃ i, r.2 = (b ++ [cbor_item.uint type]) ++ i) →
      ∃ items, r.2 = b ++ cbor_item.uint type :: items := by
    rintro r ⟨i, hi⟩
    exact ⟨i, by rw [hi]; simp⟩
  have nil : ∀ ok : Bool, ∃ i, ((ok, b ++ [cbor_item.uint type]) : Bool × grow_buf_t).2
      = (b ++ [cbor_item.uint type]) ++ i :=
    fun _ => ⟨[], (List.append_nil _).symm⟩
  simp only [suscan_analyzer_msg_serialize, SUSCAN_PACK, cbor_pack_uint]
  apply key
  refine appends_ite _ _ _ _ ?_ ?_
  · split
    · refine variant_appends _ _ ?_
      unfold suscan_source_info_serialize
      split
      · exact ⟨[], (List.append_nil _).symm⟩
      · exact ⟨_, rfl⟩
    · exact nil _
  refine appends_ite _ _ _ _ ?_ ?_
  · split
    · exact variant_appends _ _ (status_appends _ _)
    · exact nil _
  refine appends_ite _ _ _ _ (nil _) ?_
  refine appends_ite _ _ _ _ ?_ ?_
  · split
    · exact variant_appends _ _ (inspector_appends _ _ _)
    · exact nil _
  refine appends_ite _ _ _ _ ?_ ?_
  · split
    · exact variant_appends _ _ (psd_appends _ _)
    · exact nil _
  refine appends_ite _ _ _ _ ?_ ?_
  · split
    · exact variant_appends _ _ (samples_appends _ _)
    · exact nil _
  refine appends_ite _ _ _ _ ?_ ?_
  · split
    · exact variant_appends _ _ (simple_appends _ _)
    · exact nil _
  refine appends_ite _ _ _ _ ?_ ?_
  · split
    · refine variant_appends _ _ ?_
      unfold suscan_analyzer_params_serialize
      split
      · exact ⟨[], (List.append_nil _).symm⟩
      · exact ⟨_, rfl⟩
    · exact nil _
  refine appends_ite _ _ _ _ ?_ ?_
  · split
    · rename_i m
      exact variant_appends _ _ ⟨[cbor_item.uint (u64 m.position.tv_sec),
        cbor_item.uint (u64 m.position.tv_usec)], by
        simp [suscan_analyzer_seek_msg_serialize, SUSCAN_PACK, cbor_pack_uint]⟩
    · exact nil _
  refine appends_ite _ _ _ _ (nil _) ?_
  refine appends_ite _ _ _ _ ?_ ?_
  · split
    · exact variant_appends _ _ (simple_appends _ _)
    · exact nil _
  refine appends_ite _ _ _ _ ?_ (nil _)
  · split
    · exact variant_appends _ _ (simple_appends _ _)
    · exact nil _

/-- C4: whenever the generic serializer succeeds for a type tag `t` (a `uint32_t`)
and a value `v`, the buffer it wrote starts with the type element, and the
type peek on that buffer succeeds, reports `t` and leaves the read position
right after that element: the whole variant tail is still unread. -/
theorem type_tag_fidelity (w : config_state) (t : Nat) (v : message) (b : grow_buf_t)
    (type : Nat) (ht : t < 4294967296)
    (hs : suscan_analyzer_msg_serialize w t v [] = (true, b)) :
    ∃ tail, b = cbor_item.uint t :: tail ∧
      suscan_analyzer_msg_deserialize_partial type b = (true, t, tail) := by
  obtain ⟨items, hi⟩ := msg_serialize_appends w t v []
  rw [hs] at hi
  simp only [List.nil_append] at hi
  refine ⟨items, hi, ?_⟩
  rw [hi]
  simp [SUSCAN_UNPACK, cbor_unpack_uint32, ht, suscan_analyzer_msg_deserialize_partial]

/-- Witness of C4: a throttle message; the peek leaves the sample rate unread. -/
theorem type_tag_fidelity_witness :
    ∃ tail, [cbor_item.uint 10, cbor_item.uint 5] = cbor_item.uint 10 :: tail ∧
      suscan_analyzer_msg_deserialize_partial 0 [cbor_item.uint 10, cbor_item.uint 5]
        = (true, 10, tail) :=
  type_tag_fidelity config_state.empty 10 (message.throttle ⟨5⟩)
    [cbor_item.uint 10, cbor_item.uint 5] 0 (by decide) (by decide)

/-- Witness of C6: a batch of two samples and a seek position. -/
theorem simple_msgs_roundtrip_witness :
    samples_example.wf ∧ (⟨1700000000, 250000⟩ : timeval).wf ∧
    (∃ b, suscan_analyzer_msg_serialize config_state.empty SUSCAN_ANALYZER_MESSAGE_TYPE_SAMPLES
          (message.samples samples_example) [] = (true, b) ∧
      suscan_analyzer_msg_deserialize ext_none ⟨0, 0⟩ config_state.empty 0 none b =
        { ok := true, type := SUSCAN_ANALYZER_MESSAGE_TYPE_SAMPLES,
          ptr := some (message.samples samples_example),
          disposed := none, w := config_state.empty, buffer := [] }) ∧
    (∃ b, suscan_analyzer_msg_serialize config_state.empty SUSCAN_ANALYZER_MESSAGE_TYPE_SEEK
          (message.seek ⟨⟨1700000000, 250000⟩⟩) [] = (true, b) ∧
      suscan_analyzer_msg_deserialize ext_none ⟨0, 0⟩ config_state.empty 0 none b =
        { ok := true, type := SUSCAN_ANALYZER_MESSAGE_TYPE_SEEK,
          ptr := some (message.seek ⟨⟨1700000000, 250000⟩⟩),
          disposed := none, w := config_state.empty, buffer := [] }) :=
  ⟨samples_example_wf, ⟨by decide, by decide⟩,
    (simple_msgs_roundtrip ext_none ⟨0, 0⟩ config_state.empty 0 none).1
      samples_example samples_example_wf,
    (simple_msgs_roundtrip ext_none ⟨0, 0⟩ config_state.empty 0 none).2.2.2.2
      ⟨⟨1700000000, 250000⟩⟩ ⟨by decide, by decide⟩⟩

/-! ## Expiry -/

/-- C10: for every message whose type is neither PSD nor Inspector, and for every
Inspector message whose kind is not SPECTRUM, the expiry test returns false
for every analyzer state and every current time and leaves the analyzer,
hence `have_impl_rt` and `impl_rt_delta`, as it was. -/
theorem expiry_untimely (self : suscan_analyzer_t) (now : timeval) (msg : message)
    (type : Nat) (hm : untimely msg type) :
    suscan_analyzer_message_has_expired self now msg type = (false, self) := by
  rcases hm with ⟨h1, h2⟩ | ⟨ht, m, hm, hk⟩
  · simp [suscan_analyzer_message_has_expired, h1, h2]
  · subst ht hm
    simp [suscan_analyzer_message_has_expired, message.insp_kind, hk]

/-- Witness of C10: a status message of type Eos reaches an unseeded analyzer. -/
theorem expiry_untimely_witness :
    suscan_analyzer_message_has_expired ⟨false, ⟨0, 0⟩⟩ ⟨1700000000, 0⟩
        (message.status status_example) SUSCAN_ANALYZER_MESSAGE_TYPE_EOS
      = (false, ⟨false, ⟨0, 0⟩⟩) :=
  expiry_untimely ⟨false, ⟨0, 0⟩⟩ ⟨1700000000, 0⟩ (message.status status_example)
    SUSCAN_ANALYZER_MESSAGE_TYPE_EOS (Or.inl ⟨by decide, by decide⟩)

/-! ## Inspector messages -/

theorem decoded_exists {α : Type} (w : config_state) (P : α → Prop)
    (r : Bool × config_state × α × grow_buf_t)
    (h : r.1 = true ∧ r.2.1 = w ∧ r.2.2.2 = [] ∧ P r.2.2.1) :
    ∃ m, r = (true, w, m, []) ∧ P m := by
  obtain ⟨ok, w', m, b⟩ := r
  obtain ⟨h1, h2, h3, h4⟩ := h
  simp only at h1 h2 h3 h4
  subst h1 h2 h3
  exact ⟨m, rfl, h4⟩

theorem inspector_serialize_header (w : config_state) (v : suscan_analyzer_inspector_msg)
    (b : grow_buf_t) :
    suscan_analyzer_inspector_msg_serialize w v b =
      suscan_analyzer_inspector_msg_serialize_switch w v (b ++ inspector_header_items v) := by
  simp [suscan_analyzer_inspector_msg_serialize, SUSCAN_PACK, cbor_pack_int, cbor_pack_uint,
    int_item_natCast, inspector_header_items]

theorem kind_item (k : Int) (h0 : 0 ≤ k) (h1 : k < 2147483648) :
    int_item k = cbor_item.uint k.toNat ∧ is_uint32 k.toNat ∧ i32 k.toNat = k := by
  refine ⟨?_, ?_, ?_⟩
  · have h : ¬ k < 0 := by omega
    simp [int_item, h]
  · unfold is_uint32; omega
  · unfold i32
    split <;> omega

theorem inspector_deserialize_header (w : config_state)
    (m0 v : suscan_analyzer_inspector_msg) (tail : grow_buf_t)
    (h0 : 0 ≤ v.kind) (h1 : v.kind < 2147483648) (hh : v.wf_header) :
    suscan_analyzer_inspector_msg_deserialize w m0 (inspector_header_items v ++ tail) =
      match suscan_analyzer_inspector_msg_deserialize_switch w (with_header m0 v) tail with
      | (false, w, self, _) => (false, w, self, inspector_header_items v ++ tail)
      | (true, w, self, buffer) => (true, w, self, buffer) := by
  obtain ⟨h1', h2, h3, h4, h5⟩ := hh
  obtain ⟨k1, k2, k3⟩ := kind_item v.kind h0 h1
  simp [suscan_analyzer_inspector_msg_deserialize, SUSCAN_UNPACK, inspector_header_items, k1,
    unpack_uint32_uint _ _ k2, k3, unpack_uint32_uint _ _ h1', unpack_uint32_uint _ _ h2,
    unpack_uint32_uint _ _ h3, unpack_int32_int_item _ _ h4, cbor_unpack_uint64,
    unpack_uint32_uint _ _ (u64_usec _ h5.2).1, timeval_roundtrip _ h5, with_header]

theorem decoded_exists_rest {α : Type} (w : config_state) (rest : grow_buf_t) (P : α → Prop)
    (r : Bool × config_state × α × grow_buf_t)
    (h : r.1 = true ∧ r.2.1 = w ∧ r.2.2.2 = rest ∧ P r.2.2.1) :
    ∃ m, r = (true, w, m, rest) ∧ P m := by
  obtain ⟨ok, w', m, b⟩ := r
  obtain ⟨h1, h2, h3, h4⟩ := h
  simp only at h1 h2 h3 h4
  subst h1 h2 h3
  exact ⟨m, rfl, h4⟩

theorem switch_empty (w : config_state) (v m0 : suscan_analyzer_inspector_msg)
    (rest : grow_buf_t) (hk : is_empty_kind v.kind = true) (hm : m0.kind = v.kind) :
    (∀ b, suscan_analyzer_inspector_msg_serialize_switch w v b = (true, b ++ [])) ∧
    ∃ m, suscan_analyzer_inspector_msg_deserialize_switch w m0 ([] ++ rest)
        = (true, w, m, rest) ∧ (header_eq m m0 ∧ arm_eq m v) := by
  have hk' := hk
  simp only [is_empty_kind, decide_eq_true_eq] at hk'
  constructor
  · intro b
    rcases hk' with h | h | h | h | h | h | h | h | h | h | h <;>
      simp [suscan_analyzer_inspector_msg_serialize_switch, h, is_empty_kind]
  · refine ⟨m0, ?_, ?_⟩
    · rcases hk' with h | h | h | h | h | h | h | h | h | h | h <;>
        simp [suscan_analyzer_inspector_msg_deserialize_switch, h, hm, is_empty_kind]
    · rcases hk' with h | h | h | h | h | h | h | h | h | h | h <;>
        simp [header_eq, arm_eq, h]

theorem switch_estimator (w : config_state) (v m0 : suscan_analyzer_inspector_msg)
    (rest : grow_buf_t) (hk : v.kind = SUSCAN_ANALYZER_INSPECTOR_MSGKIND_ESTIMATOR)
    (ht : v.wf_tail) (hm : m0.kind = v.kind) :
    (∀ b, suscan_analyzer_inspector_msg_serialize_switch w v b = (true, b ++
      [cbor_item.uint v.estimator_id, cbor_item.bool v.enabled, cbor_item.single v.value])) ∧
    ∃ m, suscan_analyzer_inspector_msg_deserialize_switch w m0
        ([cbor_item.uint v.estimator_id, cbor_item.bool v.enabled, cbor_item.single v.value]
          ++ rest) = (true, w, m, rest) ∧ (header_eq m m0 ∧ arm_eq m v) := by
  have e1 := ht.1 hk
  constructor
  · intro b
    simp [suscan_analyzer_inspector_msg_serialize_switch, hk, SU_TRY_PACK, SUSCAN_PACK,
      suscan_analyzer_inspector_msg_serialize_estimator, cbor_pack_uint, cbor_pack_bool,
      cbor_pack_float]
  · apply decoded_exists_rest
    simp [suscan_analyzer_inspector_msg_deserialize_switch, hk, hm, lift_tail, SUSCAN_UNPACK,
      suscan_analyzer_inspector_msg_deserialize_estimator, unpack_uint32_uint _ _ e1,
      cbor_unpack_bool, cbor_unpack_float, header_eq, arm_eq]

theorem array_view_idem {α : Type} (p : Option (List α)) (n : Nat) :
    array_view (some (array_view p n)) n = array_view p n := by
  simp [array_view, List.take_take]

theorem switch_spectrum (w : config_state) (v m0 : suscan_analyzer_inspector_msg)
    (rest : grow_buf_t) (hk : v.kind = SUSCAN_ANALYZER_INSPECTOR_MSGKIND_SPECTRUM)
    (ht : v.wf_tail) (hm : m0.kind = v.kind) :
    (∀ b, suscan_analyzer_inspector_msg_serialize_switch w v b = (true, b ++
      [cbor_item.uint v.spectsrc_id, int_item v.fc, cbor_item.single v.N0,
       cbor_item.uint v.samp_rate, cbor_item.uint v.spectrum_size,
       cbor_item.blob (singles_to_le (array_view v.spectrum_data v.spectrum_size))])) ∧
    ∃ m, suscan_analyzer_inspector_msg_deserialize_switch w m0
        ([cbor_item.uint v.spectsrc_id, int_item v.fc, cbor_item.single v.N0,
          cbor_item.uint v.samp_rate, cbor_item.uint v.spectrum_size,
          cbor_item.blob (singles_to_le (array_view v.spectrum_data v.spectrum_size))]
          ++ rest) = (true, w, m, rest) ∧ (header_eq m m0 ∧ arm_eq m v) := by
  obtain ⟨e1, e2, e3, e4⟩ := ht.2.1 hk
  constructor
  · intro b
    simp [suscan_analyzer_inspector_msg_serialize_switch, hk, SU_TRY_PACK, SUSCAN_PACK,
      suscan_analyzer_inspector_msg_serialize_spectrum, cbor_pack_uint, cbor_pack_freq,
      cbor_pack_int, cbor_pack_float, suscan_pack_compact_float_array,
      pack_compact_single_eq _ _ _ e3]
  · apply decoded_exists_rest
    simp [suscan_analyzer_inspector_msg_deserialize_switch, hk, hm, lift_tail, SUSCAN_UNPACK,
      suscan_analyzer_inspector_msg_deserialize_spectrum, unpack_uint32_uint _ _ e1,
      cbor_unpack_freq, unpack_int64_int_item _ _ e2, cbor_unpack_float, cbor_unpack_uint64,
      suscan_unpack_compact_float_array, unpack_compact_single_view _ _ _ e3 e4,
      header_eq, arm_eq, array_view_idem]

theorem switch_set_freq (w : config_state) (v m0 : suscan_analyzer_inspector_msg)
    (rest : grow_buf_t) (hk : v.kind = SUSCAN_ANALYZER_INSPECTOR_MSGKIND_SET_FREQ)
    (ht : v.wf_tail) (hm : m0.kind = v.kind) :
    (∀ b, suscan_analyzer_inspector_msg_serialize_switch w v b = (true, b ++
      [int_item v.channel.fc, int_item v.channel.ft])) ∧
    ∃ m, suscan_analyzer_inspector_msg_deserialize_switch w m0
        ([int_item v.channel.fc, int_item v.channel.ft] ++ rest) = (true, w, m, rest) ∧
        (header_eq m m0 ∧ arm_eq m v) := by
  obtain ⟨e1, e2⟩ := ht.2.2.1 hk
  constructor
  · intro b
    simp [suscan_analyzer_inspector_msg_serialize_switch, hk, SU_TRY_PACK, SUSCAN_PACK,
      suscan_analyzer_inspector_msg_serialize_set_freq, cbor_pack_freq, cbor_pack_int]
  · apply decoded_exists_rest
    simp [suscan_analyzer_inspector_msg_deserialize_switch, hk, hm, lift_tail, SUSCAN_UNPACK,
      suscan_analyzer_inspector_msg_deserialize_set_freq, cbor_unpack_freq,
      unpack_int64_int_item _ _ e1, unpack_int64_int_item _ _ e2, header_eq, arm_eq]

theorem switch_set_bandwidth (w : config_state) (v m0 : suscan_analyzer_inspector_msg)
    (rest : grow_buf_t) (hk : v.kind = SUSCAN_ANALYZER_INSPECTOR_MSGKIND_SET_BANDWIDTH)
    (hm : m0.kind = v.kind) :
    (∀ b, suscan_analyzer_inspector_msg_serialize_switch w v b = (true, b ++
      [cbor_item.single v.channel.bw])) ∧
    ∃ m, suscan_analyzer_inspector_msg_deserialize_switch w m0
        ([cbor_item.single v.channel.bw] ++ rest) = (true, w, m, rest) ∧
        (header_eq m m0 ∧ arm_eq m v) := by
  constructor
  · intro b
    simp [suscan_analyzer_inspector_msg_serialize_switch, hk, SU_TRY_PACK, SUSCAN_PACK,
      suscan_analyzer_inspector_msg_serialize_set_bandwidth, cbor_pack_float]
  · apply decoded_exists_rest
    simp [suscan_analyzer_inspector_msg_deserialize_switch, hk, hm, lift_tail, SUSCAN_UNPACK,
      suscan_analyzer_inspector_msg_deserialize_set_bandwidth, cbor_unpack_float,
      header_eq, arm_eq]

theorem switch_set_watermark (w : config_state) (v m0 : suscan_analyzer_inspector_msg)
    (rest : grow_buf_t) (hk : v.kind = SUSCAN_ANALYZER_INSPECTOR_MSGKIND_SET_WATERMARK)
    (hm : m0.kind = v.kind) :
    (∀ b, suscan_analyzer_inspector_msg_serialize_switch w v b = (true, b ++
      [cbor_item.uint v.watermark])) ∧
    ∃ m, suscan_analyzer_inspector_msg_deserialize_switch w m0
        ([cbor_item.uint v.watermark] ++ rest) = (true, w, m, rest) ∧
        (header_eq m m0 ∧ arm_eq m v) := by
  constructor
  · intro b
    simp [suscan_analyzer_inspector_msg_serialize_switch, hk, SU_TRY_PACK, SUSCAN_PACK,
      suscan_analyzer_inspector_msg_serialize_set_watermark, cbor_pack_uint]
  · apply decoded_exists_rest
    simp [suscan_analyzer_inspector_msg_deserialize_switch, hk, hm, lift_tail, SUSCAN_UNPACK,
      suscan_analyzer_inspector_msg_deserialize_set_watermark, cbor_unpack_uint64,
      header_eq, arm_eq]

theorem switch_orbit_report (w : config_state) (v m0 : suscan_analyzer_inspector_msg)
    (rest : grow_buf_t) (hk : v.kind = SUSCAN_ANALYZER_INSPECTOR_MSGKIND_ORBIT_REPORT)
    (ht : v.wf_tail) (hm : m0.kind = v.kind) :
    (∀ b, suscan_analyzer_inspector_msg_serialize_switch w v b = (true, b ++
      [cbor_item.uint (u64 v.orbit_report.rx_time.tv_sec),
       cbor_item.uint (u64 v.orbit_report.rx_time.tv_usec),
       cbor_item.double v.orbit_report.satpos.azimuth,
       cbor_item.double v.orbit_report.satpos.elevation,
       cbor_item.double v.orbit_report.satpos.distance,
       cbor_item.single v.orbit_report.freq_corr,
       cbor_item.double v.orbit_report.vlos_vel])) ∧
    ∃ m, suscan_analyzer_inspector_msg_deserialize_switch w m0
        ([cbor_item.uint (u64 v.orbit_report.rx_time.tv_sec),
          cbor_item.uint (u64 v.orbit_report.rx_time.tv_usec),
          cbor_item.double v.orbit_report.satpos.azimuth,
          cbor_item.double v.orbit_report.satpos.elevation,
          cbor_item.double v.orbit_report.satpos.distance,
          cbor_item.single v.orbit_report.freq_corr,
          cbor_item.double v.orbit_report.vlos_vel] ++ rest) = (true, w, m, rest) ∧
        (header_eq m m0 ∧ arm_eq m v) := by
  have e1 := ht.2.2.2.2.1 hk
  constructor
  · intro b
    simp [suscan_analyzer_inspector_msg_serialize_switch, hk, SU_TRY_PACK, SUSCAN_PACK,
      suscan_analyzer_inspector_msg_serialize_orbit_report, cbor_pack_uint, cbor_pack_double,
      cbor_pack_float]
  · apply decoded_exists_rest
    simp [suscan_analyzer_inspector_msg_deserialize_switch, hk, hm, lift_tail, SUSCAN_UNPACK,
      suscan_analyzer_inspector_msg_deserialize_orbit_report, cbor_unpack_uint64,
      unpack_uint32_uint _ _ (u64_usec _ e1.2).1, timeval_roundtrip _ e1, cbor_unpack_double,
      cbor_unpack_float, header_eq, arm_eq]

theorem switch_signal (w : config_state) (v m0 : suscan_analyzer_inspector_msg)
    (rest : grow_buf_t) (hk : v.kind = SUSCAN_ANALYZER_INSPECTOR_MSGKIND_SIGNAL)
    (ht : v.wf_tail) (hm : m0.kind = v.kind) :
    (∀ b, suscan_analyzer_inspector_msg_serialize_switch w v b = (true, b ++
      [cbor_item.text (v.signal_name.getD []), cbor_item.double v.signal_value])) ∧
    ∃ m, suscan_analyzer_inspector_msg_deserialize_switch w m0
        ([cbor_item.text (v.signal_name.getD []), cbor_item.double v.signal_value] ++ rest)
        = (true, w, m, rest) ∧ (header_eq m m0 ∧ arm_eq m v) := by
  obtain ⟨s, e1, e2⟩ := ht.2.2.2.2.2 hk
  constructor
  · intro b
    simp [suscan_analyzer_inspector_msg_serialize_switch, hk, SU_TRY_PACK, SUSCAN_PACK,
      suscan_analyzer_inspector_msg_serialize_signal, cbor_pack_str, cbor_pack_double, e1]
  · apply decoded_exists_rest
    simp [suscan_analyzer_inspector_msg_deserialize_switch, hk, hm, lift_tail, SUSCAN_UNPACK,
      suscan_analyzer_inspector_msg_deserialize_signal, e1, unpack_str_text _ _ e2,
      cbor_unpack_double, header_eq, arm_eq]

theorem switch_set_tle (w : config_state) (v m0 : suscan_analyzer_inspector_msg)
    (rest : grow_buf_t) (hk : v.kind = SUSCAN_ANALYZER_INSPECTOR_MSGKIND_SET_TLE)
    (ht : v.wf_tail) (hm : m0.kind = v.kind) :
    (∀ b, suscan_analyzer_inspector_msg_serialize_switch w v b = (true, b ++
      (cbor_item.bool v.tle_enable ::
        (if v.tle_enable then orbit_items v.tle_orbit else [])))) ∧
    ∃ m, suscan_analyzer_inspector_msg_deserialize_switch w m0
        ((cbor_item.bool v.tle_enable ::
          (if v.tle_enable then orbit_items v.tle_orbit else [])) ++ rest)
        = (true, w, m, rest) ∧ (header_eq m m0 ∧ arm_eq m v) := by
  have e := ht.2.2.2.1 hk
  cases hen : v.tle_enable
  · constructor
    · intro b
      simp [suscan_analyzer_inspector_msg_serialize_switch, hk, SU_TRY_PACK, SUSCAN_PACK,
        suscan_analyzer_inspector_msg_serialize_set_tle, cbor_pack_bool, hen]
    · apply decoded_exists_rest
      simp [suscan_analyzer_inspector_msg_deserialize_switch, hk, hm, lift_tail, SUSCAN_UNPACK,
        suscan_analyzer_inspector_msg_deserialize_set_tle, cbor_unpack_bool, hen,
        header_eq, arm_eq]
  · obtain ⟨⟨s, e1, e2⟩, e3, e4, e5⟩ := e hen
    constructor
    · intro b
      simp [suscan_analyzer_inspector_msg_serialize_switch, hk, SU_TRY_PACK, SUSCAN_PACK,
        suscan_analyzer_inspector_msg_serialize_set_tle, cbor_pack_bool, hen, cbor_pack_str,
        cbor_pack_int, cbor_pack_double, e1, orbit_items]
    · apply decoded_exists_rest
      have horb : v.tle_orbit = { v.tle_orbit with name := some s } := by
        cases ho : v.tle_orbit
        rw [ho] at e1
        simp only at e1
        simp [e1]
      simp [suscan_analyzer_inspector_msg_deserialize_switch, hk, hm, lift_tail, SUSCAN_UNPACK,
        suscan_analyzer_inspector_msg_deserialize_set_tle, cbor_unpack_bool, hen,
        orbit_items, e1, unpack_str_text _ _ e2, unpack_int32_int_item _ _ e3,
        cbor_unpack_double, unpack_int64_int_item _ _ e4, unpack_int32_int_item _ _ e5,
        header_eq, arm_eq]
      exact horb.symm

theorem roundtrip_of_switch (w : config_state) (m0 v : suscan_analyzer_inspector_msg)
    (items : List cbor_item) (h0 : 0 ≤ v.kind) (h1 : v.kind < 2147483648) (hh : v.wf_header)
    (h : (∀ b, suscan_analyzer_inspector_msg_serialize_switch w v b = (true, b ++ items)) ∧
      ∃ m, suscan_analyzer_inspector_msg_deserialize_switch w (with_header m0 v) (items ++ [])
          = (true, w, m, []) ∧ (header_eq m (with_header m0 v) ∧ arm_eq m v)) :
    ∃ b, suscan_analyzer_inspector_msg_serialize w v [] = (true, b) ∧
      ∃ m, suscan_analyzer_inspector_msg_deserialize w m0 b = (true, w, m, []) ∧
        header_eq m v ∧ arm_eq m v := by
  obtain ⟨hs, m, hd, hhe, ha⟩ := h
  refine ⟨inspector_header_items v ++ items, ?_, m, ?_, ?_, ha⟩
  · rw [inspector_serialize_header, hs]; simp
  · rw [List.append_nil] at hd
    rw [inspector_deserialize_header w m0 v items h0 h1 hh, hd]
  · simpa [header_eq, with_header] using hhe

/-- C2: for every inspector message `v` of a recognized kind that carries no
configuration object, whose envelope and selected tail hold values of their C
types, deserializing the output of the inspector serializer succeeds, leaves
nothing unread and yields a message with the same kind, `inspector_id`,
`req_id`, `handle`, `status` and `rt_time` and with every field of the tail
selected by the kind equal to that of `v` (for SET_TLE: the flag and, when it
is set, the 15 orbit fields; for SPECTRUM: `spectrum_size` and the floats of
the array). -/
theorem inspector_roundtrip (w : config_state) (m0 v : suscan_analyzer_inspector_msg)
    (hk : no_config_kind v.kind) (hh : v.wf_header) (ht : v.wf_tail) :
    ∃ b, suscan_analyzer_inspector_msg_serialize w v [] = (true, b) ∧
      ∃ m, suscan_analyzer_inspector_msg_deserialize w m0 b = (true, w, m, []) ∧
        header_eq m v ∧ arm_eq m v := by
  have hm : (with_header m0 v).kind = v.kind := rfl
  rcases hk with h | h | h | h | h | h | h | h | h | h | h | h | h | h | h | h | h | h | h
  iterate 11
    exact roundtrip_of_switch w m0 v _ (by simp [h]) (by simp [h]) hh
      (switch_empty w v _ [] (by simp [h, is_empty_kind]) hm)
  · exact roundtrip_of_switch w m0 v _ (by simp [h]) (by simp [h]) hh
      (switch_estimator w v _ [] h ht hm)
  · exact roundtrip_of_switch w m0 v _ (by simp [h]) (by simp [h]) hh
      (switch_spectrum w v _ [] h ht hm)
  · exact roundtrip_of_switch w m0 v _ (by simp [h]) (by simp [h]) hh
      (switch_set_freq w v _ [] h ht hm)
  · exact roundtrip_of_switch w m0 v _ (by simp [h]) (by simp [h]) hh
      (switch_set_bandwidth w v _ [] h hm)
  · exact roundtrip_of_switch w m0 v _ (by simp [h]) (by simp [h]) hh
      (switch_set_watermark w v _ [] h hm)
  · exact roundtrip_of_switch w m0 v _ (by simp [h]) (by simp [h]) hh
      (switch_set_tle w v _ [] h ht hm)
  · exact roundtrip_of_switch w m0 v _ (by simp [h]) (by simp [h]) hh
      (switch_orbit_report w v _ [] h ht hm)
  · exact roundtrip_of_switch w m0 v _ (by simp [h]) (by simp [h]) hh
      (switch_signal w v _ [] h ht hm)

theorem signal_example_wf :
    no_config_kind signal_example.kind ∧ signal_example.wf_header ∧ signal_example.wf_tail := by
  refine ⟨by unfold no_config_kind; decide,
    ⟨by decide, by decide, by decide, by decide, by decide, by decide⟩,
    fun h => absurd h (by decide), fun h => absurd h (by decide),
    fun h => absurd h (by decide), fun h => absurd h (by decide),
    fun h => absurd h (by decide), fun _ => ⟨_, rfl, ?_⟩⟩
  unfold is_cstr
  decide

/-- Witness of C2: a SIGNAL message decoded into a zeroed message. -/
theorem inspector_roundtrip_witness :
    (no_config_kind signal_example.kind ∧ signal_example.wf_header ∧ signal_example.wf_tail) ∧
    ∃ b, suscan_analyzer_inspector_msg_serialize config_state.empty signal_example []
          = (true, b) ∧
      ∃ m, suscan_analyzer_inspector_msg_deserialize config_state.empty
          (suscan_analyzer_inspector_msg_new ⟨5, 5⟩ 0 0) b = (true, config_state.empty, m, []) ∧
        header_eq m signal_example ∧ arm_eq m signal_example :=
  ⟨signal_example_wf,
    inspector_roundtrip config_state.empty (suscan_analyzer_inspector_msg_new ⟨5, 5⟩ 0 0)
      signal_example signal_example_wf.1 signal_example_wf.2.1 signal_example_wf.2.2⟩

/-! ## Configurations -/

theorem serialize_fields_eq (fs : List suscan_field) :
    ∀ (vals : List suscan_field_value) (b : grow_buf_t), vals.length = fs.length →
      suscan_config_serialize_fields fs vals b = (true, b ++ field_items fs vals) := by
  induction fs with
  | nil =>
    intro vals b h
    cases vals with
    | nil => simp [suscan_config_serialize_fields, field_items]
    | cons v vs => simp at h
  | cons f fs ih =>
    intro vals b h
    cases vals with
    | nil => simp at h
    | cons v vs =>
      have hl : vs.length = fs.length := by simpa using h
      cases hf : f.type <;>
        simp [suscan_config_serialize_fields, SUSCAN_PACK, cbor_pack_str, cbor_pack_bool,
          cbor_pack_float, cbor_pack_int, hf, ih vs _ hl, field_items, value_item]

theorem values_ok_length (fs : List suscan_field) :
    ∀ vals : List suscan_field_value, values_ok fs vals → vals.length = fs.length := by
  induction fs with
  | nil => intro vals h; cases vals <;> simp_all [values_ok]
  | cons f fs ih =>
    intro vals h
    cases vals with
    | nil => simp [values_ok] at h
    | cons v vs => simp [values_ok] at h; simp [ih vs h.2]

theorem config_serialize_eq (w : config_state) (c : suscan_config) (p : Nat)
    (d : suscan_config_desc) (n : cstr) (vals : List suscan_field_value) (b : grow_buf_t)
    (h : config_bound w c p d n vals) :
    suscan_config_serialize w c b = (true, b ++ config_items d vals) := by
  obtain ⟨h1, h2, h3, h4, _, _, _, _, _, h10⟩ := h
  have hl := values_ok_length _ _ h10
  simp [suscan_config_serialize, h1, h2, h3, h4, SUSCAN_PACK, cbor_pack_str,
    cbor_pack_map_start, serialize_fields_eq _ _ _ hl, config_items]

theorem lookup_field_id_from_skip (name : cstr) (pre : List suscan_field) :
    ∀ (f : suscan_field) (fs : List suscan_field) (i : Nat),
      name ∉ pre.map (fun f => f.name) → f.name = name →
      suscan_config_desc_lookup_field_id_from name (pre ++ f :: fs) i
        = ((i + pre.length : Nat) : Int) := by
  induction pre with
  | nil =>
    intro f fs i _ hf
    simp [suscan_config_desc_lookup_field_id_from, hf]
  | cons g gs ih =>
    intro f fs i hn hf
    have hg : g.name ≠ name := by
      intro h; apply hn; simp [h]
    have hn' : name ∉ gs.map (fun f => f.name) := by
      intro h; apply hn; simp at h ⊢; right; exact h
    simp only [List.cons_append, suscan_config_desc_lookup_field_id_from, hg, if_false]
    show suscan_config_desc_lookup_field_id_from name (gs ++ f :: fs) (i + 1) = _
    rw [ih f fs (i + 1) hn' hf]
    simp only [List.length_cons]
    congr 1
    omega


theorem getElem?_append_at {α : Type} (l1 : List α) (x : α) (l2 : List α) (n : Nat)
    (h : l1.length = n) : (l1 ++ x :: l2)[n]? = some x := by
  subst h
  induction l1 with
  | nil => simp
  | cons a l ih => simpa using ih

theorem set_append_at {α : Type} (l1 : List α) (x y : α) (l2 : List α) (n : Nat)
    (h : l1.length = n) : (l1 ++ x :: l2).set n y = l1 ++ y :: l2 := by
  subst h
  induction l1 with
  | nil => rfl
  | cons a l ih => simp [ih]

theorem lookup_field_at (d : suscan_config_desc) (pre : List suscan_field) (f : suscan_field)
    (fs : List suscan_field) (hd : d.field_list = pre ++ f :: fs)
    (hn : f.name ∉ pre.map (fun f => f.name)) :
    suscan_config_desc_lookup_field_id d f.name = (pre.length : Int) ∧
    suscan_config_desc_field_id_to_field d (pre.length : Int) = some f := by
  constructor
  · unfold suscan_config_desc_lookup_field_id
    rw [hd, lookup_field_id_from_skip f.name pre f fs 0 hn rfl]
    simp
  · unfold suscan_config_desc_field_id_to_field
    have h1 : ¬ ((pre.length : Int) < 0 ∨ (pre.length : Int) ≥ (d.field_list.length : Int)) := by
      rw [hd]; simp
    rw [if_neg h1, hd, Int.toNat_ofNat]
    exact getElem?_append_at pre f fs _ rfl

theorem config_set_at (w : config_state) (p : Nat) (d : suscan_config_desc)
    (pre : List suscan_field) (f : suscan_field) (fs : List suscan_field)
    (pcur : List suscan_field_value) (z : suscan_field_value) (zs : List suscan_field_value)
    (g : suscan_field_value → suscan_field_value)
    (hp : w.deref p = some d) (hd : d.field_list = pre ++ f :: fs)
    (hn : f.name ∉ pre.map (fun f => f.name)) (hl : pcur.length = pre.length) :
    suscan_config_set w { desc := some p, values := some (pcur ++ z :: zs) } f.name f.type g
      = (true, { desc := some p, values := some (pcur ++ g z :: zs) }) := by
  obtain ⟨h1, h2⟩ := lookup_field_at d pre f fs hd hn
  have h3 : ¬ ((pre.length : Int) = -1) := by omega
  have h4 := getElem?_append_at pcur z zs pre.length hl
  have h5 := set_append_at pcur z (g z) zs pre.length hl
  simp only [suscan_config_set, Option.bind, hp, h1, h2, h3, if_false, suscan_config.update,
    Int.toNat_ofNat, h4, h5, ne_eq, not_true_eq_false]
theorem i64_range (x : Nat) (h : is_uint64 x) : is_int64 (i64 x) ∧ u64 (i64 x) = x := by
  unfold is_uint64 at h
  unfold is_int64 i64 u64
  split <;> omega

theorem deserialize_loop_eq (w : config_state) (p : Nat) (d : suscan_config_desc)
    (rest : grow_buf_t) (hp : w.deref p = some d)
    (hnd : (d.field_list.map fun f => f.name).Nodup) :
    ∀ (suf pre : List suscan_field) (pcur svals : List suscan_field_value),
      d.field_list = pre ++ suf → pcur.length = pre.length → values_ok suf svals →
      (∀ f ∈ suf, is_cstr f.name ∧ f.type ≠ SUSCAN_FIELD_TYPE_FILE) →
      suscan_config_deserialize_loop w p suf.length
          { desc := some p, values := some (pcur ++ suf.map suscan_field_value.zero) }
          (field_items suf svals ++ rest)
        = (true, { desc := some p, values := some (pcur ++ decoded_values suf svals) },
            rest) := by
  intro suf
  induction suf with
  | nil =>
    intro pre pcur svals _ _ hv _
    cases svals with
    | nil => simp [suscan_config_deserialize_loop, field_items, decoded_values]
    | cons v vs => simp [values_ok] at hv
  | cons f fs ih =>
    intro pre pcur svals hd hl hv hf
    cases svals with
    | nil => simp [values_ok] at hv
    | cons v vs =>
      obtain ⟨hvf, hvs⟩ := hv
      obtain ⟨hname, hfile⟩ := hf f (List.mem_cons_self _ _)
      have hn : f.name ∉ pre.map (fun f => f.name) := by
        rw [hd] at hnd
        simp only [List.map_append, List.map_cons] at hnd
        have := (List.nodup_append.mp hnd).2.2
        intro hmem
        exact this hmem (List.mem_cons_self _ _)
      obtain ⟨h1, h2⟩ := lookup_field_at d pre f fs hd hn
      have hlook : suscan_config_desc_lookup_field d f.name = some f := by
        unfold suscan_config_desc_lookup_field
        rw [h1, h2]
      have hd' : d.field_list = (pre ++ [f]) ++ fs := by rw [hd]; simp
      have hf' : ∀ g ∈ fs, is_cstr g.name ∧ g.type ≠ SUSCAN_FIELD_TYPE_FILE :=
        fun g hg => hf g (List.mem_cons_of_mem _ hg)
      have step : ∀ (z : suscan_field_value),
          z = assigned f v (suscan_field_value.zero f) →
          suscan_config_deserialize_loop w p fs.length
            ⟨some p, some (pcur ++ z :: fs.map suscan_field_value.zero)⟩
            (field_items fs vs ++ rest)
          = (true, ⟨some p, some (pcur ++ decoded_values (f :: fs) (v :: vs))⟩, rest) := by
        intro z hz
        have := ih (pre ++ [f]) (pcur ++ [z]) vs hd' (by simp [hl]) hvs hf'
        simp only [List.append_assoc, List.singleton_append] at this
        rw [this, hz]
        simp [decoded_values]
      have hset := fun g => config_set_at w p d pre f fs pcur (suscan_field_value.zero f)
        (fs.map suscan_field_value.zero) g hp hd hn hl
      cases hty : f.type
      · -- string
        have hs := hvf.1 hty
        rw [hty] at hset
        simp only [List.length_cons, suscan_config_deserialize_loop, field_items, value_item,
          hty, List.map_cons, List.cons_append, SUSCAN_UNPACK, unpack_str_text _ _ hname,
          hp, Option.bind, hlook, unpack_str_text _ _ hs, suscan_config_set_string, hset]
        refine step _ ?_
        simp [assigned, hty]
      · -- integer
        have hi := i64_range _ (hvf.2 hty)
        rw [hty] at hset
        simp only [List.length_cons, suscan_config_deserialize_loop, field_items, value_item,
          hty, List.map_cons, List.cons_append, SUSCAN_UNPACK, unpack_str_text _ _ hname,
          hp, Option.bind, hlook, unpack_int64_int_item _ _ hi.1, suscan_config_set_integer,
          hset, hi.2]
        refine step _ ?_
        simp [assigned, hty]
      · -- float
        rw [hty] at hset
        simp only [List.length_cons, suscan_config_deserialize_loop, field_items, value_item,
          hty, List.map_cons, List.cons_append, SUSCAN_UNPACK, unpack_str_text _ _ hname,
          hp, Option.bind, hlook, cbor_unpack_float, suscan_config_set_float, hset]
        refine step _ ?_
        simp [assigned, hty]
      · exact absurd hty hfile
      · -- boolean
        rw [hty] at hset
        simp only [List.length_cons, suscan_config_deserialize_loop, field_items, value_item,
          hty, List.map_cons, List.cons_append, SUSCAN_UNPACK, unpack_str_text _ _ hname,
          hp, Option.bind, hlook, cbor_unpack_bool, suscan_config_set_bool, hset]
        refine step _ ?_
        simp [assigned, hty]
theorem config_deserialize_eq (w : config_state) (c c0 : suscan_config) (p : Nat)
    (d : suscan_config_desc) (n : cstr) (vals : List suscan_field_value) (rest : grow_buf_t)
    (h : config_bound w c p d n vals) :
    suscan_config_deserialize w c0 (config_items d vals ++ rest)
      = (true, w, { desc := some p, values := some (decoded_values d.field_list vals) },
          rest) := by
  obtain ⟨_, h2, _, h4, h5, h6, h7, h8, h9, h10⟩ := h
  have hloop := deserialize_loop_eq w p d rest h2 h8 d.field_list [] [] vals rfl rfl h10 h9
  simp only [List.nil_append] at hloop
  have hlen : 0 < n.length := List.length_pos.mpr h5
  have hlen' : ¬ ¬ n.length > 0 := not_not.mpr hlen
  simp only [suscan_config_deserialize, config_items, h4, Option.getD_some, List.cons_append,
    unpack_str_text _ _ h6, hlen', if_false, h7, Option.isNone_some, cbor_unpack_map_start,
    Bool.false_eq_true, suscan_config_init, h2, hloop, suscan_config_deserialize_finally]
  simp

/-- Round trip of a configuration bound to a registered descriptor with a non-empty
global name and no field of type file: the decoder succeeds, leaves the
registry as it was and yields a configuration bound to the same descriptor
whose values are those of the original (`decoded_values`). -/
theorem config_roundtrip (w : config_state) (c c0 : suscan_config) (p : Nat)
    (d : suscan_config_desc) (n : cstr) (vals : List suscan_field_value)
    (h : config_bound w c p d n vals) :
    ∃ b, suscan_config_serialize w c [] = (true, b) ∧
      suscan_config_deserialize w c0 b
        = (true, w, { desc := some p, values := some (decoded_values d.field_list vals) },
            []) := by
  refine ⟨config_items d vals, ?_, ?_⟩
  · rw [config_serialize_eq w c p d n vals [] h]; simp
  · have := config_deserialize_eq w c c0 p d n vals [] h
    simpa using this

theorem decoded_values_spec (fs : List suscan_field) :
    ∀ (vals : List suscan_field_value), vals.length = fs.length →
      (decoded_values fs vals).length = fs.length ∧
      ∀ (i : Nat) (f : suscan_field) (v : suscan_field_value),
        fs[i]? = some f → vals[i]? = some v →
        ∃ m, (decoded_values fs vals)[i]? = some m ∧ m.field = some f ∧
          (f.type = SUSCAN_FIELD_TYPE_BOOLEAN → m.as_bool = v.as_bool) ∧
          (f.type = SUSCAN_FIELD_TYPE_INTEGER → m.as_int = v.as_int) ∧
          (f.type = SUSCAN_FIELD_TYPE_FLOAT → m.as_float = v.as_float) ∧
          (f.type = SUSCAN_FIELD_TYPE_STRING → m.as_string = v.as_string) := by
  induction fs with
  | nil =>
    intro vals h
    cases vals with
    | nil => simp [decoded_values]
    | cons v vs => simp at h
  | cons g gs ih =>
    intro vals h
    cases vals with
    | nil => simp at h
    | cons u us =>
      have hl : us.length = gs.length := by simpa using h
      obtain ⟨ih1, ih2⟩ := ih us hl
      refine ⟨by simp [decoded_values, ih1], ?_⟩
      intro i f v hf hv
      cases i with
      | zero =>
        simp only [List.getElem?_cons_zero, Option.some.injEq] at hf hv
        cases hf
        cases hv
        refine ⟨assigned g u (suscan_field_value.zero g), by simp [decoded_values], ?_⟩
        cases hty : g.type <;> simp [assigned, hty, suscan_field_value.zero]
      | succ j =>
        simp only [List.getElem?_cons_succ] at hf hv
        obtain ⟨m, hm, hrest⟩ := ih2 j f v hf hv
        exact ⟨m, by simp [decoded_values, hm], hrest⟩
theorem file_world_built :
    (let r1 := suscan_config_desc_new_ex config_state.empty (some file_desc_name)
     let r2 := suscan_config_desc_add_field r1.1 0 SUSCAN_FIELD_TYPE_FILE false
       file_field.name []
     r1.2 = some 0 ∧ r2.1 = true ∧ suscan_config_desc_register r2.2 0 = (true, file_world)) ∧
    (∃ c, suscan_config_new file_world (some 0) = some c ∧
      suscan_config_set_file file_world c file_field.name [0x61] = (true, file_config)) := by
  refine ⟨by decide, _, rfl, by decide⟩

/-- C7 (code bug): the configuration `file_config`, bound to the registered
descriptor `"cfg"` whose only field `"path"` has type file, is serialized as
name, map of one pair, field name and text value, and
`suscan_config_deserialize` applied to that output fails: for a field of type
file it calls the string setter, which asserts the type string. The file
setter applied to the same value succeeds. -/
theorem config_file_field_not_decoded :
    suscan_config_desc_lookup file_world (some file_desc_name) = some 0 ∧
    suscan_config_serialize file_world file_config [] = (true, file_config_items) ∧
    suscan_config_deserialize file_world { desc := none, values := none } file_config_items
      = (false, file_world, { desc := none, values := none }, file_config_items) ∧
    suscan_config_set_string file_world
        { desc := some 0, values := some [suscan_field_value.zero file_field] }
        file_field.name [0x61]
      = (false, { desc := some 0, values := some [suscan_field_value.zero file_field] }) ∧
    suscan_config_set_file file_world
        { desc := some 0, values := some [suscan_field_value.zero file_field] }
        file_field.name [0x61]
      = (true, file_config) := by
  decide
/-! ## OPEN messages -/

theorem deref_append (w : config_state) (x : Option suscan_config_desc) (p : Nat)
    (hp : p < w.heap.length) :
    config_state.deref { w with heap := w.heap ++ [x] } p = w.deref p := by
  simp [config_state.deref, List.getElem?_append_left hp]

theorem deref_append_new (w : config_state) (x : Option suscan_config_desc) :
    config_state.deref { w with heap := w.heap ++ [x] } w.heap.length = x := by
  simp [config_state.deref]

theorem find?_ext {α : Type} (l : List α) (f g : α → Bool) (h : ∀ x ∈ l, f x = g x) :
    l.find? f = l.find? g := by
  induction l with
  | nil => rfl
  | cons a l ih =>
    have ha := h a (List.mem_cons_self _ _)
    have hl := ih (fun x hx => h x (List.mem_cons_of_mem _ hx))
    simp [List.find?_cons, ha, hl]

theorem lookup_append (w : config_state) (x : Option suscan_config_desc) (e : Nat)
    (n : Option cstr) (hw : w.wf) :
    suscan_config_desc_lookup_unsafe
        { heap := w.heap ++ [x], g_config_desc_list := w.g_config_desc_list, errno := e } n
      = suscan_config_desc_lookup_unsafe w n := by
  unfold suscan_config_desc_lookup_unsafe
  apply find?_ext
  intro p hp
  have hd : config_state.deref
      { heap := w.heap ++ [x], g_config_desc_list := w.g_config_desc_list, errno := e } p
        = w.deref p := by
    simp [config_state.deref, List.getElem?_append_left (hw p hp)]
  simp only at hp ⊢
  rw [hd]

theorem singles_not_free_chars (d : List Nat) (p : Option cstr) :
    heap_block.singles d ∉ free_chars p := by
  cases p <;> simp [free_chars]

theorem singles_not_free_names (d : List Nat) (l : Option (List (Option cstr))) (n : Nat) :
    heap_block.singles d ∉ free_names l n := by
  cases l with
  | none => simp [free_names]
  | some l => simp [free_names, List.mem_flatMap, singles_not_free_chars]

theorem singles_not_config_destroy (d : List Nat) (w : config_state) (c : suscan_config) :
    heap_block.singles d ∉ suscan_config_destroy w c := by
  unfold suscan_config_destroy
  split
  · have h : ∀ k, heap_block.singles d ∉
        List.take k (List.map heap_block.value_object ‹List suscan_field_value›) := by
      intro k hk
      obtain ⟨a, _, ha⟩ := List.mem_map.mp (List.mem_of_mem_take hk)
      cases ha
    simp [h]
  · simp

/-- C12: each take operation returns the buffer (for channels also the count) the
message held, leaves that field null and its length 0 and every other field
as it was; the destructor applied to the message after the take releases the
message object alone for PSD and channel messages and no float buffer at all
for an inspector message, so the taken buffer is not released again; a second
take returns null (and 0) and leaves the message as the first take left it. -/
theorem take_transfers_ownership (w : config_state) (p : suscan_analyzer_psd_msg)
    (i : suscan_analyzer_inspector_msg) (c : suscan_analyzer_channel_msg) :
    (suscan_analyzer_psd_msg_take_psd p = (p.psd_data, { p with psd_data := none, psd_size := 0 })
      ∧ suscan_analyzer_psd_msg_destroy (suscan_analyzer_psd_msg_take_psd p).2
          = [heap_block.message_object]
      ∧ suscan_analyzer_dispose_message w SUSCAN_ANALYZER_MESSAGE_TYPE_PSD
          (message.psd (suscan_analyzer_psd_msg_take_psd p).2) = [heap_block.message_object]
      ∧ suscan_analyzer_psd_msg_take_psd (suscan_analyzer_psd_msg_take_psd p).2
          = (none, (suscan_analyzer_psd_msg_take_psd p).2)) ∧
    (suscan_analyzer_inspector_msg_take_spectrum i
        = (i.spectrum_data, { i with spectrum_data := none, spectrum_size := 0 })
      ∧ (∀ d, heap_block.singles d ∉ suscan_analyzer_inspector_msg_destroy w
          (suscan_analyzer_inspector_msg_take_spectrum i).2)
      ∧ (i.kind = SUSCAN_ANALYZER_INSPECTOR_MSGKIND_SPECTRUM →
          suscan_analyzer_inspector_msg_destroy w
            (suscan_analyzer_inspector_msg_take_spectrum i).2 = [heap_block.message_object])
      ∧ suscan_analyzer_inspector_msg_take_spectrum
          (suscan_analyzer_inspector_msg_take_spectrum i).2
          = (none, (suscan_analyzer_inspector_msg_take_spectrum i).2)) ∧
    (suscan_analyzer_channel_msg_take_channels c
        = ((c.channel_list, c.channel_count), { c with channel_list := none, channel_count := 0 })
      ∧ suscan_analyzer_channel_msg_destroy (suscan_analyzer_channel_msg_take_channels c).2
          = [heap_block.message_object]
      ∧ suscan_analyzer_channel_msg_take_channels
          (suscan_analyzer_channel_msg_take_channels c).2
          = ((none, 0), (suscan_analyzer_channel_msg_take_channels c).2)) := by
  refine ⟨⟨rfl, rfl, rfl, rfl⟩, ⟨rfl, ?_, ?_, rfl⟩, ⟨rfl, ?_, rfl⟩⟩
  · intro d
    simp only [suscan_analyzer_inspector_msg_destroy, suscan_analyzer_inspector_msg_take_spectrum]
    split_ifs
    · cases i.config <;>
        simp [singles_not_free_chars, singles_not_free_names, singles_not_config_destroy]
    · simp
    · simp [orbit_finalize, singles_not_free_chars]
    · simp
    · simp [singles_not_free_chars]
    · simp
  · intro hk
    simp [suscan_analyzer_inspector_msg_destroy, suscan_analyzer_inspector_msg_take_spectrum, hk]
  · simp [suscan_analyzer_channel_msg_destroy, suscan_analyzer_channel_msg_take_channels,
      array_view]

/-- Witness of C12: scenario S5. The buffer of the PSD message of scenario S1 is
taken; the message keeps no buffer and its destructor releases the message
object alone. -/
theorem take_transfers_ownership_witness :
    suscan_analyzer_psd_msg_take_psd S1_psd
      = (S1_psd.psd_data, { S1_psd with psd_data := none, psd_size := 0 }) ∧
    suscan_analyzer_psd_msg_destroy (suscan_analyzer_psd_msg_take_psd S1_psd).2
      = [heap_block.message_object] ∧
    suscan_analyzer_psd_msg_destroy S1_psd
      = [heap_block.singles (S1_psd.psd_data.getD []), heap_block.message_object] :=
  ⟨(take_transfers_ownership config_state.empty S1_psd signal_example
      ⟨none, none, 0, none⟩).1.1,
   (take_transfers_ownership config_state.empty S1_psd signal_example
      ⟨none, none, 0, none⟩).1.2.1,
   by decide⟩

/-! ## Failure handling of the generic codec -/

theorem variant_result_spec {α : Type} (w : config_state) (mk : α → message)
    (x : Bool × α × grow_buf_t) (ok : Bool) (w1 : config_state) (msgptr : Option message)
    (b1 : grow_buf_t) (t : Nat) (h : variant_result w mk x = (ok, w1, msgptr, b1))
    (hm : ∀ a, (mk a).of_type t) (hb : builds_object t) :
    (msgptr = none ∧ ok = false ∧ ¬ builds_object t) ∨
      (∃ m, msgptr = some m ∧ m.of_type t ∧ builds_object t) := by
  simp only [variant_result, Prod.mk.injEq] at h
  exact Or.inr ⟨_, h.2.2.1.symm, hm _, hb⟩

theorem ite_spec {α : Type} (c : Prop) [Decidable c] (x y r : α) (P : Prop)
    (h : (if c then x else y) = r) (h1 : c → x = r → P) (h2 : ¬ c → y = r → P) : P := by
  by_cases hc : c
  · rw [if_pos hc] at h; exact h1 hc h
  · rw [if_neg hc] at h; exact h2 hc h

/-- C13: the generic deserializer is all-or-nothing. When it reports success,
`*ptr` is a non-null object of the variant of the decoded type and nothing is
handed to `suscan_analyzer_dispose_message`. When it reports failure, `*ptr`
is what it was before the call, the read position is back at the start, and
the object handed to `suscan_analyzer_dispose_message`, if any, is of the
variant of the type read; it is handed over whenever the type read is one for
which an object is built. -/
theorem msg_deserialize_all_or_nothing (ext : external_deserializers) (now : timeval)
    (w : config_state) (type : Nat) (ptr : Option message) (buffer : grow_buf_t) :
    let r := suscan_analyzer_msg_deserialize ext now w type ptr buffer
    (r.ok = true → r.disposed = none ∧ ∃ m, r.ptr = some m ∧ m.of_type r.type) ∧
    (r.ok = false → r.ptr = ptr ∧ r.buffer = buffer ∧
      (∀ m, r.disposed = some m → m.of_type r.type) ∧
      (( suscan_analyzer_msg_deserialize_partial type buffer).1 = true →
        builds_object r.type → r.disposed ≠ none)) := by
  intro r
  show (r.ok = true → _) ∧ (r.ok = false → _)
  simp only [r, suscan_analyzer_msg_deserialize]
  split
  · rename_i t b hp
    simp [hp]
  · rename_i t b hp
    simp only [hp]
    generalize hr : (if t = SUSCAN_ANALYZER_MESSAGE_TYPE_SOURCE_INFO then _ else _) = x
    obtain ⟨ok, w1, msgptr, b1⟩ := x
    have key : (msgptr = none ∧ ok = false ∧ ¬ builds_object t) ∨
        (∃ m, msgptr = some m ∧ m.of_type t ∧ builds_object t) := by
      have last : ¬ t = SUSCAN_ANALYZER_MESSAGE_TYPE_SOURCE_INFO →
          ¬ (t = SUSCAN_ANALYZER_MESSAGE_TYPE_READ_ERROR
            ∨ t = SUSCAN_ANALYZER_MESSAGE_TYPE_SOURCE_INIT
            ∨ t = SUSCAN_ANALYZER_MESSAGE_TYPE_EOS) →
          ¬ t = SUSCAN_ANALYZER_MESSAGE_TYPE_INSPECTOR →
          ¬ t = SUSCAN_ANALYZER_MESSAGE_TYPE_PSD → ¬ t = SUSCAN_ANALYZER_MESSAGE_TYPE_SAMPLES →
          ¬ t = SUSCAN_ANALYZER_MESSAGE_TYPE_THROTTLE →
          ¬ t = SUSCAN_ANALYZER_MESSAGE_TYPE_PARAMS → ¬ t = SUSCAN_ANALYZER_MESSAGE_TYPE_SEEK →
          ¬ t = SUSCAN_ANALYZER_MESSAGE_TYPE_GET_PARAMS →
          ¬ t = SUSCAN_ANALYZER_MESSAGE_TYPE_HISTORY_SIZE →
          ¬ t = SUSCAN_ANALYZER_MESSAGE_TYPE_REPLAY → ¬ builds_object t := by
        intro h0 h1 h3 h4 h5 h6 h7 h8 h9 h10 h11 hb
        obtain ⟨hb1, hb2, hb3, hb4⟩ := hb
        simp only [SUSCAN_ANALYZER_MESSAGE_TYPE_SOURCE_INFO,
          SUSCAN_ANALYZER_MESSAGE_TYPE_READ_ERROR, SUSCAN_ANALYZER_MESSAGE_TYPE_SOURCE_INIT,
          SUSCAN_ANALYZER_MESSAGE_TYPE_EOS, SUSCAN_ANALYZER_MESSAGE_TYPE_CHANNEL,
          SUSCAN_ANALYZER_MESSAGE_TYPE_INSPECTOR, SUSCAN_ANALYZER_MESSAGE_TYPE_PSD,
          SUSCAN_ANALYZER_MESSAGE_TYPE_SAMPLES, SUSCAN_ANALYZER_MESSAGE_TYPE_THROTTLE,
          SUSCAN_ANALYZER_MESSAGE_TYPE_PARAMS, SUSCAN_ANALYZER_MESSAGE_TYPE_SEEK,
          SUSCAN_ANALYZER_MESSAGE_TYPE_GET_PARAMS, SUSCAN_ANALYZER_MESSAGE_TYPE_HISTORY_SIZE,
          SUSCAN_ANALYZER_MESSAGE_TYPE_REPLAY, SUSCAN_ANALYZER_MESSAGE_TYPE_INTERNAL,
          SUSCAN_ANALYZER_MESSAGE_TYPE_SAMPLES_LOST] at *
        omega
      refine ite_spec _ _ _ _ _ hr (fun h0 hr =>
        variant_result_spec _ _ _ _ _ _ _ t hr (fun _ => h0) (by rw [h0]; decide))
        (fun h0 hr => ?_)
      refine ite_spec _ _ _ _ _ hr (fun h1 hr =>
        variant_result_spec _ _ _ _ _ _ _ t hr (fun _ => h1)
          (by rcases h1 with h | h | h <;> rw [h] <;> decide))
        (fun h1 hr => ?_)
      refine ite_spec _ _ _ _ _ hr (fun h2 hr => ?_) (fun h2 hr => ?_)
      · simp only [Prod.mk.injEq] at hr
        exact Or.inl ⟨hr.2.2.1.symm, hr.1.symm, fun hb => hb.2.1 h2⟩
      refine ite_spec _ _ _ _ _ hr (fun h3 hr => ?_) (fun h3 hr => ?_)
      · generalize suscan_analyzer_inspector_msg_deserialize w
          (suscan_analyzer_inspector_msg_new now 0 0) b = y at hr
        obtain ⟨y1, y2, y3, y4⟩ := y
        simp only [Prod.mk.injEq] at hr
        exact Or.inr ⟨_, hr.2.2.1.symm, h3, by rw [h3]; decide⟩
      refine ite_spec _ _ _ _ _ hr (fun h4 hr =>
        variant_result_spec _ _ _ _ _ _ _ t hr (fun _ => h4) (by rw [h4]; decide))
        (fun h4 hr => ?_)
      refine ite_spec _ _ _ _ _ hr (fun h5 hr =>
        variant_result_spec _ _ _ _ _ _ _ t hr (fun _ => h5) (by rw [h5]; decide))
        (fun h5 hr => ?_)
      refine ite_spec _ _ _ _ _ hr (fun h6 hr =>
        variant_result_spec _ _ _ _ _ _ _ t hr (fun _ => h6) (by rw [h6]; decide))
        (fun h6 hr => ?_)
      refine ite_spec _ _ _ _ _ hr (fun h7 hr =>
        variant_result_spec _ _ _ _ _ _ _ t hr (fun _ => h7) (by rw [h7]; decide))
        (fun h7 hr => ?_)
      refine ite_spec _ _ _ _ _ hr (fun h8 hr =>
        variant_result_spec _ _ _ _ _ _ _ t hr (fun _ => h8) (by rw [h8]; decide))
        (fun h8 hr => ?_)
      refine ite_spec _ _ _ _ _ hr (fun h9 hr => ?_) (fun h9 hr => ?_)
      · simp only [Prod.mk.injEq] at hr
        exact Or.inr ⟨_, hr.2.2.1.symm, ⟨h9, rfl⟩, by rw [h9]; decide⟩
      refine ite_spec _ _ _ _ _ hr (fun h10 hr =>
        variant_result_spec _ _ _ _ _ _ _ t hr (fun _ => h10) (by rw [h10]; decide))
        (fun h10 hr => ?_)
      refine ite_spec _ _ _ _ _ hr (fun h11 hr =>
        variant_result_spec _ _ _ _ _ _ _ t hr (fun _ => h11) (by rw [h11]; decide))
        (fun h11 hr => ?_)
      simp only [Prod.mk.injEq] at hr
      exact Or.inl ⟨hr.2.2.1.symm, hr.1.symm, last h0 h1 h3 h4 h5 h6 h7 h8 h9 h10 h11⟩
    cases ok with
    | true =>
      rcases key with ⟨_, h, _⟩ | ⟨m, hm, hty, _⟩
      · cases h
      · simp [hm, hty]
    | false =>
      have hpe : ( suscan_analyzer_msg_deserialize_partial type buffer).1 = true := by
        rw [hp]
      rcases key with ⟨hm, _, hnb⟩ | ⟨m, hm, hty, hb⟩
      · simp [hm, hnb]
      · simp [hm, hty]

/-- Witness of C13: a PSD envelope truncated after `fc`. The deserializer fails,
leaves `*ptr` null and the read position at the start, and hands the object
it had built to the disposer. -/
theorem msg_deserialize_all_or_nothing_witness :
    (suscan_analyzer_msg_deserialize ext_none ⟨0, 0⟩ config_state.empty 0 none
        [cbor_item.uint 8, cbor_item.uint 5]).ok = false ∧
    (suscan_analyzer_msg_deserialize ext_none ⟨0, 0⟩ config_state.empty 0 none
        [cbor_item.uint 8, cbor_item.uint 5]).ptr = none ∧
    (suscan_analyzer_msg_deserialize ext_none ⟨0, 0⟩ config_state.empty 0 none
        [cbor_item.uint 8, cbor_item.uint 5]).buffer = [cbor_item.uint 8, cbor_item.uint 5] ∧
    (suscan_analyzer_msg_deserialize ext_none ⟨0, 0⟩ config_state.empty 0 none
        [cbor_item.uint 8, cbor_item.uint 5]).disposed
      = some (message.psd { suscan_analyzer_psd_msg_new_NULL ⟨0, 0⟩ with fc := 5 }) :=
  ⟨by decide,
   ((msg_deserialize_all_or_nothing ext_none ⟨0, 0⟩ config_state.empty 0 none
      [cbor_item.uint 8, cbor_item.uint 5]).2 (by decide)).1,
   ((msg_deserialize_all_or_nothing ext_none ⟨0, 0⟩ config_state.empty 0 none
      [cbor_item.uint 8, cbor_item.uint 5]).2 (by decide)).2.1,
   by decide⟩

/-! ## Unknown kinds and types -/

theorem recognized_kind_cases (k : Int) (h : ¬ recognized_kind k) :
    k ≠ SUSCAN_ANALYZER_INSPECTOR_MSGKIND_OPEN ∧
    k ≠ SUSCAN_ANALYZER_INSPECTOR_MSGKIND_SET_CONFIG ∧
    k ≠ SUSCAN_ANALYZER_INSPECTOR_MSGKIND_ESTIMATOR ∧
    k ≠ SUSCAN_ANALYZER_INSPECTOR_MSGKIND_SPECTRUM ∧
    k ≠ SUSCAN_ANALYZER_INSPECTOR_MSGKIND_SET_FREQ ∧
    k ≠ SUSCAN_ANALYZER_INSPECTOR_MSGKIND_SET_BANDWIDTH ∧
    k ≠ SUSCAN_ANALYZER_INSPECTOR_MSGKIND_SET_WATERMARK ∧
    k ≠ SUSCAN_ANALYZER_INSPECTOR_MSGKIND_SET_TLE ∧
    k ≠ SUSCAN_ANALYZER_INSPECTOR_MSGKIND_ORBIT_REPORT ∧
    k ≠ SUSCAN_ANALYZER_INSPECTOR_MSGKIND_SIGNAL ∧
    is_empty_kind k = false := by
  unfold recognized_kind no_config_kind at h
  simp only [not_or] at h
  obtain ⟨⟨a1, a2, a3, a4, a5, a6, a7, a8, a9, a10, a11, a12, a13, a14, a15, a16, a17, a18,
    a19⟩, b1, b2⟩ := h
  refine ⟨b1, b2, a12, a13, a14, a15, a16, a17, a18, a19, ?_⟩
  simp [is_empty_kind, a1, a2, a3, a4, a5, a6, a7, a8, a9, a10, a11]

theorem serialize_switch_unknown (w : config_state) (v : suscan_analyzer_inspector_msg)
    (b : grow_buf_t) (h : ¬ recognized_kind v.kind) :
    suscan_analyzer_inspector_msg_serialize_switch w v b = (false, b) := by
  obtain ⟨h1, h2, h3, h4, h5, h6, h7, h8, h9, h10, h11⟩ := recognized_kind_cases v.kind h
  unfold suscan_analyzer_inspector_msg_serialize_switch
  rw [if_neg h1, if_neg h2, if_neg h3, if_neg h4, if_neg h5, if_neg h6, if_neg h7, if_neg h8,
    if_neg h9, if_neg h10, h11]
  rfl

theorem deserialize_switch_unknown (w : config_state) (v : suscan_analyzer_inspector_msg)
    (b : grow_buf_t) (h : ¬ recognized_kind v.kind) :
    suscan_analyzer_inspector_msg_deserialize_switch w v b = (false, w, v, b) := by
  obtain ⟨h1, h2, h3, h4, h5, h6, h7, h8, h9, h10, h11⟩ := recognized_kind_cases v.kind h
  unfold suscan_analyzer_inspector_msg_deserialize_switch
  rw [if_neg h1, if_neg h2, if_neg h3, if_neg h4, if_neg h5, if_neg h6, if_neg h7, if_neg h8,
    if_neg h9, if_neg h10, h11]
  rfl

theorem inspector_deserialize_unknown (w : config_state) (m0 : suscan_analyzer_inspector_msg)
    (k : Nat) (rest : grow_buf_t) (h : ¬ recognized_kind (i32 k)) :
    (suscan_analyzer_inspector_msg_deserialize w m0 (cbor_item.uint k :: rest)).1 = false := by
  have hsw := fun (v : suscan_analyzer_inspector_msg) (hv : v.kind = i32 k) b =>
    deserialize_switch_unknown w v b (by rw [hv]; exact h)
  unfold suscan_analyzer_inspector_msg_deserialize
  simp only [SUSCAN_UNPACK]
  repeat' split
  all_goals first
    | rfl
    | (rename_i heq; rw [hsw _ (by simp_all [cbor_unpack_uint32])] at heq; cases heq)

theorem msg_deserialize_inspector_fail (ext : external_deserializers) (now : timeval)
    (w : config_state) (type : Nat) (ptr : Option message) (b : grow_buf_t)
    (h : (suscan_analyzer_inspector_msg_deserialize w
      (suscan_analyzer_inspector_msg_new now 0 0) b).1 = false) :
    (suscan_analyzer_msg_deserialize ext now w type ptr
      (cbor_item.uint SUSCAN_ANALYZER_MESSAGE_TYPE_INSPECTOR :: b)).ok = false ∧
    (suscan_analyzer_msg_deserialize ext now w type ptr
      (cbor_item.uint SUSCAN_ANALYZER_MESSAGE_TYPE_INSPECTOR :: b)).ptr = ptr ∧
    (suscan_analyzer_msg_deserialize ext now w type ptr
      (cbor_item.uint SUSCAN_ANALYZER_MESSAGE_TYPE_INSPECTOR :: b)).buffer
        = cbor_item.uint SUSCAN_ANALYZER_MESSAGE_TYPE_INSPECTOR :: b := by
  generalize hy : suscan_analyzer_inspector_msg_deserialize w
    (suscan_analyzer_inspector_msg_new now 0 0) b = y at h
  obtain ⟨y1, y2, y3, y4⟩ := y
  simp only at h
  subst h
  simp [suscan_analyzer_msg_deserialize, suscan_analyzer_msg_deserialize_partial,
    SUSCAN_UNPACK, cbor_unpack_uint32, hy]

/-- C14: an unknown inspector kind is rejected on both sides. For every inspector
message whose kind is not one of the 21 recognized kinds the inspector
serializer reports failure; for every buffer whose first element is a kind
that is not recognized the inspector deserializer reports failure, and the
generic deserializer applied to an Inspector envelope with such a kind
reports failure and leaves `*ptr` as it was. -/
theorem unknown_kind_rejected (ext : external_deserializers) (now : timeval)
    (w : config_state) (type : Nat) (ptr : Option message)
    (m0 v : suscan_analyzer_inspector_msg) (b : grow_buf_t) (k : Nat) (rest : grow_buf_t)
    (hv : ¬ recognized_kind v.kind) (hk : ¬ recognized_kind (i32 k)) :
    (suscan_analyzer_inspector_msg_serialize w v b).1 = false ∧
    (suscan_analyzer_inspector_msg_deserialize w m0 (cbor_item.uint k :: rest)).1 = false ∧
    (suscan_analyzer_msg_deserialize ext now w type ptr
      (cbor_item.uint SUSCAN_ANALYZER_MESSAGE_TYPE_INSPECTOR :: cbor_item.uint k :: rest)).ok
        = false ∧
    (suscan_analyzer_msg_deserialize ext now w type ptr
      (cbor_item.uint SUSCAN_ANALYZER_MESSAGE_TYPE_INSPECTOR :: cbor_item.uint k :: rest)).ptr
        = ptr := by
  have hd := msg_deserialize_inspector_fail ext now w type ptr (cbor_item.uint k :: rest)
    (inspector_deserialize_unknown w (suscan_analyzer_inspector_msg_new now 0 0) k rest hk)
  refine ⟨?_, inspector_deserialize_unknown w m0 k rest hk, hd.1, hd.2.1⟩
  rw [inspector_serialize_header, serialize_switch_unknown w v _ hv]

theorem unknown_kind_dead : ¬ recognized_kind 0xDEAD ∧ ¬ recognized_kind (i32 0xDEAD) := by
  unfold recognized_kind no_config_kind
  constructor <;> decide

/-- Witness of C14: the kind `0xDEAD` of scenario S3, in a message and on the wire
followed by the rest of an envelope. -/
theorem unknown_kind_rejected_witness :
    (¬ recognized_kind unknown_kind_example.kind ∧ ¬ recognized_kind (i32 0xDEAD)) ∧
    (suscan_analyzer_inspector_msg_serialize config_state.empty unknown_kind_example []).1
      = false ∧
    (suscan_analyzer_inspector_msg_deserialize config_state.empty
      (suscan_analyzer_inspector_msg_new ⟨0, 0⟩ 0 0)
      (cbor_item.uint 0xDEAD :: [cbor_item.uint 3, cbor_item.uint 9, cbor_item.uint 7,
        cbor_item.nint 0, cbor_item.uint 1700000000, cbor_item.uint 1000])).1 = false ∧
    (suscan_analyzer_msg_deserialize ext_none ⟨0, 0⟩ config_state.empty 0 none
      (cbor_item.uint SUSCAN_ANALYZER_MESSAGE_TYPE_INSPECTOR :: cbor_item.uint 0xDEAD ::
        [cbor_item.uint 3, cbor_item.uint 9, cbor_item.uint 7, cbor_item.nint 0,
         cbor_item.uint 1700000000, cbor_item.uint 1000])).ok = false ∧
    (suscan_analyzer_msg_deserialize ext_none ⟨0, 0⟩ config_state.empty 0 none
      (cbor_item.uint SUSCAN_ANALYZER_MESSAGE_TYPE_INSPECTOR :: cbor_item.uint 0xDEAD ::
        [cbor_item.uint 3, cbor_item.uint 9, cbor_item.uint 7, cbor_item.nint 0,
         cbor_item.uint 1700000000, cbor_item.uint 1000])).ptr = none :=
  ⟨unknown_kind_dead,
   unknown_kind_rejected ext_none ⟨0, 0⟩ config_state.empty 0 none
    (suscan_analyzer_inspector_msg_new ⟨0, 0⟩ 0 0) unknown_kind_example [] 0xDEAD
    [cbor_item.uint 3, cbor_item.uint 9, cbor_item.uint 7, cbor_item.nint 0,
     cbor_item.uint 1700000000, cbor_item.uint 1000] unknown_kind_dead.1 unknown_kind_dead.2⟩

theorem msg_deserialize_unknown (ext : external_deserializers) (now : timeval)
    (w : config_state) (type : Nat) (ptr : Option message) (t : Nat) (rest : grow_buf_t)
    (h : 15 < t) :
    (suscan_analyzer_msg_deserialize ext now w type ptr (cbor_item.uint t :: rest)).ok = false ∧
    (suscan_analyzer_msg_deserialize ext now w type ptr (cbor_item.uint t :: rest)).ptr = ptr ∧
    (suscan_analyzer_msg_deserialize ext now w type ptr (cbor_item.uint t :: rest)).disposed
      = none := by
  have e0 : ¬ t = 0 := by omega
  have e1 : ¬ t = 1 := by omega
  have e2 : ¬ t = 2 := by omega
  have e3 : ¬ t = 3 := by omega
  have e4 : ¬ t = 4 := by omega
  have e7 : ¬ t = 7 := by omega
  have e8 : ¬ t = 8 := by omega
  have e9 : ¬ t = 9 := by omega
  have e10 : ¬ t = 10 := by omega
  have e11 : ¬ t = 11 := by omega
  have e12 : ¬ t = 12 := by omega
  have e13 : ¬ t = 13 := by omega
  have e14 : ¬ t = 14 := by omega
  have e15 : ¬ t = 15 := by omega
  by_cases ht : t < 4294967296
  · simp [suscan_analyzer_msg_deserialize, suscan_analyzer_msg_deserialize_partial,
      SUSCAN_UNPACK, cbor_unpack_uint32, ht, e0, e1, e2, e3, e4, e7, e8, e9, e10, e11, e12,
      e13, e14, e15]
  · simp [suscan_analyzer_msg_deserialize, suscan_analyzer_msg_deserialize_partial,
      SUSCAN_UNPACK, cbor_unpack_uint32, ht]

theorem msg_deserialize_no_type (ext : external_deserializers) (now : timeval)
    (w : config_state) (type : Nat) (ptr : Option message) (buffer : grow_buf_t)
    (h : ∀ t rest, buffer ≠ cbor_item.uint t :: rest) :
    (suscan_analyzer_msg_deserialize ext now w type ptr buffer).ok = false ∧
    (suscan_analyzer_msg_deserialize ext now w type ptr buffer).ptr = ptr ∧
    (suscan_analyzer_msg_deserialize ext now w type ptr buffer).disposed = none := by
  have hp : cbor_unpack_uint32 buffer = none := by
    unfold cbor_unpack_uint32
    split
    · rename_i v rest
      exact absurd rfl (h v rest)
    · rfl
  simp [suscan_analyzer_msg_deserialize, suscan_analyzer_msg_deserialize_partial,
    SUSCAN_UNPACK, hp]

/-- C15: for every buffer whose leading element is not one of the sixteen type tags
`0x0 .. 0xf` (a larger unsigned value such as the invalid sentinel, or no
unsigned value at all), the generic deserializer reports failure, leaves
`*ptr` as it was and builds no object. -/
theorem unknown_type_rejected (ext : external_deserializers) (now : timeval)
    (w : config_state) (type : Nat) (ptr : Option message) (buffer : grow_buf_t)
    (h : ∀ t rest, buffer = cbor_item.uint t :: rest → 15 < t) :
    (suscan_analyzer_msg_deserialize ext now w type ptr buffer).ok = false ∧
    (suscan_analyzer_msg_deserialize ext now w type ptr buffer).ptr = ptr ∧
    (suscan_analyzer_msg_deserialize ext now w type ptr buffer).disposed = none := by
  by_cases hb : ∃ t rest, buffer = cbor_item.uint t :: rest
  · obtain ⟨t, rest, rfl⟩ := hb
    exact msg_deserialize_unknown ext now w type ptr t rest (h t rest rfl)
  · exact msg_deserialize_no_type ext now w type ptr buffer
      (fun t rest hc => hb ⟨t, rest, hc⟩)

/-- Witness of C15: a buffer that starts with the invalid sentinel `0x8000000`. -/
theorem unknown_type_rejected_witness :
    (suscan_analyzer_msg_deserialize ext_none ⟨0, 0⟩ config_state.empty 0 none
      [cbor_item.uint SUSCAN_ANALYZER_MESSAGE_TYPE_INVALID, cbor_item.uint 5]).ok = false ∧
    (suscan_analyzer_msg_deserialize ext_none ⟨0, 0⟩ config_state.empty 0 none
      [cbor_item.uint SUSCAN_ANALYZER_MESSAGE_TYPE_INVALID, cbor_item.uint 5]).ptr = none ∧
    (suscan_analyzer_msg_deserialize ext_none ⟨0, 0⟩ config_state.empty 0 none
      [cbor_item.uint SUSCAN_ANALYZER_MESSAGE_TYPE_INVALID, cbor_item.uint 5]).disposed = none :=
  unknown_type_rejected ext_none ⟨0, 0⟩ config_state.empty 0 none
    [cbor_item.uint SUSCAN_ANALYZER_MESSAGE_TYPE_INVALID, cbor_item.uint 5]
    (fun t rest h => by
      have ht : t = 0x8000000 := by
        have := (List.cons.inj h).1
        injection this with h1
        exact h1.symm
      omega)

/-- C16 (failing input, unknown type): for every type tag above `0xf`, among them
the invalid sentinel `0x8000000`, and every payload, the generic serializer
reports success having written the type alone: its switch has no default
case. -/
theorem msg_serialize_unknown_type_succeeds (w : config_state) (ptr : message)
    (b : grow_buf_t) (t : Nat) :
    suscan_analyzer_msg_serialize w (t + 16) ptr b = (true, b ++ [cbor_item.uint (t + 16)]) ∧
    suscan_analyzer_msg_serialize w SUSCAN_ANALYZER_MESSAGE_TYPE_INVALID ptr b
      = (true, b ++ [cbor_item.uint SUSCAN_ANALYZER_MESSAGE_TYPE_INVALID]) := by
  refine ⟨?_, ?_⟩
  · simp [suscan_analyzer_msg_serialize, SUSCAN_PACK, cbor_pack_uint]
  · simp [suscan_analyzer_msg_serialize, SUSCAN_PACK, cbor_pack_uint]

/-- C17: channel messages never cross the wire. The generic serializer called with
type Channel (2) reports failure for every payload, and the generic
deserializer applied to any buffer that starts with type 2 reports failure,
leaves `*ptr` as it was and builds no object. -/
theorem channel_not_transferred (ext : external_deserializers) (now : timeval)
    (w : config_state) (type : Nat) (ptr : Option message) (v : message)
    (b rest : grow_buf_t) :
    (suscan_analyzer_msg_serialize w SUSCAN_ANALYZER_MESSAGE_TYPE_CHANNEL v b).1 = false ∧
    (suscan_analyzer_msg_deserialize ext now w type ptr
      (cbor_item.uint SUSCAN_ANALYZER_MESSAGE_TYPE_CHANNEL :: rest)).ok = false ∧
    (suscan_analyzer_msg_deserialize ext now w type ptr
      (cbor_item.uint SUSCAN_ANALYZER_MESSAGE_TYPE_CHANNEL :: rest)).ptr = ptr ∧
    (suscan_analyzer_msg_deserialize ext now w type ptr
      (cbor_item.uint SUSCAN_ANALYZER_MESSAGE_TYPE_CHANNEL :: rest)).disposed = none := by
  refine ⟨?_, ?_⟩
  · simp [suscan_analyzer_msg_serialize, SUSCAN_PACK, cbor_pack_uint]
  · simp [suscan_analyzer_msg_deserialize, suscan_analyzer_msg_deserialize_partial,
      SUSCAN_UNPACK, cbor_unpack_uint32]

/-- C19: for every type tag above `0xf` and every pointer the generic disposer
releases nothing. -/
theorem dispose_unknown_type (w : config_state) (t : Nat) (ptr : message) (h : 15 < t) :
    suscan_analyzer_dispose_message w t ptr = [] := by
  have e0 : ¬ t = 0 := by omega
  have e1 : ¬ t = 1 := by omega
  have e2 : ¬ t = 2 := by omega
  have e3 : ¬ t = 3 := by omega
  have e4 : ¬ t = 4 := by omega
  have e5 : ¬ t = 5 := by omega
  have e7 : ¬ t = 7 := by omega
  have e8 : ¬ t = 8 := by omega
  have e9 : ¬ t = 9 := by omega
  have e10 : ¬ t = 10 := by omega
  have e11 : ¬ t = 11 := by omega
  simp [suscan_analyzer_dispose_message, e0, e1, e2, e3, e4, e5, e7, e8, e9, e10, e11]

/-- Witness of C19: the invalid sentinel with a status message. -/
theorem dispose_unknown_type_witness :
    suscan_analyzer_dispose_message config_state.empty SUSCAN_ANALYZER_MESSAGE_TYPE_INVALID
      (message.status status_example) = [] :=
  dispose_unknown_type config_state.empty SUSCAN_ANALYZER_MESSAGE_TYPE_INVALID
    (message.status status_example) (by decide)

/-! ## Disposal -/

/-- C18 (failing input, types Seek, HistorySize and Replay): the generic
deserializer builds the object of a Replay, HistorySize or Seek envelope with
`calloc` and returns it to the caller, and the generic disposer called with
that type and that object releases nothing, not even the object: its switch
has no case for these types. For Throttle, whose object is built the same
way, the disposer releases the object. -/
theorem dispose_keeps_seek_history_replay (ext : external_deserializers) (now : timeval)
    (w : config_state) (type : Nat) (ptr : Option message) (x : Bool) (n : Nat)
    (s : suscan_analyzer_seek_msg) (h : suscan_analyzer_history_size_msg)
    (r : suscan_analyzer_replay_msg) (t : suscan_analyzer_throttle_msg) :
    suscan_analyzer_msg_deserialize ext now w type ptr
        [cbor_item.uint SUSCAN_ANALYZER_MESSAGE_TYPE_REPLAY, cbor_item.bool x]
      = { ok := true, type := SUSCAN_ANALYZER_MESSAGE_TYPE_REPLAY,
          ptr := some (message.replay { replay := x }), disposed := none, w := w,
          buffer := [] } ∧
    suscan_analyzer_msg_deserialize ext now w type ptr
        [cbor_item.uint SUSCAN_ANALYZER_MESSAGE_TYPE_HISTORY_SIZE, cbor_item.uint n]
      = { ok := true, type := SUSCAN_ANALYZER_MESSAGE_TYPE_HISTORY_SIZE,
          ptr := some (message.history_size { buffer_length := n }), disposed := none,
          w := w, buffer := [] } ∧
    suscan_analyzer_msg_deserialize ext now w type ptr
        [cbor_item.uint SUSCAN_ANALYZER_MESSAGE_TYPE_SEEK, cbor_item.uint 1700000000,
         cbor_item.uint 250000]
      = { ok := true, type := SUSCAN_ANALYZER_MESSAGE_TYPE_SEEK,
          ptr := some (message.seek { position := ⟨1700000000, 250000⟩ }), disposed := none,
          w := w, buffer := [] } ∧
    suscan_analyzer_dispose_message w SUSCAN_ANALYZER_MESSAGE_TYPE_REPLAY (message.replay r)
      = [] ∧
    suscan_analyzer_dispose_message w SUSCAN_ANALYZER_MESSAGE_TYPE_HISTORY_SIZE
      (message.history_size h) = [] ∧
    suscan_analyzer_dispose_message w SUSCAN_ANALYZER_MESSAGE_TYPE_SEEK (message.seek s) = [] ∧
    suscan_analyzer_dispose_message w SUSCAN_ANALYZER_MESSAGE_TYPE_THROTTLE
      (message.throttle t) = [heap_block.message_object] := by
  refine ⟨?_, ?_, ?_, ?_, ?_, ?_, ?_⟩
  · simp [suscan_analyzer_msg_deserialize, suscan_analyzer_msg_deserialize_partial,
      SUSCAN_UNPACK, cbor_unpack_uint32, variant_result,
      suscan_analyzer_replay_msg_deserialize, cbor_unpack_bool]
  · simp [suscan_analyzer_msg_deserialize, suscan_analyzer_msg_deserialize_partial,
      SUSCAN_UNPACK, cbor_unpack_uint32, variant_result,
      suscan_analyzer_history_size_msg_deserialize, cbor_unpack_uint64]
  · simp [suscan_analyzer_msg_deserialize, suscan_analyzer_msg_deserialize_partial,
      SUSCAN_UNPACK, cbor_unpack_uint32, variant_result,
      suscan_analyzer_seek_msg_deserialize, cbor_unpack_uint64, i64]
  · simp [suscan_analyzer_dispose_message]
  · simp [suscan_analyzer_dispose_message]
  · simp [suscan_analyzer_dispose_message]
  · simp [suscan_analyzer_dispose_message]

/-! ## PSD: the partial decoder -/

theorem psd_items_split (v : suscan_analyzer_psd_msg) :
    psd_items v = psd_header_items v ++ psd_array_items v := by
  simp [psd_items, psd_header_items, psd_array_items]

theorem psd_partial_eq (m0 v : suscan_analyzer_psd_msg) (rest : grow_buf_t) (hv : v.wf) :
    ( suscan_analyzer_psd_msg_deserialize_partial m0 (psd_header_items v ++ rest))
      = (true, psd_with_header m0 v, rest) := by
  obtain ⟨hfc, hid, hts, hrt, _, _, _, _, hl, hx⟩ := hv
  simp [psd_header_items, psd_with_header, suscan_analyzer_psd_msg_deserialize_partial,
    SUSCAN_UNPACK, unpack_int64_int_item _ _ hfc, unpack_uint32_uint _ _ hid,
    cbor_unpack_uint64, unpack_uint32_uint _ _ (u64_usec _ hts.2).1,
    unpack_uint32_uint _ _ (u64_usec _ hrt.2).1, cbor_unpack_bool, cbor_unpack_float,
    timeval_roundtrip _ hts, timeval_roundtrip _ hrt]

theorem psd_full_is_partial_then_array (self : suscan_analyzer_psd_msg) (buffer : grow_buf_t) :
    suscan_analyzer_psd_msg_deserialize self buffer = psd_partial_then_array self buffer := by
  unfold suscan_analyzer_psd_msg_deserialize psd_partial_then_array
  generalize ( suscan_analyzer_psd_msg_deserialize_partial self buffer) = h
  obtain ⟨ok, m, b⟩ := h
  cases ok with
  | false => simp
  | true =>
    simp only [SUSCAN_UNPACK, if_true]
    cases suscan_unpack_compact_single_array b with
    | none => rfl
    | some y => rfl

/-- C20: on the serialized tail of every PSD message `v` with valid field ranges the
partial decoder succeeds, sets `fc`, `inspector_id`, `timestamp`, `rt_time`,
`looped`, `history_size`, `samp_rate`, `measured_samp_rate` and `N0` to the
values of `v`, which are the values the full decoder yields, leaves
`psd_data` and `psd_size` of the message it fills as they were, and leaves
the read position at the compact float array, which unpacks from there to
the floats of `v`; and on every buffer the full decoder equals the partial
decoder followed by the unpacking of that array. -/
theorem psd_partial_decoder (m0 v : suscan_analyzer_psd_msg) (rest : grow_buf_t)
    (hv : v.wf) :
    ( suscan_analyzer_psd_msg_deserialize_partial m0 (psd_items v ++ rest))
      = (true, psd_with_header m0 v, psd_array_items v ++ rest) ∧
    (psd_with_header m0 v).psd_data = m0.psd_data ∧
    (psd_with_header m0 v).psd_size = m0.psd_size ∧
    suscan_unpack_compact_single_array (psd_array_items v ++ rest)
      = some ((some (array_view v.psd_data v.psd_size), v.psd_size), rest) ∧
    suscan_analyzer_psd_msg_deserialize m0 (psd_items v ++ rest)
      = (true, { psd_with_header m0 v with
                  psd_data := some (array_view v.psd_data v.psd_size),
                  psd_size := v.psd_size }, rest) ∧
    (∀ self buffer, suscan_analyzer_psd_msg_deserialize self buffer
      = psd_partial_then_array self buffer) := by
  have hl := hv.2.2.2.2.2.2.2.2.1
  have hx := hv.2.2.2.2.2.2.2.2.2
  have hp := psd_partial_eq m0 v (psd_array_items v ++ rest) hv
  have ha : suscan_unpack_compact_single_array (psd_array_items v ++ rest)
      = some ((some (array_view v.psd_data v.psd_size), v.psd_size), rest) :=
    unpack_compact_single_view _ _ _ hl hx
  refine ⟨?_, rfl, rfl, ha, ?_, psd_full_is_partial_then_array⟩
  · rw [psd_items_split, List.append_assoc]; exact hp
  · rw [psd_full_is_partial_then_array, psd_items_split, List.append_assoc]
    unfold psd_partial_then_array
    rw [hp]
    simp only [if_true, ha]

/-- Witness of C20: the PSD message of scenario S1 decoded into the message the
constructor returns, followed by one more element. -/
theorem psd_partial_decoder_witness :
    S1_psd.wf ∧
    ( suscan_analyzer_psd_msg_deserialize_partial (suscan_analyzer_psd_msg_new_NULL ⟨5, 5⟩)
        (psd_items S1_psd ++ [cbor_item.uint 7]))
      = (true, psd_with_header (suscan_analyzer_psd_msg_new_NULL ⟨5, 5⟩) S1_psd,
          psd_array_items S1_psd ++ [cbor_item.uint 7]) ∧
    (psd_with_header (suscan_analyzer_psd_msg_new_NULL ⟨5, 5⟩) S1_psd).psd_data = none ∧
    (psd_with_header (suscan_analyzer_psd_msg_new_NULL ⟨5, 5⟩) S1_psd).psd_size = 0 :=
  ⟨S1_psd_wf,
   (psd_partial_decoder (suscan_analyzer_psd_msg_new_NULL ⟨5, 5⟩) S1_psd [cbor_item.uint 7]
      S1_psd_wf).1,
   (psd_partial_decoder (suscan_analyzer_psd_msg_new_NULL ⟨5, 5⟩) S1_psd [cbor_item.uint 7]
      S1_psd_wf).2.1,
   (psd_partial_decoder (suscan_analyzer_psd_msg_new_NULL ⟨5, 5⟩) S1_psd [cbor_item.uint 7]
      S1_psd_wf).2.2.1⟩

/-! ## Serialization by value -/

theorem msg_serialize_exported (w : config_state) (t : Nat) (v : message) (b : grow_buf_t) :
    suscan_analyzer_msg_serialize w t v.exported b = suscan_analyzer_msg_serialize w t v b := by
  cases v with
  | status m =>
    simp only [message.exported, suscan_analyzer_msg_serialize,
      suscan_analyzer_status_msg_serialize]
  | channel m =>
    simp only [message.exported, suscan_analyzer_msg_serialize]
  | _ => rfl

/-- C21: serialization is by value only. Two messages that agree once their
back-pointers (`sender` of a status message, `source` and `sender` of a
channel message) are left out are serialized alike: for every type tag and
every buffer the generic serializer returns the same flag and writes the same
elements for both. -/
theorem serialize_by_value (w : config_state) (t : Nat) (v1 v2 : message) (b : grow_buf_t)
    (h : v1.exported = v2.exported) :
    suscan_analyzer_msg_serialize w t v1 b = suscan_analyzer_msg_serialize w t v2 b := by
  rw [← msg_serialize_exported w t v1 b, ← msg_serialize_exported w t v2 b, h]

/-- Witness of C21: two Eos status messages with equal code and text and different
senders; both are written as type, code and text. -/
theorem serialize_by_value_witness :
    status_from_1 ≠ status_from_2 ∧
    suscan_analyzer_msg_serialize config_state.empty SUSCAN_ANALYZER_MESSAGE_TYPE_EOS
        (message.status status_from_1) []
      = suscan_analyzer_msg_serialize config_state.empty SUSCAN_ANALYZER_MESSAGE_TYPE_EOS
        (message.status status_from_2) [] ∧
    suscan_analyzer_msg_serialize config_state.empty SUSCAN_ANALYZER_MESSAGE_TYPE_EOS
        (message.status status_from_2) []
      = (true, [cbor_item.uint 3, cbor_item.nint 0, cbor_item.text [69, 79, 83]]) :=
  ⟨by decide,
   serialize_by_value config_state.empty SUSCAN_ANALYZER_MESSAGE_TYPE_EOS
    (message.status status_from_1) (message.status status_from_2) [] rfl,
   by decide⟩

/-! ## SIGNAL -/

/-- C22: SIGNAL is a non-empty kind on both sides. For every inspector message of
kind SIGNAL with a signal name, the inspector serializer succeeds and appends
the common envelope followed by the name as a string and the value as a
double, and nothing else; the inspector deserializer reads the envelope and
those two elements, stores them, and leaves whatever follows unread. -/
theorem signal_tail (w : config_state) (m0 v : suscan_analyzer_inspector_msg)
    (b rest : grow_buf_t) (s : cstr)
    (hk : v.kind = SUSCAN_ANALYZER_INSPECTOR_MSGKIND_SIGNAL) (hh : v.wf_header)
    (hs : v.signal_name = some s) (hc : is_cstr s) :
    suscan_analyzer_inspector_msg_serialize w v b
      = (true, b ++ (inspector_header_items v
          ++ [cbor_item.text s, cbor_item.double v.signal_value])) ∧
    ∃ m, suscan_analyzer_inspector_msg_deserialize w m0
        (inspector_header_items v
          ++ ([cbor_item.text s, cbor_item.double v.signal_value] ++ rest))
        = (true, w, m, rest) ∧
      header_eq m v ∧ m.signal_name = some s ∧ m.signal_value = v.signal_value := by
  have ht : v.wf_tail := by
    refine ⟨fun h => ?_, fun h => ?_, fun h => ?_, fun h => ?_, fun h => ?_,
      fun _ => ⟨s, hs, hc⟩⟩ <;>
    · rw [hk] at h; exact absurd h (by decide)
  obtain ⟨hser, m, hd, hhe, ha⟩ := switch_signal w v (with_header m0 v) rest hk ht rfl
  rw [hs] at hser hd
  simp only [Option.getD_some] at hser hd
  refine ⟨?_, m, ?_, ?_, ?_⟩
  · rw [inspector_serialize_header, hser, List.append_assoc]
  · rw [inspector_deserialize_header w m0 v _ (by simp [hk]) (by simp [hk]) hh, hd]
  · simpa [header_eq, with_header] using hhe
  · have := ha.2.2.2.2.2.2.2 hk
    rw [hs] at this
    exact this

/-- Witness of C22: the message "SNR" = 12.5. -/
theorem signal_tail_witness :
    suscan_analyzer_inspector_msg_serialize config_state.empty signal_example []
      = (true, [] ++ (inspector_header_items signal_example
          ++ [cbor_item.text [83, 78, 82], cbor_item.double signal_example.signal_value])) :=
  (signal_tail config_state.empty (suscan_analyzer_inspector_msg_new ⟨0, 0⟩ 0 0)
    signal_example [] [] [83, 78, 82] rfl signal_example_wf.2.1 rfl
    (by unfold is_cstr; decide)).1

/-! ## Configurations: the order of emission -/

theorem field_items_length (fs : List suscan_field) :
    ∀ vals : List suscan_field_value, vals.length = fs.length →
      (field_items fs vals).length = 2 * fs.length := by
  induction fs with
  | nil => intro vals h; cases vals <;> simp_all [field_items]
  | cons f fs ih =>
    intro vals h
    cases vals with
    | nil => simp at h
    | cons v vs =>
      have hl : vs.length = fs.length := by simpa using h
      simp [field_items, ih vs hl]
      omega

theorem field_items_at (fs : List suscan_field) :
    ∀ (vals : List suscan_field_value) (i : Nat) (f : suscan_field) (v : suscan_field_value),
      fs[i]? = some f → vals[i]? = some v →
      (field_items fs vals)[2 * i]? = some (cbor_item.text f.name) ∧
      (field_items fs vals)[2 * i + 1]? = some (value_item f v) := by
  induction fs with
  | nil => intro vals i f v h; simp at h
  | cons g gs ih =>
    intro vals i f v hf hv
    cases vals with
    | nil => simp at hv
    | cons u us =>
      cases i with
      | zero =>
        simp only [List.getElem?_cons_zero, Option.some.injEq] at hf hv
        subst hf hv
        simp [field_items]
      | succ j =>
        simp only [List.getElem?_cons_succ] at hf hv
        have := ih us j f v hf hv
        have e1 : 2 * (j + 1) = (2 * j + 1) + 1 := by omega
        have e2 : 2 * (j + 1) + 1 = ((2 * j + 1) + 1) + 1 := by omega
        rw [e2, e1]
        simpa [field_items] using this

/-- C23: for a configuration bound to a named descriptor and holding one value per
field, the serializer succeeds and appends, in this order, the global name as
a string, a map header whose count is the number of fields of the descriptor,
and for the field of each index the name as a string followed by the value
written according to the declared type (boolean as bool, string and file as
string, float as single float, integer as int); the elements after the header
are twice as many as the count in the header. -/
theorem config_serialize_layout (w : config_state) (c : suscan_config) (p : Nat)
    (d : suscan_config_desc) (n : cstr) (vals : List suscan_field_value) (b : grow_buf_t)
    (hd : c.desc = some p) (hp : w.deref p = some d) (hn : d.global_name = some n)
    (hv : c.values = some vals) (hl : vals.length = d.field_list.length) :
    suscan_config_serialize w c b
      = (true, b ++ (cbor_item.text n :: cbor_item.map_start d.field_list.length ::
          field_items d.field_list vals)) ∧
    (field_items d.field_list vals).length = 2 * d.field_list.length ∧
    (∀ (i : Nat) (f : suscan_field) (v : suscan_field_value),
      d.field_list[i]? = some f → vals[i]? = some v →
      (field_items d.field_list vals)[2 * i]? = some (cbor_item.text f.name) ∧
      (field_items d.field_list vals)[2 * i + 1]? = some (value_item f v) ∧
      (f.type = SUSCAN_FIELD_TYPE_BOOLEAN → value_item f v = cbor_item.bool v.as_bool) ∧
      (f.type = SUSCAN_FIELD_TYPE_STRING → value_item f v = cbor_item.text v.as_string) ∧
      (f.type = SUSCAN_FIELD_TYPE_FILE → value_item f v = cbor_item.text v.as_string) ∧
      (f.type = SUSCAN_FIELD_TYPE_FLOAT → value_item f v = cbor_item.single v.as_float) ∧
      (f.type = SUSCAN_FIELD_TYPE_INTEGER → value_item f v = int_item (i64 v.as_int))) := by
  refine ⟨?_, field_items_length _ _ hl, ?_⟩
  · simp [suscan_config_serialize, hd, hp, hn, hv, SUSCAN_PACK, cbor_pack_str,
      cbor_pack_map_start, serialize_fields_eq _ _ _ hl]
  · intro i f v hf hvv
    obtain ⟨h1, h2⟩ := field_items_at _ _ i f v hf hvv
    refine ⟨h1, h2, ?_, ?_, ?_, ?_, ?_⟩ <;> intro ht <;> simp [value_item, ht]

/-- Witness of C23: the configuration bound to the descriptor `"cfg"` with its one
field `"path"` of type file. -/
theorem config_serialize_layout_witness :
    suscan_config_serialize file_world file_config []
      = (true, [] ++ (cbor_item.text file_desc_name :: cbor_item.map_start 1 ::
          field_items [file_field] [⟨true, some file_field, 0, 0, false, [0x61]⟩])) :=
  (config_serialize_layout file_world file_config 0
    { global_name := some file_desc_name, registered := true, field_list := [file_field] }
    file_desc_name
    [⟨true, some file_field, 0, 0, false, [0x61]⟩] [] rfl rfl rfl rfl rfl).1

/-! ## The schema registry -/

theorem lookup_unsafe_errno (w : config_state) (e : Nat) (n : Option cstr) :
    suscan_config_desc_lookup_unsafe { w with errno := e } n
      = suscan_config_desc_lookup_unsafe w n := rfl

theorem lookup_none_iff (w : config_state) (n : cstr) :
    suscan_config_desc_lookup_unsafe w (some n) = none ↔ some n ∉ registry_names w := by
  unfold suscan_config_desc_lookup_unsafe registry_names
  rw [List.find?_eq_none]
  simp only [List.mem_map, not_exists, not_and]
  constructor
  · intro h p hp hc
    have := h p hp
    cases hd : w.deref p with
    | none => simp [hd] at hc
    | some d =>
      rw [hd] at hc
      have hc' : d.global_name = some n := hc
      simp [hd, hc'] at this
  · intro h p hp
    have := h p hp
    cases hd : w.deref p with
    | none => simp
    | some d =>
      rw [hd] at this
      have this' : ¬ d.global_name = some n := this
      simpa using this'

theorem register_eq (w : config_state) (desc : Nat) (d : suscan_config_desc)
    (hd : w.deref desc = some d) :
    suscan_config_desc_register w desc =
      if d.registered then (false, w)
      else if Option.isSome ( suscan_config_desc_lookup_unsafe w d.global_name) then
        (false, { w with errno := EEXIST })
      else (true, { heap := w.heap.set desc (some { d with registered := true }),
                    g_config_desc_list := w.g_config_desc_list ++ [desc],
                    errno := w.errno }) := by
  simp only [suscan_config_desc_register, hd, lookup_unsafe_errno]

theorem deref_set_ne (w : config_state) (e : Nat) (l : List Nat) (desc p : Nat)
    (x : Option suscan_config_desc) (h : p ≠ desc) :
    config_state.deref { heap := w.heap.set desc x, g_config_desc_list := l, errno := e } p
      = w.deref p := by
  simp [config_state.deref, List.getElem?_set_ne (Ne.symm h)]

theorem deref_set_eq (w : config_state) (e : Nat) (l : List Nat) (desc : Nat)
    (d x : suscan_config_desc) (h : w.deref desc = some d) :
    config_state.deref { heap := w.heap.set desc (some x), g_config_desc_list := l,
                         errno := e } desc = some x := by
  have hlt : desc < w.heap.length := by
    by_contra hc
    simp [config_state.deref, List.getElem?_eq_none (Nat.le_of_not_lt hc)] at h
  simp [config_state.deref, List.getElem?_set_self hlt]

theorem registry_names_after_register (w : config_state) (desc : Nat)
    (d : suscan_config_desc) (n : cstr) (hd : w.deref desc = some d)
    (hn : d.global_name = some n)
    (hl : suscan_config_desc_lookup_unsafe w (some n) = none) (e : Nat) :
    registry_names { heap := w.heap.set desc (some { d with registered := true }),
                     g_config_desc_list := w.g_config_desc_list ++ [desc], errno := e }
      = registry_names w ++ [some n] := by
  have hnot : desc ∉ w.g_config_desc_list := by
    intro hmem
    have := (lookup_none_iff w n).mp hl
    apply this
    unfold registry_names
    exact List.mem_map.mpr ⟨desc, hmem, by rw [hd]; exact hn⟩
  unfold registry_names
  simp only [List.map_append, List.map_cons, List.map_nil]
  congr 1
  · apply List.map_congr_left
    intro p hp
    have hne : p ≠ desc := fun h => hnot (h ▸ hp)
    rw [deref_set_ne w e _ desc p _ hne]
  · rw [deref_set_eq w e _ desc d _ hd]
    simp [hn]

/-- C26: the registry is append-only and never clobbered. When
`suscan_config_desc_register` returns false the descriptors and the registry
list are what they were; it returns false when the descriptor is flagged
registered or a descriptor of the same global name is registered; when it
returns true the registry list is the previous one with the descriptor
appended, the descriptor is flagged registered and nothing else changes.
Consequently, if the registry entries are named descriptors with pairwise
distinct names, they still are after the registration of a named
descriptor, whatever the outcome. -/
theorem register_append_only (w : config_state) (desc : Nat) (d : suscan_config_desc)
    (hd : w.deref desc = some d) :
    ((suscan_config_desc_register w desc).1 = false →
      (suscan_config_desc_register w desc).2.heap = w.heap ∧
      (suscan_config_desc_register w desc).2.g_config_desc_list = w.g_config_desc_list) ∧
    (d.registered = true ∨ (suscan_config_desc_lookup w d.global_name).isSome →
      (suscan_config_desc_register w desc).1 = false) ∧
    ((suscan_config_desc_register w desc).1 = true →
      (suscan_config_desc_register w desc).2
        = { heap := w.heap.set desc (some { d with registered := true }),
            g_config_desc_list := w.g_config_desc_list ++ [desc], errno := w.errno }) ∧
    (registry_distinct w → d.global_name ≠ none →
      registry_distinct (suscan_config_desc_register w desc).2) := by
  have hreg := register_eq w desc d hd
  unfold suscan_config_desc_lookup
  by_cases hr : d.registered = true
  · rw [if_pos hr] at hreg
    rw [hreg]
    exact ⟨fun _ => ⟨rfl, rfl⟩, fun _ => rfl, fun h => absurd h (by simp),
      fun hdist _ => hdist⟩
  · by_cases hl : Option.isSome ( suscan_config_desc_lookup_unsafe w d.global_name) = true
    · rw [if_neg hr, if_pos hl] at hreg
      rw [hreg]
      exact ⟨fun _ => ⟨rfl, rfl⟩, fun _ => rfl, fun h => absurd h (by simp),
        fun hdist _ => hdist⟩
    · rw [if_neg hr, if_neg hl] at hreg
      rw [hreg]
      refine ⟨fun h => absurd h (by simp), ?_, fun _ => rfl, ?_⟩
      · rintro (h | h)
        · exact absurd h hr
        · exact absurd h hl
      · intro hdist hname
        obtain ⟨n, hn⟩ := Option.ne_none_iff_exists'.mp hname
        have hl' : suscan_config_desc_lookup_unsafe w (some n) = none := by
          rw [hn] at hl
          simpa using hl
        have hnames := registry_names_after_register w desc d n hd hn hl' w.errno
        unfold registry_distinct
        rw [hnames]
        refine ⟨?_, ?_⟩
        · intro x hx
          rcases List.mem_append.mp hx with h | h
          · exact hdist.1 x h
          · simp at h; rw [h]; simp
        · exact List.Nodup.append hdist.2 (List.nodup_singleton _)
            (by
              intro x hx1 hx2
              simp at hx2
              rw [hx2] at hx1
              exact (lookup_none_iff w n).mp hl' hx1)

/-- Witness of C26: the descriptor `"cfg"` is registered in a process without
registered descriptors, and a second registration of it is refused and
leaves the registry as it is. -/
theorem register_append_only_witness :
    suscan_config_desc_register file_world_unregistered 0 = (true, file_world) ∧
    (suscan_config_desc_register file_world 0).1 = false ∧
    (suscan_config_desc_register file_world 0).2.g_config_desc_list
      = file_world.g_config_desc_list :=
  ⟨by
    have h := (register_append_only file_world_unregistered 0
      { global_name := some file_desc_name, registered := false, field_list := [file_field] }
      rfl).2.2.1 (by decide)
    rw [Prod.ext_iff]
    exact ⟨by decide, by rw [h]; decide⟩,
   (register_append_only file_world 0
      { global_name := some file_desc_name, registered := true, field_list := [file_field] }
      rfl).2.1 (Or.inl rfl),
   ((register_append_only file_world 0
      { global_name := some file_desc_name, registered := true, field_list := [file_field] }
      rfl).1 (by decide)).2⟩

/-- C27 (failing input): `suscan_config_desc_add_field` applied to the registered
descriptor `"cfg"` with a new field name succeeds and appends the field: the
registered schema has changed, and the configuration that was bound to it,
which holds one value, can no longer be serialized (the serializer runs
through two fields). The function never reads the `registered` flag. -/
theorem add_field_changes_registered_schema :
    suscan_config_desc_lookup file_world (some file_desc_name) = some 0 ∧
    file_world.deref 0
      = some { global_name := some file_desc_name, registered := true,
               field_list := [file_field] } ∧
    (suscan_config_serialize file_world file_config []).1 = true ∧
    (suscan_config_desc_add_field file_world 0 SUSCAN_FIELD_TYPE_INTEGER false [0x6e] []).1
      = true ∧
    (suscan_config_desc_add_field file_world 0 SUSCAN_FIELD_TYPE_INTEGER false [0x6e] []).2.deref 0
      = some { global_name := some file_desc_name, registered := true,
               field_list := [file_field, ⟨SUSCAN_FIELD_TYPE_INTEGER, false, [0x6e], []⟩] } ∧
    (suscan_config_serialize
      (suscan_config_desc_add_field file_world 0 SUSCAN_FIELD_TYPE_INTEGER false [0x6e] []).2
      file_config []).1 = false := by
  decide

/-- The general form of the failing input of C27: on every registered descriptor
that has no field of the given name the addition succeeds and appends the
field. -/
theorem add_field_on_registered (w : config_state) (p : Nat) (d : suscan_config_desc)
    (type : suscan_field_type) (optional : Bool) (name desc : cstr)
    (hd : w.deref p = some d) (hn : suscan_config_desc_lookup_field_id d name = -1) :
    suscan_config_desc_add_field w p type optional name desc
      = (true, { w with heap := w.heap.set p (some { d with
          field_list := d.field_list ++ [⟨type, optional, name, desc⟩] }) }) := by
  simp [suscan_config_desc_add_field, hd, hn]

/-! ## Release of a descriptor -/

/-- C28: `suscan_config_desc_destroy` on a registered descriptor is a no-op: the
descriptors and the registry are what they were. On a descriptor that is not
registered it releases the object, with its name and its fields, and leaves
the registry list and every other descriptor as they were. -/
theorem desc_destroy_only_unregistered (w : config_state) (p : Nat)
    (d : suscan_config_desc) (hd : w.deref p = some d) :
    (d.registered = true → suscan_config_desc_destroy w p = w) ∧
    (d.registered = false →
      (suscan_config_desc_destroy w p).deref p = none ∧
      (suscan_config_desc_destroy w p).g_config_desc_list = w.g_config_desc_list ∧
      ∀ q, q ≠ p → (suscan_config_desc_destroy w p).deref q = w.deref q) := by
  refine ⟨fun hr => ?_, fun hr => ?_⟩
  · simp [suscan_config_desc_destroy, hd, hr]
  · have hlt : p < w.heap.length := by
      by_contra hc
      simp [config_state.deref, List.getElem?_eq_none (Nat.le_of_not_lt hc)] at hd
    have hdes : suscan_config_desc_destroy w p
        = { heap := w.heap.set p none, g_config_desc_list := w.g_config_desc_list,
            errno := w.errno } := by
      simp [suscan_config_desc_destroy, hd, hr]
    rw [hdes]
    refine ⟨?_, rfl, ?_⟩
    · simp [config_state.deref, List.getElem?_set_self hlt]
    · intro q hq
      exact deref_set_ne w w.errno _ p q none hq

/-- Witness of C28: the descriptor `"cfg"` before and after its registration. -/
theorem desc_destroy_only_unregistered_witness :
    suscan_config_desc_destroy file_world 0 = file_world ∧
    (suscan_config_desc_destroy file_world_unregistered 0).deref 0 = none :=
  ⟨(desc_destroy_only_unregistered file_world 0
      { global_name := some file_desc_name, registered := true, field_list := [file_field] }
      rfl).1 rfl,
   ((desc_destroy_only_unregistered file_world_unregistered 0
      { global_name := some file_desc_name, registered := false, field_list := [file_field] }
      rfl).2 rfl).1⟩

/-! ## Schema mismatch -/

theorem loop_step (w : config_state) (p : Nat) (d : suscan_config_desc) (n : Nat)
    (self : suscan_config) (k x : cbor_item) (rest : grow_buf_t)
    (hp : w.deref p = some d) :
    (bad_entry d k x →
      (suscan_config_deserialize_loop w p (n + 1) self (k :: x :: rest)).1 = false) ∧
    ((suscan_config_deserialize_loop w p (n + 1) self (k :: x :: rest)).1 = false ∨
      ∃ self1, suscan_config_deserialize_loop w p (n + 1) self (k :: x :: rest)
        = suscan_config_deserialize_loop w p n self1 rest) := by
  cases k with
  | text key =>
    have hk : cbor_unpack_str (cbor_item.text key :: x :: rest) = some (c_str key, x :: rest) :=
      rfl
    simp only [suscan_config_deserialize_loop, SUSCAN_UNPACK, hk, hp, Option.some_bind,
      bad_entry]
    cases hl : suscan_config_desc_lookup_field d (c_str key) with
    | none => simp [hl]
    | some f =>
      simp only [hl]
      cases hf : f.type <;> cases x <;>
        simp only [item_agrees, cbor_unpack_bool, cbor_unpack_str, cbor_unpack_float,
          cbor_unpack_int64, not_true_eq_false, not_false_eq_true, false_implies,
          true_implies, true_or, and_self, implies_true, true_and] <;>
        (try split_ifs) <;> (try split) <;> (try split) <;> (try simp) <;>
        (try exact Or.inr ⟨_, rfl⟩) <;>
        (rename_i h1 _ _ _; first | (cases h1; exact Or.inr ⟨_, rfl⟩) | cases h1)
  | _ =>
    simp [suscan_config_deserialize_loop, SUSCAN_UNPACK, cbor_unpack_str, bad_entry]

theorem loop_bad (w : config_state) (p : Nat) (d : suscan_config_desc)
    (hp : w.deref p = some d) :
    ∀ (n : Nat) (self : suscan_config) (buffer : grow_buf_t), has_bad_entry d n buffer →
      (suscan_config_deserialize_loop w p n self buffer).1 = false := by
  intro n
  induction n with
  | zero => intro self buffer h; simp [has_bad_entry] at h
  | succ n ih =>
    intro self buffer h
    match buffer, h with
    | k :: x :: rest, h =>
      obtain ⟨h1, h2⟩ := loop_step w p d n self k x rest hp
      rcases h with hb | hr
      · exact h1 hb
      · rcases h2 with h2 | ⟨s1, h2⟩
        · exact h2
        · rw [h2]; exact ih s1 rest hr

/-- C29: a schema mismatch is rejected. When the global name of a serialized
configuration is registered and one of the entries of its map has a key that
names no field of the registered descriptor, or a value whose CBOR type
disagrees with the type declared for the field, `suscan_config_deserialize`
fails, leaves the target configuration finalized (no descriptor, no values),
the read position at the start, and the descriptors and the registry as they
were. -/
theorem schema_mismatch_rejected (w : config_state) (self : suscan_config) (n : cstr)
    (p : Nat) (d : suscan_config_desc) (k : Nat) (entries : List cbor_item)
    (hl : suscan_config_desc_lookup w (some (c_str n)) = some p)
    (hp : w.deref p = some d) (hb : has_bad_entry d k entries) :
    suscan_config_deserialize w self
        (cbor_item.text n :: cbor_item.map_start k :: entries)
      = (false, w, { desc := none, values := none },
          cbor_item.text n :: cbor_item.map_start k :: entries) := by
  have hbad := loop_bad w p d hp k
    { desc := some p, values := some (d.field_list.map suscan_field_value.zero) } entries hb
  generalize hy : suscan_config_deserialize_loop w p k
    { desc := some p, values := some (d.field_list.map suscan_field_value.zero) } entries
      = y at hbad
  obtain ⟨y1, y2, y3⟩ := y
  simp only at hbad
  subst hbad
  have hk : cbor_unpack_str (cbor_item.text n :: cbor_item.map_start k :: entries)
      = some (c_str n, cbor_item.map_start k :: entries) := rfl
  simp only [suscan_config_deserialize, hk, hl, cbor_unpack_map_start, suscan_config_init, hp,
    hy, suscan_config_deserialize_finally, suscan_config_finalize]
  split_ifs <;> first | contradiction | simp

/-- Witness of C29: with the registered descriptor `"rx"` (boolean `"on"`, integer
`"n"`), a map that gives `"on"` an unsigned value, and a map whose second
key `"x"` names no field. -/
theorem schema_mismatch_rejected_witness :
    suscan_config_deserialize rx_world { desc := none, values := none }
        (cbor_item.text [0x72, 0x78] :: cbor_item.map_start 1 ::
          [cbor_item.text [0x6f, 0x6e], cbor_item.uint 1])
      = (false, rx_world, { desc := none, values := none },
          cbor_item.text [0x72, 0x78] :: cbor_item.map_start 1 ::
            [cbor_item.text [0x6f, 0x6e], cbor_item.uint 1]) ∧
    suscan_config_deserialize rx_world { desc := none, values := none }
        (cbor_item.text [0x72, 0x78] :: cbor_item.map_start 2 ::
          [cbor_item.text [0x6e], cbor_item.uint 1, cbor_item.text [0x78], cbor_item.uint 2])
      = (false, rx_world, { desc := none, values := none },
          cbor_item.text [0x72, 0x78] :: cbor_item.map_start 2 ::
            [cbor_item.text [0x6e], cbor_item.uint 1, cbor_item.text [0x78],
             cbor_item.uint 2]) :=
  ⟨schema_mismatch_rejected rx_world { desc := none, values := none } [0x72, 0x78] 0
      ⟨some [0x72, 0x78], true, [⟨SUSCAN_FIELD_TYPE_BOOLEAN, false, [0x6f, 0x6e], []⟩,
        ⟨SUSCAN_FIELD_TYPE_INTEGER, false, [0x6e], []⟩]⟩ 1
      [cbor_item.text [0x6f, 0x6e], cbor_item.uint 1] (by decide) rfl
      (Or.inl (by decide)),
   schema_mismatch_rejected rx_world { desc := none, values := none } [0x72, 0x78] 0
      ⟨some [0x72, 0x78], true, [⟨SUSCAN_FIELD_TYPE_BOOLEAN, false, [0x6f, 0x6e], []⟩,
        ⟨SUSCAN_FIELD_TYPE_INTEGER, false, [0x6e], []⟩]⟩ 2
      [cbor_item.text [0x6e], cbor_item.uint 1, cbor_item.text [0x78], cbor_item.uint 2]
      (by decide) rfl
      (Or.inr (Or.inl (by decide)))⟩

theorem int_item_uint (v : Nat) (h : v < 9223372036854775808) :
    int_item (i64 v) = cbor_item.uint v := by
  have h1 : i64 v = (v : Int) := by unfold i64; rw [if_pos h]
  have h2 : ¬ ((v : Int) < 0) := by omega
  rw [h1]; unfold int_item; rw [if_neg h2]; simp

theorem int_item_nint (v : Nat) (h : v < 9223372036854775808) :
    int_item (i64 (u64 (-1 - (v : Int)))) = cbor_item.nint v := by
  have h0 : is_int64 (-1 - (v : Int)) := by unfold is_int64; omega
  have h2 : (-1 - (v : Int)) < 0 := by omega
  have h3 : (-1 - (-1 - (v : Int))).toNat = v := by omega
  rw [u64_i64 _ h0]; unfold int_item; rw [if_pos h2, h3]

theorem pairs_items_eq (pairs : List (cstr × cbor_item))
    (h : ∀ kx ∈ pairs, probe_ok kx.2) :
    pairs_items pairs = field_items (probed_fields pairs) (carried_values pairs) := by
  induction pairs with
  | nil => rfl
  | cons kx rest ih =>
    have h1 := h kx (List.mem_cons_self _ _)
    have h2 := ih (fun y hy => h y (List.mem_cons_of_mem _ hy))
    obtain ⟨k, x⟩ := kx
    simp only [pairs_items, probed_fields, carried_values, List.map_cons, field_items]
    simp only [probed_fields, carried_values] at h2
    rw [h2]
    congr 2
    cases x with
    | uint v => exact (int_item_uint v h1).symm
    | nint v => exact (int_item_nint v h1).symm
    | text s => rfl
    | bool b => rfl
    | single s => rfl
    | _ => exact absurd h1 (by simp [probe_ok])

theorem probed_values_ok (pairs : List (cstr × cbor_item))
    (h : ∀ kx ∈ pairs, probe_ok kx.2) :
    values_ok (probed_fields pairs) (carried_values pairs) := by
  induction pairs with
  | nil => simp [probed_fields, carried_values, values_ok]
  | cons kx rest ih =>
    have h1 := h kx (List.mem_cons_self _ _)
    have h2 := ih (fun y hy => h y (List.mem_cons_of_mem _ hy))
    obtain ⟨k, x⟩ := kx
    simp only [probed_fields, carried_values, List.map_cons, values_ok]
    simp only [probed_fields, carried_values] at h2
    refine ⟨?_, h2⟩
    cases x <;> simp [probe_ok] at h1 <;>
      simp [value_ok, probed_field, probed_type, carried_value, is_uint64, u64, h1] <;> omega

theorem probed_fields_names (pairs : List (cstr × cbor_item)) :
    (probed_fields pairs).map (fun f => f.name) = pairs.map (fun kx => kx.1) := by
  simp [probed_fields, probed_field, Function.comp_def]

theorem probed_fields_plain (pairs : List (cstr × cbor_item))
    (h : ∀ kx ∈ pairs, is_cstr kx.1 ∧ probe_ok kx.2) :
    ∀ f ∈ probed_fields pairs, is_cstr f.name ∧ f.type ≠ SUSCAN_FIELD_TYPE_FILE := by
  intro f hf
  simp only [probed_fields, List.mem_map] at hf
  obtain ⟨kx, hk, rfl⟩ := hf
  refine ⟨(h kx hk).1, ?_⟩
  obtain ⟨k, x⟩ := kx
  cases x <;> simp [probed_field, probed_type]

theorem set_last {α : Type} (H : List α) (a b : α) :
    (H ++ [a]).set H.length b = H ++ [b] := by
  induction H with
  | nil => rfl
  | cons x xs ih => simp [List.set, ih]

theorem deref_last (H : List (Option suscan_config_desc)) (x : Option suscan_config_desc)
    (l : List Nat) (e : Nat) :
    config_state.deref { heap := H ++ [x], g_config_desc_list := l, errno := e } H.length
      = x := by
  simp [config_state.deref]

theorem lookup_field_id_absent (name : cstr) :
    ∀ (fs : List suscan_field) (i : Nat), name ∉ fs.map (fun f => f.name) →
      suscan_config_desc_lookup_field_id_from name fs i = -1 := by
  intro fs
  induction fs with
  | nil => intro i _; rfl
  | cons g gs ih =>
    intro i hn
    have hg : g.name ≠ name := by
      intro h; apply hn; simp [h]
    have hn' : name ∉ gs.map (fun f => f.name) := by
      intro h; apply hn; simp at h ⊢; right; exact h
    simp only [suscan_config_desc_lookup_field_id_from, hg, if_false]
    exact ih (i + 1) hn'

theorem add_field_last (H : List (Option suscan_config_desc)) (d : suscan_config_desc)
    (l : List Nat) (e : Nat) (t : suscan_field_type) (o : Bool) (name desc : cstr)
    (hn : name ∉ d.field_list.map (fun f => f.name)) :
    suscan_config_desc_add_field
        { heap := H ++ [some d], g_config_desc_list := l, errno := e } H.length t o name desc
      = (true, { heap := H ++ [some { d with field_list := d.field_list ++ [⟨t, o, name, desc⟩] }],
                 g_config_desc_list := l, errno := e }) := by
  have h1 : suscan_config_desc_lookup_field_id d name = -1 :=
    lookup_field_id_absent name d.field_list 0 hn
  have h2 : ¬ (suscan_config_desc_lookup_field_id d name ≠ -1) := not_not.mpr h1
  simp only [suscan_config_desc_add_field, deref_last, h2, if_false, set_last]

theorem populate_field_last (H : List (Option suscan_config_desc)) (d : suscan_config_desc)
    (l : List Nat) (e : Nat) (t : suscan_field_type) (key : cstr) (tmp : grow_buf_t)
    (hn : key ∉ d.field_list.map (fun f => f.name)) :
    populate_field { heap := H ++ [some d], g_config_desc_list := l, errno := e } H.length t
        key (some tmp)
      = (true, { heap := H ++ [some { d with field_list :=
                    d.field_list ++ [⟨t, false, key, no_description⟩] }],
                 g_config_desc_list := l, errno := e }, tmp) := by
  simp only [populate_field, add_field_last H d l e t false key no_description hn]

theorem populate_loop_eq (H : List (Option suscan_config_desc)) (l : List Nat) (e : Nat)
    (rest : grow_buf_t) :
    ∀ (pairs : List (cstr × cbor_item)) (d : suscan_config_desc),
      (d.field_list.map (fun f => f.name) ++ pairs.map fun kx => kx.1).Nodup →
      (∀ kx ∈ pairs, is_cstr kx.1 ∧ probe_ok kx.2) →
      suscan_config_desc_populate_loop H.length pairs.length
          { heap := H ++ [some d], g_config_desc_list := l, errno := e }
          (pairs_items pairs ++ rest)
        = (true, { heap := H ++ [some { d with field_list :=
                      d.field_list ++ probed_fields pairs }],
                   g_config_desc_list := l, errno := e }) := by
  intro pairs
  induction pairs with
  | nil =>
    intro d _ _
    simp [suscan_config_desc_populate_loop, probed_fields]
  | cons kx ps ih =>
    intro d hnd hok
    obtain ⟨k, x⟩ := kx
    have hk := hok (k, x) (List.mem_cons_self _ _)
    have hk1 : is_cstr k := hk.1
    have hk2 : probe_ok x := hk.2
    have hok' : ∀ kx ∈ ps, is_cstr kx.1 ∧ probe_ok kx.2 :=
      fun y hy => hok y (List.mem_cons_of_mem _ hy)
    have hn : k ∉ d.field_list.map (fun f => f.name) := by
      intro hm
      rw [List.nodup_append] at hnd
      exact hnd.2.2 hm (by simp)
    have hnd' : (({ d with field_list := d.field_list ++ [probed_field k x] } :
        suscan_config_desc).field_list.map (fun f => f.name)
          ++ ps.map fun kx => kx.1).Nodup := by
      simpa [probed_field, List.append_assoc] using hnd
    have hih := ih { d with field_list := d.field_list ++ [probed_field k x] } hnd' hok'
    have hfl : (d.field_list ++ [probed_field k x]) ++ probed_fields ps
        = d.field_list ++ probed_fields ((k, x) :: ps) := by
      simp [probed_fields]
    simp only [hfl] at hih
    have hstr : cbor_unpack_str (cbor_item.text k :: x :: (pairs_items ps ++ rest))
        = some (k, x :: (pairs_items ps ++ rest)) := unpack_str_text _ _ hk1
    simp only [List.length_cons, pairs_items, List.cons_append,
      suscan_config_desc_populate_loop, hstr]
    cases x with
    | uint v =>
      have hv : v < 9223372036854775808 := hk2
      simp only [cbor_peek_type, cbor_unpack_int64, hv, if_true, Option.map_some',
        populate_field_last H d l e _ k _ hn]
      exact hih
    | nint v =>
      have hv : v < 9223372036854775808 := hk2
      simp only [cbor_peek_type, cbor_unpack_int64, hv, if_true, Option.map_some',
        populate_field_last H d l e _ k _ hn]
      exact hih
    | text s =>
      simp only [cbor_peek_type, cbor_unpack_str, Option.map_some',
        populate_field_last H d l e _ k _ hn]
      exact hih
    | bool b =>
      cases b <;>
      · simp only [cbor_peek_type, cbor_unpack_bool, Option.map_some', true_or, or_true,
          if_true, populate_field_last H d l e _ k _ hn]
        exact hih
    | single s =>
      have h1 : ¬ (CBOR_ADDL_FLOAT_FLOAT32 = CBOR_ADDL_FLOAT_FALSE ∨
          CBOR_ADDL_FLOAT_FLOAT32 = CBOR_ADDL_FLOAT_TRUE) := by decide
      have h2 : CBOR_ADDL_FLOAT_FLOAT32 = CBOR_ADDL_FLOAT_SUFLOAT := rfl
      simp only [cbor_peek_type, cbor_unpack_float, Option.map_some', h1, h2, if_false,
        if_true, populate_field_last H d l e _ k _ hn]
      exact hih
    | _ => exact absurd hk2 (by simp [probe_ok])

theorem creative_decode_eq (w : config_state) (c0 : suscan_config) (n : cstr)
    (pairs : List (cstr × cbor_item)) (rest : grow_buf_t)
    (hw : w.wf) (hn0 : n ≠ []) (hn : is_cstr n)
    (hf : suscan_config_desc_lookup w (some n) = none) (hp : pairs_ok pairs) :
    suscan_config_deserialize w c0 (named_items n pairs ++ rest)
      = (true, creative_world w n (probed_fields pairs),
          { desc := some w.heap.length,
            values := some (decoded_values (probed_fields pairs) (carried_values pairs)) },
          rest) := by
  obtain ⟨hnd, hok⟩ := hp
  have hok2 : ∀ kx ∈ pairs, probe_ok kx.2 := fun kx h => (hok kx h).2
  have hlen : ¬ ¬ n.length > 0 := not_not.mpr (List.length_pos.mpr hn0)
  have hpop : suscan_config_desc_populate_loop w.heap.length pairs.length
      { heap := w.heap ++ [some { global_name := some n, registered := false,
                                  field_list := [] }],
        g_config_desc_list := w.g_config_desc_list, errno := w.errno }
      (pairs_items pairs ++ rest)
      = (true, { heap := w.heap ++ [some { global_name := some n, registered := false,
                                           field_list := probed_fields pairs }],
                 g_config_desc_list := w.g_config_desc_list, errno := w.errno }) := by
    have := populate_loop_eq w.heap w.g_config_desc_list w.errno rest pairs
      { global_name := some n, registered := false, field_list := [] }
      (by simpa using hnd) hok
    simpa using this
  have hd2 : config_state.deref
      { heap := w.heap ++ [some { global_name := some n, registered := false,
                                  field_list := probed_fields pairs }],
        g_config_desc_list := w.g_config_desc_list, errno := w.errno } w.heap.length
      = some { global_name := some n, registered := false,
               field_list := probed_fields pairs } := deref_last _ _ _ _
  have hloop := deserialize_loop_eq _ w.heap.length _ rest hd2
    (by rw [probed_fields_names]; exact hnd) (probed_fields pairs) [] []
    (carried_values pairs) rfl rfl (probed_values_ok pairs hok2)
    (probed_fields_plain pairs hok)
  have hl : (probed_fields pairs).length = pairs.length := by simp [probed_fields]
  rw [hl, ← pairs_items_eq pairs hok2] at hloop
  simp only [List.nil_append] at hloop
  have hlk := lookup_append w
    (some { global_name := some n, registered := false, field_list := probed_fields pairs })
    w.errno (some n) hw
  have hf' : suscan_config_desc_lookup_unsafe w (some n) = none := hf
  rw [hf'] at hlk
  have hreg := register_eq _ w.heap.length _ hd2
  simp only [hlk, Option.isSome_none, Bool.false_eq_true, if_false, set_last] at hreg
  simp only [suscan_config_deserialize, named_items, List.cons_append,
    unpack_str_text _ _ hn, hlen, if_false, hf, Option.isNone_none, cbor_unpack_map_start,
    Bool.false_eq_true, suscan_config_desc_new_ex, Option.isSome_some, if_true,
    suscan_config_desc_populate_from_cbor, hpop, suscan_config_init, hd2, hloop,
    suscan_config_deserialize_finally, hreg, creative_world]

theorem deref_creative (w : config_state) (n : cstr) (fields : List suscan_field) :
    (creative_world w n fields).deref w.heap.length
      = some { global_name := some n, registered := true, field_list := fields } :=
  deref_last _ _ _ _

theorem lookup_creative (w : config_state) (n : cstr) (fields : List suscan_field)
    (hw : w.wf) (hf : suscan_config_desc_lookup w (some n) = none) :
    suscan_config_desc_lookup (creative_world w n fields) (some n) = some w.heap.length := by
  have hlk := lookup_append w
    (some { global_name := some n, registered := true, field_list := fields })
    w.errno (some n) hw
  have hf' : suscan_config_desc_lookup_unsafe w (some n) = none := hf
  rw [hf'] at hlk
  unfold suscan_config_desc_lookup_unsafe at hlk
  unfold suscan_config_desc_lookup suscan_config_desc_lookup_unsafe
  show List.find? _ (w.g_config_desc_list ++ [w.heap.length]) = _
  rw [List.find?_append]
  have h1 : List.find? (fun p =>
      match (creative_world w n fields).deref p, some n with
      | some d, some n => decide (d.global_name = some n)
      | _, _ => false) w.g_config_desc_list = none := hlk
  erw [h1]
  simp [List.find?_cons, deref_creative]

theorem registry_names_creative (w : config_state) (n : cstr) (fields : List suscan_field)
    (hw : w.wf) :
    registry_names (creative_world w n fields) = registry_names w ++ [some n] := by
  unfold registry_names
  show List.map _ (w.g_config_desc_list ++ [w.heap.length]) = _
  rw [List.map_append]
  congr 1
  · apply List.map_congr_left
    intro p hp
    have hd : (creative_world w n fields).deref p = w.deref p := by
      simp [creative_world, config_state.deref, List.getElem?_append_left (hw p hp)]
    rw [hd]
  · simp [deref_creative]

theorem creative_bound (w : config_state) (n : cstr) (pairs : List (cstr × cbor_item))
    (hw : w.wf) (hn0 : n ≠ []) (hn : is_cstr n)
    (hf : suscan_config_desc_lookup w (some n) = none) (hp : pairs_ok pairs) :
    config_bound (creative_world w n (probed_fields pairs))
      { desc := some w.heap.length, values := some (carried_values pairs) } w.heap.length
      { global_name := some n, registered := true, field_list := probed_fields pairs } n
      (carried_values pairs) := by
  obtain ⟨hnd, hok⟩ := hp
  refine ⟨rfl, deref_creative _ _ _, rfl, rfl, hn0, hn, lookup_creative w n _ hw hf, ?_,
    probed_fields_plain pairs hok, probed_values_ok pairs (fun kx h => (hok kx h).2)⟩
  show ((probed_fields pairs).map fun f => f.name).Nodup
  rw [probed_fields_names]; exact hnd

theorem known_decode_eq (w : config_state) (c0 : suscan_config) (n : cstr)
    (pairs : List (cstr × cbor_item)) (rest : grow_buf_t)
    (hw : w.wf) (hn0 : n ≠ []) (hn : is_cstr n)
    (hf : suscan_config_desc_lookup w (some n) = none) (hp : pairs_ok pairs) :
    suscan_config_deserialize (creative_world w n (probed_fields pairs)) c0
        (named_items n pairs ++ rest)
      = (true, creative_world w n (probed_fields pairs),
          { desc := some w.heap.length,
            values := some (decoded_values (probed_fields pairs) (carried_values pairs)) },
          rest) := by
  have hb := creative_bound w n pairs hw hn0 hn hf hp
  have h := config_deserialize_eq _ _ c0 _ _ _ _ rest hb
  have hi : config_items
      { global_name := some n, registered := true, field_list := probed_fields pairs }
      (carried_values pairs) = named_items n pairs := by
    simp [config_items, named_items, probed_fields, pairs_items_eq pairs (fun kx h => (hp.2 kx h).2),
      carried_values]
  rw [hi] at h
  exact h

theorem carried_binding (pairs : List (cstr × cbor_item)) (i : Nat) (k : cstr)
    (x : cbor_item) (h : pairs[i]? = some (k, x)) :
    ∃ m, (decoded_values (probed_fields pairs) (carried_values pairs))[i]? = some m ∧
      m.field = some (probed_field k x) ∧
      (∀ v, x = cbor_item.uint v → m.as_int = v) ∧
      (∀ v, x = cbor_item.nint v → m.as_int = u64 (-1 - (v : Int))) ∧
      (∀ s, x = cbor_item.text s → m.as_string = s) ∧
      (∀ b, x = cbor_item.bool b → m.as_bool = b) ∧
      (∀ s, x = cbor_item.single s → m.as_float = s) := by
  have hl : (carried_values pairs).length = (probed_fields pairs).length := by
    simp [carried_values, probed_fields]
  have hf : (probed_fields pairs)[i]? = some (probed_field k x) := by
    simp [probed_fields, List.getElem?_map, h]
  have hv : (carried_values pairs)[i]? = some (carried_value x) := by
    simp [carried_values, List.getElem?_map, h]
  obtain ⟨m, hm, hmf, hb, hi, hfl, hs⟩ :=
    (decoded_values_spec (probed_fields pairs) (carried_values pairs) hl).2 i _ _ hf hv
  refine ⟨m, hm, hmf, ?_, ?_, ?_, ?_, ?_⟩
  · intro v hx; subst hx; exact hi rfl
  · intro v hx; subst hx; exact hi rfl
  · intro s hx; subst hx; exact hs rfl
  · intro b hx; subst hx; exact hb rfl
  · intro s hx; subst hx; exact hfl rfl

/-- C24 (creative mode infers the schema from the wire): in a state whose registry
holds no descriptor named `n` (`n` a non-empty string), decoding the items of
a configuration named `n` with a definite-length map of pairs with distinct
string keys and values that are integers of 64 signed bits, texts, booleans
or single-precision floats succeeds and consumes exactly those items. The
resulting state is the initial one with one more descriptor, registered under
`n` (the lookup of `n` finds it), whose fields are the keys in encounter
order, typed integer for an unsigned or negative value, string for a text,
boolean for true/false and float for a float. The returned configuration is
bound to that descriptor and holds, at the position of each pair, a value
object that points to the field of that key and holds the value the pair
carried. -/
theorem creative_mode_infers_schema (w : config_state) (c0 : suscan_config) (n : cstr)
    (pairs : List (cstr × cbor_item)) (rest : grow_buf_t)
    (hw : w.wf) (hn0 : n ≠ []) (hn : is_cstr n)
    (hf : suscan_config_desc_lookup w (some n) = none) (hp : pairs_ok pairs) :
    suscan_config_deserialize w c0 (named_items n pairs ++ rest)
      = (true, creative_world w n (probed_fields pairs),
          { desc := some w.heap.length,
            values := some (decoded_values (probed_fields pairs) (carried_values pairs)) },
          rest) ∧
    suscan_config_desc_lookup (creative_world w n (probed_fields pairs)) (some n)
      = some w.heap.length ∧
    (creative_world w n (probed_fields pairs)).deref w.heap.length
      = some { global_name := some n, registered := true,
               field_list := probed_fields pairs } ∧
    (probed_fields pairs).map (fun f => f.name) = pairs.map (fun kx => kx.1) ∧
    (probed_fields pairs).map (fun f => some f.type)
      = pairs.map (fun kx => probed_type kx.2) ∧
    ∀ (i : Nat) (k : cstr) (x : cbor_item), pairs[i]? = some (k, x) →
      ∃ f m, (probed_fields pairs)[i]? = some f ∧ f.name = k ∧
        (decoded_values (probed_fields pairs) (carried_values pairs))[i]? = some m ∧
        m.field = some f ∧
        (∀ v, x = cbor_item.uint v → m.as_int = v) ∧
        (∀ v, x = cbor_item.nint v → m.as_int = u64 (-1 - (v : Int))) ∧
        (∀ s, x = cbor_item.text s → m.as_string = s) ∧
        (∀ b, x = cbor_item.bool b → m.as_bool = b) ∧
        (∀ s, x = cbor_item.single s → m.as_float = s) := by
  refine ⟨creative_decode_eq w c0 n pairs rest hw hn0 hn hf hp, lookup_creative w n _ hw hf,
    deref_creative _ _ _, probed_fields_names pairs, ?_, ?_⟩
  · simp only [probed_fields, List.map_map]
    apply List.map_congr_left
    intro kx hkx
    obtain ⟨k, x⟩ := kx
    have hx := (hp.2 _ hkx).2
    cases x <;> first | rfl | exact absurd hx (by simp [probe_ok])
  · intro i k x h
    obtain ⟨m, hm, hmf, hr⟩ := carried_binding pairs i k x h
    refine ⟨probed_field k x, m, ?_, rfl, hm, hmf, hr⟩
    simp [probed_fields, List.getElem?_map, h]

theorem rx_world_wf : rx_world.wf := by
  intro p hp
  simp [rx_world] at hp
  subst hp
  decide

theorem custom_pairs_ok : pairs_ok custom_pairs := by
  refine ⟨by decide, ?_⟩
  intro kx h
  simp only [custom_pairs, List.mem_cons, List.mem_singleton, List.not_mem_nil, or_false] at h
  rcases h with rfl | rfl | rfl <;> simp [is_cstr, probe_ok]

/-- Witness of C24: `"custom.v1"` with an unsigned `"n"`, a text `"s"` and a float
`"f"`, decoded in a state whose registry holds only `"rx"`; the inferred
field types are integer, string, float, in that order. -/
theorem creative_mode_infers_schema_witness :
    (probed_fields custom_pairs).map (fun f => f.type)
      = [SUSCAN_FIELD_TYPE_INTEGER, SUSCAN_FIELD_TYPE_STRING, SUSCAN_FIELD_TYPE_FLOAT] ∧
    suscan_config_deserialize rx_world { desc := none, values := none }
        (named_items custom_v1 custom_pairs ++ [])
      = (true, creative_world rx_world custom_v1 (probed_fields custom_pairs),
          { desc := some 1,
            values := some (decoded_values (probed_fields custom_pairs)
              (carried_values custom_pairs)) }, []) :=
  ⟨by decide,
   (creative_mode_infers_schema rx_world { desc := none, values := none } custom_v1
      custom_pairs [] rx_world_wf (by decide) (by unfold is_cstr; decide) (by decide)
      custom_pairs_ok).1⟩

/-- C25 (creative-mode idempotence): under the conditions of creative mode (no
descriptor named `n` registered, `n` a non-empty string, pairs with distinct
string keys and values the probe consumes), decoding the same items twice in
sequence succeeds both times and yields the same configuration, bound both
times to the one descriptor the first decode registered, so with the same
field names and types. The first decode appends that descriptor to the
registry, which gains the name `n`; the second decode leaves the whole
state, registry included, as the first one left it. -/
theorem creative_mode_idempotent (w : config_state) (c0 c0' : suscan_config) (n : cstr)
    (pairs : List (cstr × cbor_item)) (rest : grow_buf_t)
    (hw : w.wf) (hn0 : n ≠ []) (hn : is_cstr n)
    (hf : suscan_config_desc_lookup w (some n) = none) (hp : pairs_ok pairs) :
    ∃ (w1 : config_state) (c : suscan_config),
      suscan_config_deserialize w c0 (named_items n pairs ++ rest) = (true, w1, c, rest) ∧
      suscan_config_deserialize w1 c0' (named_items n pairs ++ rest) = (true, w1, c, rest) ∧
      c.desc = some w.heap.length ∧
      w1.deref w.heap.length = some { global_name := some n, registered := true,
                                      field_list := probed_fields pairs } ∧
      w1.g_config_desc_list = w.g_config_desc_list ++ [w.heap.length] ∧
      registry_names w1 = registry_names w ++ [some n] :=
  ⟨creative_world w n (probed_fields pairs),
   { desc := some w.heap.length,
     values := some (decoded_values (probed_fields pairs) (carried_values pairs)) },
   creative_decode_eq w c0 n pairs rest hw hn0 hn hf hp,
   known_decode_eq w c0' n pairs rest hw hn0 hn hf hp,
   rfl, deref_creative _ _ _, rfl, registry_names_creative w n _ hw⟩

/-- Witness of C25: `"custom.v1"` decoded twice, starting from a state whose
registry holds only `"rx"`. -/
theorem creative_mode_idempotent_witness :
    ∃ (w1 : config_state) (c : suscan_config),
      suscan_config_deserialize rx_world { desc := none, values := none }
          (named_items custom_v1 custom_pairs ++ []) = (true, w1, c, []) ∧
      suscan_config_deserialize w1 { desc := none, values := none }
          (named_items custom_v1 custom_pairs ++ []) = (true, w1, c, []) ∧
      c.desc = some rx_world.heap.length ∧
      w1.deref rx_world.heap.length
        = some { global_name := some custom_v1, registered := true,
                 field_list := probed_fields custom_pairs } ∧
      w1.g_config_desc_list = rx_world.g_config_desc_list ++ [rx_world.heap.length] ∧
      registry_names w1 = registry_names rx_world ++ [some custom_v1] :=
  creative_mode_idempotent rx_world { desc := none, values := none }
    { desc := none, values := none } custom_v1 custom_pairs [] rx_world_wf (by decide)
    (by unfold is_cstr; decide) (by decide) custom_pairs_ok

theorem mq_write_fails (s : sender_state) (e : Nat) (rest : List (Option Nat)) (type : Nat)
    (msg : message) (h : s.mq_out.outcomes = some e :: rest) :
    suscan_mq_write s type msg = (false, write_failed s e rest) := by
  simp only [suscan_mq_write, h]

theorem send_status_state (w : config_state) (s : sender_state) (type : Nat) (code : Int)
    (err_msg : Option cstr) :
    (suscan_analyzer_send_status w s type code err_msg).2.1
      = (suscan_mq_write s type (message.status
          { code := i32 (u32 code), err_msg := err_msg, sender := some s.analyzer })).2 := by
  unfold suscan_analyzer_send_status suscan_analyzer_status_msg_new
  simp only
  split <;> rename_i h <;> simp [h]

theorem follow_up_state (w : config_state) (s : sender_state) (e : Nat)
    (rest : List (Option Nat)) :
    ∃ ok freed,
      suscan_analyzer_send_status w (write_failed s e rest)
          SUSCAN_ANALYZER_MESSAGE_TYPE_INTERNAL (-1)
          (some (cannot_write ++ (write_failed s e rest).strerror (write_failed s e rest).errno))
        = (ok, (suscan_mq_write (write_failed s e rest) SUSCAN_ANALYZER_MESSAGE_TYPE_INTERNAL
                  (cannot_write_status s e)).2, freed) := by
  have h := send_status_state w (write_failed s e rest) SUSCAN_ANALYZER_MESSAGE_TYPE_INTERNAL
    (-1) (some (cannot_write ++ (write_failed s e rest).strerror (write_failed s e rest).errno))
  have hc : i32 (u32 (-1)) = -1 := by decide
  rw [hc] at h
  refine ⟨_, _, Prod.ext rfl (Prod.ext ?_ rfl)⟩
  exact h

/-- Write failure in the sender methods: when the write of the envelope to the
outbound queue fails with error number `e`, the senders
`suscan_analyzer_send_psd`, `suscan_analyzer_send_psd_from_smoothpsd` and
`suscan_analyzer_send_detector_channels` return false, hand the message they
built to `suscan_analyzer_dispose_message` (the blocks it frees end the list
of freed blocks), and offer the queue a follow-up envelope of type Internal
holding a status message of code -1 whose text is `"Cannot write message: "`
followed by the text of the error: the state they leave is the one that write
leaves. The sender `suscan_analyzer_send_source_info` returns false and
releases its copy; the queue is offered nothing more, the state is the one
the failed write left. -/
theorem sender_write_failure (w : config_state) (s : sender_state) (e : Nat)
    (rest : List (Option Nat)) (pm : suscan_analyzer_psd_msg)
    (cm : suscan_analyzer_channel_msg) (info : suscan_source_info) (N0 : Nat)
    (looped : Bool) (history_size : Nat) (h : s.mq_out.outcomes = some e :: rest) :
    (∃ freed, suscan_analyzer_send_psd w s (some pm) N0
      = (false,
          (suscan_mq_write (write_failed s e rest) SUSCAN_ANALYZER_MESSAGE_TYPE_INTERNAL
            (cannot_write_status s e)).2,
          freed ++ suscan_analyzer_dispose_message w SUSCAN_ANALYZER_MESSAGE_TYPE_PSD
            (message.psd { pm with fc := s.frequency, samp_rate := s.source_samp_rate,
                                   measured_samp_rate := s.measured_samp_rate,
                                   timestamp := s.source_time, N0 := N0 }))) ∧
    (∃ freed, suscan_analyzer_send_psd_from_smoothpsd w s (some pm) looped history_size
      = (false,
          (suscan_mq_write (write_failed s e rest) SUSCAN_ANALYZER_MESSAGE_TYPE_INTERNAL
            (cannot_write_status s e)).2,
          freed ++ suscan_analyzer_dispose_message w SUSCAN_ANALYZER_MESSAGE_TYPE_PSD
            (message.psd { pm with fc := s.frequency,
                                   measured_samp_rate := s.measured_samp_rate,
                                   timestamp := s.source_time, looped := looped,
                                   history_size := history_size, N0 := 0 }))) ∧
    (∃ freed, suscan_analyzer_send_detector_channels w s (some cm)
      = (false,
          (suscan_mq_write (write_failed s e rest) SUSCAN_ANALYZER_MESSAGE_TYPE_INTERNAL
            (cannot_write_status s e)).2,
          freed ++ suscan_analyzer_dispose_message w SUSCAN_ANALYZER_MESSAGE_TYPE_CHANNEL
            (message.channel cm))) ∧
    suscan_analyzer_send_source_info w s (some info)
      = (false, write_failed s e rest,
          suscan_analyzer_dispose_message w SUSCAN_ANALYZER_MESSAGE_TYPE_SOURCE_INFO
            (message.source_info info)) := by
  obtain ⟨ok, freed, hst⟩ := follow_up_state w s e rest
  refine ⟨⟨freed, ?_⟩, ⟨freed, ?_⟩, ⟨freed, ?_⟩, ?_⟩
  · simp only [suscan_analyzer_send_psd, mq_write_fails s e rest _ _ h, hst]
  · simp only [suscan_analyzer_send_psd_from_smoothpsd, mq_write_fails s e rest _ _ h, hst]
  · simp only [suscan_analyzer_send_detector_channels, mq_write_fails s e rest _ _ h, hst]
  · simp only [suscan_analyzer_send_source_info, mq_write_fails s e rest _ _ h]

/-- An instance of the write failure: the analyzer whose next write fails with
`ENOMEM`. -/
theorem sender_write_failure_witness :
    (∃ freed, suscan_analyzer_send_psd file_world failing_sender (some psd_example) 0
      = (false,
          (suscan_mq_write (write_failed failing_sender 12 [])
            SUSCAN_ANALYZER_MESSAGE_TYPE_INTERNAL (cannot_write_status failing_sender 12)).2,
          freed ++ suscan_analyzer_dispose_message file_world SUSCAN_ANALYZER_MESSAGE_TYPE_PSD
            (message.psd { psd_example with fc := failing_sender.frequency,
                                            samp_rate := failing_sender.source_samp_rate,
                                            measured_samp_rate := 0x49742400,
                                            timestamp := failing_sender.source_time,
                                            N0 := 0 }))) ∧
    suscan_analyzer_send_source_info file_world failing_sender (some info_example)
      = (false, write_failed failing_sender 12 [],
          suscan_analyzer_dispose_message file_world SUSCAN_ANALYZER_MESSAGE_TYPE_SOURCE_INFO
            (message.source_info info_example)) :=
  ⟨(sender_write_failure file_world failing_sender 12 [] psd_example
      ⟨none, none, 0, none⟩ info_example 0 false 0 rfl).1,
   (sender_write_failure file_world failing_sender 12 [] psd_example
      ⟨none, none, 0, none⟩ info_example 0 false 0 rfl).2.2.2⟩

/-- C30 (failing input): with an analyzer whose next write fails and whose later
writes succeed, `suscan_analyzer_send_source_info` returns false and releases
its copy, and the outbound queue is left empty: no status message has been
posted, although the queue would have taken one. In the same state
`suscan_analyzer_send_psd` leaves the follow-up status of type Internal in the
queue. -/
theorem send_source_info_posts_no_status :
    (suscan_analyzer_send_source_info file_world failing_sender (some info_example)).1 = false ∧
    (suscan_analyzer_send_source_info file_world failing_sender (some info_example)).2.2
      = [heap_block.source_info_members info_example, heap_block.message_object] ∧
    (suscan_analyzer_send_source_info file_world failing_sender
      (some info_example)).2.1.mq_out = { outcomes := [], queue := [] } ∧
    (suscan_analyzer_send_psd file_world failing_sender (some psd_example) 0).2.1.mq_out
      = { outcomes := [],
          queue := [(SUSCAN_ANALYZER_MESSAGE_TYPE_INTERNAL,
                     message.status { code := -1, err_msg := some (cannot_write ++ enomem_text),
                                      sender := some 1 })] } := by
  refine ⟨by decide, by decide, by decide, by decide⟩

/-! ## Names of the kinds -/

/-- C39 (failing input): `SUSCAN_ANALYZER_INSPECTOR_MSGKIND_NOOP` is a kind of the
enumeration, below `SUSCAN_ANALYZER_INSPECTOR_MSGKIND_COUNT`, and
`suscan_analyzer_inspector_msgkind_to_string` returns `"UNKNOWN"` for it, not
`"NOOP"`. For the twenty other kinds the function returns the identifier of
the kind, these names are pairwise distinct and none is `"UNKNOWN"`; outside
the enumeration it returns `"UNKNOWN"`. -/
theorem msgkind_noop_is_unknown :
    0 ≤ SUSCAN_ANALYZER_INSPECTOR_MSGKIND_NOOP ∧
    SUSCAN_ANALYZER_INSPECTOR_MSGKIND_NOOP < SUSCAN_ANALYZER_INSPECTOR_MSGKIND_COUNT ∧
    suscan_analyzer_inspector_msgkind_to_string SUSCAN_ANALYZER_INSPECTOR_MSGKIND_NOOP
      = unknown_text ∧
    msgkind_identifier SUSCAN_ANALYZER_INSPECTOR_MSGKIND_NOOP = [78, 79, 79, 80] ∧
    (∀ k ∈ msgkinds, k ≠ SUSCAN_ANALYZER_INSPECTOR_MSGKIND_NOOP →
      suscan_analyzer_inspector_msgkind_to_string k = msgkind_identifier k ∧
      suscan_analyzer_inspector_msgkind_to_string k ≠ unknown_text) ∧
    ((msgkinds.tail).map suscan_analyzer_inspector_msgkind_to_string).Nodup ∧
    (∀ k : Int, k < 0 ∨ SUSCAN_ANALYZER_INSPECTOR_MSGKIND_COUNT ≤ k →
      suscan_analyzer_inspector_msgkind_to_string k = unknown_text) := by
  refine ⟨by decide, by decide, by decide, by decide, by decide, by decide, ?_⟩
  intro k hk
  have h : ∀ c : Int, 1 ≤ c → c ≤ 20 → ¬ k = c := by
    intro c h1 h2 hc
    simp only [SUSCAN_ANALYZER_INSPECTOR_MSGKIND_COUNT] at hk
    omega
  simp only [suscan_analyzer_inspector_msgkind_to_string,
    SUSCAN_ANALYZER_INSPECTOR_MSGKIND_OPEN, SUSCAN_ANALYZER_INSPECTOR_MSGKIND_SET_ID,
    SUSCAN_ANALYZER_INSPECTOR_MSGKIND_GET_CONFIG, SUSCAN_ANALYZER_INSPECTOR_MSGKIND_SET_CONFIG,
    SUSCAN_ANALYZER_INSPECTOR_MSGKIND_ESTIMATOR, SUSCAN_ANALYZER_INSPECTOR_MSGKIND_SPECTRUM,
    SUSCAN_ANALYZER_INSPECTOR_MSGKIND_RESET_EQUALIZER, SUSCAN_ANALYZER_INSPECTOR_MSGKIND_CLOSE,
    SUSCAN_ANALYZER_INSPECTOR_MSGKIND_SET_FREQ, SUSCAN_ANALYZER_INSPECTOR_MSGKIND_SET_BANDWIDTH,
    SUSCAN_ANALYZER_INSPECTOR_MSGKIND_SET_WATERMARK,
    SUSCAN_ANALYZER_INSPECTOR_MSGKIND_WRONG_HANDLE,
    SUSCAN_ANALYZER_INSPECTOR_MSGKIND_WRONG_OBJECT,
    SUSCAN_ANALYZER_INSPECTOR_MSGKIND_INVALID_ARGUMENT,
    SUSCAN_ANALYZER_INSPECTOR_MSGKIND_WRONG_KIND,
    SUSCAN_ANALYZER_INSPECTOR_MSGKIND_INVALID_CHANNEL, SUSCAN_ANALYZER_INSPECTOR_MSGKIND_SET_TLE,
    SUSCAN_ANALYZER_INSPECTOR_MSGKIND_ORBIT_REPORT,
    SUSCAN_ANALYZER_INSPECTOR_MSGKIND_INVALID_CORRECTION,
    SUSCAN_ANALYZER_INSPECTOR_MSGKIND_SIGNAL,
    h 1 (by decide) (by decide), h 2 (by decide) (by decide), h 3 (by decide) (by decide),
    h 4 (by decide) (by decide), h 5 (by decide) (by decide), h 6 (by decide) (by decide),
    h 7 (by decide) (by decide), h 8 (by decide) (by decide), h 9 (by decide) (by decide),
    h 10 (by decide) (by decide), h 11 (by decide) (by decide), h 12 (by decide) (by decide),
    h 13 (by decide) (by decide), h 14 (by decide) (by decide), h 15 (by decide) (by decide),
    h 16 (by decide) (by decide), h 17 (by decide) (by decide), h 18 (by decide) (by decide),
    h 19 (by decide) (by decide), h 20 (by decide) (by decide), if_false]

/-! ## Sample batches -/

/-- C40 (failing input): `suscan_analyzer_sample_batch_msg_new(7, NULL, 3)` returns
a message whose `sample_count` is 3 and whose buffer is null: the copy is
skipped for a null input and the count is stored all the same. The serializer
cannot write that message. -/
theorem sample_batch_new_null_samples :
    suscan_analyzer_sample_batch_msg_new 7 none 3
      = { inspector_id := 7, samples := none, sample_count := 3 } ∧
    (suscan_analyzer_sample_batch_msg_serialize
      (suscan_analyzer_sample_batch_msg_new 7 none 3) []).1 = false ∧
    suscan_analyzer_sample_batch_msg_new 7 (some [(1, 2), (3, 4), (5, 6), (7, 8)]) 3
      = { inspector_id := 7, samples := some [(1, 2), (3, 4), (5, 6)], sample_count := 3 } := by
  decide

/-! ## The set flag -/

/-- C36 (failing input): on a configuration bound to `"custom.v1"`,
`suscan_config_set_float(cfg, "f", 1.5)` succeeds and stores the value, and the
`set` flag of the value of `"f"` is still false, whereas
`suscan_config_set_integer(cfg, "n", 7)` leaves the flag of `"n"` true. The
same holds after a successful `suscan_config_deserialize`: the values of
`"n"` and `"s"` are flagged, the value of `"f"` is not. -/
theorem set_float_leaves_flag_unset :
    (suscan_config_set_float custom_world custom_config [0x66] 0x3fc00000).1 = true ∧
    ((suscan_config_set_float custom_world custom_config [0x66] 0x3fc00000).2.values.getD []).map
        (fun v => (v.as_float, v.set))
      = [(0, false), (0, false), (0x3fc00000, false)] ∧
    (suscan_config_set_integer custom_world custom_config [0x6e] 7).1 = true ∧
    ((suscan_config_set_integer custom_world custom_config [0x6e] 7).2.values.getD []).map
        (fun v => (v.as_int, v.set))
      = [(7, true), (0, false), (0, false)] ∧
    (suscan_config_deserialize rx_world { desc := none, values := none }
      (named_items custom_v1 custom_pairs)).1 = true ∧
    ((suscan_config_deserialize rx_world { desc := none, values := none }
      (named_items custom_v1 custom_pairs)).2.2.1.values.getD []).map (fun v => v.set)
      = [true, true, false] := by
  decide

/-! ## Microseconds -/

/-- C33 (counterexample): the seek deserializer accepts the elements
`uint 5, uint 1000000` and yields the position `(5, 1000000)`, whose
microseconds are not below 1000000; the microseconds are read as a `uint32_t`
and stored without a range check. The partial PSD deserializer does the same
with `timestamp` and `rt_time`. -/
theorem usec_out_of_range_accepted :
    suscan_analyzer_seek_msg_deserialize { position := ⟨0, 0⟩ }
        [cbor_item.uint 5, cbor_item.uint 1000000]
      = (true, { position := ⟨5, 1000000⟩ }, []) ∧
    ¬ (timeval.valid ⟨5, 1000000⟩) ∧
    ( suscan_analyzer_psd_msg_deserialize_partial (suscan_analyzer_psd_msg_new_NULL ⟨0, 0⟩)
        [cbor_item.uint 0, cbor_item.uint 0, cbor_item.uint 5, cbor_item.uint 4294967295,
         cbor_item.uint 6, cbor_item.uint 1000000, cbor_item.bool false, cbor_item.uint 0,
         cbor_item.single 0, cbor_item.single 0, cbor_item.single 0]).1 = true ∧
    ( suscan_analyzer_psd_msg_deserialize_partial (suscan_analyzer_psd_msg_new_NULL ⟨0, 0⟩)
        [cbor_item.uint 0, cbor_item.uint 0, cbor_item.uint 5, cbor_item.uint 4294967295,
         cbor_item.uint 6, cbor_item.uint 1000000, cbor_item.bool false, cbor_item.uint 0,
         cbor_item.single 0, cbor_item.single 0, cbor_item.single 0]).2.1.timestamp
      = ⟨5, 4294967295⟩ ∧
    ( suscan_analyzer_psd_msg_deserialize_partial (suscan_analyzer_psd_msg_new_NULL ⟨0, 0⟩)
        [cbor_item.uint 0, cbor_item.uint 0, cbor_item.uint 5, cbor_item.uint 4294967295,
         cbor_item.uint 6, cbor_item.uint 1000000, cbor_item.bool false, cbor_item.uint 0,
         cbor_item.single 0, cbor_item.single 0, cbor_item.single 0]).2.1.rt_time
      = ⟨6, 1000000⟩ := by
  decide

/-! ## Field names of a descriptor -/

theorem lookup_field_id_some (name : cstr) :
    ∀ (fs : List suscan_field) (i : Nat), name ∈ fs.map (fun f => f.name) →
      ∃ j, j < fs.length ∧ suscan_config_desc_lookup_field_id_from name fs i = ((i + j : Nat) : Int) ∧
        (∃ f, fs[j]? = some f ∧ f.name = name) := by
  intro fs
  induction fs with
  | nil => intro i h; simp at h
  | cons g gs ih =>
    intro i h
    by_cases hg : g.name = name
    · exact ⟨0, by simp, by simp [suscan_config_desc_lookup_field_id_from, hg], g, by simp, hg⟩
    · have h' : name ∈ gs.map (fun f => f.name) := by
        simp only [List.map_cons, List.mem_cons] at h
        rcases h with h | h
        · exact absurd h.symm hg
        · exact h
      obtain ⟨j, hj, he, f, hf, hn⟩ := ih (i + 1) h'
      refine ⟨j + 1, by simp [hj], ?_, f, by simpa using hf, hn⟩
      simp only [suscan_config_desc_lookup_field_id_from, hg, if_false]
      rw [he]
      congr 1
      omega

theorem lookup_field_spec (d : suscan_config_desc) (name : cstr) :
    (name ∉ field_names d →
      suscan_config_desc_lookup_field_id d name = -1 ∧
      suscan_config_desc_lookup_field d name = none) ∧
    (name ∈ field_names d →
      ∃ j f, j < d.field_list.length ∧
        suscan_config_desc_lookup_field_id d name = (j : Int) ∧
        d.field_list[j]? = some f ∧ f.name = name ∧
        suscan_config_desc_lookup_field d name = some f) := by
  constructor
  · intro h
    have h1 : suscan_config_desc_lookup_field_id d name = -1 :=
      lookup_field_id_absent name d.field_list 0 h
    refine ⟨h1, ?_⟩
    simp [suscan_config_desc_lookup_field, h1, suscan_config_desc_field_id_to_field]
  · intro h
    obtain ⟨j, hj, he, f, hf, hn⟩ := lookup_field_id_some name d.field_list 0 h
    have he' : suscan_config_desc_lookup_field_id d name = (j : Int) := by
      unfold suscan_config_desc_lookup_field_id
      rw [he]; simp
    refine ⟨j, f, hj, he', hf, hn, ?_⟩
    unfold suscan_config_desc_lookup_field suscan_config_desc_field_id_to_field
    rw [he']
    have h1 : ¬ ((j : Int) < 0 ∨ (j : Int) ≥ (d.field_list.length : Int)) := by omega
    rw [if_neg h1, Int.toNat_ofNat]
    exact hf

theorem nodup_unique_field (fs : List suscan_field)
    (hnd : (fs.map fun f => f.name).Nodup) (f g : suscan_field)
    (hf : f ∈ fs) (hg : g ∈ fs) (h : f.name = g.name) : f = g :=
  List.inj_on_of_nodup_map hnd hf hg h

theorem add_field_eq (w : config_state) (p : Nat) (d : suscan_config_desc)
    (type : suscan_field_type) (optional : Bool) (name desc : cstr)
    (hd : w.deref p = some d) :
    suscan_config_desc_add_field w p type optional name desc
      = if name ∈ field_names d then (false, w)
        else (true, { heap := w.heap.set p (some { d with
                        field_list := d.field_list ++ [⟨type, optional, name, desc⟩] }),
                      g_config_desc_list := w.g_config_desc_list, errno := w.errno }) := by
  by_cases h : name ∈ field_names d
  · obtain ⟨j, f, _, he, _⟩ := (lookup_field_spec d name).2 h
    have h1 : suscan_config_desc_lookup_field_id d name ≠ -1 := by rw [he]; omega
    simp only [suscan_config_desc_add_field, hd, h1, h, if_true, ne_eq, not_false_eq_true]
  · have h1 := ((lookup_field_spec d name).1 h).1
    have h2 : ¬ (suscan_config_desc_lookup_field_id d name ≠ -1) := not_not.mpr h1
    simp only [suscan_config_desc_add_field, hd, h2, h, if_false]

theorem add_field_keeps_nodup (w : config_state) (p : Nat) (d : suscan_config_desc)
    (type : suscan_field_type) (optional : Bool) (name desc : cstr)
    (hd : w.deref p = some d) (hnd : (field_names d).Nodup) :
    ∃ d', (suscan_config_desc_add_field w p type optional name desc).2.deref p = some d' ∧
      (field_names d').Nodup ∧ d'.global_name = d.global_name ∧
      d'.registered = d.registered := by
  rw [add_field_eq w p d type optional name desc hd]
  by_cases h : name ∈ field_names d
  · rw [if_pos h]; exact ⟨d, hd, hnd, rfl, rfl⟩
  · rw [if_neg h]
    refine ⟨_, deref_set_eq w _ _ p d _ hd, ?_, rfl, rfl⟩
    unfold field_names at hnd h ⊢
    simp only [List.map_append, List.map_cons, List.map_nil]
    rw [List.nodup_append]
    refine ⟨hnd, by simp, ?_⟩
    intro a ha hb
    simp only [List.mem_singleton] at hb
    subst hb
    exact h ha

theorem add_fields_keep_nodup (p : Nat) (calls : List suscan_field) :
    ∀ (w : config_state) (d : suscan_config_desc), w.deref p = some d →
      (field_names d).Nodup →
      ∃ d', (add_fields p w calls).deref p = some d' ∧ (field_names d').Nodup ∧
        d'.global_name = d.global_name := by
  induction calls with
  | nil => intro w d hd hnd; exact ⟨d, hd, hnd, rfl⟩
  | cons f fs ih =>
    intro w d hd hnd
    obtain ⟨d1, h1, h2, h3, _⟩ :=
      add_field_keeps_nodup w p d f.type f.optional f.name f.desc hd hnd
    obtain ⟨d2, h4, h5, h6⟩ := ih _ d1 h1 h2
    exact ⟨d2, h4, h5, h6.trans h3⟩

/-- C38: for a descriptor object `d`, `suscan_config_desc_add_field` returns false
and leaves everything as it was when a field of the given name exists, and
otherwise returns true with the new field appended at the end of the field
list and nothing else changed. The object `suscan_config_desc_new_ex` creates
for a name that is not registered has no field, and any sequence of calls of
`suscan_config_desc_add_field` on a descriptor whose field names are pairwise
distinct leaves them pairwise distinct. For such a descriptor
`suscan_config_desc_lookup_field` returns null when no field has the name,
and otherwise returns the field of that name, which is the only one. -/
theorem field_names_distinct (w : config_state) (p : Nat) (d : suscan_config_desc)
    (type : suscan_field_type) (optional : Bool) (name desc : cstr)
    (hd : w.deref p = some d) :
    (name ∈ field_names d →
      suscan_config_desc_add_field w p type optional name desc = (false, w)) ∧
    (name ∉ field_names d →
      suscan_config_desc_add_field w p type optional name desc
        = (true, { heap := w.heap.set p (some { d with
                     field_list := d.field_list ++ [⟨type, optional, name, desc⟩] }),
                   g_config_desc_list := w.g_config_desc_list, errno := w.errno })) ∧
    (∀ n : cstr, suscan_config_desc_lookup w (some n) = none →
      (suscan_config_desc_new_ex w (some n)).2 = some w.heap.length ∧
      (suscan_config_desc_new_ex w (some n)).1.deref w.heap.length
        = some { global_name := some n, registered := false, field_list := [] }) ∧
    ((field_names d).Nodup → ∀ calls : List suscan_field,
      ∃ d', (add_fields p w calls).deref p = some d' ∧ (field_names d').Nodup ∧
        d'.global_name = d.global_name) ∧
    ((field_names d).Nodup → ∀ n : cstr,
      (n ∉ field_names d → suscan_config_desc_lookup_field d n = none) ∧
      (∀ f ∈ d.field_list, f.name = n → suscan_config_desc_lookup_field d n = some f)) := by
  have he := add_field_eq w p d type optional name desc hd
  refine ⟨fun h => by rw [he, if_pos h], fun h => by rw [he, if_neg h], ?_, ?_, ?_⟩
  · intro n hn
    simp only [suscan_config_desc_new_ex, Option.isSome_some, if_true, hn]
    exact ⟨trivial, deref_append_new w _⟩
  · intro hnd calls
    exact add_fields_keep_nodup p calls w d hd hnd
  · intro hnd n
    refine ⟨fun h => ((lookup_field_spec d n).1 h).2, ?_⟩
    intro f hf hfn
    have hmem : n ∈ field_names d := List.mem_map.mpr ⟨f, hf, hfn⟩
    obtain ⟨j, g, _, _, hg, hgn, hl⟩ := (lookup_field_spec d n).2 hmem
    have hgm : g ∈ d.field_list := List.mem_iff_getElem?.mpr ⟨j, hg⟩
    rw [hl, nodup_unique_field d.field_list hnd g f hgm hf (hgn.trans hfn.symm)]

/-- Witness of C38: the descriptor `"rx"` with the fields `"on"` and `"n"`; a
second `"n"` is refused, `"x"` is appended. -/
theorem field_names_distinct_witness :
    suscan_config_desc_add_field rx_world 0 SUSCAN_FIELD_TYPE_FLOAT false [0x6e] []
      = (false, rx_world) ∧
    suscan_config_desc_lookup_field
        { global_name := some [0x72, 0x78], registered := true,
          field_list := [⟨SUSCAN_FIELD_TYPE_BOOLEAN, false, [0x6f, 0x6e], []⟩,
                         ⟨SUSCAN_FIELD_TYPE_INTEGER, false, [0x6e], []⟩] } [0x6e]
      = some ⟨SUSCAN_FIELD_TYPE_INTEGER, false, [0x6e], []⟩ :=
  ⟨(field_names_distinct rx_world 0
      ⟨some [0x72, 0x78], true, [⟨SUSCAN_FIELD_TYPE_BOOLEAN, false, [0x6f, 0x6e], []⟩,
        ⟨SUSCAN_FIELD_TYPE_INTEGER, false, [0x6e], []⟩]⟩
      SUSCAN_FIELD_TYPE_FLOAT false [0x6e] [] rfl).1 (by decide),
   ((field_names_distinct rx_world 0
      ⟨some [0x72, 0x78], true, [⟨SUSCAN_FIELD_TYPE_BOOLEAN, false, [0x6f, 0x6e], []⟩,
        ⟨SUSCAN_FIELD_TYPE_INTEGER, false, [0x6e], []⟩]⟩
      SUSCAN_FIELD_TYPE_FLOAT false [0x6e] [] rfl).2.2.2.2 (by decide) [0x6e]).2
      ⟨SUSCAN_FIELD_TYPE_INTEGER, false, [0x6e], []⟩ (by decide) rfl⟩

/-! ## The typed setters -/

theorem config_set_spec (w : config_state) (cfg : suscan_config) (p : Nat)
    (d : suscan_config_desc) (vals : List suscan_field_value) (name : cstr)
    (type : suscan_field_type) (g : suscan_field_value → suscan_field_value)
    (hb : config_inited w cfg p d vals) :
    (name ∉ field_names d ∧ suscan_config_set w cfg name type g = (false, cfg)) ∨
    (∃ (j : Nat) (f : suscan_field) (v : suscan_field_value),
      d.field_list[j]? = some f ∧ f.name = name ∧ vals[j]? = some v ∧
      suscan_config_desc_lookup_field_id d name = (j : Int) ∧
      suscan_config_set w cfg name type g
        = if f.type = type then (true, { cfg with values := some (vals.set j (g v)) })
          else (false, cfg)) := by
  obtain ⟨h1, h2, h3, h4, _⟩ := hb
  have hbind : cfg.desc.bind w.deref = some d := by rw [h1]; exact h2
  by_cases h : name ∈ field_names d
  · right
    obtain ⟨j, f, hj, he, hf, hn, hl⟩ := (lookup_field_spec d name).2 h
    have hjv : j < vals.length := by omega
    have hv : vals[j]? = some vals[j] := List.getElem?_eq_getElem hjv
    have hne : ¬ ((j : Int) = -1) := by omega
    have hl' : suscan_config_desc_field_id_to_field d (j : Int) = some f := by
      have := hl
      unfold suscan_config_desc_lookup_field at this
      rw [he] at this
      exact this
    refine ⟨j, f, vals[j], hf, hn, hv, he, ?_⟩
    by_cases ht : f.type = type
    · simp only [suscan_config_set, hbind, he, hne, if_false, hl', ht, ne_eq,
        not_true_eq_false, suscan_config.update, h3, Int.toNat_ofNat, hv, if_true]
    · simp only [suscan_config_set, hbind, he, hne, if_false, hl', ht, ne_eq,
        not_false_eq_true, if_true]
  · left
    have hid := ((lookup_field_spec d name).1 h).1
    refine ⟨h, ?_⟩
    simp only [suscan_config_set, hbind, hid, if_true]

theorem get_value_eq (w : config_state) (cfg : suscan_config) (p : Nat)
    (d : suscan_config_desc) (vals : List suscan_field_value) (n : cstr)
    (h1 : cfg.desc = some p) (h2 : w.deref p = some d) (h3 : cfg.values = some vals) :
    suscan_config_get_value w cfg n
      = if suscan_config_desc_lookup_field_id d n = -1 then none
        else vals[(suscan_config_desc_lookup_field_id d n).toNat]? := by
  have hbind : cfg.desc.bind w.deref = some d := by rw [h1]; exact h2
  simp only [suscan_config_get_value, hbind, h3, Option.getD_some]

theorem setter_contract_of_set (w : config_state) (cfg : suscan_config) (p : Nat)
    (d : suscan_config_desc) (vals : List suscan_field_value) (name : cstr)
    (type : suscan_field_type) (g : suscan_field_value → suscan_field_value)
    (written : suscan_field_value → Prop) (hw : ∀ v, written (g v))
    (hb : config_inited w cfg p d vals) :
    setter_contract w cfg d name type (suscan_config_set w cfg name type g) written := by
  have hb' := hb
  obtain ⟨h1, h2, h3, h4, hnd⟩ := hb'
  rcases config_set_spec w cfg p d vals name type g hb with ⟨hn, he⟩ | ⟨j, f, v, hf, hfn, hv, hid, he⟩
  · rw [he]
    refine ⟨⟨fun h => by simp at h, ?_⟩, fun _ => rfl, fun h => by simp at h⟩
    rintro ⟨f, hf, hfn, _⟩
    exact absurd (List.mem_map.mpr ⟨f, hf, hfn⟩) hn
  · have hfm : f ∈ d.field_list := List.mem_iff_getElem?.mpr ⟨j, hf⟩
    have hjv : j < vals.length := by
      rcases Nat.lt_or_ge j vals.length with h | h
      · exact h
      · rw [List.getElem?_eq_none h] at hv; cases hv
    by_cases ht : f.type = type
    · rw [he, if_pos ht]
      refine ⟨⟨fun _ => ⟨f, hfm, hfn, ht⟩, fun _ => rfl⟩, fun h => by simp at h, fun _ => ?_⟩
      refine ⟨rfl, ⟨g v, ?_, hw v⟩, ?_⟩
      · show suscan_config_get_value w { desc := cfg.desc, values := some (vals.set j (g v)) }
          name = _
        rw [get_value_eq w { desc := cfg.desc, values := some (vals.set j (g v)) } p d
          (vals.set j (g v)) name h1 h2 rfl, hid]
        have hne : ¬ ((j : Int) = -1) := by omega
        rw [if_neg hne, Int.toNat_ofNat]
        exact List.getElem?_set_self (by simpa using hjv)
      · intro n hn
        show suscan_config_get_value w { desc := cfg.desc, values := some (vals.set j (g v)) }
          n = _
        rw [get_value_eq w { desc := cfg.desc, values := some (vals.set j (g v)) } p d
          (vals.set j (g v)) n h1 h2 rfl, get_value_eq w cfg p d vals n h1 h2 h3]
        by_cases hm : n ∈ field_names d
        · obtain ⟨j', f', _, he', hf', hfn', _⟩ := (lookup_field_spec d n).2 hm
          have hjj : j ≠ j' := by
            intro hc
            subst hc
            rw [hf] at hf'
            cases hf'
            exact hn (hfn'.symm.trans hfn)
          have hne : ¬ ((j' : Int) = -1) := by omega
          rw [he', if_neg hne, if_neg hne, Int.toNat_ofNat]
          exact List.getElem?_set_ne hjj
        · have hid' := ((lookup_field_spec d n).1 hm).1
          rw [hid', if_pos rfl, if_pos rfl]
    · rw [he, if_neg ht]
      refine ⟨⟨fun h => by simp at h, ?_⟩, fun _ => rfl, fun h => by simp at h⟩
      rintro ⟨f', hf', hfn', ht'⟩
      have := nodup_unique_field d.field_list hnd f' f hf' hfm (hfn'.trans hfn.symm)
      subst this
      exact absurd ht' ht

/-- C35: for a configuration bound to a descriptor whose field names are pairwise
distinct, holding one value per field, each of the five typed setters
succeeds exactly when the descriptor has a field of the given name whose
declared type is the type of the setter; when it fails the configuration is
what it was; when it succeeds `suscan_config_get_value` yields for that
name a value object that holds the value just written, and for every other
name what it yielded before. -/
theorem typed_setters_contract (w : config_state) (cfg : suscan_config) (p : Nat)
    (d : suscan_config_desc) (vals : List suscan_field_value) (name : cstr)
    (i : Nat) (b : Bool) (x : Nat) (s : cstr)
    (hb : config_inited w cfg p d vals) :
    setter_contract w cfg d name SUSCAN_FIELD_TYPE_INTEGER
      (suscan_config_set_integer w cfg name i) (fun v => v.as_int = i) ∧
    setter_contract w cfg d name SUSCAN_FIELD_TYPE_BOOLEAN
      (suscan_config_set_bool w cfg name b) (fun v => v.as_bool = b) ∧
    setter_contract w cfg d name SUSCAN_FIELD_TYPE_FLOAT
      (suscan_config_set_float w cfg name x) (fun v => v.as_float = x) ∧
    setter_contract w cfg d name SUSCAN_FIELD_TYPE_STRING
      (suscan_config_set_string w cfg name s) (fun v => v.as_string = s) ∧
    setter_contract w cfg d name SUSCAN_FIELD_TYPE_FILE
      (suscan_config_set_file w cfg name s) (fun v => v.as_string = s) :=
  ⟨setter_contract_of_set w cfg p d vals name _ _ _ (fun _ => rfl) hb,
   setter_contract_of_set w cfg p d vals name _ _ _ (fun _ => rfl) hb,
   setter_contract_of_set w cfg p d vals name _ _ _ (fun _ => rfl) hb,
   setter_contract_of_set w cfg p d vals name _ _ _ (fun _ => rfl) hb,
   setter_contract_of_set w cfg p d vals name _ _ _ (fun _ => rfl) hb⟩

theorem custom_config_inited :
    config_inited custom_world custom_config 1
      { global_name := some custom_v1, registered := true,
        field_list := probed_fields custom_pairs }
      ((probed_fields custom_pairs).map suscan_field_value.zero) :=
  ⟨rfl, rfl, rfl, by decide, by decide⟩

/-- Witness of C35: a configuration bound to `"custom.v1"` (integer `"n"`, string
`"s"`, float `"f"`); on the name `"n"` the integer setter succeeds and the
string setter fails. -/
theorem typed_setters_contract_witness :
    (suscan_config_set_integer custom_world custom_config [0x6e] 7).1 = true ∧
    (suscan_config_set_string custom_world custom_config [0x6e] [0x61]).1 = false ∧
    setter_contract custom_world custom_config
      { global_name := some custom_v1, registered := true,
        field_list := probed_fields custom_pairs } [0x6e] SUSCAN_FIELD_TYPE_INTEGER
      (suscan_config_set_integer custom_world custom_config [0x6e] 7)
      (fun v => v.as_int = 7) :=
  ⟨by decide, by decide,
   (typed_setters_contract custom_world custom_config 1 _ _ [0x6e] 7 false 0 [0x61]
      custom_config_inited).1⟩

/-! ## Failed decodes and the registry -/

theorem same_registry_refl (w : config_state) : same_registry w w := ⟨rfl, fun _ _ => rfl⟩

theorem same_registry_trans (w w1 w2 : config_state) (h1 : same_registry w w1)
    (h2 : same_registry w1 w2) : same_registry w w2 :=
  ⟨h2.1.trans h1.1, fun q hq => (h2.2 q (by rw [h1.1]; exact hq)).trans (h1.2 q hq)⟩

theorem same_registry_set (w : config_state) (p : Nat) (x : Option suscan_config_desc)
    (e : Nat) (hp : p ∉ w.g_config_desc_list) :
    same_registry w { heap := w.heap.set p x, g_config_desc_list := w.g_config_desc_list,
                      errno := e } :=
  ⟨rfl, fun q hq => deref_set_ne w e _ p q x (fun h => hp (h ▸ hq))⟩

theorem same_registry_errno (w : config_state) (e : Nat) :
    same_registry w { w with errno := e } := ⟨rfl, fun _ _ => rfl⟩

theorem add_field_same_registry (w : config_state) (p : Nat) (type : suscan_field_type)
    (optional : Bool) (name desc : cstr) (hp : p ∉ w.g_config_desc_list) :
    same_registry w (suscan_config_desc_add_field w p type optional name desc).2 := by
  cases hd : w.deref p with
  | none => simp only [suscan_config_desc_add_field, hd]; exact same_registry_refl w
  | some d =>
    rw [add_field_eq w p d type optional name desc hd]
    split_ifs
    · exact same_registry_refl w
    · exact same_registry_set w p _ _ hp

theorem populate_field_same_registry (w : config_state) (p : Nat) (type : suscan_field_type)
    (key : cstr) (consumed : Option grow_buf_t) (hp : p ∉ w.g_config_desc_list) :
    same_registry w (populate_field w p type key consumed).2.1 := by
  have h := add_field_same_registry w p type false key no_description hp
  unfold populate_field
  rcases ha : suscan_config_desc_add_field w p type false key no_description with ⟨ok, w1⟩
  rw [ha] at h
  cases ok
  · exact h
  · cases consumed <;> exact h

theorem populate_loop_same_registry (p : Nat) :
    ∀ (n : Nat) (w : config_state) (tmp : grow_buf_t), p ∉ w.g_config_desc_list →
      same_registry w (suscan_config_desc_populate_loop p n w tmp).2 := by
  intro n
  induction n with
  | zero => intro w tmp _; exact same_registry_refl w
  | succ n ih =>
    intro w tmp hp
    have key : ∀ (step : Bool × config_state × grow_buf_t), same_registry w step.2.1 →
        same_registry w
          (match step with
           | (false, w, _) => (false, w)
           | (true, w, tmp) => suscan_config_desc_populate_loop p n w tmp).2 := by
      intro step hs
      obtain ⟨ok, w1, t1⟩ := step
      cases ok
      · exact hs
      · exact same_registry_trans w w1 _ hs (ih w1 t1 (by rw [hs.1]; exact hp))
    unfold suscan_config_desc_populate_loop
    cases hk : cbor_unpack_str tmp with
    | none => exact same_registry_refl w
    | some kt =>
      obtain ⟨k, t⟩ := kt
      dsimp only
      cases hpk : cbor_peek_type t with
      | none => exact same_registry_refl w
      | some te =>
        obtain ⟨type, extra⟩ := te
        dsimp only
        apply key
        cases type <;> dsimp only <;>
          first
          | exact populate_field_same_registry w p _ k _ hp
          | exact same_registry_refl w
          | (split_ifs <;>
              first
              | exact populate_field_same_registry w p _ k _ hp
              | exact same_registry_refl w)

theorem populate_same_registry (w : config_state) (p : Nat) (buffer : grow_buf_t)
    (hp : p ∉ w.g_config_desc_list) :
    same_registry w (suscan_config_desc_populate_from_cbor w p buffer).2 := by
  unfold suscan_config_desc_populate_from_cbor
  dsimp only
  cases hm : cbor_unpack_map_start buffer with
  | none => exact same_registry_refl w
  | some r =>
    obtain ⟨⟨n, e⟩, t⟩ := r
    dsimp only
    split_ifs
    · exact same_registry_refl w
    · exact populate_loop_same_registry p n w t hp

theorem destroy_same_registry (w : config_state) (p : Nat)
    (hp : p ∉ w.g_config_desc_list) :
    same_registry w (suscan_config_desc_destroy w p) := by
  unfold suscan_config_desc_destroy
  cases hd : w.deref p with
  | none => exact same_registry_refl w
  | some d =>
    dsimp only
    split_ifs
    · exact same_registry_refl w
    · exact same_registry_set w p none _ hp

theorem register_failed_same_registry (w : config_state) (p : Nat)
    (h : (suscan_config_desc_register w p).1 = false) :
    same_registry w (suscan_config_desc_register w p).2 := by
  cases hd : w.deref p with
  | none =>
    simp only [suscan_config_desc_register, hd]; exact same_registry_refl w
  | some d =>
    rw [register_eq w p d hd] at h ⊢
    split_ifs at h ⊢
    · exact same_registry_refl w
    · exact same_registry_errno w _

theorem finally_failed (creative_mode : Bool) (desc : Option Nat) (ok : Bool)
    (w : config_state) (self : suscan_config) (buffer : grow_buf_t)
    (hp : creative_mode = true → ∀ p, desc = some p → p ∉ w.g_config_desc_list)
    (h : (suscan_config_deserialize_finally creative_mode desc ok w self buffer).1 = false) :
    same_registry w
      (suscan_config_deserialize_finally creative_mode desc ok w self buffer).2.1 ∧
    (suscan_config_deserialize_finally creative_mode desc ok w self buffer).2.2.1
      = { desc := none, values := none } := by
  have plain : ∀ (ok : Bool),
      (if ok then (true, w, self, buffer)
        else (false, w, suscan_config_finalize self, buffer)).1 = false →
      same_registry w
        (if ok then (true, w, self, buffer)
          else (false, w, suscan_config_finalize self, buffer)).2.1 ∧
      (if ok then (true, w, self, buffer)
        else (false, w, suscan_config_finalize self, buffer)).2.2.1
        = { desc := none, values := none } := by
    intro ok h
    cases ok
    · exact ⟨same_registry_refl w, rfl⟩
    · simp at h
  cases creative_mode with
  | false => exact plain ok h
  | true =>
    cases desc with
    | none => exact plain ok h
    | some p =>
      have hpn := hp rfl p rfl
      have key : ∀ (r : Bool × config_state), (r.1 = false → same_registry w r.2) →
          (if r.1 then (true, r.2, self, buffer)
            else (false, suscan_config_desc_destroy r.2 p, suscan_config_finalize self,
              buffer)).1 = false →
          same_registry w
            (if r.1 then (true, r.2, self, buffer)
              else (false, suscan_config_desc_destroy r.2 p, suscan_config_finalize self,
                buffer)).2.1 ∧
          (if r.1 then (true, r.2, self, buffer)
            else (false, suscan_config_desc_destroy r.2 p, suscan_config_finalize self,
              buffer)).2.2.1 = { desc := none, values := none } := by
        intro r hr h
        obtain ⟨b, w1⟩ := r
        cases b
        · exact ⟨same_registry_trans w w1 _ (hr rfl)
            (destroy_same_registry w1 p (by rw [(hr rfl).1]; exact hpn)), rfl⟩
        · simp at h
      unfold suscan_config_deserialize_finally at h ⊢
      dsimp only at h ⊢
      refine key _ ?_ h
      cases ok
      · intro _; exact same_registry_refl w
      · rw [if_pos rfl]
        have hreg := register_failed_same_registry w p
        rcases hr : suscan_config_desc_register w p with ⟨b, w1⟩
        rw [hr] at hreg
        cases b
        · dsimp only
          split_ifs
          · intro _; exact hreg rfl
          · intro hc; simp at hc
        · intro hc; simp at hc

theorem deserialize_is_finally (w : config_state) (self : suscan_config)
    (buffer : grow_buf_t) (hw : w.wf) :
    ∃ creative_mode desc ok w1 self1 buffer1,
      suscan_config_deserialize w self buffer
        = suscan_config_deserialize_finally creative_mode desc ok w1 self1 buffer1 ∧
      same_registry w w1 ∧
      (creative_mode = true → ∀ p, desc = some p → p ∉ w1.g_config_desc_list) := by
  have known : ∀ (desc : Option Nat) (ok : Bool) (self1 : suscan_config)
      (buffer1 : grow_buf_t),
      ∃ creative_mode desc1 ok1 w1 self2 buffer2,
        suscan_config_deserialize_finally false desc ok w self1 buffer1
          = suscan_config_deserialize_finally creative_mode desc1 ok1 w1 self2 buffer2 ∧
        same_registry w w1 ∧
        (creative_mode = true → ∀ p, desc1 = some p → p ∉ w1.g_config_desc_list) :=
    fun desc ok self1 buffer1 =>
      ⟨false, desc, ok, w, self1, buffer1, rfl, same_registry_refl w,
        fun h => by cases h⟩
  unfold suscan_config_deserialize
  dsimp only
  cases hs : cbor_unpack_str buffer with
  | none => exact known _ _ _ _
  | some nb =>
    obtain ⟨name, b1⟩ := nb
    dsimp only
    by_cases hlen : ¬ name.length > 0
    · rw [if_pos hlen]; exact known _ _ _ _
    · rw [if_neg hlen]
      cases hf : suscan_config_desc_lookup w (some name) with
      | some p =>
        simp only [Option.isNone_some]
        split
        · exact known _ _ _ _
        · split
          · exact known _ _ _ _
          · split
            · exact known _ _ _ _
            · split
              · exact known _ _ _ _
              · exact known _ _ _ _
      | none =>
        have hnew : suscan_config_desc_new_ex w (some name)
            = ({ heap := w.heap ++ [some { global_name := some name, registered := false,
                                           field_list := [] }],
                 g_config_desc_list := w.g_config_desc_list, errno := w.errno },
               some w.heap.length) := by
          simp only [suscan_config_desc_new_ex, Option.isSome_some, if_true, hf]
        have hnot : w.heap.length ∉ w.g_config_desc_list :=
          fun hm => Nat.lt_irrefl _ (hw _ hm)
        have hs1 : same_registry w
            { heap := w.heap ++ [some { global_name := some name, registered := false,
                                        field_list := [] }],
              g_config_desc_list := w.g_config_desc_list, errno := w.errno } :=
          ⟨rfl, fun q hq => deref_append w _ q (hw q hq)⟩
        have hpop := populate_same_registry
          { heap := w.heap ++ [some { global_name := some name, registered := false,
                                      field_list := [] }],
            g_config_desc_list := w.g_config_desc_list, errno := w.errno }
          w.heap.length b1 hnot
        rcases hp : suscan_config_desc_populate_from_cbor
          { heap := w.heap ++ [some { global_name := some name, registered := false,
                                      field_list := [] }],
            g_config_desc_list := w.g_config_desc_list, errno := w.errno }
          w.heap.length b1 with ⟨ok, w2⟩
        rw [hp] at hpop
        have hs2 : same_registry w w2 := same_registry_trans w _ w2 hs1 hpop
        have hn2 : w.heap.length ∉ w2.g_config_desc_list := by rw [hs2.1]; exact hnot
        have creative : ∀ (ok : Bool) (self1 : suscan_config) (buffer1 : grow_buf_t),
            ∃ creative_mode desc1 ok1 w1 self2 buffer2,
              suscan_config_deserialize_finally true (some w.heap.length) ok w2 self1 buffer1
                = suscan_config_deserialize_finally creative_mode desc1 ok1 w1 self2 buffer2 ∧
              same_registry w w1 ∧
              (creative_mode = true → ∀ p, desc1 = some p → p ∉ w1.g_config_desc_list) :=
          fun ok self1 buffer1 =>
            ⟨true, some w.heap.length, ok, w2, self1, buffer1, rfl, hs2,
              fun _ p hp => by cases hp; exact hn2⟩
        simp only [hnew, hp, Option.isNone_none]
        cases ok
        · exact creative _ _ _
        · dsimp only
          split
          · exact creative _ _ _
          · split
            · exact creative _ _ _
            · split
              · exact creative _ _ _
              · split
                · exact creative _ _ _
                · exact creative _ _ _

theorem same_registry_names (w w1 : config_state) (h : same_registry w w1) :
    registry_names w1 = registry_names w := by
  unfold registry_names
  rw [h.1]
  apply List.map_congr_left
  intro q hq
  rw [h.2 q hq]

theorem same_registry_lookup (w w1 : config_state) (h : same_registry w w1)
    (n : Option cstr) :
    suscan_config_desc_lookup w1 n = suscan_config_desc_lookup w n := by
  unfold suscan_config_desc_lookup suscan_config_desc_lookup_unsafe
  rw [h.1]
  apply find?_ext
  intro q hq
  rw [h.2 q hq]

/-- C37 (a failed decode leaves the registry alone): in a state whose registry holds
addresses of allocated descriptors, whenever `suscan_config_deserialize`
returns false, whatever the cause and in creative mode in particular, the
registry after the call is the registry before it (the same list of
addresses, holding the same descriptor objects, so the same names, and every
lookup by name answers as before) and the target configuration is left
finalized, with no descriptor and no values. -/
theorem failed_decode_keeps_registry (w : config_state) (self : suscan_config)
    (buffer : grow_buf_t) (hw : w.wf)
    (h : (suscan_config_deserialize w self buffer).1 = false) :
    (suscan_config_deserialize w self buffer).2.1.g_config_desc_list
      = w.g_config_desc_list ∧
    (∀ q ∈ w.g_config_desc_list,
      (suscan_config_deserialize w self buffer).2.1.deref q = w.deref q) ∧
    registry_names (suscan_config_deserialize w self buffer).2.1 = registry_names w ∧
    (∀ n : Option cstr,
      suscan_config_desc_lookup (suscan_config_deserialize w self buffer).2.1 n
        = suscan_config_desc_lookup w n) ∧
    (suscan_config_deserialize w self buffer).2.2.1 = { desc := none, values := none } := by
  obtain ⟨cm, desc, ok, w1, self1, buffer1, he, hs, hp⟩ := deserialize_is_finally w self buffer hw
  rw [he] at h ⊢
  obtain ⟨h1, h2⟩ := finally_failed cm desc ok w1 self1 buffer1 hp h
  have h3 := same_registry_trans w w1 _ hs h1
  exact ⟨h3.1, h3.2, same_registry_names w _ h3, same_registry_lookup w _ h3, h2⟩

/-- Witness of C37: decodes of the unregistered name `"custom.v1"` that fail on an
empty name, on a value of unsupported type (a double), on a duplicate key,
on a truncated map and on a map of indefinite length; each leaves the
registry of `rx_world` as it was. -/
theorem failed_decode_keeps_registry_witness :
    registry_names (suscan_config_deserialize rx_world { desc := none, values := none }
      [cbor_item.text [], cbor_item.map_start 0]).2.1 = registry_names rx_world ∧
    registry_names (suscan_config_deserialize rx_world { desc := none, values := none }
      [cbor_item.text custom_v1, cbor_item.map_start 1, cbor_item.text [0x6e],
       cbor_item.double 0]).2.1 = registry_names rx_world ∧
    registry_names (suscan_config_deserialize rx_world { desc := none, values := none }
      [cbor_item.text custom_v1, cbor_item.map_start 2, cbor_item.text [0x6e],
       cbor_item.uint 1, cbor_item.text [0x6e], cbor_item.uint 2]).2.1
      = registry_names rx_world ∧
    registry_names (suscan_config_deserialize rx_world { desc := none, values := none }
      [cbor_item.text custom_v1, cbor_item.map_start 2, cbor_item.text [0x6e],
       cbor_item.uint 1]).2.1 = registry_names rx_world ∧
    registry_names (suscan_config_deserialize rx_world { desc := none, values := none }
      [cbor_item.text custom_v1, cbor_item.map_start_indef, cbor_item.text [0x6e],
       cbor_item.uint 1, cbor_item.brk]).2.1 = registry_names rx_world ∧
    suscan_config_desc_lookup (suscan_config_deserialize rx_world
      { desc := none, values := none }
      [cbor_item.text custom_v1, cbor_item.map_start 2, cbor_item.text [0x6e],
       cbor_item.uint 1, cbor_item.text [0x6e], cbor_item.uint 2]).2.1 (some custom_v1)
      = none :=
  ⟨(failed_decode_keeps_registry rx_world _ _ rx_world_wf (by decide)).2.2.1,
   (failed_decode_keeps_registry rx_world _ _ rx_world_wf (by decide)).2.2.1,
   (failed_decode_keeps_registry rx_world _ _ rx_world_wf (by decide)).2.2.1,
   (failed_decode_keeps_registry rx_world _ _ rx_world_wf (by decide)).2.2.1,
   (failed_decode_keeps_registry rx_world _ _ rx_world_wf (by decide)).2.2.1,
   ((failed_decode_keeps_registry rx_world _ _ rx_world_wf (by decide)).2.2.2.1
      (some custom_v1)).trans (by decide)⟩

/-! ## Constructors -/

theorem channel_msg_new_loop_eq (valid : sigutils_channel → Bool)
    (add : Int → Int → Int) (fc : Int) :
    ∀ l : List (Option sigutils_channel),
      channel_msg_new_loop valid add fc l
        = ((l.filterMap id).filter valid).map fun c =>
            { c with fc := add c.fc fc, f_hi := add c.f_hi fc, f_lo := add c.f_lo fc,
                     ft := fc } := by
  intro l
  induction l with
  | nil => rfl
  | cons x xs ih =>
    cases x with
    | none => simpa [channel_msg_new_loop] using ih
    | some c =>
      by_cases hv : valid c = true
      · simp [channel_msg_new_loop, hv, ih]
      · simp [channel_msg_new_loop, hv, ih]

/-- C34: `suscan_analyzer_channel_msg_new` returns a message whose `channel_count`
is the number of input channels that are not null and pass the validity test
and whose list holds, in input order, one copy of each of them in which
`fc`, `f_lo` and `f_hi` are the machine sum of the input value and the source
frequency, `ft` is the source frequency and every other member (`bw`, `snr`,
`S0`, `N0`, `age`, `present`) is as in the input; the sender is the analyzer
and the source is null. The sum is the one the machine computes on `SUFREQ`
values, whatever its rounding and range: the statement holds for every such
sum. The input list is an argument the function only reads. -/
theorem channel_msg_new_copies_valid (valid : sigutils_channel → Bool)
    (add : Int → Int → Int) (analyzer : sender_state)
    (list : Option (List (Option sigutils_channel))) (len : Nat) :
    ∃ msg, suscan_analyzer_channel_msg_new valid add analyzer list len = some msg ∧
      msg.sender = some analyzer.analyzer ∧ msg.source = none ∧
      msg.channel_count = (((array_view list len).filterMap id).filter valid).length ∧
      (array_view msg.channel_list msg.channel_count).length = msg.channel_count ∧
      ∀ (i : Nat) (c : sigutils_channel),
        (((array_view list len).filterMap id).filter valid)[i]? = some c →
        (array_view msg.channel_list msg.channel_count)[i]?
          = some (some { c with fc := add c.fc analyzer.frequency,
                                f_lo := add c.f_lo analyzer.frequency,
                                f_hi := add c.f_hi analyzer.frequency,
                                ft := analyzer.frequency }) := by
  refine ⟨_, rfl, rfl, rfl, ?_⟩
  have hl := channel_msg_new_loop_eq valid add analyzer.frequency (array_view list len)
  have hlen : (channel_msg_new_loop valid add analyzer.frequency (array_view list len)).length
      = (((array_view list len).filterMap id).filter valid).length := by
    rw [hl, List.length_map]
  have hview : array_view
      (if len > 0 then
        some ((channel_msg_new_loop valid add analyzer.frequency
            (array_view list len)).map some ++
          List.replicate
            (len - (channel_msg_new_loop valid add analyzer.frequency
              (array_view list len)).length) none)
       else none)
      (channel_msg_new_loop valid add analyzer.frequency (array_view list len)).length
      = (channel_msg_new_loop valid add analyzer.frequency (array_view list len)).map some := by
    by_cases h0 : len > 0
    · rw [if_pos h0]
      simp [array_view, List.take_append_eq_append_take]
    · have hz : len = 0 := by omega
      subst hz
      simp [array_view, channel_msg_new_loop]
  dsimp only
  rw [hview]
  refine ⟨hlen, by simp, ?_⟩
  intro i c hc
  rw [hl]
  simp only [List.map_map, List.getElem?_map, hc, Option.map_some', Function.comp]

/-- Witness of C34: three input channels, one null and one that fails the validity
test (here: a positive age), with sums that are exact; the message holds the
one copy, moved by the source frequency 100000000. -/
theorem channel_msg_new_copies_valid_witness :
    suscan_analyzer_channel_msg_new (fun c => decide (0 < c.age)) exact_sum failing_sender
        channels_example 3
      = some { source := none, sender := some 1, channel_count := 1,
               channel_list := some [some ⟨99998000, 99997900, 99998100, 5, 6, 7, 8,
                                           100000000, 2, 3⟩, none, none] } ∧
    ∃ msg, suscan_analyzer_channel_msg_new (fun c => decide (0 < c.age)) exact_sum
        failing_sender channels_example 3 = some msg ∧
      msg.sender = some failing_sender.analyzer ∧ msg.source = none ∧
      msg.channel_count = (((array_view channels_example 3).filterMap id).filter
          (fun c => decide (0 < c.age))).length :=
  ⟨by decide, by
    obtain ⟨msg, h1, h2, h3, h4, _⟩ :=
      channel_msg_new_copies_valid (fun c => decide (0 < c.age)) exact_sum failing_sender
        channels_example 3
    exact ⟨msg, h1, h2, h3, h4⟩⟩

/-- C32: for a detector whose `fft` buffer holds at least `window_size` bins,
`suscan_analyzer_psd_msg_new` yields a message whose `psd_size` is the window
size of the detector and whose `psd_data` holds `psd_size` values: for every
bin `i` below `psd_size`, the real part of `fft[i]` when the detector is in
autocorrelation mode, and in every other mode the real part of the product
of `fft[i]` by its conjugate, divided by the window size. The arithmetic of
the machine is a parameter. -/
theorem psd_msg_new_from_detector (fa : sufloat_arith) (now : timeval)
    (cd : su_channel_detector_t) (h : cd.window_size ≤ cd.fft.length) :
    ∃ msg data, suscan_analyzer_psd_msg_new fa now (some cd) = some msg ∧
      msg.psd_size = cd.window_size ∧ msg.psd_data = some data ∧
      data.length = msg.psd_size ∧ msg.rt_time = now ∧
      ∀ (i : Nat) (z : SUCOMPLEX), i < msg.psd_size → cd.fft[i]? = some z →
        (cd.mode = SU_CHANNEL_DETECTOR_MODE_AUTOCORRELATION →
          data[i]? = some (SU_C_REAL z)) ∧
        (cd.mode ≠ SU_CHANNEL_DETECTOR_MODE_AUTOCORRELATION →
          data[i]? = some (fa.div (SU_C_REAL (fa.cmul z (SU_C_CONJ z)))
            (fa.of_count cd.window_size))) := by
  rcases hnew : suscan_analyzer_psd_msg_new fa now (some cd) with _ | msg
  · simp [suscan_analyzer_psd_msg_new] at hnew
  cases hm : cd.mode with
  | SU_CHANNEL_DETECTOR_MODE_AUTOCORRELATION =>
    simp only [suscan_analyzer_psd_msg_new, hm, Option.some.injEq] at hnew
    subst hnew
    refine ⟨_, (cd.fft.take cd.window_size).map SU_C_REAL, rfl, rfl, rfl, ?_, rfl, ?_⟩
    · simp [List.length_take, h]
    · intro i z hi hz
      have hi' : i < cd.window_size := hi
      refine ⟨fun _ => ?_, fun hc => absurd rfl hc⟩
      simp only [List.getElem?_map, List.getElem?_take, hi', if_true, hz, Option.map_some']
  | other t =>
    simp only [suscan_analyzer_psd_msg_new, hm, Option.some.injEq] at hnew
    subst hnew
    refine ⟨_, (cd.fft.take cd.window_size).map fun z =>
      fa.div (SU_C_REAL (fa.cmul z (SU_C_CONJ z))) (fa.of_count cd.window_size), rfl, rfl, rfl,
      ?_, rfl, ?_⟩
    · simp [List.length_take, h]
    · intro i z hi hz
      have hi' : i < cd.window_size := hi
      refine ⟨fun hc => (by cases hc), fun _ => ?_⟩
      simp only [List.getElem?_map, List.getElem?_take, hi', if_true, hz, Option.map_some']

/-- Witness of C32: a detector in autocorrelation mode with two bins; the message
holds their real parts. -/
theorem psd_msg_new_from_detector_witness :
    suscan_analyzer_psd_msg_new sample_arith ⟨1700000000, 0⟩ (some detector_example)
      = some { suscan_analyzer_psd_msg_new_NULL ⟨1700000000, 0⟩ with
               psd_size := 2, samp_rate := 1000000,
               psd_data := some [0x3f800000, 0x40000000] } ∧
    ∃ msg data, suscan_analyzer_psd_msg_new sample_arith ⟨1700000000, 0⟩
        (some detector_example) = some msg ∧
      msg.psd_size = detector_example.window_size ∧ msg.psd_data = some data ∧
      data.length = msg.psd_size :=
  ⟨by decide, by
    obtain ⟨msg, data, h1, h2, h3, h4, _⟩ :=
      psd_msg_new_from_detector sample_arith ⟨1700000000, 0⟩ detector_example (by decide)
    exact ⟨msg, data, h1, h2, h3, h4⟩⟩

/-! ## Hand-over and disposal -/

theorem mq_write_succeeds (s : sender_state) (rest : List (Option Nat)) (type : Nat)
    (msg : message) (h : next_write_succeeds s rest) :
    suscan_mq_write s type msg = (true, write_done s rest type msg) := by
  rcases h with h | ⟨h, hr⟩
  · simp only [suscan_mq_write, h, write_done]
  · subst hr
    simp only [suscan_mq_write, h, write_done]

theorem dispose_status (w : config_state) (type : Nat) (m : suscan_analyzer_status_msg)
    (ht : is_status_type type) :
    suscan_analyzer_dispose_message w type (message.status m)
      = suscan_analyzer_status_msg_destroy m := by
  rcases ht with h | h | h | h <;> subst h <;> simp [suscan_analyzer_dispose_message]

theorem follow_up_queue (w : config_state) (s : sender_state) (e : Nat)
    (rest : List (Option Nat)) :
    ∀ x ∈ (suscan_analyzer_send_status w (write_failed s e rest)
        SUSCAN_ANALYZER_MESSAGE_TYPE_INTERNAL (-1)
        (some (cannot_write ++ s.strerror e))).2.1.mq_out.queue,
      x ∈ s.mq_out.queue ∨
      x = (SUSCAN_ANALYZER_MESSAGE_TYPE_INTERNAL, cannot_write_status s e) := by
  intro x hx
  obtain ⟨ok, freed, hst⟩ := follow_up_state w s e rest
  have he : suscan_analyzer_send_status w (write_failed s e rest)
      SUSCAN_ANALYZER_MESSAGE_TYPE_INTERNAL (-1) (some (cannot_write ++ s.strerror e))
      = (ok, (suscan_mq_write (write_failed s e rest) SUSCAN_ANALYZER_MESSAGE_TYPE_INTERNAL
                (cannot_write_status s e)).2, freed) := hst
  rw [he] at hx
  simp only [suscan_mq_write, write_failed] at hx
  split at hx
  · left; exact hx
  · simp only [List.mem_append, List.mem_singleton] at hx; exact hx
  · simp only [List.mem_append, List.mem_singleton] at hx; exact hx

/-- C31 (a message is handed over or disposed, never both, never neither): for the
five senders, with a status type tag for `suscan_analyzer_send_status`.
When the write succeeds each sender returns true, the envelope with the
message it built is at the end of the outbound queue and no block of the
message is freed (the one block `suscan_analyzer_send_status` frees is the
formatted text, of which the message holds its own copy). When the write
fails each sender returns false, the blocks it frees end with those of the
destructor of the message it built, once, and the message is not queued: the
queue holds what it held, plus at most the follow-up status of the three
senders that post one. -/
theorem sender_hands_over_or_disposes (w : config_state) (s : sender_state) (type : Nat)
    (code : Int) (err_msg : Option cstr) (cm : suscan_analyzer_channel_msg)
    (info : suscan_source_info) (pm : suscan_analyzer_psd_msg) (N0 : Nat) (looped : Bool)
    (history_size : Nat) (ht : is_status_type type) :
    (∀ rest, next_write_succeeds s rest →
      suscan_analyzer_send_status w s type code err_msg
        = (true, write_done s rest type (message.status (status_sent s code err_msg)),
            free_chars err_msg) ∧
      suscan_analyzer_send_detector_channels w s (some cm)
        = (true, write_done s rest SUSCAN_ANALYZER_MESSAGE_TYPE_CHANNEL (message.channel cm),
            []) ∧
      suscan_analyzer_send_source_info w s (some info)
        = (true, write_done s rest SUSCAN_ANALYZER_MESSAGE_TYPE_SOURCE_INFO
            (message.source_info info), []) ∧
      suscan_analyzer_send_psd w s (some pm) N0
        = (true, write_done s rest SUSCAN_ANALYZER_MESSAGE_TYPE_PSD
            (message.psd (psd_sent s pm N0)), []) ∧
      suscan_analyzer_send_psd_from_smoothpsd w s (some pm) looped history_size
        = (true, write_done s rest SUSCAN_ANALYZER_MESSAGE_TYPE_PSD
            (message.psd (smoothpsd_sent s pm looped history_size)), [])) ∧
    (∀ e rest, s.mq_out.outcomes = some e :: rest →
      suscan_analyzer_send_status w s type code err_msg
        = (false, write_failed s e rest,
            suscan_analyzer_status_msg_destroy (status_sent s code err_msg)
              ++ free_chars err_msg) ∧
      suscan_analyzer_send_source_info w s (some info)
        = (false, write_failed s e rest,
            [heap_block.source_info_members info, heap_block.message_object]) ∧
      (∃ ok s1 freed,
        suscan_analyzer_send_status w (write_failed s e rest)
            SUSCAN_ANALYZER_MESSAGE_TYPE_INTERNAL (-1) (some (cannot_write ++ s.strerror e))
          = (ok, s1, freed) ∧
        (∀ x ∈ s1.mq_out.queue, x ∈ s.mq_out.queue ∨
          x = (SUSCAN_ANALYZER_MESSAGE_TYPE_INTERNAL, cannot_write_status s e)) ∧
        suscan_analyzer_send_detector_channels w s (some cm)
          = (false, s1, freed ++ suscan_analyzer_channel_msg_destroy cm) ∧
        suscan_analyzer_send_psd w s (some pm) N0
          = (false, s1, freed ++ suscan_analyzer_psd_msg_destroy (psd_sent s pm N0)) ∧
        suscan_analyzer_send_psd_from_smoothpsd w s (some pm) looped history_size
          = (false, s1, freed ++ suscan_analyzer_psd_msg_destroy
              (smoothpsd_sent s pm looped history_size)))) := by
  constructor
  · intro rest hr
    have hw := fun t m => mq_write_succeeds s rest t m hr
    refine ⟨?_, ?_, ?_, ?_, ?_⟩
    · simp only [suscan_analyzer_send_status, suscan_analyzer_status_msg_new, hw, status_sent]
    · simp only [suscan_analyzer_send_detector_channels, hw]
    · simp only [suscan_analyzer_send_source_info, hw]
    · simp only [suscan_analyzer_send_psd, hw, psd_sent]
    · simp only [suscan_analyzer_send_psd_from_smoothpsd, hw, smoothpsd_sent]
  · intro e rest he
    have hw := fun t m => mq_write_fails s e rest t m he
    refine ⟨?_, ?_, ?_⟩
    · simp only [suscan_analyzer_send_status, suscan_analyzer_status_msg_new, hw, status_sent,
        dispose_status w type _ ht]
    · simp only [suscan_analyzer_send_source_info, hw, suscan_analyzer_dispose_message,
        SUSCAN_ANALYZER_MESSAGE_TYPE_SOURCE_INFO, if_true]
    · have hq := follow_up_queue w s e rest
      rcases hst : suscan_analyzer_send_status w (write_failed s e rest)
        SUSCAN_ANALYZER_MESSAGE_TYPE_INTERNAL (-1) (some (cannot_write ++ s.strerror e))
        with ⟨ok, s1, freed⟩
      rw [hst] at hq
      have hst' : suscan_analyzer_send_status w (write_failed s e rest)
          SUSCAN_ANALYZER_MESSAGE_TYPE_INTERNAL (-1)
          (some (cannot_write ++ (write_failed s e rest).strerror (write_failed s e rest).errno))
          = (ok, s1, freed) := hst
      refine ⟨ok, s1, freed, rfl, hq, ?_, ?_, ?_⟩
      · simp only [suscan_analyzer_send_detector_channels, hw, hst']
        simp [suscan_analyzer_dispose_message]
      · simp only [suscan_analyzer_send_psd, hw, hst', psd_sent]
        simp [suscan_analyzer_dispose_message]
      · simp only [suscan_analyzer_send_psd_from_smoothpsd, hw, hst', smoothpsd_sent]
        simp [suscan_analyzer_dispose_message]

/-- Witness of C31: an Eos status sent through a queue that takes it, and through a
queue whose next write fails. -/
theorem sender_hands_over_or_disposes_witness :
    suscan_analyzer_send_status file_world idle_sender SUSCAN_ANALYZER_MESSAGE_TYPE_EOS 0
        (some [69, 79, 83])
      = (true, write_done idle_sender [] SUSCAN_ANALYZER_MESSAGE_TYPE_EOS
          (message.status { code := 0, err_msg := some [69, 79, 83], sender := some 1 }),
          [heap_block.chars [69, 79, 83]]) ∧
    suscan_analyzer_send_status file_world failing_sender SUSCAN_ANALYZER_MESSAGE_TYPE_EOS 0
        (some [69, 79, 83])
      = (false, write_failed failing_sender 12 [],
          [heap_block.chars [69, 79, 83], heap_block.message_object,
           heap_block.chars [69, 79, 83]]) :=
  ⟨((sender_hands_over_or_disposes file_world idle_sender SUSCAN_ANALYZER_MESSAGE_TYPE_EOS 0
      (some [69, 79, 83]) ⟨none, none, 0, none⟩ info_example psd_example 0 false 0
      (by decide)).1 [] (Or.inr ⟨rfl, rfl⟩)).1,
   ((sender_hands_over_or_disposes file_world failing_sender SUSCAN_ANALYZER_MESSAGE_TYPE_EOS 0
      (some [69, 79, 83]) ⟨none, none, 0, none⟩ info_example psd_example 0 false 0
      (by decide)).2 12 [] rfl).1⟩

/-! ## Microseconds of decoded time values -/

theorem unpack_uint32_lt (buffer : grow_buf_t) (v : Nat) (rest : grow_buf_t)
    (h : cbor_unpack_uint32 buffer = some (v, rest)) : v < 4294967296 := by
  unfold cbor_unpack_uint32 at h
  split at h
  · split_ifs at h with hv
    simp only [Option.some.injEq, Prod.mk.injEq] at h
    omega
  · cases h

theorem estimator_keeps (buffer : grow_buf_t) (self : suscan_analyzer_inspector_msg) :
    (suscan_analyzer_inspector_msg_deserialize_estimator buffer self).2.1.rt_time
      = self.rt_time ∧
    (suscan_analyzer_inspector_msg_deserialize_estimator buffer self).2.1.kind = self.kind := by
  unfold suscan_analyzer_inspector_msg_deserialize_estimator
  dsimp only [SUSCAN_UNPACK]
  repeat' split
  all_goals exact ⟨rfl, rfl⟩

theorem spectrum_keeps (buffer : grow_buf_t) (self : suscan_analyzer_inspector_msg) :
    (suscan_analyzer_inspector_msg_deserialize_spectrum buffer self).2.1.rt_time
      = self.rt_time ∧
    (suscan_analyzer_inspector_msg_deserialize_spectrum buffer self).2.1.kind = self.kind := by
  unfold suscan_analyzer_inspector_msg_deserialize_spectrum
  dsimp only [SUSCAN_UNPACK]
  repeat' split
  all_goals exact ⟨rfl, rfl⟩

theorem set_freq_keeps (buffer : grow_buf_t) (self : suscan_analyzer_inspector_msg) :
    (suscan_analyzer_inspector_msg_deserialize_set_freq buffer self).2.1.rt_time
      = self.rt_time ∧
    (suscan_analyzer_inspector_msg_deserialize_set_freq buffer self).2.1.kind = self.kind := by
  unfold suscan_analyzer_inspector_msg_deserialize_set_freq
  dsimp only [SUSCAN_UNPACK]
  repeat' split
  all_goals exact ⟨rfl, rfl⟩

theorem set_bandwidth_keeps (buffer : grow_buf_t) (self : suscan_analyzer_inspector_msg) :
    (suscan_analyzer_inspector_msg_deserialize_set_bandwidth buffer self).2.1.rt_time
      = self.rt_time ∧
    (suscan_analyzer_inspector_msg_deserialize_set_bandwidth buffer self).2.1.kind
      = self.kind := by
  unfold suscan_analyzer_inspector_msg_deserialize_set_bandwidth
  dsimp only [SUSCAN_UNPACK]
  repeat' split
  all_goals exact ⟨rfl, rfl⟩

theorem set_watermark_keeps (buffer : grow_buf_t) (self : suscan_analyzer_inspector_msg) :
    (suscan_analyzer_inspector_msg_deserialize_set_watermark buffer self).2.1.rt_time
      = self.rt_time ∧
    (suscan_analyzer_inspector_msg_deserialize_set_watermark buffer self).2.1.kind
      = self.kind := by
  unfold suscan_analyzer_inspector_msg_deserialize_set_watermark
  dsimp only [SUSCAN_UNPACK]
  repeat' split
  all_goals exact ⟨rfl, rfl⟩

theorem set_tle_keeps (buffer : grow_buf_t) (self : suscan_analyzer_inspector_msg) :
    (suscan_analyzer_inspector_msg_deserialize_set_tle buffer self).2.1.rt_time
      = self.rt_time ∧
    (suscan_analyzer_inspector_msg_deserialize_set_tle buffer self).2.1.kind = self.kind := by
  unfold suscan_analyzer_inspector_msg_deserialize_set_tle
  dsimp only [SUSCAN_UNPACK]
  repeat' split
  all_goals exact ⟨rfl, rfl⟩

theorem signal_keeps (buffer : grow_buf_t) (self : suscan_analyzer_inspector_msg) :
    (suscan_analyzer_inspector_msg_deserialize_signal buffer self).2.1.rt_time
      = self.rt_time ∧
    (suscan_analyzer_inspector_msg_deserialize_signal buffer self).2.1.kind = self.kind := by
  unfold suscan_analyzer_inspector_msg_deserialize_signal
  dsimp only [SUSCAN_UNPACK]
  repeat' split
  all_goals exact ⟨rfl, rfl⟩

theorem orbit_report_keeps (buffer : grow_buf_t) (self : suscan_analyzer_inspector_msg) :
    (suscan_analyzer_inspector_msg_deserialize_orbit_report buffer self).2.1.rt_time
      = self.rt_time ∧
    (suscan_analyzer_inspector_msg_deserialize_orbit_report buffer self).2.1.kind
      = self.kind := by
  unfold suscan_analyzer_inspector_msg_deserialize_orbit_report
  dsimp only [SUSCAN_UNPACK]
  repeat' split
  all_goals exact ⟨rfl, rfl⟩

theorem config_keeps (w : config_state) (buffer : grow_buf_t)
    (self : suscan_analyzer_inspector_msg) :
    (suscan_analyzer_inspector_msg_deserialize_config w buffer self).2.2.1.rt_time
      = self.rt_time ∧
    (suscan_analyzer_inspector_msg_deserialize_config w buffer self).2.2.1.kind
      = self.kind := by
  unfold suscan_analyzer_inspector_msg_deserialize_config
  dsimp only [SUSCAN_UNPACK]
  repeat' split
  all_goals exact ⟨rfl, rfl⟩

theorem open_keeps (w : config_state) (buffer : grow_buf_t)
    (self : suscan_analyzer_inspector_msg) :
    (suscan_analyzer_inspector_msg_deserialize_open w buffer self).2.2.1.rt_time
      = self.rt_time ∧
    (suscan_analyzer_inspector_msg_deserialize_open w buffer self).2.2.1.kind
      = self.kind := by
  unfold suscan_analyzer_inspector_msg_deserialize_open
  dsimp only [SUSCAN_UNPACK]
  repeat' split
  all_goals exact ⟨rfl, rfl⟩

theorem uint32_cast_lt (v : Nat) (buffer rest : grow_buf_t)
    (h : cbor_unpack_uint32 buffer = some (v, rest)) :
    0 ≤ (v : Int) ∧ (v : Int) < 4294967296 := by
  have := unpack_uint32_lt buffer v rest h
  omega

theorem seek_usec (self : suscan_analyzer_seek_msg) (buffer : grow_buf_t) :
    ok_implies (fun m => m.position.usec_uint32)
      (suscan_analyzer_seek_msg_deserialize self buffer) := by
  unfold suscan_analyzer_seek_msg_deserialize
  dsimp only [SUSCAN_UNPACK]
  repeat' split
  all_goals (unfold ok_implies timeval.usec_uint32; intro h)
  all_goals first | (cases h; done) | skip
  all_goals dsimp only
  all_goals exact uint32_cast_lt _ _ _ (by assumption)

theorem psd_partial_usec (self : suscan_analyzer_psd_msg) (buffer : grow_buf_t) :
    ok_implies (fun m => m.timestamp.usec_uint32 ∧ m.rt_time.usec_uint32)
      ( suscan_analyzer_psd_msg_deserialize_partial self buffer) := by
  unfold suscan_analyzer_psd_msg_deserialize_partial
  dsimp only [SUSCAN_UNPACK]
  repeat' split
  all_goals (unfold ok_implies timeval.usec_uint32; intro h)
  all_goals first | (cases h; done) | skip
  all_goals dsimp only
  all_goals exact ⟨uint32_cast_lt _ _ _ (by assumption), uint32_cast_lt _ _ _ (by assumption)⟩

theorem psd_usec (self : suscan_analyzer_psd_msg) (buffer : grow_buf_t) :
    ok_implies (fun m => m.timestamp.usec_uint32 ∧ m.rt_time.usec_uint32)
      (suscan_analyzer_psd_msg_deserialize self buffer) := by
  have hp := psd_partial_usec self buffer
  unfold suscan_analyzer_psd_msg_deserialize
  dsimp only [SUSCAN_UNPACK]
  rcases hr : suscan_analyzer_psd_msg_deserialize_partial self buffer with ⟨ok, m, b⟩
  rw [hr] at hp
  cases ok
  · intro h; cases h
  · dsimp only
    have hm := hp rfl
    split
    · intro h; cases h
    · intro _; exact hm

theorem orbit_report_usec (buffer : grow_buf_t) (self : suscan_analyzer_inspector_msg) :
    ok_implies (fun m => m.orbit_report.rx_time.usec_uint32)
      (suscan_analyzer_inspector_msg_deserialize_orbit_report buffer self) := by
  unfold suscan_analyzer_inspector_msg_deserialize_orbit_report
  dsimp only [SUSCAN_UNPACK]
  repeat' split
  all_goals (unfold ok_implies timeval.usec_uint32; intro h)
  all_goals first | (cases h; done) | skip
  all_goals dsimp only
  all_goals exact uint32_cast_lt _ _ _ (by assumption)

theorem switch_keeps (w : config_state) (self : suscan_analyzer_inspector_msg)
    (buffer : grow_buf_t)
    (r : Bool × config_state × suscan_analyzer_inspector_msg × grow_buf_t)
    (hr : suscan_analyzer_inspector_msg_deserialize_switch w self buffer = r) :
    tail_keeps self r := by
  subst hr
  unfold suscan_analyzer_inspector_msg_deserialize_switch
  by_cases h1 : self.kind = SUSCAN_ANALYZER_INSPECTOR_MSGKIND_OPEN
  · rw [if_pos h1]
    exact ⟨(open_keeps w buffer self).1, (open_keeps w buffer self).2,
      fun _ hk => absurd (h1.symm.trans hk) (by decide)⟩
  rw [if_neg h1]
  by_cases h2 : self.kind = SUSCAN_ANALYZER_INSPECTOR_MSGKIND_SET_CONFIG
  · rw [if_pos h2]
    exact ⟨(config_keeps w buffer self).1, (config_keeps w buffer self).2,
      fun _ hk => absurd (h2.symm.trans hk) (by decide)⟩
  rw [if_neg h2]
  by_cases h3 : self.kind = SUSCAN_ANALYZER_INSPECTOR_MSGKIND_ESTIMATOR
  · rw [if_pos h3]
    exact ⟨(estimator_keeps buffer self).1, (estimator_keeps buffer self).2,
      fun _ hk => absurd (h3.symm.trans hk) (by decide)⟩
  rw [if_neg h3]
  by_cases h4 : self.kind = SUSCAN_ANALYZER_INSPECTOR_MSGKIND_SPECTRUM
  · rw [if_pos h4]
    exact ⟨(spectrum_keeps buffer self).1, (spectrum_keeps buffer self).2,
      fun _ hk => absurd (h4.symm.trans hk) (by decide)⟩
  rw [if_neg h4]
  by_cases h5 : self.kind = SUSCAN_ANALYZER_INSPECTOR_MSGKIND_SET_FREQ
  · rw [if_pos h5]
    exact ⟨(set_freq_keeps buffer self).1, (set_freq_keeps buffer self).2,
      fun _ hk => absurd (h5.symm.trans hk) (by decide)⟩
  rw [if_neg h5]
  by_cases h6 : self.kind = SUSCAN_ANALYZER_INSPECTOR_MSGKIND_SET_BANDWIDTH
  · rw [if_pos h6]
    exact ⟨(set_bandwidth_keeps buffer self).1, (set_bandwidth_keeps buffer self).2,
      fun _ hk => absurd (h6.symm.trans hk) (by decide)⟩
  rw [if_neg h6]
  by_cases h7 : self.kind = SUSCAN_ANALYZER_INSPECTOR_MSGKIND_SET_WATERMARK
  · rw [if_pos h7]
    exact ⟨(set_watermark_keeps buffer self).1, (set_watermark_keeps buffer self).2,
      fun _ hk => absurd (h7.symm.trans hk) (by decide)⟩
  rw [if_neg h7]
  by_cases h8 : self.kind = SUSCAN_ANALYZER_INSPECTOR_MSGKIND_SET_TLE
  · rw [if_pos h8]
    exact ⟨(set_tle_keeps buffer self).1, (set_tle_keeps buffer self).2,
      fun _ hk => absurd (h8.symm.trans hk) (by decide)⟩
  rw [if_neg h8]
  by_cases h9 : self.kind = SUSCAN_ANALYZER_INSPECTOR_MSGKIND_ORBIT_REPORT
  · rw [if_pos h9]
    exact ⟨(orbit_report_keeps buffer self).1, (orbit_report_keeps buffer self).2,
      fun hok _ => orbit_report_usec buffer self hok⟩
  rw [if_neg h9]
  by_cases h10 : self.kind = SUSCAN_ANALYZER_INSPECTOR_MSGKIND_SIGNAL
  · rw [if_pos h10]
    exact ⟨(signal_keeps buffer self).1, (signal_keeps buffer self).2,
      fun _ hk => absurd hk h9⟩
  rw [if_neg h10]
  split_ifs
  · exact ⟨rfl, rfl, fun _ hk => absurd hk h9⟩
  · exact ⟨rfl, rfl, fun _ hk => absurd hk h9⟩

theorem inspector_usec (w : config_state) (self : suscan_analyzer_inspector_msg)
    (buffer : grow_buf_t)
    (h : (suscan_analyzer_inspector_msg_deserialize w self buffer).1 = true) :
    (suscan_analyzer_inspector_msg_deserialize w self buffer).2.2.1.rt_time.usec_uint32 ∧
    ((suscan_analyzer_inspector_msg_deserialize w self buffer).2.2.1.kind
        = SUSCAN_ANALYZER_INSPECTOR_MSGKIND_ORBIT_REPORT →
      (suscan_analyzer_inspector_msg_deserialize w self
        buffer).2.2.1.orbit_report.rx_time.usec_uint32) := by
  revert h
  unfold suscan_analyzer_inspector_msg_deserialize
  dsimp only [SUSCAN_UNPACK]
  repeat' split
  all_goals intro h
  all_goals first | (cases h; done) | skip
  all_goals dsimp only
  all_goals rename_i hsw
  all_goals have hk := switch_keeps _ _ _ _ hsw
  all_goals refine ⟨?_, fun hkind => hk.2.2 rfl (hk.2.1.symm.trans hkind)⟩
  all_goals rw [show _ = _ from hk.1]
  all_goals exact uint32_cast_lt _ _ _ (by assumption)

theorem variant_usec {α : Type} (w : config_state) (mk : α → message)
    (x : Bool × α × grow_buf_t) (ok : Bool) (w1 : config_state) (msgptr : Option message)
    (b1 : grow_buf_t) (h : variant_result w mk x = (ok, w1, msgptr, b1))
    (hP : x.1 = true → (mk x.2.1).usec_uint32) :
    ok = true → ∀ m, msgptr = some m → m.usec_uint32 := by
  simp only [variant_result, Prod.mk.injEq] at h
  obtain ⟨h1, _, h3, _⟩ := h
  intro hok m hm
  rw [← h3] at hm
  cases hm
  exact hP (h1.trans hok)

theorem msg_deserialize_usec (ext : external_deserializers) (now : timeval)
    (w : config_state) (type : Nat) (ptr : Option message) (buffer : grow_buf_t) :
    (suscan_analyzer_msg_deserialize ext now w type ptr buffer).ok = true →
    ∀ m, (suscan_analyzer_msg_deserialize ext now w type ptr buffer).ptr = some m →
      m.usec_uint32 := by
  simp only [suscan_analyzer_msg_deserialize]
  split
  · rename_i t b hp
    simp [hp]
  · rename_i t b hp
    generalize hr : (if t = SUSCAN_ANALYZER_MESSAGE_TYPE_SOURCE_INFO then _ else _) = x
    obtain ⟨ok, w1, msgptr, b1⟩ := x
    have key : ok = true → ∀ m, msgptr = some m → m.usec_uint32 := by
      refine ite_spec _ _ _ _ _ hr (fun _ hr =>
        variant_usec _ _ _ _ _ _ _ hr (fun _ => trivial)) (fun _ hr => ?_)
      refine ite_spec _ _ _ _ _ hr (fun _ hr =>
        variant_usec _ _ _ _ _ _ _ hr (fun _ => trivial)) (fun _ hr => ?_)
      refine ite_spec _ _ _ _ _ hr (fun _ hr => ?_) (fun _ hr => ?_)
      · simp only [Prod.mk.injEq] at hr
        intro hok; rw [← hr.1] at hok; cases hok
      refine ite_spec _ _ _ _ _ hr (fun _ hr => ?_) (fun _ hr => ?_)
      · have hi := inspector_usec w (suscan_analyzer_inspector_msg_new now 0 0) b
        generalize suscan_analyzer_inspector_msg_deserialize w
          (suscan_analyzer_inspector_msg_new now 0 0) b = y at hr hi
        obtain ⟨y1, y2, y3, y4⟩ := y
        simp only [Prod.mk.injEq] at hr
        intro hok m hm
        rw [← hr.2.2.1] at hm
        cases hm
        exact hi (hr.1.trans hok)
      refine ite_spec _ _ _ _ _ hr (fun _ hr =>
        variant_usec _ _ _ _ _ _ _ hr (psd_usec _ _)) (fun _ hr => ?_)
      refine ite_spec _ _ _ _ _ hr (fun _ hr =>
        variant_usec _ _ _ _ _ _ _ hr (fun _ => trivial)) (fun _ hr => ?_)
      refine ite_spec _ _ _ _ _ hr (fun _ hr =>
        variant_usec _ _ _ _ _ _ _ hr (fun _ => trivial)) (fun _ hr => ?_)
      refine ite_spec _ _ _ _ _ hr (fun _ hr =>
        variant_usec _ _ _ _ _ _ _ hr (fun _ => trivial)) (fun _ hr => ?_)
      refine ite_spec _ _ _ _ _ hr (fun _ hr =>
        variant_usec _ _ _ _ _ _ _ hr (seek_usec _ _)) (fun _ hr => ?_)
      refine ite_spec _ _ _ _ _ hr (fun _ hr => ?_) (fun _ hr => ?_)
      · simp only [Prod.mk.injEq] at hr
        intro _ m hm
        rw [← hr.2.2.1] at hm
        cases hm
        trivial
      refine ite_spec _ _ _ _ _ hr (fun _ hr =>
        variant_usec _ _ _ _ _ _ _ hr (fun _ => trivial)) (fun _ hr => ?_)
      refine ite_spec _ _ _ _ _ hr (fun _ hr =>
        variant_usec _ _ _ _ _ _ _ hr (fun _ => trivial)) (fun _ hr => ?_)
      simp only [Prod.mk.injEq] at hr
      intro hok; rw [← hr.1] at hok; cases hok
    cases ok with
    | true => intro _ m hm; exact key rfl m hm
    | false => intro h; cases h

/-- C33 (amended): every time value held by a successfully deserialized message has
its microseconds in the range `[0, 4294967296)` of the `uint32_t` they are
read as. This holds for the message the generic deserializer returns (PSD
`timestamp` and `rt_time`, inspector `rt_time`, `rx_time` of an orbit
report, seek `position`) and for each deserializer of a variant taken alone:
seek, PSD (partial and full) and inspector. -/
theorem decoded_usec_is_uint32 (ext : external_deserializers) (now : timeval)
    (w : config_state) (type : Nat) (ptr : Option message) (buffer : grow_buf_t)
    (seek : suscan_analyzer_seek_msg) (psd : suscan_analyzer_psd_msg)
    (insp : suscan_analyzer_inspector_msg) :
    ((suscan_analyzer_msg_deserialize ext now w type ptr buffer).ok = true →
      ∀ m, (suscan_analyzer_msg_deserialize ext now w type ptr buffer).ptr = some m →
        m.usec_uint32) ∧
    ((suscan_analyzer_seek_msg_deserialize seek buffer).1 = true →
      (suscan_analyzer_seek_msg_deserialize seek buffer).2.1.position.usec_uint32) ∧
    (( suscan_analyzer_psd_msg_deserialize_partial psd buffer).1 = true →
      ( suscan_analyzer_psd_msg_deserialize_partial psd buffer).2.1.timestamp.usec_uint32 ∧
      ( suscan_analyzer_psd_msg_deserialize_partial psd buffer).2.1.rt_time.usec_uint32) ∧
    ((suscan_analyzer_psd_msg_deserialize psd buffer).1 = true →
      (suscan_analyzer_psd_msg_deserialize psd buffer).2.1.timestamp.usec_uint32 ∧
      (suscan_analyzer_psd_msg_deserialize psd buffer).2.1.rt_time.usec_uint32) ∧
    ((suscan_analyzer_inspector_msg_deserialize w insp buffer).1 = true →
      (suscan_analyzer_inspector_msg_deserialize w insp buffer).2.2.1.rt_time.usec_uint32 ∧
      ((suscan_analyzer_inspector_msg_deserialize w insp buffer).2.2.1.kind
          = SUSCAN_ANALYZER_INSPECTOR_MSGKIND_ORBIT_REPORT →
        (suscan_analyzer_inspector_msg_deserialize w insp
          buffer).2.2.1.orbit_report.rx_time.usec_uint32)) :=
  ⟨msg_deserialize_usec ext now w type ptr buffer, seek_usec seek buffer,
   psd_partial_usec psd buffer, psd_usec psd buffer, inspector_usec w insp buffer⟩

/-- Witness of C33 (amended): a seek message whose microseconds are the largest
`uint32_t`, through the generic deserializer. -/
theorem decoded_usec_is_uint32_witness :
    (suscan_analyzer_msg_deserialize ext_none ⟨0, 0⟩ config_state.empty 0 none
      [cbor_item.uint 0xd, cbor_item.uint 5, cbor_item.uint 4294967295]).ok = true ∧
    (suscan_analyzer_msg_deserialize ext_none ⟨0, 0⟩ config_state.empty 0 none
      [cbor_item.uint 0xd, cbor_item.uint 5, cbor_item.uint 4294967295]).ptr
      = some (message.seek { position := ⟨5, 4294967295⟩ }) ∧
    (message.seek { position := ⟨5, 4294967295⟩ }).usec_uint32 :=
  ⟨by decide, by decide,
   (decoded_usec_is_uint32 ext_none ⟨0, 0⟩ config_state.empty 0 none
      [cbor_item.uint 0xd, cbor_item.uint 5, cbor_item.uint 4294967295]
      { position := ⟨0, 0⟩ } (suscan_analyzer_psd_msg_new_NULL ⟨0, 0⟩)
      (suscan_analyzer_inspector_msg_new ⟨0, 0⟩ 0 0)).1 (by decide) _ (by decide)⟩

end Suscan
